import Mathlib

/-!
# Dancefloor Vibecheck: game-state core of `sketch.js`

A shallow embedding of the game loop of `src/sketch.js` (drawGameplay, the
collision pass, the dancer life cycle, the effect sequences, the input
handlers and the two entries to `playing`), followed by theorems about it.

Modelling conventions.

* JavaScript numbers that hold coordinates, speeds and progress scalars are
  rationals; counters that the source only increments from 0 (`score`,
  `dancersLeft`, `frameCount`) are naturals; timers that are decremented are
  integers.  Arithmetic on the positions and speeds of dancers is exact.  The
  three progress scalars (`zoomProgress`, `dancerLeaveZoomProgress`,
  `wristbandZoomProgress`) are built by repeated addition of a constant and
  compared with 0 and 1, so the rounding of IEEE 754 doubles decides how many
  ticks a phase takes (ten steps of 0.1 from 0 stop just short of 1); their
  additions and subtractions round as doubles do (`fadd`, `fsub`), and so do
  the four additions of `Record.update`.
* `distance < r` with `distance = sqrt(dx*dx + dy*dy)` is read over the real
  numbers: it holds exactly when `0 < r` and `dx*dx + dy*dy < r*r`.
* Everything the browser supplies is a field of `Env`: the canvas size, the
  stream of `random()` results (the game keeps a cursor `rng` into it), the
  functions `cos`, `sin`, `sqrt` used for movement, the clock, and which
  assets are loaded.  Theorems hold for every `Env`.
* Object identity (`dancers[j] === targetGirlDancer`,
  `records[i] !== zoomedWristband`) is a unique number `uid` given to every
  object when it is constructed.
* Calls into the analytics collaborator and `play()` calls on sounds are
  appended to a log (`Game.log`); drawing calls, console output, the music
  widget, fog particles and the limb offsets of dancers have no effect on
  the state modelled here and are left out.
-/

namespace Vibecheck

/-! ## Data model -/

/-- Values of `Dancer.state` (comment at the constructor, sketch.js:3640). -/
inductive DancerState
  | dancing | stopping | leaving | picking_up | going_to_dj | at_dj_booth
  deriving DecidableEq

/-- Values of `Dancer.exitDirection` (`['left', 'right', 'back']`). -/
inductive ExitDirection
  | left | right | back
  deriving DecidableEq

inductive Gender
  | male | female
  deriving DecidableEq

inductive Mood
  | happy | excited
  deriving DecidableEq

/-- Values of `Record.type`. -/
inductive RecordType
  | party | sandwich | wristband
  deriving DecidableEq

/-- Values of the global `gameState`. -/
inductive GameState
  | menu | playing | gameOver
  deriving DecidableEq

/-- Values assigned to the global `dancerLeavePhase`.  (drawGameplay also
compares it with the string "showing_image", which is never assigned.) -/
inductive LeavePhase
  | inactive | zooming_in | displaying_image | zooming_out
  deriving DecidableEq

/-- Values assigned to the global `wristbandZoomPhase`. -/
inductive WristbandPhase
  | inactive | zooming_in | displaying_wristband | zooming_out
  deriving DecidableEq

/-- The sound assets of `preload`. -/
inductive Sound
  | throwSound | recordHitSound | smokeSound | startGameSound | score5Sound
  | score10Sound | gameOverSound | playerLeavesFloorSound
  | heySomebodyDroppedSound | throwWristbandSound | ooohThankYouSound
  deriving DecidableEq

/-- Entries of the log: `play()` calls on sounds and the analytics events
emitted through `trackEvent` / `trackGameEvent` / `trackScoreEvent` /
`trackEngagement`, with the payload fields the game logic determines. -/
inductive Ev
  | play (s : Sound)
  | dancer_saved (dancerId : Nat) (recordType : RecordType)
  | score_reached (score : Nat)
  | milestones_reached (milestones : List Nat) (currentScore : Nat)
  | dancer_left (dancerId : Nat) (totalDancersLeft : Nat)
  | game_over (finalScore : Nat)
  | dancer_starting_to_leave (dancerId : Nat) (dir : Option ExitDirection)
  | emoji_thrown (emojiType : RecordType)
  | game_started
  | device_info
  | player_engagement
  | form_shown
  | form_hidden
  deriving DecidableEq

/-- A thrown projectile (`class Record`). -/
structure Record where
  uid : Nat
  x : ℚ
  y : ℚ
  type : RecordType
  vx : ℚ
  vy : ℚ
  size : ℚ
  rotationSpeed : ℚ
  gravity : ℚ
  rotation : ℚ
  markedForRemoval : Bool
  deriving DecidableEq

/-- A dancer (`class Dancer`); `color`, `hairColor`, `dancePhase`, `legOffset`
and `armOffset` only feed drawing and are left out. -/
structure Dancer where
  uid : Nat
  x : ℚ
  y : ℚ
  speed : ℚ
  phrase : Nat
  mood : Mood
  gender : Gender
  danceRadius : ℚ
  danceDirection : ℚ
  danceSpeed : ℚ
  danceAngle : ℚ
  targetY : ℚ
  originalX : ℚ
  originalY : ℚ
  state : DancerState
  stateTimer : ℤ
  exitDirection : Option ExitDirection
  isPausedForZoom : Bool
  targetPickupX : Option ℚ
  targetPickupY : Option ℚ
  isSpecialGirl : Bool
  hasWhiteAura : Bool
  deriving DecidableEq

/-- What the browser supplies. -/
structure Env where
  /-- Canvas `width`. -/
  width : ℚ
  /-- Canvas `height`. -/
  height : ℚ
  /-- The successive results of `random()`, each in `[0, 1)`. -/
  rand : Nat → ℚ
  cos : ℚ → ℚ
  sin : ℚ → ℚ
  sqrt : ℚ → ℚ
  /-- The constant `TWO_PI`. -/
  twoPi : ℚ
  /-- The value of `millis()` during frame `n`. -/
  millis : Nat → ℚ
  /-- Whether `s && s.isLoaded()` holds for the sound `s`. -/
  loaded : Sound → Bool
  /-- Whether `gameOverSound.isPlaying()` holds during frame `n`. -/
  gameOverSoundPlaying : Nat → Bool
  /-- The global `soundEffectsMuted` (never reassigned by the game). -/
  soundEffectsMuted : Bool
  /-- `partyStartedVideo && partyStartedVideo.elt && !partyStartedVideo.elt.error`. -/
  videoAvailable : Bool
  /-- Whether `partyStartedVideo.play()` throws. -/
  videoPlayThrows : Bool
  /-- Whether `document.getElementById('soundcloud-iframe')` exists. -/
  musicFrame : Bool
  /-- `supabaseClient && submitScoreForm`. -/
  scoreForm : Bool
  /-- Number of entries of `dancerPhrases`. -/
  numPhrases : Nat
  /-- The global `isMobile`. -/
  isMobile : Bool
  atan2 : ℚ → ℚ → ℚ
  /-- Number of draws made by `createFogParticles` (50 particles, 7 each). -/
  fogDraws : Nat
  /-- Number of draws made by `createDiscoBallLights` and `createFloorLights`. -/
  lightDraws : Nat
  /-- Whether a click at (x, y) during frame `n` is inside the pulsing Start
  Game button of the main menu (its geometry depends on image sizes). -/
  startButtonHit : ℚ → ℚ → Nat → Bool

/-- The mutable globals of `sketch.js` that the game logic reads or writes,
plus the model's bookkeeping (`frameCount` of p5, the cursor `rng` into
`Env.rand`, the next free `uid`, the log, and which asynchronous callbacks
are pending). -/
structure Game where
  dancers : List Dancer
  records : List Record
  score : Nat
  milestonesReached : List Nat
  gameOver : Bool
  dancersLeft : Nat
  gameState : GameState
  waitingForStartSound : Bool
  strobeTimer : Nat
  strobeOn : Bool
  strobeCount : Nat
  strobeBurstActive : Bool
  strobeCooldown : Nat
  strobeEnabled : Bool
  waitingForScore5Sound : Bool
  waitingForScore10Sound : Bool
  waitingForScore15Video : Bool
  smokeActive : Bool
  smokeTimer : ℤ
  lastStrobeCheck : Nat
  lastSmokeCheck : Nat
  emojiThrowCount : Nat
  discoBallActive : Bool
  discoBallY : ℚ
  discoBallTargetY : ℚ
  discoBallLowered : Bool
  lastDiscoBallCheck : ℚ
  musicDimmed : Bool
  /-- How often `createDiscoBallLights` / `createFloorLights` have rebuilt the
  two light lists since they were last emptied (0: both lists are empty). -/
  lightsBuilt : Nat
  videoPlaying : Bool
  lightsEnabled : Bool
  zoomActive : Bool
  zoomProgress : ℚ
  dancerLeaveZoomActive : Bool
  dancerLeaveZoomProgress : ℚ
  dancerLeavePhase : LeavePhase
  isGamePausedForZoom : Bool
  dancerLeaveImageTimer : ℤ
  waitingForDancerLeaveSound : Bool
  autopilotMode : Bool
  droppedItems : List (ℚ × ℚ)
  discoBallChangedAt8 : Bool
  girlReachedDJBooth : Bool
  mmmGettingDownPlayed : Bool
  showSwipeUpText : Bool
  swipeStartX : ℚ
  swipeStartY : ℚ
  swipeStartTime : ℚ
  isSwipeActive : Bool
  bagPickupTriggered : Bool
  bagPickupDancer : Option Nat
  bagPickupTime : ℚ
  wristbandThrown : Bool
  throwingWristbands : Bool
  targetGirlDancer : Option Nat
  girlHitWithWristband : Bool
  wristbandZoomPhase : WristbandPhase
  wristbandZoomProgress : ℚ
  wristbandDisplayTimer : ℤ
  zoomedWristband : Option Nat
  frameCount : Nat
  rng : Nat
  nextUid : Nat
  log : List Ev
  /-- The 5000 ms `videoTimeout` of playPartyStartedVideo is armed. -/
  videoTimeoutArmed : Bool
  /-- The promise returned by `partyStartedVideo.play()` is not settled yet. -/
  videoPlayPending : Bool
  /-- The cutscene video is running with the `onended` callback registered. -/
  videoRunning : Bool
  /-- Sound score5Sound is playing with the `onended` callback of playScore2Sound. -/
  score5Pending : Bool
  /-- Sound score10Sound is playing with the `onended` callback of playScore4Sound. -/
  score10Pending : Bool
  /-- Sound startGameSound is playing with the `onended` callback of startGame. -/
  startSoundPending : Bool
  deriving DecidableEq

/-- The globals as initialised by the top-level `let` declarations and
`setup` (sketch.js:515-655, 866). -/
def Game.initial : Game where
  dancers := []
  records := []
  score := 0
  milestonesReached := []
  gameOver := false
  dancersLeft := 0
  gameState := .menu
  waitingForStartSound := false
  strobeTimer := 0
  strobeOn := false
  strobeCount := 0
  strobeBurstActive := false
  strobeCooldown := 0
  strobeEnabled := false
  waitingForScore5Sound := false
  waitingForScore10Sound := false
  waitingForScore15Video := false
  smokeActive := false
  smokeTimer := 0
  lastStrobeCheck := 0
  lastSmokeCheck := 0
  emojiThrowCount := 0
  discoBallActive := false
  discoBallY := -100
  discoBallTargetY := 0
  discoBallLowered := false
  lastDiscoBallCheck := 0
  musicDimmed := false
  lightsBuilt := 0
  videoPlaying := false
  lightsEnabled := false
  zoomActive := false
  zoomProgress := 0
  dancerLeaveZoomActive := false
  dancerLeaveZoomProgress := 0
  dancerLeavePhase := .inactive
  isGamePausedForZoom := false
  dancerLeaveImageTimer := 0
  waitingForDancerLeaveSound := false
  autopilotMode := false
  droppedItems := []
  discoBallChangedAt8 := false
  girlReachedDJBooth := false
  mmmGettingDownPlayed := false
  showSwipeUpText := true
  swipeStartX := 0
  swipeStartY := 0
  swipeStartTime := 0
  isSwipeActive := false
  bagPickupTriggered := false
  bagPickupDancer := none
  bagPickupTime := 0
  wristbandThrown := false
  throwingWristbands := false
  targetGirlDancer := none
  girlHitWithWristband := false
  wristbandZoomPhase := .inactive
  wristbandZoomProgress := 0
  wristbandDisplayTimer := 0
  zoomedWristband := none
  frameCount := 0
  rng := 0
  nextUid := 0
  log := []
  videoTimeoutArmed := false
  videoPlayPending := false
  videoRunning := false
  score5Pending := false
  score10Pending := false
  startSoundPending := false

/-! ## Double-precision arithmetic -/

/-- The power `2 ^ k` for an integer exponent. -/
def pow2 (k : ℤ) : ℚ :=
  if 0 ≤ k then (2 ^ k.toNat : ℕ) else 1 / (2 ^ (-k).toNat : ℕ)

/-- The integer nearest to `x`, ties to the even one. -/
def roundHalfEven (x : ℚ) : ℤ :=
  let f := ⌊x⌋
  let r := x - f
  if r < 1 / 2 then f
  else if 1 / 2 < r then f + 1
  else if f % 2 = 0 then f else f + 1

/-- The number of halvings that take `n` below 2, at most `fuel` of them
(with `fuel = n`: the position of the leading bit of `n`). -/
def halvings : Nat → Nat → Nat
  | 0, _ => 0
  | fuel + 1, n => if n < 2 then 0 else halvings fuel (n / 2) + 1

/-- The exponent `e` with `2 ^ e ≤ a < 2 ^ (e + 1)`, for `a > 0`. -/
def binaryExponent (a : ℚ) : ℤ :=
  let e0 : ℤ := (halvings a.num.natAbs a.num.natAbs : ℤ) - (halvings a.den a.den : ℤ)
  if pow2 e0 ≤ a then e0 else e0 - 1

/-- Rounding to the nearest IEEE 754 double: 53-bit significand, ties to
even, subnormals below `2 ^ (-1022)`.  Overflow to infinity is not modelled. -/
def roundDouble (x : ℚ) : ℚ :=
  if x = 0 then 0
  else
    let q := pow2 (max (binaryExponent |x| - 52) (-1074))
    roundHalfEven (x / q) * q

/-- The sum `x + y` of two doubles as JavaScript computes it. -/
def fadd (x y : ℚ) : ℚ := roundDouble (x + y)

/-- The difference `x - y` of two doubles as JavaScript computes it. -/
def fsub (x y : ℚ) : ℚ := roundDouble (x - y)

/-- `let zoomSpeed = 0.05` (sketch.js:562): the double nearest to 1/20. -/
def zoomSpeed : ℚ := roundDouble (1 / 20)

/-- `let dancerLeaveZoomSpeed = 0.1` (sketch.js:569): the double nearest to
1/10. -/
def dancerLeaveZoomSpeed : ℚ := roundDouble (1 / 10)

/-- The literal `0.02` of updateWristbandZoom: the double nearest to 1/50. -/
def wristbandZoomSpeed : ℚ := roundDouble (1 / 50)

/-! ## p5 helpers -/

/-- p5 `constrain(n, low, high)`, i.e. `max(min(n, high), low)`. -/
def constrain (n low high : ℚ) : ℚ := max (min n high) low

/-- p5 `random(lo, hi)` on the draw `r`. -/
def randomRange (r lo hi : ℚ) : ℚ := lo + r * (hi - lo)

/-- The index p5 `random(array)` picks on the draw `r`: `floor(r * length)`. -/
def randomIndex (r : ℚ) (length : Nat) : Nat := (Int.floor (r * length)).toNat

/-- `trackEvent` and `sound.play()`: append to the log. -/
def Game.emit (g : Game) (ev : Ev) : Game := { g with log := g.log ++ [ev] }

/-- `isMilestoneSoundPlaying` (sketch.js:2015). -/
def isMilestoneSoundPlaying (g : Game) : Bool :=
  g.waitingForScore5Sound || g.waitingForScore10Sound || g.waitingForScore15Video

/-- The next result of `random()`. -/
def Game.draw (e : Env) (g : Game) : ℚ := e.rand g.rng

/-- Advance the cursor into the random stream by `k` draws. -/
def Game.skip (g : Game) (k : Nat) : Game := { g with rng := g.rng + k }

/-! ## Dancer methods (sketch.js:3618-3836) -/

/-- The array `directions` of `Dancer.startLeaving`. -/
def directions : List ExitDirection := [.left, .right, .back]

/-- The body of `Dancer.startLeaving` on the dancer itself; `r` is the draw
used by `random(directions)`. -/
def Dancer.startLeaving (r : ℚ) (d : Dancer) : Dancer :=
  if d.isSpecialGirl then d
  else if d.state = .dancing then
    { d with state := .stopping, stateTimer := 60,
             exitDirection := directions[randomIndex r 3]? }
  else d

/-- `Dancer.returnToDancing`; `r1` and `r2` are the draws of
`random(dancerPhrases)` and `random(0, TWO_PI)`. -/
def Dancer.returnToDancing (e : Env) (frameCount : Nat) (r1 r2 : ℚ) (d : Dancer) : Dancer :=
  { d with state := .dancing, stateTimer := 0, mood := .excited,
           phrase := randomIndex r1 e.numPhrases,
           originalX := d.x, originalY := d.y, targetY := d.y,
           danceAngle := randomRange r2 0 e.twoPi,
           y := d.y + e.sin (frameCount * 0.1) * 0.5 }

/-- `Dancer.startPickingUp`. -/
def Dancer.startPickingUp (targetX targetY : ℚ) (d : Dancer) : Dancer :=
  { d with state := .picking_up, targetPickupX := some targetX,
           targetPickupY := some targetY, stateTimer := 180 }

/-- `Dancer.startGoingToDJBooth`. -/
def Dancer.startGoingToDJBooth (d : Dancer) : Dancer :=
  { d with state := .going_to_dj, isSpecialGirl := true, stateTimer := 300 }

/-- The loop of the `picking_up` branch over `droppedItems` (from the last
index down): the list without the first item found within 10 units of the
target in both coordinates, or `none` when there is no such item. -/
def pickUpItem (tx ty : ℚ) (items : List (ℚ × ℚ)) : Option (List (ℚ × ℚ)) :=
  match items.reverse.findIdx? (fun it => decide (|it.1 - tx| < 10 ∧ |it.2 - ty| < 10)) with
  | some k => some (items.reverse.eraseIdx k).reverse
  | none => none

/-- `Dancer.update`: the new dancer and the globals it touches
(`droppedItems`, `bagPickupTime`, `girlReachedDJBooth`, the random cursor). -/
def Dancer.update (e : Env) (g : Game) (d : Dancer) : Dancer × Game :=
  if g.isGamePausedForZoom && !d.isPausedForZoom then (d, g)
  else if d.isPausedForZoom then (d, g)
  else
    let d := { d with stateTimer := d.stateTimer - 1 }
    match d.state with
    | .dancing =>
      let angle := d.danceAngle + d.danceSpeed * d.danceDirection
      ({ d with danceAngle := angle,
                x := constrain (d.originalX + e.cos angle * d.danceRadius)
                       (e.width * 0.05) (e.width * 0.95),
                y := constrain (d.originalY + e.sin angle * (d.danceRadius * 0.5))
                       (e.height * 0.3) (e.height * 0.65) }, g)
    | .stopping =>
      if d.stateTimer ≤ 0 then ({ d with state := .leaving, stateTimer := 300 }, g)
      else (d, g)
    | .leaving =>
      match d.exitDirection with
      | some .left => ({ d with x := d.x - d.speed }, g)
      | some .right => ({ d with x := d.x + d.speed }, g)
      | _ => ({ d with y := d.y - d.speed }, g)
    | .picking_up =>
      let tx := d.targetPickupX.getD 0
      let ty := d.targetPickupY.getD 0
      let dx := tx - d.x
      let dy := ty - d.y
      let distance := e.sqrt (dx * dx + dy * dy)
      if distance > 5 then
        ({ d with x := d.x + (dx / distance) * d.speed * 2,
                  y := d.y + (dy / distance) * d.speed * 2,
                  stateTimer := d.stateTimer - 1 }, g)
      else if d.stateTimer ≤ 120 then
        let g1 := match pickUpItem tx ty g.droppedItems with
          | some items => { g with droppedItems := items, bagPickupTime := e.millis g.frameCount }
          | none => g
        let d1 := d.returnToDancing e g.frameCount (g1.draw e) ((g1.skip 1).draw e)
        ({ d1 with stateTimer := d1.stateTimer - 1 }, g1.skip 2)
      else ({ d with stateTimer := d.stateTimer - 1 }, g)
    | .going_to_dj =>
      let targetX := e.width / 2 + 120
      let targetY := e.height * 0.85
      let dx := targetX - d.x
      let dy := targetY - d.y
      let distance := e.sqrt (dx * dx + dy * dy)
      if distance > 5 then
        ({ d with x := d.x + (dx / distance) * d.speed * 1.5,
                  y := d.y + (dy / distance) * d.speed * 1.5,
                  stateTimer := d.stateTimer - 1 }, g)
      else
        ({ d with state := .at_dj_booth, x := targetX, y := targetY,
                  stateTimer := d.stateTimer - 1 },
         { g with girlReachedDJBooth := true })
    | .at_dj_booth =>
      ({ d with danceAngle := d.danceAngle + 0.02,
                x := e.width / 2 + 120, y := e.height * 0.85 }, g)

/-- `new Dancer(x, y, speed, color, phrase, mood, gender, hairColor)` with its
arguments drawn as in populateDanceFloor and in the population maintenance of
drawGameplay: 12 draws for the arguments (x, y, speed, 3 for color, phrase,
mood, gender, 3 for hairColor) and 6 in the constructor (dancePhase,
danceRadius, danceDirection, danceSpeed, danceAngle, targetY). -/
def spawnDancer (e : Env) (g : Game) : Dancer × Game :=
  let r := fun k => e.rand (g.rng + k)
  let x := randomRange (r 0) (e.width * 0.1) (e.width * 0.9)
  let y := randomRange (r 1) (e.height * 0.3) (e.height * 0.65)
  ({ uid := g.nextUid, x := x, y := y,
     speed := randomRange (r 2) 0.5 1.5,
     phrase := randomIndex (r 6) e.numPhrases,
     mood := if randomIndex (r 7) 2 = 0 then .happy else .excited,
     gender := if r 8 > 0.5 then .male else .female,
     danceRadius := randomRange (r 13) 20 50,
     danceDirection := if randomIndex (r 14) 2 = 0 then -1 else 1,
     danceSpeed := randomRange (r 15) 0.01 0.03,
     danceAngle := randomRange (r 16) 0 e.twoPi,
     targetY := randomRange (r 17) (e.height * 0.3) (e.height * 0.65),
     originalX := x, originalY := y,
     state := .dancing, stateTimer := 0, exitDirection := none,
     isPausedForZoom := false, targetPickupX := none, targetPickupY := none,
     isSpecialGirl := false, hasWhiteAura := false },
   { g with rng := g.rng + 18, nextUid := g.nextUid + 1 })

/-! ## Record methods (sketch.js:3452-3493) -/

/-- `new Record(x, y, vx, vy, type)`: one draw for `id`, one for `size`.  The
constants `gravity` and `rotationSpeed` are the doubles nearest to the decimal
literals of the source. -/
def spawnRecord (e : Env) (g : Game) (x y vx vy : ℚ) (type : RecordType) : Record × Game :=
  let r := e.rand (g.rng + 1)
  let rec0 : Record :=
    { uid := g.nextUid, x := x, y := y, type := type, vx := vx, vy := vy,
      size := randomRange r 30 40, rotationSpeed := roundDouble 0.05,
      gravity := roundDouble 0.08, rotation := 0, markedForRemoval := false }
  let rec1 : Record :=
    match type with
    | .sandwich =>
      { rec0 with vx := vx * 0.7, vy := vy * 0.7, size := randomRange r 45 60,
                  rotationSpeed := roundDouble 0.025 }
    | .wristband =>
      { rec0 with vx := vx * 1.2, vy := vy * 1.2, size := randomRange r 25 35,
                  rotationSpeed := roundDouble 0.1 }
    | .party => rec0
  (rec1, { g with rng := g.rng + 2, nextUid := g.nextUid + 1 })

/-- `Record.update` (sketch.js:3484): frozen while it is the zoomed wristband
of an active wristband zoom; otherwise `vy += gravity`, `x += vx`, `y += vy`
and `rotation += rotationSpeed`, each a double addition (`fadd`). -/
def Record.update (g : Game) (r : Record) : Record :=
  if g.zoomedWristband = some r.uid ∧ g.wristbandZoomPhase ≠ .inactive then r
  else
    { r with vy := fadd r.vy r.gravity, x := fadd r.x r.vx,
             y := fadd r.y (fadd r.vy r.gravity),
             rotation := fadd r.rotation r.rotationSpeed }

/-! ## Collision pass (sketch.js:1273-1387) -/

/-- The test `distance < (records[i].size/2 + 15)` for
`distance = sqrt(dx*dx + dy*dy)`. -/
def hitTest (r : Record) (d : Dancer) : Bool :=
  decide (0 < r.size / 2 + 15 ∧
    (r.x - d.x) * (r.x - d.x) + (r.y - d.y) * (r.y - d.y)
      < (r.size / 2 + 15) * (r.size / 2 + 15))

/-- One `if (score >= m && !milestonesReached.includes(m))` block: the pair
is (`milestones`, `milestonesReached`). -/
def milestoneCheck (score m : Nat) (p : List Nat × List Nat) : List Nat × List Nat :=
  if score ≥ m ∧ m ∉ p.2 then (p.1 ++ [m], p.2 ++ [m]) else p

/-- The four milestone blocks in source order (sketch.js:1348-1364), from an
empty local `milestones`. -/
def checkMilestones (score : Nat) (reached : List Nat) : List Nat × List Nat :=
  milestoneCheck score 100 (milestoneCheck score 50
    (milestoneCheck score 25 (milestoneCheck score 10 ([], reached))))

/-- The milestone part of a scoring hit: the four blocks, then the
`milestones_reached` event when the local list is not empty. -/
def trackMilestones (g : Game) : Game :=
  let p := checkMilestones g.score g.milestonesReached
  let g1 := { g with milestonesReached := p.2 }
  if p.1.length > 0 then g1.emit (.milestones_reached p.1 g.score) else g1

/-- The normal emoji branch on a qualifying pair (sketch.js:1314-1381): hit
sound, `returnToDancing`, `score++`, analytics, milestones, and
`records.splice(i, 1)`. -/
def scoringHit (e : Env) (i j : Nat) (r : Record) (d : Dancer) (g : Game) : Game :=
  let g1 : Game :=
    if e.loaded .recordHitSound && !isMilestoneSoundPlaying g && !e.soundEffectsMuted
    then g.emit (.play .recordHitSound) else g
  let d1 := d.returnToDancing e g1.frameCount (g1.draw e) ((g1.skip 1).draw e)
  let g2 : Game := { g1 with rng := g1.rng + 2, dancers := g1.dancers.set j d1,
                             score := g1.score + 1 }
  let g3 : Game := if g2.score = 1 then { g2 with showSwipeUpText := false } else g2
  let g4 := (g3.emit (.dancer_saved j r.type)).emit (.score_reached g3.score)
  let g5 := trackMilestones g4
  { g5 with records := g5.records.eraseIdx i }

/-- The wristband branch on the target girl (sketch.js:1284-1308). -/
def wristbandHit (e : Env) (i j : Nat) (r : Record) (d : Dancer) (g : Game) : Game :=
  let g1 := { g with girlHitWithWristband := true, throwingWristbands := false }
  let g2 := if e.loaded .ooohThankYouSound then g1.emit (.play .ooohThankYouSound) else g1
  { g2 with wristbandZoomPhase := .zooming_in, zoomedWristband := some r.uid,
            wristbandZoomProgress := 0, isGamePausedForZoom := true,
            dancers := g2.dancers.set j d.startGoingToDJBooth,
            records := g2.records.set i { r with markedForRemoval := true } }

/-- The body of the inner loop for `records[i]` and `dancers[j]`; the flag
says whether the body ended in `break`. -/
def collidePair (e : Env) (i j : Nat) (g : Game) : Game × Bool :=
  match g.records[i]?, g.dancers[j]? with
  | some r, some d =>
    if hitTest r d then
      if r.type = .wristband then
        if g.targetGirlDancer = some d.uid ∧ g.girlHitWithWristband = false then
          (wristbandHit e i j r d g, true)
        else (g, false)
      else if d.state = .leaving ∨ d.state = .stopping then
        (scoringHit e i j r d g, true)
      else (g, false)
    else (g, false)
  | _, _ => (g, false)

/-- The inner loop `for (let j = n - 1; j >= 0; j--)` for `records[i]`. -/
def collideRecord (e : Env) (i : Nat) : Nat → Game → Game
  | 0, g => g
  | j + 1, g =>
    let p := collidePair e i j g
    if p.2 then p.1 else collideRecord e i j p.1

/-- The outer loop `for (let i = n - 1; i >= 0; i--)`. -/
def collisionLoop (e : Env) : Nat → Game → Game
  | 0, g => g
  | i + 1, g => collisionLoop e i (collideRecord e i g.dancers.length g)

/-- The collision pass of drawGameplay. -/
def collisionPass (e : Env) (g : Game) : Game :=
  collisionLoop e g.records.length g

/-! ## Effect sequences -/

/-- Apply `f` to the element at index `i`, if there is one. -/
def modifyAt {α : Type} (f : α → α) (i : Nat) (l : List α) : List α :=
  match l[i]? with
  | some a => l.set i (f a)
  | none => l

/-- `triggerStrobeEffect` (sketch.js:2020). -/
def triggerStrobeEffect (g : Game) : Game :=
  { g with strobeBurstActive := true, strobeCount := 0, strobeTimer := 0 }

/-- `updateStrobeEffect` (sketch.js:1450). -/
def updateStrobeEffect (g : Game) : Game :=
  if !g.strobeEnabled then g
  else if g.strobeCooldown > 0 then
    let g1 : Game := { g with strobeCooldown := g.strobeCooldown - 1, strobeOn := false }
    if g1.strobeCooldown = 0 then triggerStrobeEffect g1 else g1
  else
    let g1 : Game := { g with strobeTimer := g.strobeTimer + 1 }
    if g1.strobeTimer % 7 = 0 then
      let g2 : Game := { g1 with strobeOn := !g1.strobeOn }
      let g3 : Game := if g2.strobeOn then { g2 with strobeCount := g2.strobeCount + 1 } else g2
      if g3.strobeCount ≥ 5 then
        { g3 with strobeBurstActive := false, strobeCooldown := 180, strobeOn := false }
      else g3
    else g1

/-- `triggerSmokeEffect` (sketch.js:2027). -/
def triggerSmokeEffect (e : Env) (g : Game) : Game :=
  let g1 : Game := { g with smokeActive := true, smokeTimer := 300, rng := g.rng + e.fogDraws }
  if e.loaded .smokeSound then g1.emit (.play .smokeSound) else g1

/-- `playScore2Sound` (sketch.js:1490). -/
def playScore2Sound (e : Env) (g : Game) : Game :=
  if e.loaded .score5Sound then
    ({ g with waitingForScore5Sound := true, score5Pending := true }).emit (.play .score5Sound)
  else triggerStrobeEffect { g with strobeEnabled := true }

/-- The `onended` callback registered by playScore2Sound. -/
def score5Ended (g : Game) : Game :=
  triggerStrobeEffect { g with waitingForScore5Sound := false, strobeEnabled := true }

/-- `playScore4Sound` (sketch.js:1509). -/
def playScore4Sound (e : Env) (g : Game) : Game :=
  if e.loaded .score10Sound then
    ({ g with waitingForScore10Sound := true, score10Pending := true }).emit (.play .score10Sound)
  else triggerSmokeEffect e g

/-- The `onended` callback registered by playScore4Sound. -/
def score10Ended (e : Env) (g : Game) : Game :=
  triggerSmokeEffect e { g with waitingForScore10Sound := false }

/-- `enableDiscoBallLights` (sketch.js:1659). -/
def enableDiscoBallLights (e : Env) (g : Game) : Game :=
  { g with lightsEnabled := true, lightsBuilt := g.lightsBuilt + 1, rng := g.rng + e.lightDraws }

/-- `dimBackgroundMusic` (sketch.js:1946). -/
def dimBackgroundMusic (e : Env) (g : Game) : Game :=
  if e.musicFrame then { g with musicDimmed := true } else g

/-- `restoreBackgroundMusic` (sketch.js:1969). -/
def restoreBackgroundMusic (e : Env) (g : Game) : Game :=
  if e.musicFrame then { g with musicDimmed := false } else g

/-- The synchronous part of `playPartyStartedVideo` (sketch.js:1526). -/
def playPartyStartedVideo (e : Env) (g : Game) : Game :=
  if e.videoAvailable then
    let g1 := dimBackgroundMusic e { g with videoPlaying := true, waitingForScore15Video := true }
    let g2 : Game := { g1 with videoTimeoutArmed := true }
    if e.videoPlayThrows then
      enableDiscoBallLights e
        { g2 with videoTimeoutArmed := false, videoPlaying := false,
                  waitingForScore15Video := false }
    else { g2 with videoPlayPending := true, videoRunning := true }
  else enableDiscoBallLights e g

/-- The `setTimeout` callback of playPartyStartedVideo (5000 ms). -/
def videoTimeoutFired (e : Env) (g : Game) : Game :=
  enableDiscoBallLights e
    { g with videoTimeoutArmed := false, videoPlaying := false, waitingForScore15Video := false }

/-- The `then` callback of the play promise: `clearTimeout(videoTimeout)`. -/
def videoPlayResolved (g : Game) : Game :=
  { g with videoPlayPending := false, videoTimeoutArmed := false }

/-- The `catch` callback of the play promise. -/
def videoPlayRejected (e : Env) (g : Game) : Game :=
  enableDiscoBallLights e
    { g with videoPlayPending := false, videoRunning := false, videoTimeoutArmed := false,
             videoPlaying := false, waitingForScore15Video := false }

/-- The `onended` callback of the cutscene video. -/
def videoEnded (e : Env) (g : Game) : Game :=
  enableDiscoBallLights e (restoreBackgroundMusic e
    { g with videoRunning := false, videoTimeoutArmed := false, videoPlaying := false,
             waitingForScore15Video := false })

/-- `startZoomEffect` (sketch.js:1669). -/
def startZoomEffect (g : Game) : Game :=
  { g with zoomActive := true, zoomProgress := 0 }

/-- `updateZoomEffect` (sketch.js:1681). -/
def updateZoomEffect (e : Env) (g : Game) : Game :=
  if !g.zoomActive then g
  else
    let g1 : Game := { g with zoomProgress := fadd g.zoomProgress zoomSpeed }
    if g1.zoomProgress ≥ 1 then
      playPartyStartedVideo e { g1 with zoomActive := false, zoomProgress := 1 }
    else g1

/-- `triggerDiscoBallEffect` (sketch.js:2038). -/
def triggerDiscoBallEffect (g : Game) : Game :=
  { g with discoBallActive := true, discoBallY := -100, discoBallTargetY := 80,
           discoBallLowered := false, musicDimmed := false, videoPlaying := false,
           lightsEnabled := false }

/-- `updateDiscoBall` (sketch.js:2134), `discoBallSpeed = 2`. -/
def updateDiscoBall (g : Game) : Game :=
  if !g.discoBallLowered && decide (g.discoBallY < g.discoBallTargetY) then
    let g1 : Game := { g with discoBallY := g.discoBallY + 2 }
    if g1.discoBallY ≥ g1.discoBallTargetY then
      startZoomEffect { g1 with discoBallY := g1.discoBallTargetY, discoBallLowered := true }
    else g1
  else g

/-- `triggerDancerLeaveZoom` (sketch.js:1711). -/
def triggerDancerLeaveZoom (e : Env) (g : Game) : Game :=
  let g1 : Game := { g with isGamePausedForZoom := true }
  let g2 : Game :=
    if e.loaded .playerLeavesFloorSound then
      { g1.emit (.play .playerLeavesFloorSound) with waitingForDancerLeaveSound := true }
    else g1
  { g2 with dancerLeaveZoomActive := true, dancerLeaveZoomProgress := 0,
            dancerLeavePhase := .zooming_in, dancerLeaveImageTimer := 0 }

/-- The game-over branch of updateDancerLeaveZoom (sketch.js:1788-1817). -/
def enterGameOver (e : Env) (g : Game) : Game :=
  let g1 : Game := { g with gameOver := true, gameState := .gameOver, autopilotMode := true }
  let g2 := g1.emit (.game_over g1.score)
  let g3 := if e.loaded .gameOverSound && !e.gameOverSoundPlaying g.frameCount
            then g2.emit (.play .gameOverSound) else g2
  if e.scoreForm then g3.emit .form_shown else g3

/-- The body of the removal loop of updateDancerLeaveZoom for a pause-locked
`dancers[i]` (sketch.js:1773-1818). -/
def removeDancer (e : Env) (i : Nat) (g : Game) : Game :=
  let g1 : Game := { g with dancersLeft := g.dancersLeft + 1 }
  let g2 := g1.emit (.dancer_left i g1.dancersLeft)
  let g3 : Game := { g2 with dancers := g2.dancers.eraseIdx i }
  if g3.dancersLeft ≥ 3 then enterGameOver e g3 else g3

/-- The removal loop `for (let i = n - 1; i >= 0; i--)` of
updateDancerLeaveZoom, which stops at the first pause-locked dancer. -/
def removePausedDancer (e : Env) : Nat → Game → Game
  | 0, g => g
  | i + 1, g =>
    match g.dancers[i]? with
    | some d => if d.isPausedForZoom then removeDancer e i g else removePausedDancer e i g
    | none => removePausedDancer e i g

/-- `updateDancerLeaveZoom` (sketch.js:1737),
`dancerLeaveImageDuration = 120`. -/
def updateDancerLeaveZoom (e : Env) (g : Game) : Game :=
  if !g.dancerLeaveZoomActive then g
  else
    match g.dancerLeavePhase with
    | .zooming_in =>
      let g1 : Game :=
        { g with dancerLeaveZoomProgress := fadd g.dancerLeaveZoomProgress dancerLeaveZoomSpeed }
      if g1.dancerLeaveZoomProgress ≥ 1 then
        { g1 with dancerLeaveZoomProgress := 1, dancerLeavePhase := .displaying_image,
                  dancerLeaveImageTimer := 120 }
      else g1
    | .displaying_image =>
      let g1 : Game := { g with dancerLeaveImageTimer := g.dancerLeaveImageTimer - 1 }
      if g1.dancerLeaveImageTimer ≤ 0 then { g1 with dancerLeavePhase := .zooming_out } else g1
    | .zooming_out =>
      let g1 : Game :=
        { g with dancerLeaveZoomProgress := fsub g.dancerLeaveZoomProgress dancerLeaveZoomSpeed }
      if g1.dancerLeaveZoomProgress ≤ 0 then
        let g2 : Game :=
          { g1 with dancerLeavePhase := .inactive, dancerLeaveZoomActive := false,
                    waitingForDancerLeaveSound := false, isGamePausedForZoom := false }
        removePausedDancer e g2.dancers.length g2
      else g1
    | .inactive => g

/-- The removal loop of updateWristbandZoom: drops the first record (from
the last index down) that is marked for removal. -/
def removeMarkedRecord : Nat → List Record → List Record
  | 0, rs => rs
  | i + 1, rs =>
    match rs[i]? with
    | some r => if r.markedForRemoval then rs.eraseIdx i else removeMarkedRecord i rs
    | none => removeMarkedRecord i rs

/-- `updateWristbandZoom` (sketch.js:1893). -/
def updateWristbandZoom (g : Game) : Game :=
  match g.wristbandZoomPhase with
  | .inactive => g
  | .zooming_in =>
    let g1 : Game :=
      { g with wristbandZoomProgress := fadd g.wristbandZoomProgress wristbandZoomSpeed }
    if g1.wristbandZoomProgress ≥ 1 then
      { g1 with wristbandZoomProgress := 1, wristbandZoomPhase := .displaying_wristband,
                wristbandDisplayTimer := 120 }
    else g1
  | .displaying_wristband =>
    let g1 : Game := { g with wristbandDisplayTimer := g.wristbandDisplayTimer - 1 }
    if g1.wristbandDisplayTimer ≤ 0 then { g1 with wristbandZoomPhase := .zooming_out } else g1
  | .zooming_out =>
    let g1 : Game :=
      { g with wristbandZoomProgress := fsub g.wristbandZoomProgress wristbandZoomSpeed }
    if g1.wristbandZoomProgress ≤ 0 then
      { g1 with wristbandZoomPhase := .inactive, isGamePausedForZoom := false,
                zoomedWristband := none,
                records := removeMarkedRecord g1.records.length g1.records }
    else g1

/-! ## drawGameplay (sketch.js:962-1447) -/

/-- The strobe trigger check (sketch.js:1058-1066). -/
def strobeTrigger (e : Env) (g : Game) : Game :=
  if g.score ≥ 2 ∧ (g.score - 2) % 5 = 0 ∧ g.lastStrobeCheck ≠ g.score then
    let g1 := if !g.strobeEnabled && decide (g.score ≥ 2) then playScore2Sound e g else g
    { g1 with lastStrobeCheck := g1.score }
  else g

/-- The score-4 smoke trigger (sketch.js:1069-1072). -/
def smokeAtFour (e : Env) (g : Game) : Game :=
  if g.score = 4 ∧ g.lastSmokeCheck ≠ g.score then
    let g1 := playScore4Sound e g
    { g1 with lastSmokeCheck := g1.score }
  else g

/-- The intermittent smoke trigger (sketch.js:1075-1081). -/
def intermittentSmoke (e : Env) (g : Game) : Game :=
  if g.score > 4 ∧ (g.score % 3 = 0 ∨ g.score % 4 = 0) ∧ g.lastSmokeCheck ≠ g.score
      ∧ g.score - g.lastSmokeCheck ≥ 2 then
    if g.draw e < 0.7 then
      let g1 := triggerSmokeEffect e (g.skip 1)
      { g1 with lastSmokeCheck := g1.score }
    else g.skip 1
  else g

/-- The disco ball trigger (sketch.js:1084-1087). -/
def discoBallTrigger (e : Env) (g : Game) : Game :=
  if g.score ≥ 6 ∧ g.discoBallActive = false
      ∧ e.millis g.frameCount - g.lastDiscoBallCheck > 1000 then
    { triggerDiscoBallEffect g with lastDiscoBallCheck := e.millis g.frameCount }
  else g

/-- Indices of the dancers that satisfy `p`, in list order (the positions in
`dancers` of the elements of `dancers.filter(p)`). -/
def indicesWhere (p : Dancer → Bool) (ds : List Dancer) : List Nat :=
  (List.range ds.length).filter (fun i => match ds[i]? with
    | some d => p d
    | none => false)

/-- The filter `d.gender === 'female' && d.state === 'dancing'`. -/
def isDancingFemale (d : Dancer) : Bool :=
  decide (d.gender = .female) && decide (d.state = .dancing)

/-- The assignments to `selectedGirl` (sketch.js:1106-1112). -/
def giveWhiteAura (e : Env) (d : Dancer) : Dancer :=
  { d with hasWhiteAura := true, x := e.width * 0.9, y := e.height * 0.6,
           originalX := e.width * 0.9, originalY := e.height * 0.6 }

/-- The selection of the white-aura girl among the dancing female dancers
(sketch.js:1102-1115). -/
def selectWhiteAuraGirl (e : Env) (g : Game) : Game :=
  let females := indicesWhere isDancingFemale g.dancers
  if females.length > 0 then
    match females[randomIndex (g.draw e) females.length]? with
    | some i => { g with rng := g.rng + 1, dancers := modifyAt (giveWhiteAura e) i g.dancers }
    | none => g.skip 1
  else g

/-- The "getting down" sound of the score-12 block (sketch.js:1096-1099). -/
def playGettingDownSound (e : Env) (g : Game) : Game :=
  if e.loaded .heySomebodyDroppedSound then
    let g1 := if !e.soundEffectsMuted then g.emit (.play .heySomebodyDroppedSound) else g
    { g1 with mmmGettingDownPlayed := true }
  else g

/-- The score-12 block (sketch.js:1093-1118): the "getting down" sound and the
white-aura girl. -/
def discoBallChange (e : Env) (g : Game) : Game :=
  if g.score ≥ 12 ∧ g.discoBallChangedAt8 = false then
    selectWhiteAuraGirl e (playGettingDownSound e { g with discoBallChangedAt8 := true })
  else g

/-- The revert applied to every dancer when the wristband sequence starts
(sketch.js:1141-1151). -/
def revertToDancing (d : Dancer) : Dancer :=
  if d.state = .stopping ∨ d.state = .leaving then
    { d with state := .dancing, stateTimer := 0, x := d.originalX, y := d.originalY,
             targetY := d.originalY }
  else d

/-- The choice of `targetGirlDancer` (sketch.js:1125-1129):
`dancers.find(d => d.hasWhiteAura)`. -/
def targetWhiteAuraGirl (g : Game) : Game :=
  match g.dancers.find? (fun d => d.hasWhiteAura) with
  | some d => { g with targetGirlDancer := some d.uid }
  | none => g

/-- The wristband sequence trigger (sketch.js:1121-1158). -/
def wristbandTrigger (e : Env) (g : Game) : Game :=
  if g.mmmGettingDownPlayed = true ∧ g.wristbandThrown = false ∧ g.score > 12 then
    let g1 := targetWhiteAuraGirl g
    let g2 : Game :=
      if e.loaded .throwWristbandSound && !e.soundEffectsMuted
      then g1.emit (.play .throwWristbandSound) else g1
    { g2 with dancers := g2.dancers.map revertToDancing,
              wristbandThrown := true, throwingWristbands := true }
  else g

/-- The assignments to `bagPickupDancer` (sketch.js:1185-1186). -/
def startBagPickup (d : Dancer) : Dancer :=
  { d with state := .picking_up, stateTimer := 60 }

/-- Make `dancers[i]` the bag pickup dancer. -/
def sendToBag (i : Nat) (g : Game) : Game :=
  { g with bagPickupDancer := (g.dancers[i]?).map (fun d => d.uid),
           dancers := modifyAt startBagPickup i g.dancers }

/-- The choice of the bag pickup dancer (sketch.js:1171-1188): the first
dancing female dancer with a white aura, else a random dancing female. -/
def selectBagPickupDancer (e : Env) (g : Game) : Game :=
  let females := indicesWhere isDancingFemale g.dancers
  if females.length > 0 then
    match (indicesWhere (fun d => isDancingFemale d && d.hasWhiteAura) g.dancers).head? with
    | some i => sendToBag i g
    | none =>
      match females[randomIndex (g.draw e) females.length]? with
      | some i => sendToBag i (g.skip 1)
      | none => g.skip 1
  else g

/-- The bag pickup block (sketch.js:1161-1189). -/
def bagPickup (e : Env) (g : Game) : Game :=
  if g.score ≥ 13 ∧ g.bagPickupTriggered = false ∧ g.droppedItems.length > 0 then
    selectBagPickupDancer e { g with bagPickupTriggered := true }
  else g

/-- The block guarded by `if (!autopilotMode)` (sketch.js:1054-1192). -/
def effectTriggers (e : Env) (g : Game) : Game :=
  bagPickup e (wristbandTrigger e (discoBallChange e (discoBallTrigger e
    (intermittentSmoke e (smokeAtFour e (strobeTrigger e (updateStrobeEffect g)))))))

/-- The smoke timer (sketch.js:1195-1200). -/
def smokeTimerStep (g : Game) : Game :=
  if g.smokeActive then
    let g1 : Game := { g with smokeTimer := g.smokeTimer - 1 }
    if g1.smokeTimer ≤ 0 then { g1 with smokeActive := false } else g1
  else g

/-- The off-screen test of the dancer loop, with its margin of 40. -/
def offScreen (e : Env) (d : Dancer) : Bool :=
  decide (d.x < -40 ∨ d.x > e.width + 40 ∨ d.y < -40 ∨ d.y > e.height + 40)

/-- The body of the dancer loop for `dancers[i]` (sketch.js:1234-1247). -/
def dancerIter (e : Env) (i : Nat) (g : Game) : Game :=
  match g.dancers[i]? with
  | none => g
  | some d =>
    let p := d.update e g
    let g1 : Game := { p.2 with dancers := p.2.dancers.set i p.1 }
    if p.1.state = .leaving ∧ p.1.isPausedForZoom = false ∧ offScreen e p.1 = true then
      if g1.dancerLeavePhase = .inactive then
        let g2 := triggerDancerLeaveZoom e g1
        { g2 with dancers := g2.dancers.set i { p.1 with isPausedForZoom := true } }
      else g1
    else g1

/-- The dancer loop `for (let i = n - 1; i >= 0; i--)`. -/
def dancerLoop (e : Env) : Nat → Game → Game
  | 0, g => g
  | i + 1, g => dancerLoop e i (dancerIter e i g)

/-- The body of the record loop for `records[i]` (sketch.js:1260-1270). -/
def recordIter (e : Env) (i : Nat) (g : Game) : Game :=
  match g.records[i]? with
  | none => g
  | some r =>
    let r1 := r.update g
    let g1 : Game := { g with records := g.records.set i r1 }
    if r1.x < 0 ∨ r1.x > e.width ∨ r1.y < 0 ∨ r1.y > e.height then
      if g1.zoomedWristband ≠ some r1.uid ∨ g1.wristbandZoomPhase = .inactive then
        { g1 with records := g1.records.eraseIdx i }
      else g1
    else g1

/-- The record loop `for (let i = n - 1; i >= 0; i--)`. -/
def recordLoop (e : Env) : Nat → Game → Game
  | 0, g => g
  | i + 1, g => recordLoop e i (recordIter e i g)

/-- The call `randomDancer.startLeaving()` on `dancers[i]`, with its draw and
its analytics event. -/
def startLeavingAt (e : Env) (i : Nat) (g : Game) : Game :=
  match g.dancers[i]? with
  | none => g
  | some d =>
    if d.isSpecialGirl then g
    else if d.state = .dancing then
      let d1 := d.startLeaving (g.draw e)
      ({ g with dancers := g.dancers.set i d1, rng := g.rng + 1 }).emit
        (.dancer_starting_to_leave i d1.exitDirection)
    else g

/-- The filter `d.state === 'dancing' && !d.hasWhiteAura` of the random leave
selection. -/
def mayBeAskedToLeave (d : Dancer) : Bool :=
  decide (d.state = .dancing) && !d.hasWhiteAura

/-- The random leave selection (sketch.js:1406-1412). -/
def randomLeave (e : Env) (g : Game) : Game :=
  if !g.autopilotMode && !g.throwingWristbands && decide (g.dancers.length > 0) then
    if g.draw e < 0.15 then
      let g1 := g.skip 1
      let dancing := indicesWhere mayBeAskedToLeave g1.dancers
      if dancing.length > 0 then
        match dancing[randomIndex (g1.draw e) dancing.length]? with
        | some i => startLeavingAt e i (g1.skip 1)
        | none => g1.skip 1
      else g1
    else g.skip 1
  else g

/-- The top-up of the population (sketch.js:1392-1402). -/
def topUpDancers (e : Env) (g : Game) : Game :=
  if g.dancers.length < 15 then
    let p := spawnDancer e g
    { p.2 with dancers := p.2.dancers ++ [p.1] }
  else g

/-- Population maintenance (sketch.js:1390-1413). -/
def maintainPopulation (e : Env) (g : Game) : Game :=
  if g.frameCount % 60 = 0 then randomLeave e (topUpDancers e g) else g

/-- The guarded call of updateDiscoBall (sketch.js:1214-1217). -/
def discoBallStage (g : Game) : Game :=
  if g.discoBallActive then updateDiscoBall g else g

/-- The block guarded by `gameState === 'playing' || autopilotMode`
(sketch.js:1202-1438). -/
def floorStep (e : Env) (g : Game) : Game :=
  let g1 := discoBallStage g
  let g2 := dancerLoop e g1.dancers.length g1
  let g3 := recordLoop e g2.records.length g2
  maintainPopulation e (collisionPass e g3)

/-- The guarded call of updateDancerLeaveZoom (sketch.js:1008-1010).  The
guard is `dancerLeaveZoomActive || dancerLeavePhase === "showing_image"`,
whose second disjunct never holds. -/
def leaveZoomStage (e : Env) (g : Game) : Game :=
  if g.dancerLeaveZoomActive then updateDancerLeaveZoom e g else g

/-- The guarded block `if (!autopilotMode)` (sketch.js:1054). -/
def triggerStage (e : Env) (g : Game) : Game :=
  if !g.autopilotMode then effectTriggers e g else g

/-- The guarded block `if (gameState === 'playing' || autopilotMode)`
(sketch.js:1202). -/
def floorStage (e : Env) (g : Game) : Game :=
  if g.gameState = .playing ∨ g.autopilotMode = true then floorStep e g else g

/-- `drawGameplay`: one tick of the game. -/
def drawGameplay (e : Env) (g : Game) : Game :=
  if g.videoPlaying then g
  else
    floorStage e (smokeTimerStep (triggerStage e (updateWristbandZoom
      (leaveZoomStage e (updateZoomEffect e g)))))

/-! ## Starting, restarting and input (sketch.js:2613-3435) -/

/-- The loop of `populateDanceFloor` pushing `n` new dancers. -/
def pushDancers (e : Env) : Nat → Game → Game
  | 0, g => g
  | n + 1, g =>
    let p := spawnDancer e g
    pushDancers e n { p.2 with dancers := p.2.dancers ++ [p.1] }

/-- `populateDanceFloor` (sketch.js:930): `numDancers = random(15, 20)` and a
loop `for (let i = 0; i < numDancers; i++)`, which runs `ceil(numDancers)`
times. -/
def populateDanceFloor (e : Env) (g : Game) : Game :=
  pushDancers e (Int.ceil (randomRange (g.draw e) 15 20)).toNat (g.skip 1)

/-- The part of `actuallyStartGame` before `populateDanceFloor()`
(sketch.js:3158-3246). -/
def startReset (g : Game) : Game :=
  let g1 : Game := { g with waitingForStartSound := false, gameState := .playing,
                            autopilotMode := false }
  let g2 := (g1.emit .game_started).emit .device_info
  { g2 with
    dancers := [], records := [], score := 0, gameOver := false, dancersLeft := 0,
    milestonesReached := [], emojiThrowCount := 0,
    strobeTimer := 0, strobeOn := false, strobeCount := 0, strobeBurstActive := false,
    strobeCooldown := 0, strobeEnabled := false,
    waitingForScore5Sound := false, waitingForScore10Sound := false,
    waitingForScore15Video := false, smokeActive := false, smokeTimer := 0,
    lastStrobeCheck := 0, lastSmokeCheck := 0, lastDiscoBallCheck := 0,
    droppedItems := [], discoBallChangedAt8 := false, girlReachedDJBooth := false,
    mmmGettingDownPlayed := false, showSwipeUpText := true,
    isSwipeActive := false, swipeStartX := 0, swipeStartY := 0, swipeStartTime := 0,
    bagPickupTriggered := false, bagPickupDancer := none, bagPickupTime := 0,
    wristbandThrown := false, throwingWristbands := false, targetGirlDancer := none,
    girlHitWithWristband := false,
    discoBallActive := false, discoBallY := -100, discoBallLowered := false,
    musicDimmed := false, lightsBuilt := 0, videoPlaying := false, lightsEnabled := false }

/-- The part of `actuallyStartGame` after `populateDanceFloor()`
(sketch.js:3259-3279). -/
def startResetTail (g : Game) : Game :=
  { g with
    wristbandZoomPhase := .inactive, wristbandZoomProgress := 0, wristbandDisplayTimer := 0,
    zoomedWristband := none,
    zoomActive := false, zoomProgress := 0,
    dancerLeaveZoomActive := false, dancerLeaveZoomProgress := 0,
    dancerLeavePhase := .inactive, dancerLeaveImageTimer := 0,
    waitingForDancerLeaveSound := false }

/-- `actuallyStartGame` (sketch.js:3156). -/
def actuallyStartGame (e : Env) (g : Game) : Game :=
  startResetTail (populateDanceFloor e (startReset g))

/-- The part of `restartGame` before `populateDanceFloor()`
(sketch.js:3311-3396). -/
def restartReset (e : Env) (g : Game) : Game :=
  let g1 : Game := { g with gameState := .playing, autopilotMode := false }
  let g2 : Game :=
    { g1 with
      dancers := [], records := [], score := 0, gameOver := false, dancersLeft := 0,
      emojiThrowCount := 0,
      strobeTimer := 0, strobeOn := false, strobeCount := 0, strobeBurstActive := false,
      strobeCooldown := 0, strobeEnabled := false,
      waitingForScore5Sound := false, waitingForScore10Sound := false,
      waitingForScore15Video := false, smokeActive := false, smokeTimer := 0,
      lastStrobeCheck := 0, lastSmokeCheck := 0, lastDiscoBallCheck := 0,
      droppedItems := [], discoBallChangedAt8 := false, girlReachedDJBooth := false,
      mmmGettingDownPlayed := false, showSwipeUpText := true,
      isSwipeActive := false, swipeStartX := 0, swipeStartY := 0, swipeStartTime := 0,
      bagPickupTriggered := false, bagPickupDancer := none, bagPickupTime := 0,
      wristbandThrown := false, throwingWristbands := false, targetGirlDancer := none,
      girlHitWithWristband := false,
      discoBallActive := false, discoBallY := -100, discoBallLowered := false,
      musicDimmed := false, lightsBuilt := 0, videoPlaying := false, lightsEnabled := false,
      zoomActive := false, zoomProgress := 0,
      dancerLeaveZoomActive := false, dancerLeaveZoomProgress := 0,
      dancerLeavePhase := .inactive, dancerLeaveImageTimer := 0,
      waitingForDancerLeaveSound := false }
  if e.scoreForm then g2.emit .form_hidden else g2

/-- The part of `restartGame` after `populateDanceFloor()`
(sketch.js:3401-3406). -/
def restartResetTail (g : Game) : Game :=
  { g with
    wristbandZoomPhase := .inactive, wristbandZoomProgress := 0, wristbandDisplayTimer := 0,
    zoomedWristband := none }

/-- `restartGame` (sketch.js:3302). -/
def restartGame (e : Env) (g : Game) : Game :=
  restartResetTail (populateDanceFloor e (restartReset e g))

/-- `goToMainMenu` (sketch.js:3416). -/
def goToMainMenu (e : Env) (g : Game) : Game :=
  let g1 : Game := { g with gameState := .menu, autopilotMode := false, gameOver := false }
  if e.scoreForm then g1.emit .form_hidden else g1

/-- `startGame` (sketch.js:3120). -/
def startGame (e : Env) (g : Game) : Game :=
  if e.loaded .startGameSound then
    if !e.soundEffectsMuted then
      { g.emit (.play .startGameSound) with waitingForStartSound := true,
                                            startSoundPending := true }
    else actuallyStartGame e g
  else actuallyStartGame e g

/-- The choice of `emojiType` shared by handleInput and createEmojiFromSwipe,
made after `emojiThrowCount++`. -/
def emojiTypeFor (g : Game) : RecordType :=
  if g.throwingWristbands then .wristband
  else if g.emojiThrowCount % 10 = 0 then .sandwich
  else .party

/-- The `playing` branch of handleInput (sketch.js:2998-3048). -/
def clickThrow (e : Env) (inputX inputY : ℚ) (g : Game) : Game :=
  let djX := e.width / 2
  let djY := e.height * 0.85
  let angle := e.atan2 (inputY - djY) (inputX - djX)
  let g1 : Game := { g with emojiThrowCount := g.emojiThrowCount + 1 }
  let p := spawnRecord e g1 djX djY (15 * e.cos angle) (15 * e.sin angle) (emojiTypeFor g1)
  let g2 : Game := { p.2 with records := p.2.records ++ [p.1] }
  let g3 := g2.emit (.emoji_thrown p.1.type)
  if e.loaded .throwSound && !isMilestoneSoundPlaying g3 then g3.emit (.play .throwSound) else g3

/-- `createEmojiFromSwipe` (sketch.js:2692). -/
def createEmojiFromSwipe (e : Env) (startX startY targetX targetY : ℚ) (g : Game) : Game :=
  let dx := targetX - startX
  let dy := targetY - startY
  let distance := e.sqrt (dx * dx + dy * dy)
  let g1 : Game := { g with emojiThrowCount := g.emojiThrowCount + 1 }
  let p := spawnRecord e g1 startX startY (dx / distance * 15) (dy / distance * 15)
    (emojiTypeFor g1)
  let g2 : Game := { p.2 with records := p.2.records ++ [p.1] }
  let g3 := g2.emit (.emoji_thrown p.1.type)
  if e.loaded .throwSound then g3.emit (.play .throwSound) else g3

/-- The `gameOver` branch of handleInput (sketch.js:3049-3113). -/
def gameOverClick (e : Env) (inputX inputY : ℚ) (g : Game) : Game :=
  let boxWidth := e.width * 0.6
  let boxHeight := e.height * 0.7
  let boxX := (e.width - boxWidth) / 2
  let boxY := (e.height - boxHeight) / 2
  let btnWidth := boxWidth * 0.15
  let btnHeight := boxHeight * 0.08
  let btnY := boxY + boxHeight * 0.85
  if inputX > boxX + boxWidth * 0.3 - btnWidth / 2 ∧ inputX < boxX + boxWidth * 0.3 + btnWidth / 2
      ∧ inputY > btnY ∧ inputY < btnY + btnHeight then
    restartGame e (g.emit .player_engagement)
  else if inputX > boxX + boxWidth * 0.5 - btnWidth / 2
      ∧ inputX < boxX + boxWidth * 0.5 + btnWidth / 2
      ∧ inputY > btnY ∧ inputY < btnY + btnHeight then
    g.emit .player_engagement
  else if inputX > boxX + boxWidth * 0.7 - btnWidth / 2
      ∧ inputX < boxX + boxWidth * 0.7 + btnWidth / 2
      ∧ inputY > btnY ∧ inputY < btnY + btnHeight then
    goToMainMenu e (g.emit .player_engagement)
  else g

/-- `handleInput` (sketch.js:2860).  In the menu only the Start Game button
changes the game state (the other two click targets open web pages). -/
def handleInput (e : Env) (inputX inputY : ℚ) (g : Game) : Game :=
  if g.videoPlaying then g
  else if g.gameState = .menu ∧ g.waitingForStartSound = false then
    if e.startButtonHit inputX inputY g.frameCount then startGame e (g.emit .player_engagement)
    else g
  else if g.gameState = .playing then clickThrow e inputX inputY g
  else if g.gameState = .gameOver then gameOverClick e inputX inputY g
  else g

/-- `touchStarted` (sketch.js:2618) for a touch at (x, y). -/
def touchStarted (e : Env) (x y : ℚ) (g : Game) : Game :=
  if e.isMobile = true ∧ g.gameState = .playing then
    { g with swipeStartX := x, swipeStartY := y, swipeStartTime := e.millis g.frameCount,
             isSwipeActive := true }
  else if e.isMobile = true ∧ g.gameState = .menu then handleInput e x y g
  else if e.isMobile = true ∧ g.gameState = .gameOver then handleInput e x y g
  else g

/-- `touchEnded` (sketch.js:2640) with (`mouseX`, `mouseY`) = (x, y); the two
`sqrt` comparisons are squared. -/
def touchEnded (e : Env) (x y : ℚ) (g : Game) : Game :=
  if e.isMobile = true ∧ g.gameState = .playing ∧ g.isSwipeActive = true then
    let swipeTime := e.millis g.frameCount - g.swipeStartTime
    let swipeDistanceX := x - g.swipeStartX
    let swipeDistanceY := y - g.swipeStartY
    let djX := e.width / 2
    let djY := e.height * 0.85
    let g1 : Game :=
      if swipeDistanceX * swipeDistanceX + swipeDistanceY * swipeDistanceY ≥ 50 * 50
          ∧ swipeTime ≤ 1000 ∧ swipeDistanceY < -20
          ∧ (g.swipeStartX - djX) * (g.swipeStartX - djX)
              + (g.swipeStartY - djY) * (g.swipeStartY - djY) ≤ 100 * 100 then
        createEmojiFromSwipe e djX djY
          (constrain (djX + swipeDistanceX * 2) 0 e.width)
          (constrain (djY + swipeDistanceY * 2) 0 (e.height * 0.7)) g
      else g
    { g1 with isSwipeActive := false }
  else g

/-- The body of the dancer loop of drawMainMenu for `dancers[i]`. -/
def menuDancerIter (e : Env) (g : Game) (i : Nat) : Game :=
  match g.dancers[i]? with
  | none => g
  | some d =>
    let p := d.update e g
    { p.2 with dancers := p.2.dancers.set i p.1 }

/-- The state changes of `drawMainMenu` (sketch.js:4785): every dancer and
every record is updated for the background animation. -/
def drawMainMenu (e : Env) (g : Game) : Game :=
  let g1 := (List.range g.dancers.length).foldl (menuDancerIter e) g
  { g1 with records := g1.records.map (Record.update g1) }

/-- One frame: p5 increments `frameCount` and calls `draw` (sketch.js:946). -/
def draw (e : Env) (g : Game) : Game :=
  let g1 : Game := { g with frameCount := g.frameCount + 1 }
  if g1.gameState = .menu ∨ g1.waitingForStartSound = true then drawMainMenu e g1
  else drawGameplay e g1

/-- What can happen to the game: a frame, an input event, or the completion
of an asynchronous operation. -/
inductive Event
  | frame
  | mousePressed (x y : ℚ)
  | touchStarted (x y : ℚ)
  | touchEnded (x y : ℚ)
  | startSoundEnded
  | score5SoundEnded
  | score10SoundEnded
  | videoTimeout
  | videoPlayResolved
  | videoPlayRejected
  | videoEnded

/-- The effect of one event; a completion that is not pending does nothing. -/
def step (e : Env) (ev : Event) (g : Game) : Game :=
  match ev with
  | .frame => draw e g
  | .mousePressed x y => handleInput e x y g
  | .touchStarted x y => touchStarted e x y g
  | .touchEnded x y => touchEnded e x y g
  | .startSoundEnded =>
    if g.startSoundPending then actuallyStartGame e { g with startSoundPending := false } else g
  | .score5SoundEnded =>
    if g.score5Pending then score5Ended { g with score5Pending := false } else g
  | .score10SoundEnded =>
    if g.score10Pending then score10Ended e { g with score10Pending := false } else g
  | .videoTimeout => if g.videoTimeoutArmed then videoTimeoutFired e g else g
  | .videoPlayResolved => if g.videoPlayPending then videoPlayResolved g else g
  | .videoPlayRejected => if g.videoPlayPending then videoPlayRejected e g else g
  | .videoEnded => if g.videoRunning then videoEnded e g else g

/-- The game after a sequence of events. -/
def run (e : Env) (evs : List Event) (g : Game) : Game :=
  evs.foldl (fun g ev => step e ev g) g

/-- The states the game can be in: those that a sequence of events produces
from the initial globals. -/
inductive Reachable (e : Env) : Game → Prop
  | initial : Reachable e Game.initial
  | step (ev : Event) {g : Game} : Reachable e g → Reachable e (step e ev g)

/-! ## Sample data

A concrete environment and concrete objects at which the theorems below are
instantiated. -/

/-- An 800 x 600 canvas with every asset loaded; every draw is 1/2. -/
def sampleEnv : Env where
  width := 800
  height := 600
  rand := fun _ => 1 / 2
  cos := fun _ => 1
  sin := fun _ => 0
  sqrt := fun _ => 1
  twoPi := 6283 / 1000
  millis := fun n => n * 50 / 3
  loaded := fun _ => true
  gameOverSoundPlaying := fun _ => false
  soundEffectsMuted := false
  videoAvailable := true
  videoPlayThrows := false
  musicFrame := true
  scoreForm := true
  numPhrases := 8
  isMobile := false
  atan2 := fun _ _ => 0
  fogDraws := 350
  lightDraws := 48
  startButtonHit := fun _ _ _ => false

/-- A dancer with the given identity, position and state, at home where it
stands. -/
def sampleDancer (uid : Nat) (x y : ℚ) (state : DancerState) : Dancer where
  uid := uid
  x := x
  y := y
  speed := 1
  phrase := 0
  mood := .happy
  gender := .female
  danceRadius := 20
  danceDirection := 1
  danceSpeed := 1 / 50
  danceAngle := 0
  targetY := y
  originalX := x
  originalY := y
  state := state
  stateTimer := 0
  exitDirection := some .left
  isPausedForZoom := false
  targetPickupX := none
  targetPickupY := none
  isSpecialGirl := false
  hasWhiteAura := false

/-- A resting record of size 30 with the given identity, position and type. -/
def sampleRecord (uid : Nat) (x y : ℚ) (type : RecordType) : Record where
  uid := uid
  x := x
  y := y
  type := type
  vx := 0
  vy := 0
  size := 30
  rotationSpeed := 1 / 20
  gravity := 2 / 25
  rotation := 0
  markedForRemoval := false

/-- A game in `playing` with the given dancers and records. -/
def sampleGame (dancers : List Dancer) (records : List Record) : Game :=
  { Game.initial with gameState := .playing, dancers := dancers, records := records }

/-! ## Invariants -/

/-- The dancer list together with the globals `score`, `gameState`,
`autopilotMode`, `dancersLeft` and `dancerLeavePhase`: what the effect
sequences other than the leave cutscene never write. -/
def Game.floor (g : Game) : List Dancer × Nat × GameState × Bool × Nat × LeavePhase :=
  (g.dancers, g.score, g.gameState, g.autopilotMode, g.dancersLeft, g.dancerLeavePhase)

/-- Number of dancers that hold the cutscene pause lock. -/
def pausedCount (ds : List Dancer) : Nat := ds.countP (fun d => d.isPausedForZoom)

/-- A dancer is exempt from the leave flow when one of its two flags is set. -/
def Dancer.exempt (d : Dancer) : Bool := d.isSpecialGirl || d.hasWhiteAura

/-- At most one dancer is pause-locked, and none while no leave cutscene is
in flight. -/
def PauseLockInv (g : Game) : Prop :=
  pausedCount g.dancers ≤ 1 ∧ (g.dancerLeavePhase = .inactive → pausedCount g.dancers = 0)

/-- The dancer is not both exempt and in the leaving pipeline. -/
def Dancer.respectsExemption (d : Dancer) : Prop :=
  d.exempt = true → d.state ≠ .stopping ∧ d.state ≠ .leaving

/-- No exempt dancer is in the leaving pipeline. -/
def ExemptInv (g : Game) : Prop :=
  ∀ d ∈ g.dancers, d.respectsExemption

/-- The change from `g` to `g'` may raise the score and may rewrite dancers,
but touches neither the game state, nor the leave cutscene, nor a pause lock,
and puts no exempt dancer into the leaving pipeline. -/
structure Calm (g g' : Game) : Prop where
  score : g.score ≤ g'.score
  gameState : g'.gameState = g.gameState
  autopilotMode : g'.autopilotMode = g.autopilotMode
  dancersLeft : g'.dancersLeft = g.dancersLeft
  phase : g'.dancerLeavePhase = g.dancerLeavePhase
  paused : pausedCount g'.dancers = pausedCount g.dancers
  exempt : ExemptInv g → ExemptInv g'

/-- What every part of a tick guarantees: the score and `dancersLeft` do not
drop, the two invariants are kept, and game over with autopilot persists. -/
structure Tame (g g' : Game) : Prop where
  score : g.score ≤ g'.score
  dancersLeft : g.dancersLeft ≤ g'.dancersLeft
  pauseLock : PauseLockInv g → PauseLockInv g'
  exempt : ExemptInv g → ExemptInv g'
  gameOver : g.gameState = .gameOver ∧ g.autopilotMode = true →
    g'.gameState = .gameOver ∧ g'.autopilotMode = true

/-- A game in the last tick of a leave cutscene, `left` dancers having left
before: dancer 1 walked out to the left and holds the pause lock. -/
def cutsceneEndGame (left : Nat) : Game :=
  { sampleGame [sampleDancer 0 100 300 .dancing,
                { sampleDancer 1 (-41) 300 .leaving with isPausedForZoom := true }] [] with
    dancersLeft := left, dancerLeaveZoomActive := true, dancerLeavePhase := .zooming_out,
    dancerLeaveZoomProgress := 5 / 36028797018963968, isGamePausedForZoom := true }

/-- A session with 10 points (milestone 10 reached) in the last tick of the
leave cutscene of the third dancer to leave (dancer 2, pause-locked), while
dancer 1, frozen by the pause at x = -39.5, is `leaving` to the left at
speed 1. -/
def secondLeaverGame : Game :=
  { sampleGame [sampleDancer 0 100 300 .dancing,
                sampleDancer 1 (-79 / 2) 300 .leaving,
                { sampleDancer 2 (-41) 300 .leaving with isPausedForZoom := true }] [] with
    score := 10, milestonesReached := [10], lastStrobeCheck := 7, lastSmokeCheck := 9,
    showSwipeUpText := false,
    dancersLeft := 2, dancerLeaveZoomActive := true, dancerLeavePhase := .zooming_out,
    dancerLeaveZoomProgress := 5 / 36028797018963968, isGamePausedForZoom := true, nextUid := 3 }

/-- Number of `game_over` events in a log. -/
def gameOverEvents (log : List Ev) : Nat :=
  log.countP (fun ev => match ev with
    | .game_over _ => true
    | _ => false)

/-- The globals that the spec requires to be reinitialised on entering
`playing`: score, dancers-left counter, projectile list, milestones, the
initial phase of every effect sequence (strobe, smoke, disco ball, generic
zoom, dancer-leave zoom, wristband zoom) and the global pause flag. -/
def Game.session (g : Game) :
    Nat × Nat × List Record × List Nat × Bool × Bool × Bool × Bool × LeavePhase
      × WristbandPhase × Bool :=
  (g.score, g.dancersLeft, g.records, g.milestonesReached, g.strobeEnabled, g.smokeActive,
   g.discoBallActive, g.zoomActive, g.dancerLeavePhase, g.wristbandZoomPhase,
   g.isGamePausedForZoom)

/-- Whether a log entry is a `milestones_reached` event that contains `m`. -/
def announcesMilestone (m : Nat) (ev : Ev) : Bool :=
  match ev with
  | .milestones_reached ms _ => decide (m ∈ ms)
  | _ => false

/-- Number of `milestones_reached` events in a log that contain `m`. -/
def milestoneEvents (m : Nat) (log : List Ev) : Nat :=
  log.countP (announcesMilestone m)

/-- The session that `restartGame` opens from the game over of
`secondLeaverGame`, nine scoring hits later: a party record 10 units from a
`stopping` dancer. -/
def tenthHitGame : Game :=
  { restartGame sampleEnv (draw sampleEnv secondLeaverGame) with
    score := 9, dancers := [sampleDancer 50 100 100 .stopping],
    records := [sampleRecord 51 110 100 .party] }

/-- A session at 12 points before the score-12 block has run: a male dancer
who is `stopping` and two dancing female dancers. -/
def auraGame : Game :=
  { sampleGame [{ sampleDancer 0 100 300 .stopping with gender := .male, stateTimer := 30 },
                sampleDancer 1 200 300 .dancing,
                sampleDancer 2 300 300 .dancing] [] with
    score := 12, milestonesReached := [10], lastStrobeCheck := 12, lastSmokeCheck := 12,
    showSwipeUpText := false, strobeEnabled := true, nextUid := 3 }

/-! ## Frames under the cutscene pause

While a leave cutscene holds the global pause the dancer loop of drawGameplay
changes nothing.  The definitions below are drawGameplay and `draw` with the
loop skipped in that case; `drawHeld_eq` shows that they compute the same
globals, so they serve to evaluate long runs of frames. -/

/-- The dancer loop, skipped while a leave cutscene holds the global pause. -/
def dancerLoopHeld (e : Env) (g : Game) : Game :=
  if g.isGamePausedForZoom = true ∧ g.dancerLeavePhase ≠ .inactive then g
  else dancerLoop e g.dancers.length g

/-- The function `floorStep` over `dancerLoopHeld`. -/
def floorStepHeld (e : Env) (g : Game) : Game :=
  let g1 := discoBallStage g
  let g2 := dancerLoopHeld e g1
  let g3 := recordLoop e g2.records.length g2
  maintainPopulation e (collisionPass e g3)

/-- The function `floorStage` over `floorStepHeld`. -/
def floorStageHeld (e : Env) (g : Game) : Game :=
  if g.gameState = .playing ∨ g.autopilotMode = true then floorStepHeld e g else g

/-- The function `drawGameplay` over `floorStageHeld`. -/
def drawGameplayHeld (e : Env) (g : Game) : Game :=
  if g.videoPlaying then g
  else
    floorStageHeld e (smokeTimerStep (triggerStage e (updateWristbandZoom
      (leaveZoomStage e (updateZoomEffect e g)))))

/-- The function `draw` over `drawGameplayHeld`. -/
def drawHeld (e : Env) (g : Game) : Game :=
  let g1 : Game := { g with frameCount := g.frameCount + 1 }
  if g1.gameState = .menu ∨ g1.waitingForStartSound = true then drawMainMenu e g1
  else drawGameplayHeld e g1

/-- A run of `n` frames through `drawHeld`. -/
def framesHeld (e : Env) : Nat → Game → Game
  | 0, g => g
  | n + 1, g => framesHeld e n (drawHeld e g)

/-- Runs of `draw`: `n` frames and nothing else. -/
def frames (n : Nat) : List Event := List.replicate n .frame

/-! ## A complete session

A session played from the initial globals on a 320 x 568 canvas on which
every `random()` is 0: every population-maintenance check sends the first
dancing dancer away, and the player throws nothing.  `floorStart` and the
`floorAt` globals below are the values of the globals at chosen frames of
that session (`floorSession`); the theorems `floorStart_eq` and
`floorSession_50` to `floorSession_1050` check each of them against the
run. -/

/-- A 320 x 568 canvas with every asset loaded, on which every `random()` is 0
and a click always hits the Start Game button. -/
def floorEnv : Env :=
  { sampleEnv with width := 320, height := 568, rand := fun _ => 0,
                   startButtonHit := fun _ _ _ => true }

/-- The dancers of the session of `floorStart`, which differ in identity,
position, dance angle, state, state timer, exit direction and pause lock
only. -/
def floorDancer (uid : Nat) (x danceAngle : ℚ) (state : DancerState) (stateTimer : ℤ)
    (exitDirection : Option ExitDirection) (isPausedForZoom : Bool) : Dancer where
  uid := uid
  x := x
  y := 852 / 5
  speed := 1 / 2
  phrase := 0
  mood := .happy
  gender := .female
  danceRadius := 20
  danceDirection := -1
  danceSpeed := 1 / 100
  danceAngle := danceAngle
  targetY := 852 / 5
  originalX := 32
  originalY := 852 / 5
  state := state
  stateTimer := stateTimer
  exitDirection := exitDirection
  isPausedForZoom := isPausedForZoom
  targetPickupX := none
  targetPickupY := none
  isSpecialGirl := false
  hasWhiteAura := false

/-- The globals after a click on Start Game in the menu and the end of the
start sound: `actuallyStartGame` has just run. -/
def floorStart : Game :=
  { records := [], score := 0, milestonesReached := [], gameOver := false, dancersLeft := 0,
    gameState := GameState.playing, waitingForStartSound := false, strobeTimer := 0,
    strobeOn := false, strobeCount := 0, strobeBurstActive := false, strobeCooldown := 0,
    strobeEnabled := false, waitingForScore5Sound := false, waitingForScore10Sound := false,
    waitingForScore15Video := false, smokeActive := false, smokeTimer := 0,
    lastStrobeCheck := 0, lastSmokeCheck := 0, emojiThrowCount := 0, discoBallActive := false,
    discoBallY := -100, discoBallTargetY := 0, discoBallLowered := false,
    lastDiscoBallCheck := 0, musicDimmed := false, lightsBuilt := 0, videoPlaying := false,
    lightsEnabled := false, zoomActive := false, zoomProgress := 0,
    dancerLeaveZoomActive := false, dancerLeaveZoomProgress := 0,
    dancerLeavePhase := LeavePhase.inactive, isGamePausedForZoom := false,
    dancerLeaveImageTimer := 0, waitingForDancerLeaveSound := false, autopilotMode := false,
    droppedItems := [], discoBallChangedAt8 := false, girlReachedDJBooth := false,
    mmmGettingDownPlayed := false, showSwipeUpText := true, swipeStartX := 0, swipeStartY := 0,
    swipeStartTime := 0, isSwipeActive := false, bagPickupTriggered := false,
    bagPickupDancer := none, bagPickupTime := 0, wristbandThrown := false,
    throwingWristbands := false, targetGirlDancer := none, girlHitWithWristband := false,
    wristbandZoomPhase := WristbandPhase.inactive, wristbandZoomProgress := 0,
    wristbandDisplayTimer := 0, zoomedWristband := none, frameCount := 0, rng := 271,
    nextUid := 15, videoTimeoutArmed := false, videoPlayPending := false,
    videoRunning := false, score5Pending := false, score10Pending := false,
    startSoundPending := false,
    dancers :=
      [floorDancer 0 32 0 .dancing 0 none false,
       floorDancer 1 32 0 .dancing 0 none false,
       floorDancer 2 32 0 .dancing 0 none false,
       floorDancer 3 32 0 .dancing 0 none false,
       floorDancer 4 32 0 .dancing 0 none false,
       floorDancer 5 32 0 .dancing 0 none false,
       floorDancer 6 32 0 .dancing 0 none false,
       floorDancer 7 32 0 .dancing 0 none false,
       floorDancer 8 32 0 .dancing 0 none false,
       floorDancer 9 32 0 .dancing 0 none false,
       floorDancer 10 32 0 .dancing 0 none false,
       floorDancer 11 32 0 .dancing 0 none false,
       floorDancer 12 32 0 .dancing 0 none false,
       floorDancer 13 32 0 .dancing 0 none false,
       floorDancer 14 32 0 .dancing 0 none false],
    log :=
      [Ev.player_engagement, Ev.play Sound.startGameSound, Ev.game_started, Ev.device_info] }

/-- The globals 50 frames into the session of `floorStart`. -/
def floorAt50 : Game :=
  { floorStart with
    frameCount := 50,
    dancers :=
      [floorDancer 0 52 (-1 / 2) .dancing (-50) none false,
       floorDancer 1 52 (-1 / 2) .dancing (-50) none false,
       floorDancer 2 52 (-1 / 2) .dancing (-50) none false,
       floorDancer 3 52 (-1 / 2) .dancing (-50) none false,
       floorDancer 4 52 (-1 / 2) .dancing (-50) none false,
       floorDancer 5 52 (-1 / 2) .dancing (-50) none false,
       floorDancer 6 52 (-1 / 2) .dancing (-50) none false,
       floorDancer 7 52 (-1 / 2) .dancing (-50) none false,
       floorDancer 8 52 (-1 / 2) .dancing (-50) none false,
       floorDancer 9 52 (-1 / 2) .dancing (-50) none false,
       floorDancer 10 52 (-1 / 2) .dancing (-50) none false,
       floorDancer 11 52 (-1 / 2) .dancing (-50) none false,
       floorDancer 12 52 (-1 / 2) .dancing (-50) none false,
       floorDancer 13 52 (-1 / 2) .dancing (-50) none false,
       floorDancer 14 52 (-1 / 2) .dancing (-50) none false] }

/-- The globals 100 frames into the session of `floorStart`. -/
def floorAt100 : Game :=
  { floorStart with
    frameCount := 100, rng := 274,
    dancers :=
      [floorDancer 0 52 (-3 / 5) .stopping 20 (some .left) false,
       floorDancer 1 52 (-1) .dancing (-100) none false,
       floorDancer 2 52 (-1) .dancing (-100) none false,
       floorDancer 3 52 (-1) .dancing (-100) none false,
       floorDancer 4 52 (-1) .dancing (-100) none false,
       floorDancer 5 52 (-1) .dancing (-100) none false,
       floorDancer 6 52 (-1) .dancing (-100) none false,
       floorDancer 7 52 (-1) .dancing (-100) none false,
       floorDancer 8 52 (-1) .dancing (-100) none false,
       floorDancer 9 52 (-1) .dancing (-100) none false,
       floorDancer 10 52 (-1) .dancing (-100) none false,
       floorDancer 11 52 (-1) .dancing (-100) none false,
       floorDancer 12 52 (-1) .dancing (-100) none false,
       floorDancer 13 52 (-1) .dancing (-100) none false,
       floorDancer 14 52 (-1) .dancing (-100) none false],
    log :=
      [Ev.player_engagement, Ev.play Sound.startGameSound, Ev.game_started, Ev.device_info,
       Ev.dancer_starting_to_leave 0 (some ExitDirection.left)] }

/-- The globals 150 frames into the session of `floorStart`. -/
def floorAt150 : Game :=
  { floorStart with
    frameCount := 150, rng := 277,
    dancers :=
      [floorDancer 0 37 (-3 / 5) .leaving 270 (some .left) false,
       floorDancer 1 52 (-6 / 5) .stopping 30 (some .left) false,
       floorDancer 2 52 (-3 / 2) .dancing (-150) none false,
       floorDancer 3 52 (-3 / 2) .dancing (-150) none false,
       floorDancer 4 52 (-3 / 2) .dancing (-150) none false,
       floorDancer 5 52 (-3 / 2) .dancing (-150) none false,
       floorDancer 6 52 (-3 / 2) .dancing (-150) none false,
       floorDancer 7 52 (-3 / 2) .dancing (-150) none false,
       floorDancer 8 52 (-3 / 2) .dancing (-150) none false,
       floorDancer 9 52 (-3 / 2) .dancing (-150) none false,
       floorDancer 10 52 (-3 / 2) .dancing (-150) none false,
       floorDancer 11 52 (-3 / 2) .dancing (-150) none false,
       floorDancer 12 52 (-3 / 2) .dancing (-150) none false,
       floorDancer 13 52 (-3 / 2) .dancing (-150) none false,
       floorDancer 14 52 (-3 / 2) .dancing (-150) none false],
    log :=
      [Ev.player_engagement, Ev.play Sound.startGameSound, Ev.game_started, Ev.device_info,
       Ev.dancer_starting_to_leave 0 (some ExitDirection.left),
       Ev.dancer_starting_to_leave 1 (some ExitDirection.left)] }

/-- The globals 200 frames into the session of `floorStart`. -/
def floorAt200 : Game :=
  { floorStart with
    frameCount := 200, rng := 280,
    dancers :=
      [floorDancer 0 12 (-3 / 5) .leaving 220 (some .left) false,
       floorDancer 1 42 (-6 / 5) .leaving 280 (some .left) false,
       floorDancer 2 52 (-9 / 5) .stopping 40 (some .left) false,
       floorDancer 3 52 (-2) .dancing (-200) none false,
       floorDancer 4 52 (-2) .dancing (-200) none false,
       floorDancer 5 52 (-2) .dancing (-200) none false,
       floorDancer 6 52 (-2) .dancing (-200) none false,
       floorDancer 7 52 (-2) .dancing (-200) none false,
       floorDancer 8 52 (-2) .dancing (-200) none false,
       floorDancer 9 52 (-2) .dancing (-200) none false,
       floorDancer 10 52 (-2) .dancing (-200) none false,
       floorDancer 11 52 (-2) .dancing (-200) none false,
       floorDancer 12 52 (-2) .dancing (-200) none false,
       floorDancer 13 52 (-2) .dancing (-200) none false,
       floorDancer 14 52 (-2) .dancing (-200) none false],
    log :=
      [Ev.player_engagement, Ev.play Sound.startGameSound, Ev.game_started, Ev.device_info,
       Ev.dancer_starting_to_leave 0 (some ExitDirection.left),
       Ev.dancer_starting_to_leave 1 (some ExitDirection.left),
       Ev.dancer_starting_to_leave 2 (some ExitDirection.left)] }

/-- The globals 250 frames into the session of `floorStart`. -/
def floorAt250 : Game :=
  { floorStart with
    frameCount := 250, rng := 283,
    dancers :=
      [floorDancer 0 (-13) (-3 / 5) .leaving 170 (some .left) false,
       floorDancer 1 17 (-6 / 5) .leaving 230 (some .left) false,
       floorDancer 2 47 (-9 / 5) .leaving 290 (some .left) false,
       floorDancer 3 52 (-12 / 5) .stopping 50 (some .left) false,
       floorDancer 4 52 (-5 / 2) .dancing (-250) none false,
       floorDancer 5 52 (-5 / 2) .dancing (-250) none false,
       floorDancer 6 52 (-5 / 2) .dancing (-250) none false,
       floorDancer 7 52 (-5 / 2) .dancing (-250) none false,
       floorDancer 8 52 (-5 / 2) .dancing (-250) none false,
       floorDancer 9 52 (-5 / 2) .dancing (-250) none false,
       floorDancer 10 52 (-5 / 2) .dancing (-250) none false,
       floorDancer 11 52 (-5 / 2) .dancing (-250) none false,
       floorDancer 12 52 (-5 / 2) .dancing (-250) none false,
       floorDancer 13 52 (-5 / 2) .dancing (-250) none false,
       floorDancer 14 52 (-5 / 2) .dancing (-250) none false],
    log :=
      [Ev.player_engagement, Ev.play Sound.startGameSound, Ev.game_started, Ev.device_info,
       Ev.dancer_starting_to_leave 0 (some ExitDirection.left),
       Ev.dancer_starting_to_leave 1 (some ExitDirection.left),
       Ev.dancer_starting_to_leave 2 (some ExitDirection.left),
       Ev.dancer_starting_to_leave 3 (some ExitDirection.left)] }

/-- The globals 305 frames into the session of `floorStart`. -/
def floorAt305 : Game :=
  { floorStart with
    dancerLeaveZoomActive := true, dancerLeavePhase := LeavePhase.zooming_in,
    isGamePausedForZoom := true, waitingForDancerLeaveSound := true, frameCount := 305,
    rng := 286,
    dancers :=
      [floorDancer 0 (-81 / 2) (-3 / 5) .leaving 115 (some .left) true,
       floorDancer 1 (-21 / 2) (-6 / 5) .leaving 175 (some .left) false,
       floorDancer 2 (39 / 2) (-9 / 5) .leaving 235 (some .left) false,
       floorDancer 3 (99 / 2) (-12 / 5) .leaving 295 (some .left) false,
       floorDancer 4 52 (-3) .stopping 55 (some .left) false,
       floorDancer 5 52 (-61 / 20) .dancing (-305) none false,
       floorDancer 6 52 (-61 / 20) .dancing (-305) none false,
       floorDancer 7 52 (-61 / 20) .dancing (-305) none false,
       floorDancer 8 52 (-61 / 20) .dancing (-305) none false,
       floorDancer 9 52 (-61 / 20) .dancing (-305) none false,
       floorDancer 10 52 (-61 / 20) .dancing (-305) none false,
       floorDancer 11 52 (-61 / 20) .dancing (-305) none false,
       floorDancer 12 52 (-61 / 20) .dancing (-305) none false,
       floorDancer 13 52 (-61 / 20) .dancing (-305) none false,
       floorDancer 14 52 (-61 / 20) .dancing (-305) none false],
    log :=
      [Ev.player_engagement, Ev.play Sound.startGameSound, Ev.game_started, Ev.device_info,
       Ev.dancer_starting_to_leave 0 (some ExitDirection.left),
       Ev.dancer_starting_to_leave 1 (some ExitDirection.left),
       Ev.dancer_starting_to_leave 2 (some ExitDirection.left),
       Ev.dancer_starting_to_leave 3 (some ExitDirection.left),
       Ev.dancer_starting_to_leave 4 (some ExitDirection.left),
       Ev.play Sound.playerLeavesFloorSound] }

/-- The globals 447 frames into the session of `floorStart`. -/
def floorAt447 : Game :=
  { floorStart with
    dancersLeft := 1, dancerLeaveZoomProgress := (-450359962737049 / 4503599627370496),
    frameCount := 447, rng := 292,
    dancers :=
      [floorDancer 1 (-11) (-6 / 5) .leaving 174 (some .left) false,
       floorDancer 2 19 (-9 / 5) .leaving 234 (some .left) false,
       floorDancer 3 49 (-12 / 5) .leaving 294 (some .left) false,
       floorDancer 4 52 (-3) .stopping 54 (some .left) false,
       floorDancer 5 52 (-61 / 20) .stopping 59 (some .left) false,
       floorDancer 6 52 (-61 / 20) .stopping 59 (some .left) false,
       floorDancer 7 52 (-153 / 50) .dancing (-306) none false,
       floorDancer 8 52 (-153 / 50) .dancing (-306) none false,
       floorDancer 9 52 (-153 / 50) .dancing (-306) none false,
       floorDancer 10 52 (-153 / 50) .dancing (-306) none false,
       floorDancer 11 52 (-153 / 50) .dancing (-306) none false,
       floorDancer 12 52 (-153 / 50) .dancing (-306) none false,
       floorDancer 13 52 (-153 / 50) .dancing (-306) none false,
       floorDancer 14 52 (-153 / 50) .dancing (-306) none false],
    log :=
      [Ev.player_engagement, Ev.play Sound.startGameSound, Ev.game_started, Ev.device_info,
       Ev.dancer_starting_to_leave 0 (some ExitDirection.left),
       Ev.dancer_starting_to_leave 1 (some ExitDirection.left),
       Ev.dancer_starting_to_leave 2 (some ExitDirection.left),
       Ev.dancer_starting_to_leave 3 (some ExitDirection.left),
       Ev.dancer_starting_to_leave 4 (some ExitDirection.left),
       Ev.play Sound.playerLeavesFloorSound,
       Ev.dancer_starting_to_leave 5 (some ExitDirection.left),
       Ev.dancer_starting_to_leave 6 (some ExitDirection.left), Ev.dancer_left 0 1] }

/-- The globals 506 frames into the session of `floorStart`. -/
def floorAt506 : Game :=
  { floorStart with
    dancersLeft := 1, dancerLeaveZoomActive := true, dancerLeavePhase := LeavePhase.zooming_in,
    isGamePausedForZoom := true, waitingForDancerLeaveSound := true, frameCount := 506,
    rng := 313, nextUid := 16,
    dancers :=
      [floorDancer 1 (-81 / 2) (-6 / 5) .leaving 115 (some .left) true,
       floorDancer 2 (-21 / 2) (-9 / 5) .leaving 175 (some .left) false,
       floorDancer 3 (39 / 2) (-12 / 5) .leaving 235 (some .left) false,
       floorDancer 4 (99 / 2) (-3) .leaving 295 (some .left) false,
       floorDancer 5 52 (-61 / 20) .leaving 300 (some .left) false,
       floorDancer 6 52 (-61 / 20) .leaving 300 (some .left) false,
       floorDancer 7 52 (-339 / 100) .stopping 34 (some .left) false,
       floorDancer 8 52 (-73 / 20) .dancing (-365) none false,
       floorDancer 9 52 (-73 / 20) .dancing (-365) none false,
       floorDancer 10 52 (-73 / 20) .dancing (-365) none false,
       floorDancer 11 52 (-73 / 20) .dancing (-365) none false,
       floorDancer 12 52 (-73 / 20) .dancing (-365) none false,
       floorDancer 13 52 (-73 / 20) .dancing (-365) none false,
       floorDancer 14 52 (-73 / 20) .dancing (-365) none false,
       floorDancer 15 52 (-13 / 50) .dancing (-26) none false],
    log :=
      [Ev.player_engagement, Ev.play Sound.startGameSound, Ev.game_started, Ev.device_info,
       Ev.dancer_starting_to_leave 0 (some ExitDirection.left),
       Ev.dancer_starting_to_leave 1 (some ExitDirection.left),
       Ev.dancer_starting_to_leave 2 (some ExitDirection.left),
       Ev.dancer_starting_to_leave 3 (some ExitDirection.left),
       Ev.dancer_starting_to_leave 4 (some ExitDirection.left),
       Ev.play Sound.playerLeavesFloorSound,
       Ev.dancer_starting_to_leave 5 (some ExitDirection.left),
       Ev.dancer_starting_to_leave 6 (some ExitDirection.left), Ev.dancer_left 0 1,
       Ev.dancer_starting_to_leave 6 (some ExitDirection.left),
       Ev.play Sound.playerLeavesFloorSound] }

/-- The globals 648 frames into the session of `floorStart`. -/
def floorAt648 : Game :=
  { floorStart with
    dancersLeft := 2, dancerLeaveZoomProgress := (-450359962737049 / 4503599627370496),
    frameCount := 648, rng := 319, nextUid := 16,
    dancers :=
      [floorDancer 2 (-11) (-9 / 5) .leaving 174 (some .left) false,
       floorDancer 3 19 (-12 / 5) .leaving 234 (some .left) false,
       floorDancer 4 49 (-3) .leaving 294 (some .left) false,
       floorDancer 5 (103 / 2) (-61 / 20) .leaving 299 (some .left) false,
       floorDancer 6 (103 / 2) (-61 / 20) .leaving 299 (some .left) false,
       floorDancer 7 52 (-339 / 100) .stopping 33 (some .left) false,
       floorDancer 8 52 (-73 / 20) .stopping 59 (some .left) false,
       floorDancer 9 52 (-73 / 20) .stopping 59 (some .left) false,
       floorDancer 10 52 (-183 / 50) .dancing (-366) none false,
       floorDancer 11 52 (-183 / 50) .dancing (-366) none false,
       floorDancer 12 52 (-183 / 50) .dancing (-366) none false,
       floorDancer 13 52 (-183 / 50) .dancing (-366) none false,
       floorDancer 14 52 (-183 / 50) .dancing (-366) none false,
       floorDancer 15 52 (-27 / 100) .dancing (-27) none false],
    log :=
      [Ev.player_engagement, Ev.play Sound.startGameSound, Ev.game_started, Ev.device_info,
       Ev.dancer_starting_to_leave 0 (some ExitDirection.left),
       Ev.dancer_starting_to_leave 1 (some ExitDirection.left),
       Ev.dancer_starting_to_leave 2 (some ExitDirection.left),
       Ev.dancer_starting_to_leave 3 (some ExitDirection.left),
       Ev.dancer_starting_to_leave 4 (some ExitDirection.left),
       Ev.play Sound.playerLeavesFloorSound,
       Ev.dancer_starting_to_leave 5 (some ExitDirection.left),
       Ev.dancer_starting_to_leave 6 (some ExitDirection.left), Ev.dancer_left 0 1,
       Ev.dancer_starting_to_leave 6 (some ExitDirection.left),
       Ev.play Sound.playerLeavesFloorSound,
       Ev.dancer_starting_to_leave 7 (some ExitDirection.left),
       Ev.dancer_starting_to_leave 8 (some ExitDirection.left), Ev.dancer_left 0 2] }

/-- The globals 707 frames into the session of `floorStart`. -/
def floorAt707 : Game :=
  { floorStart with
    dancersLeft := 2, dancerLeaveZoomActive := true, dancerLeavePhase := LeavePhase.zooming_in,
    isGamePausedForZoom := true, waitingForDancerLeaveSound := true, frameCount := 707,
    rng := 340, nextUid := 17,
    dancers :=
      [floorDancer 2 (-81 / 2) (-9 / 5) .leaving 115 (some .left) true,
       floorDancer 3 (-21 / 2) (-12 / 5) .leaving 175 (some .left) false,
       floorDancer 4 (39 / 2) (-3) .leaving 235 (some .left) false,
       floorDancer 5 22 (-61 / 20) .leaving 240 (some .left) false,
       floorDancer 6 22 (-61 / 20) .leaving 240 (some .left) false,
       floorDancer 7 39 (-339 / 100) .leaving 274 (some .left) false,
       floorDancer 8 52 (-73 / 20) .leaving 300 (some .left) false,
       floorDancer 9 52 (-73 / 20) .leaving 300 (some .left) false,
       floorDancer 10 52 (-189 / 50) .stopping 13 (some .left) false,
       floorDancer 11 52 (-17 / 4) .dancing (-425) none false,
       floorDancer 12 52 (-17 / 4) .dancing (-425) none false,
       floorDancer 13 52 (-17 / 4) .dancing (-425) none false,
       floorDancer 14 52 (-17 / 4) .dancing (-425) none false,
       floorDancer 15 52 (-43 / 50) .dancing (-86) none false,
       floorDancer 16 52 (-47 / 100) .dancing (-47) none false],
    log :=
      [Ev.player_engagement, Ev.play Sound.startGameSound, Ev.game_started, Ev.device_info,
       Ev.dancer_starting_to_leave 0 (some ExitDirection.left),
       Ev.dancer_starting_to_leave 1 (some ExitDirection.left),
       Ev.dancer_starting_to_leave 2 (some ExitDirection.left),
       Ev.dancer_starting_to_leave 3 (some ExitDirection.left),
       Ev.dancer_starting_to_leave 4 (some ExitDirection.left),
       Ev.play Sound.playerLeavesFloorSound,
       Ev.dancer_starting_to_leave 5 (some ExitDirection.left),
       Ev.dancer_starting_to_leave 6 (some ExitDirection.left), Ev.dancer_left 0 1,
       Ev.dancer_starting_to_leave 6 (some ExitDirection.left),
       Ev.play Sound.playerLeavesFloorSound,
       Ev.dancer_starting_to_leave 7 (some ExitDirection.left),
       Ev.dancer_starting_to_leave 8 (some ExitDirection.left), Ev.dancer_left 0 2,
       Ev.dancer_starting_to_leave 8 (some ExitDirection.left),
       Ev.play Sound.playerLeavesFloorSound] }

/-- The globals 849 frames into the session of `floorStart`. -/
def floorAt849 : Game :=
  { floorStart with
    gameOver := true, dancersLeft := 3, gameState := GameState.gameOver,
    dancerLeaveZoomProgress := (-450359962737049 / 4503599627370496), autopilotMode := true,
    frameCount := 849, rng := 349, nextUid := 17,
    dancers :=
      [floorDancer 3 (-11) (-12 / 5) .leaving 174 (some .left) false,
       floorDancer 4 19 (-3) .leaving 234 (some .left) false,
       floorDancer 5 (43 / 2) (-61 / 20) .leaving 239 (some .left) false,
       floorDancer 6 (43 / 2) (-61 / 20) .leaving 239 (some .left) false,
       floorDancer 7 (77 / 2) (-339 / 100) .leaving 273 (some .left) false,
       floorDancer 8 (103 / 2) (-73 / 20) .leaving 299 (some .left) false,
       floorDancer 9 (103 / 2) (-73 / 20) .leaving 299 (some .left) false,
       floorDancer 10 52 (-189 / 50) .stopping 12 (some .left) false,
       floorDancer 11 52 (-17 / 4) .stopping 59 (some .left) false,
       floorDancer 12 52 (-17 / 4) .stopping 59 (some .left) false,
       floorDancer 13 52 (-17 / 4) .stopping 59 (some .left) false,
       floorDancer 14 52 (-213 / 50) .dancing (-426) none false,
       floorDancer 15 52 (-87 / 100) .dancing (-87) none false,
       floorDancer 16 52 (-12 / 25) .dancing (-48) none false],
    log :=
      [Ev.player_engagement, Ev.play Sound.startGameSound, Ev.game_started, Ev.device_info,
       Ev.dancer_starting_to_leave 0 (some ExitDirection.left),
       Ev.dancer_starting_to_leave 1 (some ExitDirection.left),
       Ev.dancer_starting_to_leave 2 (some ExitDirection.left),
       Ev.dancer_starting_to_leave 3 (some ExitDirection.left),
       Ev.dancer_starting_to_leave 4 (some ExitDirection.left),
       Ev.play Sound.playerLeavesFloorSound,
       Ev.dancer_starting_to_leave 5 (some ExitDirection.left),
       Ev.dancer_starting_to_leave 6 (some ExitDirection.left), Ev.dancer_left 0 1,
       Ev.dancer_starting_to_leave 6 (some ExitDirection.left),
       Ev.play Sound.playerLeavesFloorSound,
       Ev.dancer_starting_to_leave 7 (some ExitDirection.left),
       Ev.dancer_starting_to_leave 8 (some ExitDirection.left), Ev.dancer_left 0 2,
       Ev.dancer_starting_to_leave 8 (some ExitDirection.left),
       Ev.play Sound.playerLeavesFloorSound,
       Ev.dancer_starting_to_leave 9 (some ExitDirection.left),
       Ev.dancer_starting_to_leave 10 (some ExitDirection.left),
       Ev.dancer_starting_to_leave 11 (some ExitDirection.left), Ev.dancer_left 0 3,
       Ev.game_over 0, Ev.play Sound.gameOverSound, Ev.form_shown] }

/-- The globals 908 frames into the session of `floorStart`. -/
def floorAt908 : Game :=
  { floorStart with
    gameOver := true, dancersLeft := 3, gameState := GameState.gameOver,
    dancerLeaveZoomActive := true, dancerLeavePhase := LeavePhase.zooming_in,
    isGamePausedForZoom := true, waitingForDancerLeaveSound := true, autopilotMode := true,
    frameCount := 908, rng := 367, nextUid := 18,
    dancers :=
      [floorDancer 3 (-81 / 2) (-12 / 5) .leaving 115 (some .left) true,
       floorDancer 4 (-21 / 2) (-3) .leaving 175 (some .left) false,
       floorDancer 5 (-8) (-61 / 20) .leaving 180 (some .left) false,
       floorDancer 6 (-8) (-61 / 20) .leaving 180 (some .left) false,
       floorDancer 7 9 (-339 / 100) .leaving 214 (some .left) false,
       floorDancer 8 22 (-73 / 20) .leaving 240 (some .left) false,
       floorDancer 9 22 (-73 / 20) .leaving 240 (some .left) false,
       floorDancer 10 (57 / 2) (-189 / 50) .leaving 253 (some .left) false,
       floorDancer 11 52 (-17 / 4) .leaving 300 (some .left) false,
       floorDancer 12 52 (-17 / 4) .leaving 300 (some .left) false,
       floorDancer 13 52 (-17 / 4) .leaving 300 (some .left) false,
       floorDancer 14 52 (-97 / 20) .dancing (-485) none false,
       floorDancer 15 52 (-73 / 50) .dancing (-146) none false,
       floorDancer 16 52 (-107 / 100) .dancing (-107) none false,
       floorDancer 17 52 (-2 / 25) .dancing (-8) none false],
    log :=
      [Ev.player_engagement, Ev.play Sound.startGameSound, Ev.game_started, Ev.device_info,
       Ev.dancer_starting_to_leave 0 (some ExitDirection.left),
       Ev.dancer_starting_to_leave 1 (some ExitDirection.left),
       Ev.dancer_starting_to_leave 2 (some ExitDirection.left),
       Ev.dancer_starting_to_leave 3 (some ExitDirection.left),
       Ev.dancer_starting_to_leave 4 (some ExitDirection.left),
       Ev.play Sound.playerLeavesFloorSound,
       Ev.dancer_starting_to_leave 5 (some ExitDirection.left),
       Ev.dancer_starting_to_leave 6 (some ExitDirection.left), Ev.dancer_left 0 1,
       Ev.dancer_starting_to_leave 6 (some ExitDirection.left),
       Ev.play Sound.playerLeavesFloorSound,
       Ev.dancer_starting_to_leave 7 (some ExitDirection.left),
       Ev.dancer_starting_to_leave 8 (some ExitDirection.left), Ev.dancer_left 0 2,
       Ev.dancer_starting_to_leave 8 (some ExitDirection.left),
       Ev.play Sound.playerLeavesFloorSound,
       Ev.dancer_starting_to_leave 9 (some ExitDirection.left),
       Ev.dancer_starting_to_leave 10 (some ExitDirection.left),
       Ev.dancer_starting_to_leave 11 (some ExitDirection.left), Ev.dancer_left 0 3,
       Ev.game_over 0, Ev.play Sound.gameOverSound, Ev.form_shown,
       Ev.play Sound.playerLeavesFloorSound] }

/-- The globals 1050 frames into the session of `floorStart`. -/
def floorAt1050 : Game :=
  { floorStart with
    gameOver := true, dancersLeft := 4, gameState := GameState.gameOver,
    dancerLeaveZoomProgress := (-450359962737049 / 4503599627370496), autopilotMode := true,
    frameCount := 1050, rng := 367, nextUid := 18,
    dancers :=
      [floorDancer 4 (-11) (-3) .leaving 174 (some .left) false,
       floorDancer 5 (-17 / 2) (-61 / 20) .leaving 179 (some .left) false,
       floorDancer 6 (-17 / 2) (-61 / 20) .leaving 179 (some .left) false,
       floorDancer 7 (17 / 2) (-339 / 100) .leaving 213 (some .left) false,
       floorDancer 8 (43 / 2) (-73 / 20) .leaving 239 (some .left) false,
       floorDancer 9 (43 / 2) (-73 / 20) .leaving 239 (some .left) false,
       floorDancer 10 28 (-189 / 50) .leaving 252 (some .left) false,
       floorDancer 11 (103 / 2) (-17 / 4) .leaving 299 (some .left) false,
       floorDancer 12 (103 / 2) (-17 / 4) .leaving 299 (some .left) false,
       floorDancer 13 (103 / 2) (-17 / 4) .leaving 299 (some .left) false,
       floorDancer 14 52 (-243 / 50) .dancing (-486) none false,
       floorDancer 15 52 (-147 / 100) .dancing (-147) none false,
       floorDancer 16 52 (-27 / 25) .dancing (-108) none false,
       floorDancer 17 52 (-9 / 100) .dancing (-9) none false],
    log :=
      [Ev.player_engagement, Ev.play Sound.startGameSound, Ev.game_started, Ev.device_info,
       Ev.dancer_starting_to_leave 0 (some ExitDirection.left),
       Ev.dancer_starting_to_leave 1 (some ExitDirection.left),
       Ev.dancer_starting_to_leave 2 (some ExitDirection.left),
       Ev.dancer_starting_to_leave 3 (some ExitDirection.left),
       Ev.dancer_starting_to_leave 4 (some ExitDirection.left),
       Ev.play Sound.playerLeavesFloorSound,
       Ev.dancer_starting_to_leave 5 (some ExitDirection.left),
       Ev.dancer_starting_to_leave 6 (some ExitDirection.left), Ev.dancer_left 0 1,
       Ev.dancer_starting_to_leave 6 (some ExitDirection.left),
       Ev.play Sound.playerLeavesFloorSound,
       Ev.dancer_starting_to_leave 7 (some ExitDirection.left),
       Ev.dancer_starting_to_leave 8 (some ExitDirection.left), Ev.dancer_left 0 2,
       Ev.dancer_starting_to_leave 8 (some ExitDirection.left),
       Ev.play Sound.playerLeavesFloorSound,
       Ev.dancer_starting_to_leave 9 (some ExitDirection.left),
       Ev.dancer_starting_to_leave 10 (some ExitDirection.left),
       Ev.dancer_starting_to_leave 11 (some ExitDirection.left), Ev.dancer_left 0 3,
       Ev.game_over 0, Ev.play Sound.gameOverSound, Ev.form_shown,
       Ev.play Sound.playerLeavesFloorSound, Ev.dancer_left 0 4, Ev.game_over 0,
       Ev.play Sound.gameOverSound, Ev.form_shown] }

/-- The session of `floorStart` after `n` frames: a click on Start Game in
the menu, the end of the start sound, then `n` frames without any input. -/
def floorSession (n : Nat) : Game :=
  run floorEnv (.mousePressed 160 300 :: .startSoundEnded :: frames n) Game.initial

/-! ## Sequences counted in calls -/

/-- The globals of the dancer-leave cutscene: `dancerLeaveZoomActive`,
`dancerLeaveZoomProgress`, `dancerLeavePhase`, `dancerLeaveImageTimer`. -/
def Game.leaveZoom (g : Game) : Bool × ℚ × LeavePhase × ℤ :=
  (g.dancerLeaveZoomActive, g.dancerLeaveZoomProgress, g.dancerLeavePhase,
   g.dancerLeaveImageTimer)

/-- What `updateDancerLeaveZoom` does to the cutscene globals (active,
progress, phase, timer), as a function of them alone. -/
def leaveZoomNext (s : Bool × ℚ × LeavePhase × ℤ) : Bool × ℚ × LeavePhase × ℤ :=
  if !s.1 then s
  else
    match s.2.2.1 with
    | .zooming_in =>
      if fadd s.2.1 dancerLeaveZoomSpeed ≥ 1 then (s.1, 1, .displaying_image, 120)
      else (s.1, fadd s.2.1 dancerLeaveZoomSpeed, .zooming_in, s.2.2.2)
    | .displaying_image =>
      if s.2.2.2 - 1 ≤ 0 then (s.1, s.2.1, .zooming_out, s.2.2.2 - 1)
      else (s.1, s.2.1, .displaying_image, s.2.2.2 - 1)
    | .zooming_out =>
      if fsub s.2.1 dancerLeaveZoomSpeed ≤ 0 then
        (false, fsub s.2.1 dancerLeaveZoomSpeed, .inactive, s.2.2.2)
      else (s.1, fsub s.2.1 dancerLeaveZoomSpeed, .zooming_out, s.2.2.2)
    | .inactive => s

/-- The globals after `n` calls of `updateDancerLeaveZoom`. -/
def leaveZoomCalls (e : Env) : Nat → Game → Game
  | 0, g => g
  | n + 1, g => updateDancerLeaveZoom e (leaveZoomCalls e n g)

/-- The result of `n` applications of `leaveZoomNext`. -/
def leaveZoomSteps : Nat → Bool × ℚ × LeavePhase × ℤ → Bool × ℚ × LeavePhase × ℤ
  | 0, s => s
  | n + 1, s => leaveZoomNext (leaveZoomSteps n s)

/-- A game in which dancer 1 has just walked out to the left: the state in
which the dancer loop calls `triggerDancerLeaveZoom` and pause-locks it. -/
def walkedOutGame : Game :=
  sampleGame [sampleDancer 0 100 300 .dancing,
              { sampleDancer 1 (-41) 300 .leaving with isPausedForZoom := true }] []

/-- The globals of the strobe sequence: `strobeTimer`, `strobeOn`,
`strobeCount`, `strobeBurstActive`, `strobeCooldown`, `strobeEnabled`. -/
def Game.strobe (g : Game) : Nat × Bool × Nat × Bool × Nat × Bool :=
  (g.strobeTimer, g.strobeOn, g.strobeCount, g.strobeBurstActive, g.strobeCooldown,
   g.strobeEnabled)

/-- What `updateStrobeEffect` does to the strobe globals (timer, on, count,
burst active, cooldown, enabled), as a function of them alone. -/
def strobeNext (s : Nat × Bool × Nat × Bool × Nat × Bool) :
    Nat × Bool × Nat × Bool × Nat × Bool :=
  if !s.2.2.2.2.2 then s
  else if s.2.2.2.2.1 > 0 then
    if s.2.2.2.2.1 - 1 = 0 then (0, false, 0, true, s.2.2.2.2.1 - 1, s.2.2.2.2.2)
    else (s.1, false, s.2.2.1, s.2.2.2.1, s.2.2.2.2.1 - 1, s.2.2.2.2.2)
  else if (s.1 + 1) % 7 = 0 then
    if (if (!s.2.1) = true then s.2.2.1 + 1 else s.2.2.1) ≥ 5 then
      (s.1 + 1, false, if (!s.2.1) = true then s.2.2.1 + 1 else s.2.2.1, false, 180,
       s.2.2.2.2.2)
    else
      (s.1 + 1, !s.2.1, if (!s.2.1) = true then s.2.2.1 + 1 else s.2.2.1, s.2.2.2.1,
       s.2.2.2.2.1, s.2.2.2.2.2)
  else (s.1 + 1, s.2.1, s.2.2.1, s.2.2.2.1, s.2.2.2.2.1, s.2.2.2.2.2)

/-- The globals after `n` calls of `updateStrobeEffect`. -/
def strobeCalls : Nat → Game → Game
  | 0, g => g
  | n + 1, g => updateStrobeEffect (strobeCalls n g)

/-- The result of `n` applications of `strobeNext`. -/
def strobeSteps : Nat → Nat × Bool × Nat × Bool × Nat × Bool →
    Nat × Bool × Nat × Bool × Nat × Bool
  | 0, s => s
  | n + 1, s => strobeNext (strobeSteps n s)

/-- The strobe globals right after `triggerStrobeEffect` with the strobe
enabled, no cooldown running and the light off: the start of a burst. -/
def burstStart : Nat × Bool × Nat × Bool × Nat × Bool := (0, false, 0, true, 0, true)

/-- The number of flashes in the successive values of `strobeOn`: how often it
goes from false (`prev` at first) to true. -/
def flashCount : Bool → List Bool → Nat
  | _, [] => 0
  | prev, b :: bs => (if !prev && b then 1 else 0) + flashCount b bs

/-- The values of `strobeOn` after each of the calls 1 to `n` of
`updateStrobeEffect`. -/
def strobeOnAfter (n : Nat) (g : Game) : List Bool :=
  (List.range n).map (fun k => (strobeCalls (k + 1) g).strobeOn)

/-- `n` calls of `Dancer.update` on `d`, call number `k + 1` under the globals
`gs k`. -/
def Dancer.updates (e : Env) (gs : Nat → Game) : Nat → Dancer → Dancer
  | 0, d => d
  | n + 1, d => ((Dancer.updates e gs n d).update e (gs n)).1

/-! ## Sample states of the effect sequences -/

/-- A session at 13 points in which wristbands are being thrown at the target
girl (dancer 0, white aura): one wristband is within hit distance of her and
of dancer 1, who dances on the same spot. -/
def wristbandGame : Game :=
  { sampleGame [{ sampleDancer 0 100 300 .dancing with hasWhiteAura := true },
                sampleDancer 1 100 300 .dancing]
               [sampleRecord 7 105 300 .wristband] with
    score := 13, milestonesReached := [10], targetGirlDancer := some 0,
    wristbandThrown := true, throwingWristbands := true, mmmGettingDownPlayed := true,
    discoBallChangedAt8 := true, nextUid := 8 }

/-- Number of `play()` calls on the sound `s` in a log. -/
def plays (s : Sound) (log : List Ev) : Nat := log.count (.play s)

/-- The sample environment on a mobile device. -/
def mobileEnv : Env := { sampleEnv with isMobile := true }

/-- A session on an empty floor while the score-2 milestone sound is still
playing (`waitingForScore5Sound`). -/
def milestoneSoundGame : Game :=
  { sampleGame [] [] with
    score := 2, lastStrobeCheck := 2, waitingForScore5Sound := true, score5Pending := true,
    showSwipeUpText := false, frameCount := 1 }

/-- The sample environment with the draws 9/10, 1/2, 1/2, ... -/
def smokeEnv : Env := { sampleEnv with rand := fun n => if n = 0 then 9 / 10 else 1 / 2 }

/-- A session on an empty floor at 6 points whose last smoke was triggered at
4 points; the disco ball is already down and the strobe enabled. -/
def smokeGame : Game :=
  { sampleGame [] [] with
    score := 6, lastStrobeCheck := 2, lastSmokeCheck := 4, strobeEnabled := true,
    discoBallActive := true, showSwipeUpText := false, frameCount := 1 }

/-- The post-cutscene steady state: no video playing or awaited, lights on. -/
def postCutscene (g : Game) : Prop :=
  g.videoPlaying = false ∧ g.waitingForScore15Video = false ∧ g.lightsEnabled = true

/-- The call of playPartyStartedVideo on a session at 6 points with the disco
ball down: the video is playing, its play promise is pending, the fallback
timer is armed and the `onended` callback is registered. -/
def videoStartedGame : Game :=
  playPartyStartedVideo sampleEnv
    { sampleGame [] [] with
      score := 6, lastStrobeCheck := 2, lastSmokeCheck := 4, strobeEnabled := true,
      discoBallActive := true, discoBallLowered := true, showSwipeUpText := false,
      frameCount := 1 }

/-- A session at 3 points with two dancers who are both `stopping`, each with
a party record on it. -/
def doubleHitGame : Game :=
  { sampleGame [{ sampleDancer 0 100 100 .stopping with stateTimer := 30 },
                { sampleDancer 1 300 100 .stopping with stateTimer := 30 }]
               [sampleRecord 2 100 100 .party, sampleRecord 3 300 100 .party] with
    score := 3, lastStrobeCheck := 2, strobeEnabled := true, showSwipeUpText := false,
    frameCount := 1, nextUid := 4 }

/-- The sample environment with `sin` constantly 1. -/
def sineEnv : Env := { sampleEnv with sin := fun _ => 1 }

/-- A game in the middle of a leave cutscene (the image is displayed, dancer 1
holds the pause lock) with a party record on dancer 0, who is `stopping`. -/
def pausedHitGame : Game :=
  { sampleGame [{ sampleDancer 0 100 300 .stopping with stateTimer := 30 },
                { sampleDancer 1 (-41) 300 .leaving with isPausedForZoom := true }]
               [sampleRecord 2 100 300 .party] with
    dancerLeaveZoomActive := true, dancerLeavePhase := .displaying_image,
    dancerLeaveZoomProgress := 1, dancerLeaveImageTimer := 60, isGamePausedForZoom := true,
    frameCount := 1, nextUid := 3 }

/-- A game in the middle of a leave cutscene (the image is displayed, dancer 1
holds the pause lock) with no record in flight. -/
def pausedGame : Game :=
  { sampleGame [sampleDancer 0 100 300 .dancing,
                { sampleDancer 1 (-41) 300 .leaving with isPausedForZoom := true }] [] with
    dancerLeaveZoomActive := true, dancerLeavePhase := .displaying_image,
    dancerLeaveZoomProgress := 1, dancerLeaveImageTimer := 60, isGamePausedForZoom := true,
    frameCount := 1, nextUid := 2 }

/-- The sample environment without a usable video object. -/
def noVideoEnv : Env := { sampleEnv with videoAvailable := false }

/-- The sample environment with a video whose `play()` throws. -/
def brokenVideoEnv : Env := { sampleEnv with videoPlayThrows := true }

/-! ## What a tick leaves alone -/

/-- The score and the projectiles together with the two video flags
`videoPlaying` and `waitingForScore15Video`: what most parts of a tick never
write. -/
def Game.ledger (g : Game) : Nat × List Record × Bool × Bool :=
  (g.score, g.records, g.videoPlaying, g.waitingForScore15Video)

/-- No cutscene video is playing or awaited. -/
def VideoOff (g : Game) : Prop :=
  g.videoPlaying = false ∧ g.waitingForScore15Video = false

/-- Every dancer of `ds` is still at its index in `ds'`, at the same
position. -/
def SamePlaces (ds ds' : List Dancer) : Prop :=
  ∀ (k : Nat) (d : Dancer), ds[k]? = some d →
    ∃ d', ds'[k]? = some d' ∧ d'.x = d.x ∧ d'.y = d.y

/-- The dancers, the score, the projectiles, the global pause flag and the
phases of the two cutscenes that set it: what the effect sequences other than
those cutscenes never write. -/
def Game.freeze (g : Game) :
    List Dancer × Nat × List Record × Bool × Bool × LeavePhase × ℚ × WristbandPhase :=
  (g.dancers, g.score, g.records, g.isGamePausedForZoom, g.dancerLeaveZoomActive,
   g.dancerLeavePhase, g.dancerLeaveZoomProgress, g.wristbandZoomPhase)

/-! ## Score submission and the local leaderboard (sketch.js:4286-4513)

The score form and the leaderboard live beside the game globals: the two
form fields, `leaderboardData`, the entry `vibecheck_scores` of
`localStorage`, and what the player is shown.  `submitScore` is an `async`
function; it is modelled as one step whose `await`ed results are supplied by
the browser (`Net`), with the global `score` as a parameter. -/

/-- An entry of the leaderboard: a local entry `{name, email, score, date}`
(an online row carries the same data as `player_name`, `player_email`,
`score`, `created_at`). -/
structure ScoreEntry where
  name : String
  email : String
  score : Nat
  date : String
  deriving DecidableEq

/-- The global `supabaseClient`: null, an object without `from`, or a usable
client. -/
inductive Client
  | absent | withoutFrom | usable
  deriving DecidableEq

/-- How `await supabaseClient.from('leaderboard').insert(...)` ends: a result
without error, a result with an error, or an exception. -/
inductive InsertResult
  | inserted | error | throws
  deriving DecidableEq

/-- How the `select` of fetchLeaderboard ends: rows, or an error. -/
inductive FetchResult
  | rows (data : List ScoreEntry)
  | error
  deriving DecidableEq

/-- What the player is shown: the three `alert`s of submitScore and the two
texts of showSuccessMessage. -/
inductive Notice
  | enterName
  | enterEmail
  | databaseIssue (score : Nat)
  | savedLocally
  | savedOnline
  deriving DecidableEq

/-- Whether a notice reports an error to the player. -/
def Notice.isError : Notice → Bool
  | .databaseIssue _ => true
  | _ => false

/-- A request sent to the online leaderboard. -/
inductive Request
  | insert (row : ScoreEntry)
  | select
  deriving DecidableEq

/-- What the browser supplies to the score submission. -/
structure Net where
  /-- The global `supabaseClient`. -/
  supabaseClient : Client
  /-- The outcome of the insert. -/
  insert : InsertResult
  /-- The outcome of a `select` made after `k` earlier requests. -/
  select : Nat → FetchResult
  /-- Whether `document.getElementById('leaderboard-body')` exists. -/
  leaderboardBody : Bool
  /-- Whether `localStorage` throws (disabled or full). -/
  storageThrows : Bool
  /-- The value of `new Date().toISOString()`. -/
  now : String

/-- The globals of the score form and the leaderboard. -/
structure Board where
  playerName : String
  playerEmail : String
  leaderboardData : List ScoreEntry
  /-- The parsed value of `localStorage.getItem('vibecheck_scores')`, `none`
  when the key is absent. -/
  stored : Option (List ScoreEntry)
  /-- Whether `submitScoreForm` is displayed. -/
  formShown : Bool
  /-- The alerts and success messages shown so far. -/
  notices : List Notice
  /-- The requests sent so far. -/
  requests : List Request
  /-- Number of Retry buttons created. -/
  retryButtons : Nat
  deriving DecidableEq

/-- `alert(...)` and `showSuccessMessage(...)`. -/
def Board.notify (b : Board) (n : Notice) : Board := { b with notices := b.notices ++ [n] }

/-- The code points that `String.prototype.trim` removes: WhiteSpace and
LineTerminator of ECMAScript. -/
def jsWhitespace (c : Char) : Bool :=
  c.toNat ∈ [0x9, 0xA, 0xB, 0xC, 0xD, 0x20, 0xA0, 0x1680, 0x2000, 0x2001, 0x2002, 0x2003,
    0x2004, 0x2005, 0x2006, 0x2007, 0x2008, 0x2009, 0x200A, 0x2028, 0x2029, 0x202F, 0x205F,
    0x3000, 0xFEFF]

/-- The test `!playerName || playerName.trim() === ''`. -/
def nameMissing (s : String) : Bool := s.data.all jsWhitespace

/-- The test `!playerEmail || !playerEmail.includes('@')`. -/
def emailInvalid (s : String) : Bool := !s.data.contains '@'

/-- The order of the comparator `(a, b) => b.score - a.score`: `a` may stand
before `b`. -/
def byScore (a b : ScoreEntry) : Prop := b.score ≤ a.score

instance : DecidableRel byScore := fun a b => inferInstanceAs (Decidable (b.score ≤ a.score))

instance : IsTotal ScoreEntry byScore := ⟨fun a b => Nat.le_total b.score a.score⟩

instance : IsTrans ScoreEntry byScore := ⟨fun _ _ _ h1 h2 => Nat.le_trans h2 h1⟩

/-- `localScores.sort((a, b) => b.score - a.score)`: `Array.prototype.sort`
is stable, so the result is the one of a stable insertion sort. -/
def sortByScore (l : List ScoreEntry) : List ScoreEntry := l.insertionSort byScore

/-- The entry built by storeScoreLocally. -/
def newScore (n : Net) (score : Nat) (b : Board) : ScoreEntry :=
  { name := b.playerName, email := b.playerEmail, score := score, date := n.now }

/-- `storeScoreLocally` (sketch.js:4408); an exception of `localStorage`
is caught and leaves everything as it was. -/
def storeScoreLocally (n : Net) (score : Nat) (b : Board) : Board :=
  if n.storageThrows then b
  else
    let localScores := b.stored.getD [] ++ [newScore n score b]
    let top := (sortByScore localScores).take 10
    { b with stored := some top, leaderboardData := top, formShown := false }

/-- `loadLocalScores` (sketch.js:4476) with its return value. -/
def loadLocalScores (n : Net) (b : Board) : Board × Bool :=
  if n.storageThrows then (b, false)
  else if (b.stored.getD []).length > 0 then
    ({ b with leaderboardData := b.stored.getD [] }, true)
  else (b, false)

/-- `fetchLeaderboard` (sketch.js:4492). -/
def fetchLeaderboard (n : Net) (b : Board) : Board :=
  match n.supabaseClient with
  | .absent => (loadLocalScores n b).1
  | .withoutFrom => (loadLocalScores n b).1
  | .usable =>
    let b1 : Board := { b with requests := b.requests ++ [.select] }
    match n.select b.requests.length with
    | .rows data =>
      let b2 : Board := { b1 with leaderboardData := data }
      if n.leaderboardBody then b2 else (loadLocalScores n b2).1
    | .error => (loadLocalScores n b1).1

/-- The part of `submitScore` after the validation of the form
(sketch.js:4298-4381). -/
def saveScore (n : Net) (score : Nat) (b : Board) : Board :=
  match n.supabaseClient with
  | .absent => (storeScoreLocally n score b).notify .savedLocally
  | .withoutFrom => b.notify (.databaseIssue score)
  | .usable =>
    let b1 : Board := { b with requests := b.requests ++ [.insert (newScore n score b)] }
    match n.insert with
    | .error => (storeScoreLocally n score b1).notify .savedLocally
    | .throws =>
      { (storeScoreLocally n score b1).notify .savedLocally with formShown := false }
    | .inserted =>
      let b2 := fetchLeaderboard n (b1.notify .savedOnline)
      fetchLeaderboard n { b2 with formShown := false, retryButtons := b2.retryButtons + 1 }

/-- `submitScore` (sketch.js:4286). -/
def submitScore (n : Net) (score : Nat) (b : Board) : Board :=
  if nameMissing b.playerName then b.notify .enterName
  else if emailInvalid b.playerEmail then b.notify .enterEmail
  else saveScore n score b

/-- A browser without a leaderboard client and with a working `localStorage`. -/
def offlineNet : Net where
  supabaseClient := .absent
  insert := .error
  select := fun _ => .error
  leaderboardBody := true
  storageThrows := false
  now := "2025-01-01T00:00:00.000Z"

/-- A filled-in form over an empty local store. -/
def sampleBoard : Board where
  playerName := "Ann"
  playerEmail := "ann@example.org"
  leaderboardData := []
  stored := none
  formShown := true
  notices := []
  requests := []
  retryButtons := 0

/-- Ten stored entries with 5 points each. -/
def tenFives : List ScoreEntry :=
  List.replicate 10 { name := "Bob", email := "bob@example.org", score := 5,
                      date := "2024-12-31T00:00:00.000Z" }

/-- The filled-in form over a store that holds `tenFives`. -/
def fullBoard : Board := { sampleBoard with stored := some tenFives, leaderboardData := tenFives }

/-- A browser whose leaderboard client lacks `from`. -/
def brokenClientNet : Net := { offlineNet with supabaseClient := .withoutFrom }

/-- A browser with a usable leaderboard client whose insert results in an
error. -/
def failingInsertNet : Net := { offlineNet with supabaseClient := .usable, insert := .error }

/-- A browser with a usable leaderboard client whose insert throws. -/
def throwingInsertNet : Net := { offlineNet with supabaseClient := .usable, insert := .throws }

/-- The form with a name of blanks only. -/
def blankNameBoard : Board := { sampleBoard with playerName := "  " }

/-- The form with an email address without `@`. -/
def badEmailBoard : Board := { sampleBoard with playerEmail := "ann.example.org" }

/-- A session at frame 60 with five dancers on the floor. -/
def fiveDancersGame : Game :=
  { sampleGame [sampleDancer 0 100 300 .dancing, sampleDancer 1 200 300 .dancing,
                sampleDancer 2 300 300 .dancing, sampleDancer 3 400 300 .dancing,
                sampleDancer 4 500 300 .dancing] [] with
    frameCount := 60, nextUid := 5 }

/-- A game-over screen (three dancers have left). -/
def gameOverGame : Game :=
  { sampleGame [sampleDancer 0 100 300 .dancing] [] with
    gameState := .gameOver, gameOver := true, autopilotMode := true, dancersLeft := 3,
    frameCount := 1000, nextUid := 1 }

/-! ## Projectiles in flight -/

/-- `n` calls of `Record.update` on `r`, call number `k + 1` under the globals
`gs k`. -/
def Record.updates (gs : Nat → Game) : Nat → Record → Record
  | 0, r => r
  | n + 1, r => (Record.updates gs n r).update (gs n)

/-! ## The buttons of the game-over overlay (sketch.js:5033-5194) -/

/-- A rectangle as passed to `rect(x, y, w, h)`. -/
structure Rect where
  x : ℚ
  y : ℚ
  w : ℚ
  h : ℚ

/-- The centre of a rectangle. -/
def Rect.centre (r : Rect) : ℚ × ℚ := (r.x + r.w / 2, r.y + r.h / 2)

/-- The entry `buttons` of `calculateRealPositions`. -/
def buttonsY (e : Env) : ℚ :=
  if !e.isMobile then e.height * 0.8
  else
    let boxHeight := e.height * 0.95
    let boxY := e.height * 0.025
    boxY + boxHeight * 0.2 + boxHeight * 0.08 + boxHeight * 0.05 + boxHeight * 0.30
      + boxHeight * 0.05 + boxHeight * 0.04 + boxHeight * 0.12

/-- `boxWidth` of drawGameOverOverlay. -/
def overlayBoxWidth (e : Env) : ℚ := if e.isMobile then e.width * 0.9 else e.width * 0.6

/-- `boxHeight` of drawGameOverOverlay. -/
def overlayBoxHeight (e : Env) : ℚ := if e.isMobile then e.height * 0.95 else e.height * 0.7

/-- `baseBtnWidth` of drawGameOverOverlay. -/
def baseBtnWidth (e : Env) : ℚ :=
  if e.isMobile then overlayBoxWidth e * 0.25 else overlayBoxWidth e * 0.15

/-- `baseBtnHeight` of drawGameOverOverlay. -/
def baseBtnHeight (e : Env) : ℚ :=
  if e.isMobile then overlayBoxHeight e * 0.06 else overlayBoxHeight e * 0.08

/-- The Play Again rectangle drawn by drawGameOverOverlay in frame
`frameCount`, with its pulse. -/
def playAgainRect (e : Env) (frameCount : Nat) : Rect :=
  let boxX := (e.width - overlayBoxWidth e) / 2
  let pulseScale := 1 + e.sin (frameCount * 0.1) * 0.05
  let playAgainWidth := baseBtnWidth e * pulseScale
  let playAgainHeight := baseBtnHeight e * pulseScale
  { x := boxX + overlayBoxWidth e * 0.3 - playAgainWidth / 2,
    y := buttonsY e + (baseBtnHeight e - playAgainHeight) / 2,
    w := playAgainWidth, h := playAgainHeight }

/-- The Main Menu rectangle drawn by drawGameOverOverlay. -/
def mainMenuRect (e : Env) : Rect :=
  let boxX := (e.width - overlayBoxWidth e) / 2
  { x := boxX + overlayBoxWidth e * 0.7 - baseBtnWidth e / 2, y := buttonsY e,
    w := baseBtnWidth e, h := baseBtnHeight e }

/-! ## Swipe throws -/

/-- The velocity `(vx, vy)` computed by createEmojiFromSwipe. -/
def swipeVelocity (e : Env) (startX startY targetX targetY : ℚ) : ℚ × ℚ :=
  let dx := targetX - startX
  let dy := targetY - startY
  let distance := e.sqrt (dx * dx + dy * dy)
  (dx / distance * 15, dy / distance * 15)

/-- The clamped target that touchEnded passes to createEmojiFromSwipe for a
touch that ends at (x, y). -/
def swipeTarget (e : Env) (g : Game) (x y : ℚ) : ℚ × ℚ :=
  (constrain (e.width / 2 + (x - g.swipeStartX) * 2) 0 e.width,
   constrain (e.height * 0.85 + (y - g.swipeStartY) * 2) 0 (e.height * 0.7))

/-- The test of touchEnded for a valid swipe that ends at (x, y). -/
def swipeAccepted (e : Env) (g : Game) (x y : ℚ) : Prop :=
  (x - g.swipeStartX) * (x - g.swipeStartX) + (y - g.swipeStartY) * (y - g.swipeStartY)
      ≥ 50 * 50
    ∧ e.millis g.frameCount - g.swipeStartTime ≤ 1000 ∧ y - g.swipeStartY < -20
    ∧ (g.swipeStartX - e.width / 2) * (g.swipeStartX - e.width / 2)
        + (g.swipeStartY - e.height * 0.85) * (g.swipeStartY - e.height * 0.85) ≤ 100 * 100

/-- Newton's iteration for the integer square root, `fuel` steps at most. -/
def sqrtIter : Nat → Nat → Nat → Nat
  | 0, _, x => x
  | fuel + 1, n, x =>
    let y := (x + n / x) / 2
    if y < x then sqrtIter fuel n y else x

/-- The integer square root `⌊√n⌋`. -/
def natSqrt (n : Nat) : Nat := if n = 0 then 0 else sqrtIter (halvings n n + 8) n n

/-- A square root on the non-negative rationals: exact on squares, and below
the root by less than a millionth of `1 / den` elsewhere. -/
def ratSqrt (q : ℚ) : ℚ :=
  (natSqrt (q.num.toNat * q.den * 1000000000000) : ℚ) / (q.den * 1000000)

/-- The sample environment on a mobile device with the square root
`ratSqrt`. -/
def swipeEnv : Env := { sampleEnv with isMobile := true, sqrt := ratSqrt }

/-- A session in which a touch has started on the DJ booth of the 800 x 600
canvas. -/
def swipeGame : Game :=
  { sampleGame [sampleDancer 0 100 300 .dancing] [] with
    swipeStartX := 400, swipeStartY := 510, swipeStartTime := 50 / 3, isSwipeActive := true,
    frameCount := 1, nextUid := 1 }

/-- A party emoji as the constructor makes it, thrown straight up from
(400, 510) at 15 units per tick. -/
def thrownRecord : Record :=
  (spawnRecord sampleEnv (sampleGame [] []) 400 510 0 (-15) .party).1

/-- A record whose speeds, gravity and rotation speed are multiples of 1/16,
so that the sums of its first updates are doubles. -/
def dyadicRecord : Record :=
  { sampleRecord 0 400 480 .party with vx := 3 / 2, vy := -15, gravity := 1 / 8,
                                          rotationSpeed := 1 / 16 }

/-- A dancing dancer with the white aura that is not the special girl. -/
def whiteAuraDancer : Dancer :=
  { sampleDancer 0 100 300 .dancing with hasWhiteAura := true }

/-! ## A session with throws

A session on the 320 x 568 canvas of a phone in which the player saves the
dancer of each of the first eight population checks, lets the ninth walk off
the floor, saves the next four, and then throws a sandwich and a wristband
while the leave cutscene of the ninth is running.  Every `random()` is 0
except the 13 draws of `partyRand`. -/

/-- A binary search for the position of the leading bit of `n`: from `k`, each
step `s` of the list is taken when `2 ^ (k + s) ≤ n`. -/
def leadingBitSearch : List Nat → Nat → Nat → Nat
  | [], _, k => k
  | s :: ss, n, k =>
    if n < 2 ^ (k + s) then leadingBitSearch ss n k else leadingBitSearch ss n (k + s)

/-- The value of `halvings n n`, found by `leadingBitSearch` and checked, with
`halvings n n` itself when the check fails. -/
def halvingsQuick (n : Nat) : Nat :=
  let k := leadingBitSearch [64, 32, 16, 8, 4, 2, 1] n 0
  if 2 ^ k ≤ n ∧ n < 2 ^ (k + 1) then k else halvings n n

/-- Whether `2 ^ k ≤ n / d`, decided in integers. -/
def pow2Le (k n : ℤ) (d : ℕ) : Bool :=
  if 0 ≤ k then decide (((2 ^ k.toNat * d : ℕ) : ℤ) ≤ n)
  else decide ((d : ℤ) ≤ n * ((2 ^ (-k).toNat : ℕ) : ℤ))

/-- The function `binaryExponent`, computed in integers. -/
def binaryExponentQuick (a : ℚ) : ℤ :=
  let e0 : ℤ := (halvingsQuick a.num.natAbs : ℤ) - (halvingsQuick a.den : ℤ)
  if pow2Le e0 a.num a.den then e0 else e0 - 1

/-- The function `roundHalfEven` at `n / d`, computed in integers. -/
def roundHalfEvenQuick (n : ℤ) (d : ℕ) : ℤ :=
  let f := n / (d : ℤ)
  let r := n % (d : ℤ)
  if 2 * r < d then f
  else if (d : ℤ) < 2 * r then f + 1
  else if f % 2 = 0 then f else f + 1

/-- The function `roundDouble`, computed in integers. -/
def roundDoubleQuick (x : ℚ) : ℚ :=
  if x.num = 0 then 0
  else
    let s := max (binaryExponentQuick |x| - 52) (-1074)
    if 0 ≤ s then
      ((roundHalfEvenQuick x.num (x.den * 2 ^ s.toNat) * ((2 ^ s.toNat : ℕ) : ℤ) : ℤ) : ℚ)
    else mkRat (roundHalfEvenQuick (x.num * ((2 ^ (-s).toNat : ℕ) : ℤ)) x.den) (2 ^ (-s).toNat)

/-- The function `fadd` over `roundDoubleQuick`. -/
def faddQuick (x y : ℚ) : ℚ := roundDoubleQuick (x + y)

/-- The function `Record.update` over `faddQuick`. -/
def Record.updateQuick (g : Game) (r : Record) : Record :=
  if g.zoomedWristband = some r.uid ∧ g.wristbandZoomPhase ≠ .inactive then r
  else
    { r with vy := faddQuick r.vy r.gravity, x := faddQuick r.x r.vx,
             y := faddQuick r.y (faddQuick r.vy r.gravity),
             rotation := faddQuick r.rotation r.rotationSpeed }

/-- The function `recordIter` over `Record.updateQuick`. -/
def recordIterQuick (e : Env) (i : Nat) (g : Game) : Game :=
  match g.records[i]? with
  | none => g
  | some r =>
    let r1 := r.updateQuick g
    let g1 : Game := { g with records := g.records.set i r1 }
    if r1.x < 0 ∨ r1.x > e.width ∨ r1.y < 0 ∨ r1.y > e.height then
      if g1.zoomedWristband ≠ some r1.uid ∨ g1.wristbandZoomPhase = .inactive then
        { g1 with records := g1.records.eraseIdx i }
      else g1
    else g1

/-- The function `recordLoop` over `recordIterQuick`. -/
def recordLoopQuick (e : Env) : Nat → Game → Game
  | 0, g => g
  | i + 1, g => recordLoopQuick e i (recordIterQuick e i g)

/-- The dancer's `update` leaves the globals as they are: the game or the
dancer is paused, or the dancer is neither picking up nor going to the DJ. -/
def Dancer.plain (g : Game) (d : Dancer) : Bool :=
  g.isGamePausedForZoom || d.isPausedForZoom
    || (!decide (d.state = .picking_up) && !decide (d.state = .going_to_dj))

/-- The body of the dancer loop does no more for the dancer than replace it
by its update: the dancer is plain and the update does not trigger the leave
cutscene. -/
def Dancer.stays (e : Env) (g : Game) (d : Dancer) : Bool :=
  Dancer.plain g d &&
    !(decide ((d.update e g).1.state = .leaving) && !(d.update e g).1.isPausedForZoom
        && offScreen e (d.update e g).1)

/-- The dancer loop, skipped while a leave cutscene holds the global pause
and run as a `map` when every dancer stays. -/
def dancerLoopQuick (e : Env) (g : Game) : Game :=
  if g.isGamePausedForZoom = true ∧ g.dancerLeavePhase ≠ .inactive then g
  else if g.dancers.all (Dancer.stays e g) then
    { g with dancers := g.dancers.map (fun d => (d.update e g).1) }
  else dancerLoop e g.dancers.length g

/-- Whether the pair passes the tests that follow the distance test in the
body of the inner collision loop. -/
def pairMatters (g : Game) (r : Record) (d : Dancer) : Bool :=
  if r.type = .wristband then
    decide (g.targetGirlDancer = some d.uid ∧ g.girlHitWithWristband = false)
  else decide (d.state = .leaving ∨ d.state = .stopping)

/-- The scan of the dancers from index `j` for the last one that `records[i]`
hits with effect: the pair matters and passes the distance test. -/
def scanHit (g : Game) (r : Record) : List Dancer → Nat → Option Nat → Option Nat
  | [], _, acc => acc
  | d :: ds, j, acc =>
    scanHit g r ds (j + 1) (if pairMatters g r d && hitTest r d then some j else acc)

/-- The function `collideRecord` over all dancers: the body of the inner loop
runs only for the dancer found by `scanHit`. -/
def collideRecordQuick (e : Env) (i : Nat) (g : Game) : Game :=
  match g.records[i]? with
  | none => g
  | some r =>
    match scanHit g r g.dancers 0 none with
    | none => g
    | some j => (collidePair e i j g).1

/-- The function `collisionLoop` over `collideRecordQuick`. -/
def collisionLoopQuick (e : Env) : Nat → Game → Game
  | 0, g => g
  | i + 1, g => collisionLoopQuick e i (collideRecordQuick e i g)

/-- The function `floorStep` over `dancerLoopQuick`, `recordLoopQuick` and
`collisionLoopQuick`. -/
def floorStepQuick (e : Env) (g : Game) : Game :=
  let g1 := discoBallStage g
  let g2 := dancerLoopQuick e g1
  let g3 := recordLoopQuick e g2.records.length g2
  maintainPopulation e (collisionLoopQuick e g3.records.length g3)

/-- The function `floorStage` over `floorStepQuick`. -/
def floorStageQuick (e : Env) (g : Game) : Game :=
  if g.gameState = .playing ∨ g.autopilotMode = true then floorStepQuick e g else g

/-- The function `drawGameplay` over `floorStageQuick`. -/
def drawGameplayQuick (e : Env) (g : Game) : Game :=
  if g.videoPlaying then g
  else
    floorStageQuick e (smokeTimerStep (triggerStage e (updateWristbandZoom
      (leaveZoomStage e (updateZoomEffect e g)))))

/-- The function `draw` over `drawGameplayQuick`. -/
def drawQuick (e : Env) (g : Game) : Game :=
  let g1 : Game := { g with frameCount := g.frameCount + 1 }
  if g1.gameState = .menu ∨ g1.waitingForStartSound = true then drawMainMenu e g1
  else drawGameplayQuick e g1

/-- A run of `n` frames through `drawQuick`. -/
def framesQuick (e : Env) : Nat → Game → Game
  | 0, g => g
  | n + 1, g => framesQuick e n (drawQuick e g)

/-! ## The globals of the session with throws

The values of the globals at the end of each piece of the session
`partyAfter`; the theorems `partyAfter_1` to `partyAfter_33` check each of
them against the run. -/

theorem emit_score (g : Game) (ev : Ev) : (g.emit ev).score = g.score := rfl
theorem emit_dancers (g : Game) (ev : Ev) : (g.emit ev).dancers = g.dancers := rfl
theorem emit_records (g : Game) (ev : Ev) : (g.emit ev).records = g.records := rfl

theorem trackMilestones_score (g : Game) : (trackMilestones g).score = g.score := by
  unfold trackMilestones; dsimp only; split_ifs <;> rfl
theorem trackMilestones_dancers (g : Game) : (trackMilestones g).dancers = g.dancers := by
  unfold trackMilestones; dsimp only; split_ifs <;> rfl
theorem trackMilestones_records (g : Game) : (trackMilestones g).records = g.records := by
  unfold trackMilestones; dsimp only; split_ifs <;> rfl

theorem scoringHit_score (e : Env) (i j : Nat) (r : Record) (d : Dancer) (g : Game) :
    (scoringHit e i j r d g).score = g.score + 1 := by
  simp only [scoringHit, trackMilestones_score]
  split_ifs <;> rfl

theorem scoringHit_records (e : Env) (i j : Nat) (r : Record) (d : Dancer) (g : Game) :
    (scoringHit e i j r d g).records = g.records.eraseIdx i := by
  simp only [scoringHit, trackMilestones_records]
  split_ifs <;> rfl

theorem scoringHit_dancers (e : Env) (i j : Nat) (r : Record) (d : Dancer) (g : Game) :
    (scoringHit e i j r d g).dancers
      = g.dancers.set j (d.returnToDancing e g.frameCount (e.rand g.rng) (e.rand (g.rng + 1))) := by
  simp only [scoringHit, trackMilestones_dancers]
  split_ifs <;> rfl

/-- The inner loop skips the indices whose pair is a pass-through. -/
theorem collideRecord_skip (e : Env) (i : Nat) (g : Game) (m : Nat) :
    ∀ n, m ≤ n → (∀ k, m ≤ k → k < n → collidePair e i k g = (g, false)) →
      collideRecord e i n g = collideRecord e i m g := by
  intro n
  induction n with
  | zero => intro hm _; simp at hm; subst hm; rfl
  | succ n ih =>
    intro hm h
    rcases Nat.lt_or_ge m (n + 1) with hlt | hge
    · have hmn : m ≤ n := Nat.lt_succ_iff.mp hlt
      rw [collideRecord, h n hmn (Nat.lt_succ_self n)]
      simp only [Bool.false_eq_true, if_false]
      exact ih hmn (fun k hk1 hk2 => h k hk1 (Nat.lt_succ_of_lt hk2))
    · have : m = n + 1 := Nat.le_antisymm hm hge
      subst this; rfl

theorem collidePair_pass (e : Env) (i k : Nat) (g : Game) (r : Record) (d : Dancer)
    (hr : g.records[i]? = some r) (hty : r.type ≠ .wristband) (hd : g.dancers[k]? = some d)
    (h : ¬ (hitTest r d = true ∧ (d.state = .stopping ∨ d.state = .leaving))) :
    collidePair e i k g = (g, false) := by
  unfold collidePair
  rw [hr, hd]
  dsimp only
  by_cases hh : hitTest r d = true
  · have hs : ¬ (d.state = .leaving ∨ d.state = .stopping) := fun hs => h ⟨hh, hs.symm⟩
    rw [if_pos hh, if_neg hty, if_neg hs]
  · rw [if_neg hh]

theorem collidePair_hit (e : Env) (i j : Nat) (g : Game) (r : Record) (d : Dancer)
    (hr : g.records[i]? = some r) (hty : r.type ≠ .wristband) (hd : g.dancers[j]? = some d)
    (hstate : d.state = .stopping ∨ d.state = .leaving) (hhit : hitTest r d = true) :
    collidePair e i j g = (scoringHit e i j r d g, true) := by
  unfold collidePair
  rw [hr, hd]
  dsimp only
  rw [if_pos hhit, if_neg hty, if_pos hstate.symm]

theorem collideRecord_hit (e : Env) (g : Game) (i j : Nat) (r : Record) (d : Dancer)
    (hr : g.records[i]? = some r) (hty : r.type ≠ .wristband)
    (hd : g.dancers[j]? = some d)
    (hstate : d.state = .stopping ∨ d.state = .leaving)
    (hhit : hitTest r d = true)
    (hfirst : ∀ k d', j < k → g.dancers[k]? = some d' →
        ¬ (hitTest r d' = true ∧ (d'.state = .stopping ∨ d'.state = .leaving))) :
    collideRecord e i g.dancers.length g = scoringHit e i j r d g := by
  have hj : j < g.dancers.length := by
    rcases List.getElem?_eq_some.mp hd with ⟨h, -⟩
    exact h
  rw [collideRecord_skip e i g (j + 1) g.dancers.length hj]
  · rw [collideRecord, collidePair_hit e i j g r d hr hty hd hstate hhit]
    rfl
  · intro k hk1 hk2
    have hk : g.dancers[k]? = some (g.dancers[k]) := List.getElem?_eq_getElem hk2
    exact collidePair_pass e i k g r _ hr hty hk (hfirst k _ hk1 hk)

/-- C1: in the collision pass, for a projectile `records[i]` that is not a
wristband and the first dancer `dancers[j]` the inner loop finds (the highest
index) that is `stopping` or `leaving` and within hit distance, processing
the projectile sets that dancer to `dancing` with its home position at the
position it had when hit, raises the score by exactly 1 and removes exactly
`records[i]` from the records list. -/
theorem collision_first_hit_saves_dancer (e : Env) (g : Game) (i j : Nat) (r : Record)
    (d : Dancer)
    (hr : g.records[i]? = some r) (hty : r.type ≠ .wristband)
    (hd : g.dancers[j]? = some d)
    (hstate : d.state = .stopping ∨ d.state = .leaving)
    (hhit : hitTest r d = true)
    (hfirst : ∀ k d', j < k → g.dancers[k]? = some d' →
        ¬ (hitTest r d' = true ∧ (d'.state = .stopping ∨ d'.state = .leaving))) :
    ∃ d1 : Dancer,
      (collideRecord e i g.dancers.length g).dancers = g.dancers.set j d1 ∧
      d1.state = .dancing ∧ d1.originalX = d.x ∧ d1.originalY = d.y ∧
      (collideRecord e i g.dancers.length g).score = g.score + 1 ∧
      (collideRecord e i g.dancers.length g).records = g.records.eraseIdx i := by
  rw [collideRecord_hit e g i j r d hr hty hd hstate hhit hfirst]
  exact ⟨_, scoringHit_dancers e i j r d g, rfl, rfl, rfl, scoringHit_score e i j r d g,
    scoringHit_records e i j r d g⟩

theorem collideRecord_noop (e : Env) (i : Nat) (g : Game) :
    ∀ n, (∀ k, k < n → collidePair e i k g = (g, false)) → collideRecord e i n g = g := by
  intro n h
  rw [collideRecord_skip e i g 0 n (Nat.zero_le n) (fun k _ hk => h k hk)]
  rfl

theorem collisionLoop_noop (e : Env) (g : Game) :
    ∀ m, (∀ i, i < m → collideRecord e i g.dancers.length g = g) → collisionLoop e m g = g := by
  intro m
  induction m with
  | zero => intro _; rfl
  | succ m ih =>
    intro h
    rw [collisionLoop, h m (Nat.lt_succ_self m)]
    exact ih (fun i hi => h i (Nat.lt_succ_of_lt hi))

theorem collisionLoop_skip (e : Env) (g : Game) (m : Nat) :
    ∀ n, m ≤ n → (∀ i, m ≤ i → i < n → collideRecord e i g.dancers.length g = g) →
      collisionLoop e n g = collisionLoop e m g := by
  intro n
  induction n with
  | zero => intro hm _; simp at hm; subst hm; rfl
  | succ n ih =>
    intro hm h
    rcases Nat.lt_or_ge m (n + 1) with hlt | hge
    · have hmn : m ≤ n := Nat.lt_succ_iff.mp hlt
      rw [collisionLoop, h n hmn (Nat.lt_succ_self n)]
      exact ih hmn (fun k hk1 hk2 => h k hk1 (Nat.lt_succ_of_lt hk2))
    · have : m = n + 1 := Nat.le_antisymm hm hge
      subst this; rfl

/-- C3: no double-scoring.  If the records (none a wristband) `records[i1]`
and `records[i2]`, `i1 < i2`, are both within hit distance of the `stopping`
or `leaving` dancer `dancers[j]`, `i2` being the last record that is, and no
record is within hit distance of another `stopping` or `leaving` dancer, then
the collision pass processes exactly one hit: the score rises by exactly 1,
exactly the record at `i2` is removed, the record at `i1` stays in the list,
and the dancer is `dancing` afterwards. -/
theorem no_double_scoring (e : Env) (g : Game) (j i1 i2 : Nat) (d : Dancer) (r1 r2 : Record)
    (hd : g.dancers[j]? = some d)
    (hstate : d.state = .stopping ∨ d.state = .leaving)
    (hty : ∀ r ∈ g.records, r.type ≠ .wristband)
    (hother : ∀ r ∈ g.records, ∀ k d', k ≠ j → g.dancers[k]? = some d' →
        ¬ (hitTest r d' = true ∧ (d'.state = .stopping ∨ d'.state = .leaving)))
    (h12 : i1 < i2)
    (hr1 : g.records[i1]? = some r1) (hr2 : g.records[i2]? = some r2)
    (hhit1 : hitTest r1 d = true) (hhit2 : hitTest r2 d = true)
    (hlast : ∀ k r, i2 < k → g.records[k]? = some r → hitTest r d = false) :
    (collisionPass e g).score = g.score + 1 ∧
    (collisionPass e g).records = g.records.eraseIdx i2 ∧
    (collisionPass e g).records.length + 1 = g.records.length ∧
    (collisionPass e g).records[i1]? = some r1 ∧
    ∃ d1 : Dancer, (collisionPass e g).dancers = g.dancers.set j d1 ∧ d1.state = .dancing := by
  have hi2 : i2 < g.records.length := (List.getElem?_eq_some.mp hr2).1
  -- the records after `i2` pass through everything
  have hphase1 : collisionLoop e g.records.length g = collisionLoop e (i2 + 1) g := by
    apply collisionLoop_skip e g (i2 + 1) g.records.length hi2
    intro i hi1 hi3
    have hri : g.records[i]? = some (g.records[i]) := List.getElem?_eq_getElem hi3
    have hmem : g.records[i] ∈ g.records := List.getElem_mem hi3
    apply collideRecord_noop
    intro k hk
    have hdk : g.dancers[k]? = some (g.dancers[k]) := List.getElem?_eq_getElem hk
    apply collidePair_pass e i k g _ _ hri (hty _ hmem) hdk
    by_cases hkj : k = j
    · subst hkj
      intro hcon
      have := hlast i _ hi1 hri
      rw [hdk] at hd
      cases hd
      rw [this] at hcon
      exact absurd hcon.1 (by simp)
    · exact hother _ hmem k _ hkj hdk
  -- the record at `i2` hits the dancer
  have hmem2 : r2 ∈ g.records := List.getElem?_mem hr2
  have hphase2 : collideRecord e i2 g.dancers.length g = scoringHit e i2 j r2 d g := by
    apply collideRecord_hit e g i2 j r2 d hr2 (hty _ hmem2) hd hstate hhit2
    intro k d' hk hd'
    exact hother _ hmem2 k d' (Nat.ne_of_gt hk) hd'
  -- the records before `i2` pass through the now dancing dancer
  have hphase3 : collisionLoop e i2 (scoringHit e i2 j r2 d g) = scoringHit e i2 j r2 d g := by
    apply collisionLoop_noop
    intro i hi
    have hrec : (scoringHit e i2 j r2 d g).records[i]? = g.records[i]? := by
      rw [scoringHit_records, List.getElem?_eraseIdx, if_pos hi]
    have hil : i < g.records.length := Nat.lt_trans hi hi2
    have hri : g.records[i]? = some (g.records[i]) := List.getElem?_eq_getElem hil
    have hmem : g.records[i] ∈ g.records := List.getElem_mem hil
    apply collideRecord_noop
    intro k hk
    rw [scoringHit_dancers, List.length_set] at hk
    have hj : j < g.dancers.length := (List.getElem?_eq_some.mp hd).1
    by_cases hkj : k = j
    · subst hkj
      apply collidePair_pass e i k _ (g.records[i])
        (d.returnToDancing e g.frameCount (e.rand g.rng) (e.rand (g.rng + 1)))
        (by rw [hrec, hri]) (hty _ hmem)
      · rw [scoringHit_dancers, List.getElem?_set_self hj]
      · intro hcon
        rcases hcon.2 with h | h <;> simp [Dancer.returnToDancing] at h
    · have hdk : g.dancers[k]? = some (g.dancers[k]) := List.getElem?_eq_getElem hk
      apply collidePair_pass e i k _ (g.records[i]) (g.dancers[k])
        (by rw [hrec, hri]) (hty _ hmem)
      · rw [scoringHit_dancers, List.getElem?_set_ne (Ne.symm hkj), hdk]
      · exact hother _ hmem k _ hkj hdk
  have hpass : collisionPass e g = scoringHit e i2 j r2 d g := by
    unfold collisionPass
    rw [hphase1, collisionLoop, hphase2, hphase3]
  rw [hpass]
  refine ⟨scoringHit_score e i2 j r2 d g, scoringHit_records e i2 j r2 d g, ?_, ?_,
    ⟨_, scoringHit_dancers e i2 j r2 d g, rfl⟩⟩
  · rw [scoringHit_records, List.length_eraseIdx, if_pos hi2]
    omega
  · rw [scoringHit_records, List.getElem?_eraseIdx, if_pos h12, hr1]

/-- C2: pass-through.  For a projectile that is not a wristband and a
`dancing` dancer within hit distance, the body of the collision loop for that
pair returns the game unchanged (score, records list, the dancer and
everything else) and does not leave the inner loop. -/
theorem dancing_dancer_is_pass_through (e : Env) (g : Game) (i j : Nat) (r : Record)
    (d : Dancer)
    (hr : g.records[i]? = some r) (hty : r.type ≠ .wristband)
    (hd : g.dancers[j]? = some d)
    (hhit : hitTest r d = true) (hstate : d.state = .dancing) :
    collidePair e i j g = (g, false) ∧
    (collidePair e i j g).1.score = g.score ∧
    (collidePair e i j g).1.records = g.records ∧
    (collidePair e i j g).1.dancers[j]? = some d := by
  have h : collidePair e i j g = (g, false) := by
    apply collidePair_pass e i j g r d hr hty hd
    intro hcon
    rcases hcon.2 with h | h <;> rw [hstate] at h <;> cases h
  have _ := hhit
  rw [h]
  exact ⟨rfl, rfl, rfl, hd⟩

/-- Instance of C1: a party record 10 units from a `stopping` dancer. -/
theorem collision_first_hit_saves_dancer_witness :
    hitTest (sampleRecord 1 110 100 .party) (sampleDancer 0 100 100 .stopping) = true ∧
    ∃ d1 : Dancer,
      (collideRecord sampleEnv 0 1
        (sampleGame [sampleDancer 0 100 100 .stopping] [sampleRecord 1 110 100 .party])).dancers
        = [d1] ∧
      d1.state = .dancing ∧ d1.originalX = 100 ∧ d1.originalY = 100 ∧
      (collideRecord sampleEnv 0 1
        (sampleGame [sampleDancer 0 100 100 .stopping] [sampleRecord 1 110 100 .party])).score
        = 1 ∧
      (collideRecord sampleEnv 0 1
        (sampleGame [sampleDancer 0 100 100 .stopping] [sampleRecord 1 110 100 .party])).records
        = [] :=
  ⟨by decide!,
   collision_first_hit_saves_dancer sampleEnv
    (sampleGame [sampleDancer 0 100 100 .stopping] [sampleRecord 1 110 100 .party]) 0 0
    (sampleRecord 1 110 100 .party) (sampleDancer 0 100 100 .stopping)
    rfl (by decide) rfl (Or.inl rfl) (by decide!)
    (by
      intro k d' hk h
      cases k with
      | zero => omega
      | succ k => simp [sampleGame] at h)⟩

/-- Instance of C2: a party record 10 units from a `dancing` dancer. -/
theorem dancing_dancer_is_pass_through_witness :
    hitTest (sampleRecord 1 110 100 .party) (sampleDancer 0 100 100 .dancing) = true ∧
    collidePair sampleEnv 0 0
      (sampleGame [sampleDancer 0 100 100 .dancing] [sampleRecord 1 110 100 .party])
      = (sampleGame [sampleDancer 0 100 100 .dancing] [sampleRecord 1 110 100 .party], false) :=
  ⟨by decide!,
   (dancing_dancer_is_pass_through sampleEnv
    (sampleGame [sampleDancer 0 100 100 .dancing] [sampleRecord 1 110 100 .party]) 0 0
    (sampleRecord 1 110 100 .party) (sampleDancer 0 100 100 .dancing)
    rfl (by decide) rfl (by decide!) rfl).1⟩

/-- Instance of C3: two party records 10 and 5 units from one `stopping`
dancer. -/
theorem no_double_scoring_witness :
    (collisionPass sampleEnv (sampleGame [sampleDancer 0 100 100 .stopping]
        [sampleRecord 1 110 100 .party, sampleRecord 2 105 100 .party])).score = 1 ∧
    (collisionPass sampleEnv (sampleGame [sampleDancer 0 100 100 .stopping]
        [sampleRecord 1 110 100 .party, sampleRecord 2 105 100 .party])).records
      = [sampleRecord 1 110 100 .party] :=
  have h := no_double_scoring sampleEnv
    (sampleGame [sampleDancer 0 100 100 .stopping]
      [sampleRecord 1 110 100 .party, sampleRecord 2 105 100 .party]) 0 0 1
    (sampleDancer 0 100 100 .stopping) (sampleRecord 1 110 100 .party)
    (sampleRecord 2 105 100 .party)
    rfl (Or.inl rfl)
    (by intro r hr; simp [sampleGame] at hr; rcases hr with h | h <;> subst h <;> decide)
    (by
      intro r _ k d' hk h
      cases k with
      | zero => exact absurd rfl hk
      | succ k => simp [sampleGame] at h)
    (by decide) rfl rfl (by decide!) (by decide!)
    (by
      intro k r hk h
      match k, hk with
      | k + 2, _ => simp [sampleGame] at h)
  ⟨h.1, h.2.1⟩

/-! ## Frame lemmas -/

theorem Calm.refl (g : Game) : Calm g g :=
  ⟨Nat.le_refl _, rfl, rfl, rfl, rfl, rfl, id⟩

theorem Calm.trans {a b c : Game} (h1 : Calm a b) (h2 : Calm b c) : Calm a c :=
  ⟨Nat.le_trans h1.score h2.score, h2.gameState.trans h1.gameState,
   h2.autopilotMode.trans h1.autopilotMode, h2.dancersLeft.trans h1.dancersLeft,
   h2.phase.trans h1.phase, h2.paused.trans h1.paused, fun h => h2.exempt (h1.exempt h)⟩

theorem Calm.of_floor {g g' : Game} (h : g'.floor = g.floor) : Calm g g' := by
  simp only [Game.floor, Prod.mk.injEq] at h
  obtain ⟨h1, h2, h3, h4, h5, h6⟩ := h
  refine ⟨Nat.le_of_eq h2.symm, h3, h4, h5, h6, by rw [h1], ?_⟩
  intro hinv
  unfold ExemptInv
  rw [h1]
  exact hinv

theorem Tame.idle (g : Game) : Tame g g :=
  ⟨Nat.le_refl _, Nat.le_refl _, id, id, id⟩

theorem Tame.followedBy {a b c : Game} (h1 : Tame a b) (h2 : Tame b c) : Tame a c :=
  ⟨Nat.le_trans h1.score h2.score, Nat.le_trans h1.dancersLeft h2.dancersLeft,
   fun h => h2.pauseLock (h1.pauseLock h), fun h => h2.exempt (h1.exempt h),
   fun h => h2.gameOver (h1.gameOver h)⟩

theorem Calm.tame {g g' : Game} (h : Calm g g') : Tame g g' := by
  refine ⟨h.score, Nat.le_of_eq h.dancersLeft.symm, ?_, h.exempt, ?_⟩
  · intro hp
    unfold PauseLockInv at *
    rw [h.paused, h.phase]
    exact hp
  · intro hg
    rw [h.gameState, h.autopilotMode]
    exact hg

theorem updateStrobeEffect_floor (g : Game) : (updateStrobeEffect g).floor = g.floor := by
  unfold updateStrobeEffect triggerStrobeEffect
  dsimp only
  split_ifs <;> rfl

theorem strobeTrigger_floor (e : Env) (g : Game) : (strobeTrigger e g).floor = g.floor := by
  unfold strobeTrigger playScore2Sound triggerStrobeEffect
  dsimp only
  split_ifs <;> rfl

theorem smokeAtFour_floor (e : Env) (g : Game) : (smokeAtFour e g).floor = g.floor := by
  unfold smokeAtFour playScore4Sound triggerSmokeEffect
  dsimp only
  split_ifs <;> rfl

theorem intermittentSmoke_floor (e : Env) (g : Game) :
    (intermittentSmoke e g).floor = g.floor := by
  unfold intermittentSmoke triggerSmokeEffect
  dsimp only
  split_ifs <;> rfl

theorem discoBallTrigger_floor (e : Env) (g : Game) :
    (discoBallTrigger e g).floor = g.floor := by
  unfold discoBallTrigger triggerDiscoBallEffect
  dsimp only
  split_ifs <;> rfl

theorem smokeTimerStep_floor (g : Game) : (smokeTimerStep g).floor = g.floor := by
  unfold smokeTimerStep
  dsimp only
  split_ifs <;> rfl

theorem updateDiscoBall_floor (g : Game) : (updateDiscoBall g).floor = g.floor := by
  unfold updateDiscoBall startZoomEffect
  dsimp only
  split_ifs <;> rfl

theorem updateZoomEffect_floor (e : Env) (g : Game) :
    (updateZoomEffect e g).floor = g.floor := by
  unfold updateZoomEffect playPartyStartedVideo enableDiscoBallLights dimBackgroundMusic
  dsimp only
  split_ifs
  all_goals rfl

theorem updateWristbandZoom_floor (g : Game) : (updateWristbandZoom g).floor = g.floor := by
  unfold updateWristbandZoom
  split <;> (try dsimp only) <;> (try split_ifs) <;> rfl

theorem triggerSmokeEffect_floor (e : Env) (g : Game) :
    (triggerSmokeEffect e g).floor = g.floor := by
  unfold triggerSmokeEffect
  dsimp only
  split_ifs <;> rfl

theorem recordIter_floor (e : Env) (i : Nat) (g : Game) : (recordIter e i g).floor = g.floor := by
  unfold recordIter
  split <;> (try dsimp only) <;> (try split_ifs) <;> rfl

theorem recordLoop_floor (e : Env) : ∀ n g, (recordLoop e n g).floor = g.floor := by
  intro n
  induction n with
  | zero => intro g; rfl
  | succ n ih => intro g; rw [recordLoop, ih, recordIter_floor]

theorem clickThrow_floor (e : Env) (x y : ℚ) (g : Game) : (clickThrow e x y g).floor = g.floor := by
  unfold clickThrow spawnRecord
  dsimp only
  split_ifs <;> rfl

theorem createEmojiFromSwipe_floor (e : Env) (a b c d : ℚ) (g : Game) :
    (createEmojiFromSwipe e a b c d g).floor = g.floor := by
  unfold createEmojiFromSwipe spawnRecord
  dsimp only
  split_ifs <;> rfl

theorem touchEnded_floor (e : Env) (x y : ℚ) (g : Game) : (touchEnded e x y g).floor = g.floor := by
  unfold touchEnded
  dsimp only
  split_ifs
  · exact createEmojiFromSwipe_floor e _ _ _ _ g
  · rfl
  · rfl

theorem score5Ended_floor (g : Game) : (score5Ended g).floor = g.floor := rfl

theorem score10Ended_floor (e : Env) (g : Game) : (score10Ended e g).floor = g.floor := by
  unfold score10Ended
  exact (triggerSmokeEffect_floor e _)


/-! ## Counting pause locks -/

theorem pausedCount_cons (d : Dancer) (l : List Dancer) :
    pausedCount (d :: l) = pausedCount l + (if d.isPausedForZoom = true then 1 else 0) := by
  unfold pausedCount
  rw [List.countP_cons]

theorem pausedCount_set_same (a b : Dancer) (hp : a.isPausedForZoom = b.isPausedForZoom) :
    ∀ (l : List Dancer) (i : Nat), l[i]? = some b → pausedCount (l.set i a) = pausedCount l := by
  intro l
  induction l with
  | nil => intro i h; simp at h
  | cons x l ih =>
    intro i h
    cases i with
    | zero =>
      simp only [List.getElem?_cons_zero, Option.some.injEq] at h
      subst h
      rw [List.set_cons_zero, pausedCount_cons, pausedCount_cons, hp]
    | succ i =>
      simp only [List.getElem?_cons_succ] at h
      rw [List.set_cons_succ, pausedCount_cons, pausedCount_cons, ih i h]

theorem pausedCount_set_lock (a b : Dancer) (hb : b.isPausedForZoom = false)
    (ha : a.isPausedForZoom = true) :
    ∀ (l : List Dancer) (i : Nat), l[i]? = some b →
      pausedCount (l.set i a) = pausedCount l + 1 := by
  intro l
  induction l with
  | nil => intro i h; simp at h
  | cons x l ih =>
    intro i h
    cases i with
    | zero =>
      simp only [List.getElem?_cons_zero, Option.some.injEq] at h
      subst h
      rw [List.set_cons_zero, pausedCount_cons, pausedCount_cons, ha, hb]
      simp
    | succ i =>
      simp only [List.getElem?_cons_succ] at h
      rw [List.set_cons_succ, pausedCount_cons, pausedCount_cons, ih i h]
      omega

theorem pausedCount_eraseIdx (b : Dancer) (hb : b.isPausedForZoom = true) :
    ∀ (l : List Dancer) (i : Nat), l[i]? = some b →
      pausedCount (l.eraseIdx i) + 1 = pausedCount l := by
  intro l
  induction l with
  | nil => intro i h; simp at h
  | cons x l ih =>
    intro i h
    cases i with
    | zero =>
      simp only [List.getElem?_cons_zero, Option.some.injEq] at h
      subst h
      rw [List.eraseIdx_cons_zero, pausedCount_cons, hb]
      simp
    | succ i =>
      simp only [List.getElem?_cons_succ] at h
      rw [List.eraseIdx_cons_succ, pausedCount_cons, pausedCount_cons, ← ih i h]
      omega

theorem pausedCount_append (l1 l2 : List Dancer) :
    pausedCount (l1 ++ l2) = pausedCount l1 + pausedCount l2 := by
  unfold pausedCount
  rw [List.countP_append]

theorem pausedCount_map (f : Dancer → Dancer)
    (hf : ∀ d, (f d).isPausedForZoom = d.isPausedForZoom) (l : List Dancer) :
    pausedCount (l.map f) = pausedCount l := by
  induction l with
  | nil => rfl
  | cons x l ih => rw [List.map_cons, pausedCount_cons, pausedCount_cons, ih, hf]

theorem pausedCount_modifyAt (f : Dancer → Dancer)
    (hf : ∀ d, (f d).isPausedForZoom = d.isPausedForZoom) (i : Nat) (l : List Dancer) :
    pausedCount (modifyAt f i l) = pausedCount l := by
  unfold modifyAt
  split
  · rename_i a ha
    exact pausedCount_set_same (f a) a (hf a) l i ha
  · rfl

/-! ## Dancer.update -/

theorem Dancer.update_flags (e : Env) (g : Game) (d : Dancer) :
    (d.update e g).1.isPausedForZoom = d.isPausedForZoom ∧
    (d.update e g).1.isSpecialGirl = d.isSpecialGirl ∧
    (d.update e g).1.hasWhiteAura = d.hasWhiteAura := by
  unfold Dancer.update Dancer.returnToDancing
  dsimp only
  repeat' split
  all_goals exact ⟨rfl, rfl, rfl⟩

theorem Dancer.update_state (e : Env) (g : Game) (d : Dancer) :
    ((d.update e g).1.state = .stopping → d.state = .stopping) ∧
    ((d.update e g).1.state = .leaving → d.state = .stopping ∨ d.state = .leaving) := by
  unfold Dancer.update Dancer.returnToDancing
  dsimp only
  repeat' split
  all_goals simp_all

theorem Dancer.update_floor (e : Env) (g : Game) (d : Dancer) :
    (d.update e g).2.floor = g.floor := by
  unfold Dancer.update Dancer.returnToDancing
  dsimp only
  repeat' split
  all_goals rfl


/-! ## The two invariants under list updates -/

theorem respects_set {l : List Dancer} {i : Nat} {a : Dancer}
    (hl : ∀ d ∈ l, d.respectsExemption) (ha : a.respectsExemption) :
    ∀ d ∈ l.set i a, d.respectsExemption := by
  intro d hd
  rcases List.mem_or_eq_of_mem_set hd with h | h
  · exact hl d h
  · rw [h]; exact ha

theorem respects_modifyAt {l : List Dancer} {i : Nat} {f : Dancer → Dancer}
    (hl : ∀ d ∈ l, d.respectsExemption)
    (hf : ∀ d, l[i]? = some d → (f d).respectsExemption) :
    ∀ d ∈ modifyAt f i l, d.respectsExemption := by
  unfold modifyAt
  split
  · rename_i a ha
    exact respects_set hl (hf a ha)
  · exact hl

theorem respects_of_state {d : Dancer} (h1 : d.state ≠ .stopping) (h2 : d.state ≠ .leaving) :
    d.respectsExemption := fun _ => ⟨h1, h2⟩

theorem respects_of_not_exempt {d : Dancer} (h : d.exempt = false) : d.respectsExemption := by
  intro h'
  rw [h] at h'
  cases h'

theorem Dancer.update_respects (e : Env) (g : Game) (d : Dancer) (h : d.respectsExemption) :
    (d.update e g).1.respectsExemption := by
  obtain ⟨-, h2, h3⟩ := Dancer.update_flags e g d
  obtain ⟨h4, h5⟩ := Dancer.update_state e g d
  intro hex
  have hex' : d.exempt = true := by
    unfold Dancer.exempt at *
    rw [← h2, ← h3]
    exact hex
  obtain ⟨h6, h7⟩ := h hex'
  exact ⟨fun hs => h6 (h4 hs), fun hs => (h5 hs).elim h6 h7⟩

/-! ## The dancer loop -/

theorem triggerDancerLeaveZoom_fields (e : Env) (g : Game) :
    (triggerDancerLeaveZoom e g).dancers = g.dancers ∧
    (triggerDancerLeaveZoom e g).score = g.score ∧
    (triggerDancerLeaveZoom e g).gameState = g.gameState ∧
    (triggerDancerLeaveZoom e g).autopilotMode = g.autopilotMode ∧
    (triggerDancerLeaveZoom e g).dancersLeft = g.dancersLeft ∧
    (triggerDancerLeaveZoom e g).dancerLeavePhase = .zooming_in := by
  unfold triggerDancerLeaveZoom
  dsimp only
  split_ifs <;> exact ⟨rfl, rfl, rfl, rfl, rfl, rfl⟩

theorem dancerIter_core (e : Env) (i : Nat) (g : Game) :
    (dancerIter e i g).score = g.score ∧ (dancerIter e i g).gameState = g.gameState ∧
    (dancerIter e i g).autopilotMode = g.autopilotMode ∧
    (dancerIter e i g).dancersLeft = g.dancersLeft := by
  unfold dancerIter
  cases hd : g.dancers[i]? with
  | none => exact ⟨rfl, rfl, rfl, rfl⟩
  | some d =>
    have hf := Dancer.update_floor e g d
    simp only [Game.floor, Prod.mk.injEq] at hf
    obtain ⟨-, f2, f3, f4, f5, -⟩ := hf
    obtain ⟨-, t2, t3, t4, t5, -⟩ := triggerDancerLeaveZoom_fields e
      { (d.update e g).2 with dancers := (d.update e g).2.dancers.set i (d.update e g).1 }
    dsimp only
    split_ifs
    · exact ⟨t2.trans f2, t3.trans f3, t4.trans f4, t5.trans f5⟩
    · exact ⟨f2, f3, f4, f5⟩
    · exact ⟨f2, f3, f4, f5⟩

theorem dancerIter_pauseLock (e : Env) (i : Nat) (g : Game) (h : PauseLockInv g) :
    PauseLockInv (dancerIter e i g) := by
  unfold dancerIter
  cases hd : g.dancers[i]? with
  | none => exact h
  | some d =>
    have hf := Dancer.update_floor e g d
    simp only [Game.floor, Prod.mk.injEq] at hf
    obtain ⟨f1, -, -, -, -, f6⟩ := hf
    obtain ⟨hflag, -, -⟩ := Dancer.update_flags e g d
    have hd1 : (d.update e g).2.dancers[i]? = some d := by rw [f1]; exact hd
    have hcount : pausedCount ((d.update e g).2.dancers.set i (d.update e g).1)
        = pausedCount g.dancers := by
      rw [pausedCount_set_same _ d hflag _ i hd1, f1]
    obtain ⟨t1, -, -, -, -, t6⟩ := triggerDancerLeaveZoom_fields e
      { (d.update e g).2 with dancers := (d.update e g).2.dancers.set i (d.update e g).1 }
    dsimp only
    split_ifs with hc hphase
    · -- the leave cutscene starts and this dancer takes the pause lock
      have hzero : pausedCount g.dancers = 0 := h.2 (f6 ▸ hphase)
      have hi : i < (d.update e g).2.dancers.length := (List.getElem?_eq_some.mp hd1).1
      have hcount2 : pausedCount
          ((triggerDancerLeaveZoom e
            { (d.update e g).2 with
              dancers := (d.update e g).2.dancers.set i (d.update e g).1 }).dancers.set i
            { (d.update e g).1 with isPausedForZoom := true }) = 1 := by
        rw [t1]
        rw [pausedCount_set_lock { (d.update e g).1 with isPausedForZoom := true }
          (d.update e g).1 hc.2.1 rfl _ i
          (by rw [List.getElem?_set_self hi])]
        show pausedCount ((d.update e g).2.dancers.set i (d.update e g).1) + 1 = 1
        rw [hcount, hzero]
      refine ⟨Nat.le_of_eq hcount2, fun hin => ?_⟩
      have : (triggerDancerLeaveZoom e
            { (d.update e g).2 with
              dancers := (d.update e g).2.dancers.set i (d.update e g).1 }).dancerLeavePhase
          = .inactive := hin
      rw [t6] at this
      cases this
    · refine ⟨?_, fun hin => ?_⟩
      · show pausedCount ((d.update e g).2.dancers.set i (d.update e g).1) ≤ 1
        rw [hcount]; exact h.1
      · show pausedCount ((d.update e g).2.dancers.set i (d.update e g).1) = 0
        rw [hcount]; exact h.2 (f6 ▸ hin)
    · refine ⟨?_, fun hin => ?_⟩
      · show pausedCount ((d.update e g).2.dancers.set i (d.update e g).1) ≤ 1
        rw [hcount]; exact h.1
      · show pausedCount ((d.update e g).2.dancers.set i (d.update e g).1) = 0
        rw [hcount]; exact h.2 (f6 ▸ hin)

theorem dancerIter_exempt (e : Env) (i : Nat) (g : Game) (h : ExemptInv g) :
    ExemptInv (dancerIter e i g) := by
  unfold dancerIter
  cases hd : g.dancers[i]? with
  | none => exact h
  | some d =>
    have hf := Dancer.update_floor e g d
    simp only [Game.floor, Prod.mk.injEq] at hf
    obtain ⟨f1, -, -, -, -, -⟩ := hf
    have hdm : d ∈ g.dancers := List.getElem?_mem hd
    have hr : (d.update e g).1.respectsExemption := Dancer.update_respects e g d (h d hdm)
    have hl : ∀ x ∈ (d.update e g).2.dancers, x.respectsExemption := by rw [f1]; exact h
    obtain ⟨t1, -, -, -, -, -⟩ := triggerDancerLeaveZoom_fields e
      { (d.update e g).2 with dancers := (d.update e g).2.dancers.set i (d.update e g).1 }
    dsimp only
    split_ifs
    · unfold ExemptInv
      dsimp only
      rw [t1]
      exact respects_set (respects_set hl hr) hr
    · exact respects_set hl hr
    · exact respects_set hl hr

theorem dancerIter_tame (e : Env) (i : Nat) (g : Game) : Tame g (dancerIter e i g) := by
  obtain ⟨h1, h2, h3, h4⟩ := dancerIter_core e i g
  refine ⟨Nat.le_of_eq h1.symm, Nat.le_of_eq h4.symm, dancerIter_pauseLock e i g,
    dancerIter_exempt e i g, fun hg => ?_⟩
  rw [h2, h3]; exact hg

theorem dancerLoop_tame (e : Env) : ∀ n g, Tame g (dancerLoop e n g) := by
  intro n
  induction n with
  | zero => intro g; exact Tame.idle g
  | succ n ih => intro g; exact (dancerIter_tame e n g).followedBy (ih _)


/-! ## The collision pass -/

theorem trackMilestones_floor (g : Game) : (trackMilestones g).floor = g.floor := by
  unfold trackMilestones
  dsimp only
  split_ifs <;> rfl

theorem scoringHit_calm (e : Env) (i j : Nat) (r : Record) (d : Dancer) (g : Game)
    (hd : g.dancers[j]? = some d) : Calm g (scoringHit e i j r d g) := by
  have hdan : (scoringHit e i j r d g).dancers
      = g.dancers.set j (d.returnToDancing e g.frameCount (e.rand g.rng) (e.rand (g.rng + 1))) := by
    unfold scoringHit
    dsimp only
    split_ifs <;> exact congrArg (fun p => p.1) (trackMilestones_floor _)
  have hrest : (scoringHit e i j r d g).score = g.score + 1 ∧
      (scoringHit e i j r d g).gameState = g.gameState ∧
      (scoringHit e i j r d g).autopilotMode = g.autopilotMode ∧
      (scoringHit e i j r d g).dancersLeft = g.dancersLeft ∧
      (scoringHit e i j r d g).dancerLeavePhase = g.dancerLeavePhase := by
    unfold scoringHit
    dsimp only
    split_ifs
    all_goals
      refine ⟨congrArg (fun p => p.2.1) (trackMilestones_floor _),
        congrArg (fun p => p.2.2.1) (trackMilestones_floor _),
        congrArg (fun p => p.2.2.2.1) (trackMilestones_floor _),
        congrArg (fun p => p.2.2.2.2.1) (trackMilestones_floor _),
        congrArg (fun p => p.2.2.2.2.2) (trackMilestones_floor _)⟩
  obtain ⟨h1, h2, h3, h4, h5⟩ := hrest
  refine ⟨by rw [h1]; exact Nat.le_succ _, h2, h3, h4, h5, ?_, ?_⟩
  · rw [hdan]
    exact pausedCount_set_same
      (d.returnToDancing e g.frameCount (e.rand g.rng) (e.rand (g.rng + 1))) d rfl _ j hd
  · intro hinv
    unfold ExemptInv
    rw [hdan]
    exact respects_set hinv (respects_of_state (by simp [Dancer.returnToDancing])
      (by simp [Dancer.returnToDancing]))

theorem wristbandHit_calm (e : Env) (i j : Nat) (r : Record) (d : Dancer) (g : Game)
    (hd : g.dancers[j]? = some d) : Calm g (wristbandHit e i j r d g) := by
  have hall : (wristbandHit e i j r d g).dancers = g.dancers.set j d.startGoingToDJBooth ∧
      (wristbandHit e i j r d g).score = g.score ∧
      (wristbandHit e i j r d g).gameState = g.gameState ∧
      (wristbandHit e i j r d g).autopilotMode = g.autopilotMode ∧
      (wristbandHit e i j r d g).dancersLeft = g.dancersLeft ∧
      (wristbandHit e i j r d g).dancerLeavePhase = g.dancerLeavePhase := by
    unfold wristbandHit
    dsimp only
    split_ifs <;> exact ⟨rfl, rfl, rfl, rfl, rfl, rfl⟩
  obtain ⟨h0, h1, h2, h3, h4, h5⟩ := hall
  refine ⟨Nat.le_of_eq h1.symm, h2, h3, h4, h5, ?_, ?_⟩
  · rw [h0]
    exact pausedCount_set_same d.startGoingToDJBooth d rfl _ j hd
  · intro hinv
    unfold ExemptInv
    rw [h0]
    exact respects_set hinv (respects_of_state (by simp [Dancer.startGoingToDJBooth])
      (by simp [Dancer.startGoingToDJBooth]))

theorem collidePair_calm (e : Env) (i j : Nat) (g : Game) : Calm g (collidePair e i j g).1 := by
  unfold collidePair
  cases hr : g.records[i]? with
  | none => exact Calm.refl g
  | some r =>
    cases hd : g.dancers[j]? with
    | none => exact Calm.refl g
    | some d =>
      dsimp only
      split_ifs
      · exact wristbandHit_calm e i j r d g hd
      · exact Calm.refl g
      · exact scoringHit_calm e i j r d g hd
      · exact Calm.refl g
      · exact Calm.refl g

theorem collideRecord_calm (e : Env) (i : Nat) : ∀ n g, Calm g (collideRecord e i n g) := by
  intro n
  induction n with
  | zero => intro g; exact Calm.refl g
  | succ n ih =>
    intro g
    rw [collideRecord]
    split_ifs
    · exact collidePair_calm e i n g
    · exact (collidePair_calm e i n g).trans (ih _)

theorem collisionLoop_calm (e : Env) : ∀ n g, Calm g (collisionLoop e n g) := by
  intro n
  induction n with
  | zero => intro g; exact Calm.refl g
  | succ n ih => intro g; exact (collideRecord_calm e n _ g).trans (ih _)

theorem collisionPass_calm (e : Env) (g : Game) : Calm g (collisionPass e g) :=
  collisionLoop_calm e _ g


/-! ## The score-triggered blocks that rewrite dancers -/

theorem mem_indicesWhere {p : Dancer → Bool} {ds : List Dancer} {i : Nat}
    (h : i ∈ indicesWhere p ds) : ∃ d, ds[i]? = some d ∧ p d = true := by
  unfold indicesWhere at h
  rw [List.mem_filter] at h
  obtain ⟨-, h2⟩ := h
  cases hd : ds[i]? with
  | none => rw [hd] at h2; cases h2
  | some d => rw [hd] at h2; exact ⟨d, rfl, h2⟩

theorem selectWhiteAuraGirl_calm (e : Env) (g : Game) : Calm g (selectWhiteAuraGirl e g) := by
  unfold selectWhiteAuraGirl
  dsimp only
  split
  · split
    · rename_i i hi
      obtain ⟨d0, hd0, hp0⟩ := mem_indicesWhere (List.getElem?_mem hi)
      refine ⟨Nat.le_refl _, rfl, rfl, rfl, rfl, ?_, ?_⟩
      · exact pausedCount_modifyAt (giveWhiteAura e) (fun _ => rfl) i g.dancers
      · intro hinv
        refine respects_modifyAt hinv ?_
        intro d hd
        have hdd : d = d0 := Option.some.inj (hd.symm.trans hd0)
        subst hdd
        simp only [isDancingFemale, Bool.and_eq_true, decide_eq_true_eq] at hp0
        have hst : (giveWhiteAura e d).state = .dancing := hp0.2
        exact respects_of_state (by rw [hst]; simp) (by rw [hst]; simp)
    · exact Calm.of_floor rfl
  · exact Calm.refl g

theorem playGettingDownSound_floor (e : Env) (g : Game) :
    (playGettingDownSound e g).floor = g.floor := by
  unfold playGettingDownSound
  dsimp only
  split_ifs <;> rfl

theorem discoBallChange_calm (e : Env) (g : Game) : Calm g (discoBallChange e g) := by
  unfold discoBallChange
  split
  · have h1 : Calm g (playGettingDownSound e { g with discoBallChangedAt8 := true }) :=
      Calm.of_floor ((playGettingDownSound_floor e { g with discoBallChangedAt8 := true }).trans rfl)
    exact h1.trans (selectWhiteAuraGirl_calm e _)
  · exact Calm.refl g

theorem revertToDancing_respects (d : Dancer) : (revertToDancing d).respectsExemption := by
  unfold revertToDancing
  split
  · exact respects_of_state (by simp) (by simp)
  · rename_i h
    exact respects_of_state (fun hs => h (Or.inl hs)) (fun hs => h (Or.inr hs))

theorem revertToDancing_paused (d : Dancer) :
    (revertToDancing d).isPausedForZoom = d.isPausedForZoom := by
  unfold revertToDancing
  split <;> rfl

theorem targetWhiteAuraGirl_floor (g : Game) : (targetWhiteAuraGirl g).floor = g.floor := by
  unfold targetWhiteAuraGirl
  split <;> rfl

theorem wristbandTrigger_calm (e : Env) (g : Game) : Calm g (wristbandTrigger e g) := by
  unfold wristbandTrigger
  dsimp only
  have hf := targetWhiteAuraGirl_floor g
  simp only [Game.floor, Prod.mk.injEq] at hf
  obtain ⟨f1, f2, f3, f4, f5, f6⟩ := hf
  split
  · split
    all_goals
      refine ⟨Nat.le_of_eq f2.symm, f3, f4, f5, f6, ?_, ?_⟩
      · show pausedCount ((targetWhiteAuraGirl g).dancers.map revertToDancing) = _
        rw [pausedCount_map revertToDancing revertToDancing_paused, f1]
      · intro _ d hd
        have hd' : d ∈ (targetWhiteAuraGirl g).dancers.map revertToDancing := hd
        rw [List.mem_map] at hd'
        obtain ⟨d0, -, rfl⟩ := hd'
        exact revertToDancing_respects d0
  · exact Calm.refl g

theorem sendToBag_calm (i : Nat) (g : Game) : Calm g (sendToBag i g) := by
  unfold sendToBag
  refine ⟨Nat.le_refl _, rfl, rfl, rfl, rfl, ?_, ?_⟩
  · exact pausedCount_modifyAt startBagPickup (fun _ => rfl) i g.dancers
  · intro hinv
    refine respects_modifyAt hinv ?_
    intro d _
    exact respects_of_state (by simp [startBagPickup]) (by simp [startBagPickup])

theorem selectBagPickupDancer_calm (e : Env) (g : Game) :
    Calm g (selectBagPickupDancer e g) := by
  unfold selectBagPickupDancer
  dsimp only
  split
  · split
    · exact sendToBag_calm _ g
    · split
      · have h1 : Calm g (g.skip 1) := Calm.of_floor rfl
        exact h1.trans (sendToBag_calm _ _)
      · exact Calm.of_floor rfl
  · exact Calm.refl g

theorem bagPickup_calm (e : Env) (g : Game) : Calm g (bagPickup e g) := by
  unfold bagPickup
  split
  · have h1 : Calm g { g with bagPickupTriggered := true } := Calm.of_floor rfl
    exact h1.trans (selectBagPickupDancer_calm e _)
  · exact Calm.refl g

theorem effectTriggers_calm (e : Env) (g : Game) : Calm g (effectTriggers e g) := by
  unfold effectTriggers
  exact (Calm.of_floor (updateStrobeEffect_floor g)).trans
    ((Calm.of_floor (strobeTrigger_floor e _)).trans
    ((Calm.of_floor (smokeAtFour_floor e _)).trans
    ((Calm.of_floor (intermittentSmoke_floor e _)).trans
    ((Calm.of_floor (discoBallTrigger_floor e _)).trans
    ((discoBallChange_calm e _).trans
    ((wristbandTrigger_calm e _).trans (bagPickup_calm e _)))))))

/-! ## Population maintenance -/

theorem startLeavingAt_calm (e : Env) (i : Nat) (g : Game)
    (h : ∀ d, g.dancers[i]? = some d → d.hasWhiteAura = false) :
    Calm g (startLeavingAt e i g) := by
  unfold startLeavingAt
  cases hd : g.dancers[i]? with
  | none => exact Calm.refl g
  | some d =>
    dsimp only
    split_ifs with h1 h2
    · exact Calm.refl g
    · refine ⟨Nat.le_refl _, rfl, rfl, rfl, rfl, ?_, ?_⟩
      · refine pausedCount_set_same (d.startLeaving (g.draw e)) d ?_ g.dancers i hd
        unfold Dancer.startLeaving
        split_ifs <;> rfl
      · intro hinv
        refine respects_set hinv (respects_of_not_exempt ?_)
        have hs : d.isSpecialGirl = false := by simpa using h1
        have ha : d.hasWhiteAura = false := h d hd
        unfold Dancer.startLeaving Dancer.exempt
        rw [if_neg h1, if_pos h2]
        simp [hs, ha]
    · exact Calm.refl g

theorem randomLeave_calm (e : Env) (g : Game) : Calm g (randomLeave e g) := by
  unfold randomLeave
  dsimp only
  split
  · split
    · split
      · split
        · rename_i i hi
          obtain ⟨d0, hd0, hp0⟩ := mem_indicesWhere (List.getElem?_mem hi)
          have h1 : Calm g ((g.skip 1).skip 1) := Calm.of_floor rfl
          refine h1.trans (startLeavingAt_calm e i _ ?_)
          intro d hd
          have hdd : d = d0 := Option.some.inj (hd.symm.trans hd0)
          subst hdd
          simp only [mayBeAskedToLeave, Bool.and_eq_true, decide_eq_true_eq,
            Bool.not_eq_true'] at hp0
          exact hp0.2
        · exact Calm.of_floor rfl
      · exact Calm.of_floor rfl
    · exact Calm.of_floor rfl
  · exact Calm.refl g

theorem spawnDancer_fresh (e : Env) (g : Game) :
    (spawnDancer e g).1.isPausedForZoom = false ∧ (spawnDancer e g).1.exempt = false ∧
    (spawnDancer e g).2.floor = g.floor := ⟨rfl, rfl, rfl⟩

theorem pushDancer_calm (e : Env) (g : Game) :
    Calm g { (spawnDancer e g).2 with
             dancers := (spawnDancer e g).2.dancers ++ [(spawnDancer e g).1] } := by
  refine ⟨Nat.le_refl _, rfl, rfl, rfl, rfl, ?_, ?_⟩
  · show pausedCount (g.dancers ++ [(spawnDancer e g).1]) = pausedCount g.dancers
    rw [pausedCount_append]
    rfl
  · intro hinv d hd
    have hd' : d ∈ g.dancers ++ [(spawnDancer e g).1] := hd
    rw [List.mem_append, List.mem_singleton] at hd'
    rcases hd' with h | h
    · exact hinv d h
    · rw [h]
      exact respects_of_not_exempt rfl

theorem topUpDancers_calm (e : Env) (g : Game) : Calm g (topUpDancers e g) := by
  unfold topUpDancers
  split
  · exact pushDancer_calm e g
  · exact Calm.refl g

theorem maintainPopulation_calm (e : Env) (g : Game) : Calm g (maintainPopulation e g) := by
  unfold maintainPopulation
  split
  · exact (topUpDancers_calm e g).trans (randomLeave_calm e _)
  · exact Calm.refl g

theorem pushDancers_calm (e : Env) : ∀ n g, Calm g (pushDancers e n g) := by
  intro n
  induction n with
  | zero => intro g; exact Calm.refl g
  | succ n ih => intro g; exact (pushDancer_calm e g).trans (ih _)

theorem populateDanceFloor_calm (e : Env) (g : Game) : Calm g (populateDanceFloor e g) := by
  unfold populateDanceFloor
  have h1 : Calm g (g.skip 1) := Calm.of_floor rfl
  exact h1.trans (pushDancers_calm e _ _)


/-- The removal loop stops at the highest pause-locked index below `n`. -/
theorem removePausedDancer_found (e : Env) (g : Game) (i : Nat) (d : Dancer)
    (hd : g.dancers[i]? = some d) (hp : d.isPausedForZoom = true) :
    ∀ n, i < n → (∀ k d', i < k → k < n → g.dancers[k]? = some d' → d'.isPausedForZoom = false) →
      removePausedDancer e n g = removeDancer e i g := by
  intro n
  induction n with
  | zero => intro h; omega
  | succ n ih =>
    intro hin h
    rw [removePausedDancer]
    rcases Nat.lt_or_ge i n with hlt | hge
    · have hrest : removePausedDancer e n g = removeDancer e i g :=
        ih hlt (fun k d' h1 h2 h3 => h k d' h1 (Nat.lt_succ_of_lt h2) h3)
      cases hn : g.dancers[n]? with
      | none => exact hrest
      | some d' =>
        have hf : d'.isPausedForZoom = false := h n d' hlt (Nat.lt_succ_self n) hn
        simp only [hf, Bool.false_eq_true, if_false]
        exact hrest
    · have hi : i = n := Nat.le_antisymm (Nat.lt_succ_iff.mp hin) hge
      subst hi
      rw [hd]
      simp only [hp, if_true]

theorem enterGameOver_fields (e : Env) (g : Game) :
    (enterGameOver e g).dancers = g.dancers ∧ (enterGameOver e g).dancersLeft = g.dancersLeft ∧
    (enterGameOver e g).dancerLeavePhase = g.dancerLeavePhase ∧
    (enterGameOver e g).isGamePausedForZoom = g.isGamePausedForZoom ∧
    (enterGameOver e g).gameState = .gameOver ∧ (enterGameOver e g).autopilotMode = true ∧
    (enterGameOver e g).score = g.score := by
  unfold enterGameOver
  dsimp only
  split_ifs <;> exact ⟨rfl, rfl, rfl, rfl, rfl, rfl, rfl⟩

theorem removeDancer_fields (e : Env) (i : Nat) (g : Game) :
    (removeDancer e i g).dancers = g.dancers.eraseIdx i ∧
    (removeDancer e i g).dancersLeft = g.dancersLeft + 1 ∧
    (removeDancer e i g).dancerLeavePhase = g.dancerLeavePhase ∧
    (removeDancer e i g).isGamePausedForZoom = g.isGamePausedForZoom ∧
    (removeDancer e i g).score = g.score ∧
    (g.dancersLeft + 1 ≥ 3 →
      (removeDancer e i g).gameState = .gameOver ∧ (removeDancer e i g).autopilotMode = true) ∧
    (g.dancersLeft + 1 < 3 →
      (removeDancer e i g).gameState = g.gameState ∧
      (removeDancer e i g).autopilotMode = g.autopilotMode) := by
  unfold removeDancer
  dsimp only
  split_ifs with h
  · obtain ⟨h1, h2, h3, h4, h5, h6, h7⟩ := enterGameOver_fields e
      { (({ g with dancersLeft := g.dancersLeft + 1 } : Game).emit
          (.dancer_left i (g.dancersLeft + 1))) with
        dancers := g.dancers.eraseIdx i }
    refine ⟨h1, h2, h3, h4, h7, fun _ => ⟨h5, h6⟩, fun hlt => ?_⟩
    exact absurd h (Nat.not_le.mpr hlt)
  · refine ⟨rfl, rfl, rfl, rfl, rfl, fun hge => absurd hge h, fun _ => ⟨rfl, rfl⟩⟩

/-- C5: when the dancer-leave cutscene completes (`zooming_out` reaches
progress <= 0) and `dancers[i]` is the pause-locked dancer (the last element
of the list with `isPausedForZoom` set), updateDancerLeaveZoom removes exactly
that dancer from the dancer list, increments `dancersLeft` by exactly 1, sets
`dancerLeavePhase` to `inactive` and releases the global pause flag; it sets
`gameState` to `gameOver` with `autopilotMode` true when the new `dancersLeft`
is at least 3, and leaves both as they were when it is less. -/
theorem leave_cutscene_completion (e : Env) (g : Game) (i : Nat) (d : Dancer)
    (hactive : g.dancerLeaveZoomActive = true) (hphase : g.dancerLeavePhase = .zooming_out)
    (hdone : fsub g.dancerLeaveZoomProgress dancerLeaveZoomSpeed ≤ 0)
    (hd : g.dancers[i]? = some d) (hp : d.isPausedForZoom = true)
    (honly : ∀ k d', i < k → g.dancers[k]? = some d' → d'.isPausedForZoom = false) :
    (updateDancerLeaveZoom e g).dancers = g.dancers.eraseIdx i ∧
    (updateDancerLeaveZoom e g).dancers.length + 1 = g.dancers.length ∧
    (updateDancerLeaveZoom e g).dancersLeft = g.dancersLeft + 1 ∧
    (updateDancerLeaveZoom e g).dancerLeavePhase = .inactive ∧
    (updateDancerLeaveZoom e g).isGamePausedForZoom = false ∧
    (g.dancersLeft + 1 ≥ 3 →
      (updateDancerLeaveZoom e g).gameState = .gameOver ∧
      (updateDancerLeaveZoom e g).autopilotMode = true) ∧
    (g.dancersLeft + 1 < 3 →
      (updateDancerLeaveZoom e g).gameState = g.gameState ∧
      (updateDancerLeaveZoom e g).autopilotMode = g.autopilotMode) := by
  have hi : i < g.dancers.length := (List.getElem?_eq_some.mp hd).1
  have hstep : updateDancerLeaveZoom e g = removeDancer e i
      { g with dancerLeaveZoomProgress := fsub g.dancerLeaveZoomProgress dancerLeaveZoomSpeed,
               dancerLeavePhase := .inactive, dancerLeaveZoomActive := false,
               waitingForDancerLeaveSound := false, isGamePausedForZoom := false } := by
    unfold updateDancerLeaveZoom
    rw [hactive, hphase]
    simp only [Bool.not_true, Bool.false_eq_true, if_false, if_pos hdone]
    exact removePausedDancer_found e
      { g with dancerLeaveZoomProgress := fsub g.dancerLeaveZoomProgress dancerLeaveZoomSpeed,
               dancerLeavePhase := .inactive, dancerLeaveZoomActive := false,
               waitingForDancerLeaveSound := false, isGamePausedForZoom := false }
      i d hd hp g.dancers.length hi
      (fun k d' h1 _ h3 => honly k d' h1 h3)
  rw [hstep]
  obtain ⟨h1, h2, h3, h4, -, h6, h7⟩ := removeDancer_fields e i
      { g with dancerLeaveZoomProgress := fsub g.dancerLeaveZoomProgress dancerLeaveZoomSpeed,
               dancerLeavePhase := .inactive, dancerLeaveZoomActive := false,
               waitingForDancerLeaveSound := false, isGamePausedForZoom := false }
  have hlen : (g.dancers.eraseIdx i).length + 1 = g.dancers.length := by
    rw [List.length_eraseIdx, if_pos hi]
    omega
  refine ⟨h1, ?_, h2, h3, h4, h6, h7⟩
  rw [h1]
  exact hlen


/-! ## The leave cutscene -/

theorem pausedCount_eq_zero_of_all {l : List Dancer}
    (h : ∀ (k : Nat) (d : Dancer), l[k]? = some d → d.isPausedForZoom = false) :
    pausedCount l = 0 := by
  induction l with
  | nil => rfl
  | cons x l ih =>
    have h0 : x.isPausedForZoom = false := h 0 x (List.getElem?_cons_zero)
    have hrest : pausedCount l = 0 :=
      ih (fun k d hk => h (k + 1) d (by rw [List.getElem?_cons_succ]; exact hk))
    rw [pausedCount_cons, hrest, h0]
    rfl

/-- The removal loop either removes a pause-locked dancer or finds none below
`n`. -/
theorem removePausedDancer_cases (e : Env) (g : Game) :
    ∀ n, (∃ i d, g.dancers[i]? = some d ∧ d.isPausedForZoom = true ∧
            removePausedDancer e n g = removeDancer e i g) ∨
         (removePausedDancer e n g = g ∧
            ∀ k d, k < n → g.dancers[k]? = some d → d.isPausedForZoom = false) := by
  intro n
  induction n with
  | zero => exact Or.inr ⟨rfl, fun k d hk => absurd hk (Nat.not_lt_zero k)⟩
  | succ n ih =>
    rw [removePausedDancer]
    cases hn : g.dancers[n]? with
    | none =>
      dsimp only
      rcases ih with h | ⟨h1, h2⟩
      · exact Or.inl h
      · refine Or.inr ⟨h1, fun k d hk hd => ?_⟩
        rcases Nat.lt_succ_iff_lt_or_eq.mp hk with hlt | heq
        · exact h2 k d hlt hd
        · subst heq; rw [hn] at hd; cases hd
    | some dn =>
      dsimp only
      by_cases hp : dn.isPausedForZoom = true
      · rw [if_pos hp]
        exact Or.inl ⟨n, dn, hn, hp, rfl⟩
      · rw [if_neg hp]
        rcases ih with h | ⟨h1, h2⟩
        · exact Or.inl h
        · refine Or.inr ⟨h1, fun k d hk hd => ?_⟩
          rcases Nat.lt_succ_iff_lt_or_eq.mp hk with hlt | heq
          · exact h2 k d hlt hd
          · subst heq
            rw [hn] at hd
            cases hd
            simpa using hp

theorem removePausedDancer_tame (e : Env) (g : Game) :
    Tame g (removePausedDancer e g.dancers.length g) ∧
    (pausedCount g.dancers ≤ 1 → PauseLockInv (removePausedDancer e g.dancers.length g)) := by
  rcases removePausedDancer_cases e g g.dancers.length with ⟨i, d, hd, hp, heq⟩ | ⟨heq, hall⟩
  · rw [heq]
    obtain ⟨h1, h2, h3, -, h5, h6, h7⟩ := removeDancer_fields e i g
    have hcount := pausedCount_eraseIdx d hp g.dancers i hd
    have hinv : pausedCount g.dancers ≤ 1 → PauseLockInv (removeDancer e i g) := by
      intro hle
      unfold PauseLockInv
      rw [h1]
      have : pausedCount (g.dancers.eraseIdx i) = 0 := by omega
      rw [this]
      exact ⟨Nat.zero_le 1, fun _ => rfl⟩
    refine ⟨⟨Nat.le_of_eq h5.symm, by rw [h2]; exact Nat.le_succ _, fun hpl => hinv hpl.1, ?_, ?_⟩,
      hinv⟩
    · intro hex x hx
      rw [h1] at hx
      exact hex x (List.mem_of_mem_eraseIdx hx)
    · intro hg
      by_cases h3' : g.dancersLeft + 1 ≥ 3
      · exact h6 h3'
      · obtain ⟨a, b⟩ := h7 (Nat.not_le.mp h3')
        rw [a, b]; exact hg
  · rw [heq]
    refine ⟨Tame.idle g, fun _ => ?_⟩
    have hz : pausedCount g.dancers = 0 :=
      pausedCount_eq_zero_of_all (fun k d hk =>
        hall k d (List.getElem?_eq_some.mp hk).1 hk)
    unfold PauseLockInv
    rw [hz]
    exact ⟨Nat.zero_le 1, fun _ => rfl⟩

theorem updateDancerLeaveZoom_tame (e : Env) (g : Game) :
    Tame g (updateDancerLeaveZoom e g) := by
  unfold updateDancerLeaveZoom
  split
  · exact Tame.idle g
  · split
    · -- zooming_in
      rename_i hph
      dsimp only
      have key : ∀ g' : Game, g'.dancers = g.dancers → g'.score = g.score →
          g'.gameState = g.gameState → g'.autopilotMode = g.autopilotMode →
          g'.dancersLeft = g.dancersLeft → g'.dancerLeavePhase ≠ .inactive → Tame g g' := by
        intro g' a b c d f k
        refine ⟨Nat.le_of_eq b.symm, Nat.le_of_eq f.symm, fun hp => ?_, fun hx => ?_, fun hg => ?_⟩
        · unfold PauseLockInv
          rw [a]
          exact ⟨hp.1, fun hin => absurd hin k⟩
        · unfold ExemptInv
          rw [a]
          exact hx
        · rw [c, d]
          exact hg
      split_ifs
      · exact key _ rfl rfl rfl rfl rfl (by simp)
      · exact key _ rfl rfl rfl rfl rfl (by rw [show _ = g.dancerLeavePhase from rfl, hph]; simp)
    · rename_i hph
      dsimp only
      have key : ∀ g' : Game, g'.dancers = g.dancers → g'.score = g.score →
          g'.gameState = g.gameState → g'.autopilotMode = g.autopilotMode →
          g'.dancersLeft = g.dancersLeft → g'.dancerLeavePhase ≠ .inactive → Tame g g' := by
        intro g' a b c d f k
        refine ⟨Nat.le_of_eq b.symm, Nat.le_of_eq f.symm, fun hp => ?_, fun hx => ?_, fun hg => ?_⟩
        · unfold PauseLockInv
          rw [a]
          exact ⟨hp.1, fun hin => absurd hin k⟩
        · unfold ExemptInv
          rw [a]
          exact hx
        · rw [c, d]
          exact hg
      split_ifs
      · exact key _ rfl rfl rfl rfl rfl (by simp)
      · exact key _ rfl rfl rfl rfl rfl (by rw [show _ = g.dancerLeavePhase from rfl, hph]; simp)
    · rename_i hph
      dsimp only
      split_ifs
      · obtain ⟨ht, hinv⟩ := removePausedDancer_tame e
          { g with dancerLeaveZoomProgress := fsub g.dancerLeaveZoomProgress dancerLeaveZoomSpeed,
                   dancerLeavePhase := .inactive, dancerLeaveZoomActive := false,
                   waitingForDancerLeaveSound := false, isGamePausedForZoom := false }
        refine ⟨ht.score, ht.dancersLeft, fun hp => hinv hp.1, fun hx => ht.exempt hx,
          fun hg => ht.gameOver hg⟩
      · refine ⟨Nat.le_refl _, Nat.le_refl _, fun hp => ?_, id, id⟩
        refine ⟨hp.1, fun hin => ?_⟩
        have : g.dancerLeavePhase = .inactive := hin
        rw [hph] at this
        cases this
    · exact Tame.idle g


/-! ## One tick -/

theorem floorStep_tame (e : Env) (g : Game) : Tame g (floorStep e g) := by
  unfold floorStep
  dsimp only
  have h1 : Tame g (discoBallStage g) := by
    unfold discoBallStage
    split
    · exact (Calm.of_floor (updateDiscoBall_floor g)).tame
    · exact Tame.idle g
  exact h1.followedBy ((dancerLoop_tame e _ _).followedBy
    ((Calm.of_floor (recordLoop_floor e _ _)).tame.followedBy
    ((collisionPass_calm e _).tame.followedBy (maintainPopulation_calm e _).tame)))

theorem leaveZoomStage_tame (e : Env) (g : Game) : Tame g (leaveZoomStage e g) := by
  unfold leaveZoomStage
  split
  · exact updateDancerLeaveZoom_tame e g
  · exact Tame.idle g

theorem triggerStage_calm (e : Env) (g : Game) : Calm g (triggerStage e g) := by
  unfold triggerStage
  split
  · exact effectTriggers_calm e g
  · exact Calm.refl g

theorem floorStage_tame (e : Env) (g : Game) : Tame g (floorStage e g) := by
  unfold floorStage
  split
  · exact floorStep_tame e g
  · exact Tame.idle g

theorem drawGameplay_tame (e : Env) (g : Game) : Tame g (drawGameplay e g) := by
  unfold drawGameplay
  split
  · exact Tame.idle g
  · exact (Calm.of_floor (updateZoomEffect_floor e g)).tame.followedBy
      ((leaveZoomStage_tame e _).followedBy
      ((Calm.of_floor (updateWristbandZoom_floor _)).tame.followedBy
      ((triggerStage_calm e _).tame.followedBy
      ((Calm.of_floor (smokeTimerStep_floor _)).tame.followedBy (floorStage_tame e _)))))

theorem menuDancerIter_calm (e : Env) (g : Game) (i : Nat) : Calm g (menuDancerIter e g i) := by
  unfold menuDancerIter
  cases hd : g.dancers[i]? with
  | none => exact Calm.refl g
  | some d =>
    have hf := Dancer.update_floor e g d
    simp only [Game.floor, Prod.mk.injEq] at hf
    obtain ⟨f1, f2, f3, f4, f5, f6⟩ := hf
    obtain ⟨hflag, -, -⟩ := Dancer.update_flags e g d
    have hd1 : (d.update e g).2.dancers[i]? = some d := by rw [f1]; exact hd
    refine ⟨Nat.le_of_eq f2.symm, f3, f4, f5, f6, ?_, ?_⟩
    · show pausedCount ((d.update e g).2.dancers.set i (d.update e g).1) = _
      rw [pausedCount_set_same _ d hflag _ i hd1, f1]
    · intro hinv
      have hl : ∀ x ∈ (d.update e g).2.dancers, x.respectsExemption := by rw [f1]; exact hinv
      exact respects_set hl (Dancer.update_respects e g d (hinv d (List.getElem?_mem hd)))

theorem foldl_calm (e : Env) : ∀ (l : List Nat) (g : Game),
    Calm g (l.foldl (menuDancerIter e) g) := by
  intro l
  induction l with
  | nil => intro g; exact Calm.refl g
  | cons i l ih => intro g; exact (menuDancerIter_calm e g i).trans (ih _)

theorem drawMainMenu_calm (e : Env) (g : Game) : Calm g (drawMainMenu e g) := by
  unfold drawMainMenu
  dsimp only
  have h2 : ∀ g1 : Game, Calm g1 { g1 with records := g1.records.map (Record.update g1) } :=
    fun g1 => Calm.of_floor rfl
  exact (foldl_calm e _ g).trans (h2 _)

theorem draw_tame (e : Env) (g : Game) : Tame g (draw e g) := by
  unfold draw
  dsimp only
  have hc : Calm g { g with frameCount := g.frameCount + 1 } := Calm.of_floor rfl
  have h0 := hc.tame
  split
  · exact h0.followedBy (drawMainMenu_calm e _).tame
  · exact h0.followedBy (drawGameplay_tame e _)

/-! ## Entering `playing`, and the other events -/

theorem populateDanceFloor_score (e : Env) (g : Game) :
    (populateDanceFloor e g).score = g.score := by
  unfold populateDanceFloor
  generalize (Int.ceil (randomRange (g.draw e) 15 20)).toNat = n
  have h : ∀ n g, (pushDancers e n g).score = g.score := by
    intro n
    induction n with
    | zero => intro g; rfl
    | succ n ih => intro g; rw [pushDancers, ih]; rfl
  rw [h]
  rfl

/-- Populating an empty floor establishes the two invariants. -/
theorem populate_empty (e : Env) (g : Game) (hd : g.dancers = []) :
    pausedCount (populateDanceFloor e g).dancers = 0 ∧ ExemptInv (populateDanceFloor e g) := by
  have hc := populateDanceFloor_calm e g
  refine ⟨by rw [hc.paused, hd]; rfl, hc.exempt ?_⟩
  intro d hm
  rw [hd] at hm
  cases hm

theorem actuallyStartGame_fields (e : Env) (g : Game) :
    (actuallyStartGame e g).score = 0 ∧ (actuallyStartGame e g).dancersLeft = 0 ∧
    (actuallyStartGame e g).gameState = .playing ∧
    PauseLockInv (actuallyStartGame e g) ∧ ExemptInv (actuallyStartGame e g) := by
  have hc := populateDanceFloor_calm e (startReset g)
  obtain ⟨h1, h2⟩ := populate_empty e (startReset g) rfl
  refine ⟨?_, ?_, ?_, ?_, h2⟩
  · exact (populateDanceFloor_score e (startReset g)).trans rfl
  · exact hc.dancersLeft.trans rfl
  · exact hc.gameState.trans rfl
  · exact ⟨Nat.le_of_eq (h1.trans rfl) |>.trans (Nat.zero_le 1), fun _ => h1⟩

theorem restartReset_fields (e : Env) (g : Game) :
    (restartReset e g).dancers = [] ∧ (restartReset e g).score = 0 ∧
    (restartReset e g).dancersLeft = 0 ∧ (restartReset e g).gameState = .playing := by
  unfold restartReset
  dsimp only
  split <;> exact ⟨rfl, rfl, rfl, rfl⟩

theorem restartGame_fields (e : Env) (g : Game) :
    (restartGame e g).score = 0 ∧ (restartGame e g).dancersLeft = 0 ∧
    (restartGame e g).gameState = .playing ∧
    PauseLockInv (restartGame e g) ∧ ExemptInv (restartGame e g) := by
  obtain ⟨r1, r2, r3, r4⟩ := restartReset_fields e g
  have hc := populateDanceFloor_calm e (restartReset e g)
  obtain ⟨h1, h2⟩ := populate_empty e (restartReset e g) r1
  refine ⟨?_, ?_, ?_, ?_, h2⟩
  · exact (populateDanceFloor_score e (restartReset e g)).trans r2
  · exact hc.dancersLeft.trans r3
  · exact hc.gameState.trans r4
  · exact ⟨Nat.le_of_eq (h1.trans rfl) |>.trans (Nat.zero_le 1), fun _ => h1⟩


/-- Either the score did not drop and both invariants were kept, or the game
entered `playing` through one of its two entries. -/
theorem Tame.safe {e : Env} {g g' : Game} (h : Tame g g') :
    (g.score ≤ g'.score ∧ (PauseLockInv g → PauseLockInv g') ∧ (ExemptInv g → ExemptInv g')) ∨
    ∃ g1, g' = actuallyStartGame e g1 ∨ g' = restartGame e g1 :=
  Or.inl ⟨h.score, h.pauseLock, h.exempt⟩

theorem goToMainMenu_safe (e : Env) (g : Game) :
    g.score ≤ (goToMainMenu e g).score ∧
    (PauseLockInv g → PauseLockInv (goToMainMenu e g)) ∧
    (ExemptInv g → ExemptInv (goToMainMenu e g)) := by
  unfold goToMainMenu
  dsimp only
  split <;> exact ⟨Nat.le_refl _, id, id⟩

theorem handleInput_safe (e : Env) (x y : ℚ) (g : Game) :
    (g.score ≤ (handleInput e x y g).score ∧
      (PauseLockInv g → PauseLockInv (handleInput e x y g)) ∧
      (ExemptInv g → ExemptInv (handleInput e x y g))) ∨
    ∃ g1, handleInput e x y g = actuallyStartGame e g1 ∨ handleInput e x y g = restartGame e g1 := by
  unfold handleInput
  split
  · exact Or.inl ⟨Nat.le_refl _, id, id⟩
  · split
    · split
      · unfold startGame
        split
        · split
          · exact Or.inl ⟨Nat.le_refl _, id, id⟩
          · exact Or.inr ⟨_, Or.inl rfl⟩
        · exact Or.inr ⟨_, Or.inl rfl⟩
      · exact Or.inl ⟨Nat.le_refl _, id, id⟩
    · split
      · have h : Calm g (clickThrow e x y g) := Calm.of_floor (clickThrow_floor e x y g)
        exact h.tame.safe
      · split
        · unfold gameOverClick
          dsimp only
          split
          · exact Or.inr ⟨_, Or.inr rfl⟩
          · split
            · exact Or.inl ⟨Nat.le_refl _, id, id⟩
            · split
              · exact Or.inl (goToMainMenu_safe e (g.emit .player_engagement))
              · exact Or.inl ⟨Nat.le_refl _, id, id⟩
        · exact Or.inl ⟨Nat.le_refl _, id, id⟩

theorem touchStarted_safe (e : Env) (x y : ℚ) (g : Game) :
    (g.score ≤ (touchStarted e x y g).score ∧
      (PauseLockInv g → PauseLockInv (touchStarted e x y g)) ∧
      (ExemptInv g → ExemptInv (touchStarted e x y g))) ∨
    ∃ g1, touchStarted e x y g = actuallyStartGame e g1 ∨
      touchStarted e x y g = restartGame e g1 := by
  unfold touchStarted
  split
  · exact Or.inl ⟨Nat.le_refl _, id, id⟩
  · split
    · exact handleInput_safe e x y g
    · split
      · exact handleInput_safe e x y g
      · exact Or.inl ⟨Nat.le_refl _, id, id⟩

theorem startSoundEnded_safe (e : Env) (g : Game) :
    (g.score ≤ (step e .startSoundEnded g).score ∧
      (PauseLockInv g → PauseLockInv (step e .startSoundEnded g)) ∧
      (ExemptInv g → ExemptInv (step e .startSoundEnded g))) ∨
    ∃ g1, step e .startSoundEnded g = actuallyStartGame e g1 ∨
      step e .startSoundEnded g = restartGame e g1 := by
  unfold step
  dsimp only
  split
  · exact Or.inr ⟨_, Or.inl rfl⟩
  · exact Or.inl ⟨Nat.le_refl _, id, id⟩

theorem step_safe (e : Env) (ev : Event) (g : Game) :
    (g.score ≤ (step e ev g).score ∧ (PauseLockInv g → PauseLockInv (step e ev g)) ∧
      (ExemptInv g → ExemptInv (step e ev g))) ∨
    ∃ g1, step e ev g = actuallyStartGame e g1 ∨ step e ev g = restartGame e g1 := by
  cases ev with
  | frame => exact (draw_tame e g).safe
  | mousePressed x y => exact handleInput_safe e x y g
  | touchStarted x y => exact touchStarted_safe e x y g
  | touchEnded x y =>
    have h : Calm g (touchEnded e x y g) := Calm.of_floor (touchEnded_floor e x y g)
    exact h.tame.safe
  | startSoundEnded => exact startSoundEnded_safe e g
  | score5SoundEnded =>
    have h : Calm g (step e .score5SoundEnded g) := by
      show Calm g (if g.score5Pending then _ else g)
      split
      · exact Calm.of_floor rfl
      · exact Calm.refl g
    exact h.tame.safe
  | score10SoundEnded =>
    have h : Calm g (step e .score10SoundEnded g) := by
      show Calm g (if g.score10Pending then _ else g)
      split
      · exact Calm.of_floor ((score10Ended_floor e _).trans rfl)
      · exact Calm.refl g
    exact h.tame.safe
  | videoTimeout =>
    have h : Calm g (step e .videoTimeout g) := by
      show Calm g (if g.videoTimeoutArmed then _ else g)
      split
      · exact Calm.of_floor rfl
      · exact Calm.refl g
    exact h.tame.safe
  | videoPlayResolved =>
    have h : Calm g (step e .videoPlayResolved g) := by
      show Calm g (if g.videoPlayPending then _ else g)
      split
      · exact Calm.of_floor rfl
      · exact Calm.refl g
    exact h.tame.safe
  | videoPlayRejected =>
    have h : Calm g (step e .videoPlayRejected g) := by
      show Calm g (if g.videoPlayPending then _ else g)
      split
      · exact Calm.of_floor rfl
      · exact Calm.refl g
    exact h.tame.safe
  | videoEnded =>
    have h : Calm g (step e .videoEnded g) := by
      show Calm g (if g.videoRunning then _ else g)
      split
      · unfold videoEnded restoreBackgroundMusic enableDiscoBallLights
        dsimp only
        split <;> exact Calm.of_floor rfl
      · exact Calm.refl g
    exact h.tame.safe

/-! ## Frames under the cutscene pause -/

theorem set_getElem?_same {α : Type} : ∀ (l : List α) (i : Nat) (d : α),
    l[i]? = some d → l.set i d = l := by
  intro l
  induction l with
  | nil => intro i d _; rfl
  | cons a l ih =>
    intro i d h
    cases i with
    | zero =>
      rw [List.getElem?_cons_zero] at h
      rw [List.set_cons_zero, Option.some.inj h]
    | succ i =>
      rw [List.getElem?_cons_succ] at h
      rw [List.set_cons_succ, ih i d h]

theorem Dancer.update_paused (e : Env) (g : Game) (d : Dancer)
    (hp : g.isGamePausedForZoom = true) : d.update e g = (d, g) := by
  unfold Dancer.update
  rw [hp]
  cases h : d.isPausedForZoom <;> simp

theorem dancerIter_paused (e : Env) (i : Nat) (g : Game)
    (hp : g.isGamePausedForZoom = true) (hph : g.dancerLeavePhase ≠ .inactive) :
    dancerIter e i g = g := by
  unfold dancerIter
  cases hd : g.dancers[i]? with
  | none => rfl
  | some d =>
    dsimp only
    rw [Dancer.update_paused e g d hp]
    dsimp only
    rw [set_getElem?_same g.dancers i d hd]
    rw [if_neg hph]
    split <;> rfl

theorem dancerLoop_paused (e : Env) (g : Game)
    (hp : g.isGamePausedForZoom = true) (hph : g.dancerLeavePhase ≠ .inactive) :
    ∀ n, dancerLoop e n g = g := by
  intro n
  induction n with
  | zero => rfl
  | succ n ih => rw [dancerLoop, dancerIter_paused e n g hp hph, ih]

theorem dancerLoopHeld_eq (e : Env) (g : Game) :
    dancerLoopHeld e g = dancerLoop e g.dancers.length g := by
  unfold dancerLoopHeld
  split
  · rename_i h
    exact (dancerLoop_paused e g h.1 h.2 _).symm
  · rfl

theorem drawHeld_eq (e : Env) (g : Game) : drawHeld e g = draw e g := by
  have h1 : ∀ g, floorStepHeld e g = floorStep e g := by
    intro g
    unfold floorStepHeld floorStep
    dsimp only
    rw [dancerLoopHeld_eq]
  have h2 : ∀ g, floorStageHeld e g = floorStage e g := by
    intro g
    unfold floorStageHeld floorStage
    rw [h1]
  have h3 : ∀ g, drawGameplayHeld e g = drawGameplay e g := by
    intro g
    unfold drawGameplayHeld drawGameplay
    rw [h2]
  unfold drawHeld draw
  dsimp only
  rw [h3]

theorem framesHeld_eq (e : Env) : ∀ (n : Nat) (g : Game),
    framesHeld e n g = run e (frames n) g := by
  intro n
  induction n with
  | zero => intro g; rfl
  | succ n ih =>
    intro g
    rw [framesHeld, ih, drawHeld_eq]
    rfl

theorem run_append (e : Env) (evs1 evs2 : List Event) (g : Game) :
    run e (evs1 ++ evs2) g = run e evs2 (run e evs1 g) := by
  unfold run
  exact List.foldl_append _ _ _ _

theorem frames_add (m n : Nat) : frames (m + n) = frames m ++ frames n := by
  unfold frames
  exact List.replicate_add m n Event.frame

/-! ## Frames with emojis in flight -/

theorem halvings_of_bounds : ∀ (fuel n k : Nat), n ≤ fuel → 2 ^ k ≤ n → n < 2 ^ (k + 1) →
    halvings fuel n = k := by
  intro fuel
  induction fuel with
  | zero =>
    intro n k hn h1 _
    have : 0 < 2 ^ k := Nat.two_pow_pos _
    omega
  | succ fuel ih =>
    intro n k hn h1 h2
    rw [halvings]
    by_cases h : n < 2
    · rw [if_pos h]
      cases k with
      | zero => rfl
      | succ k =>
        have : 2 ^ 1 ≤ 2 ^ (k + 1) := Nat.pow_le_pow_right (by decide) (by omega)
        omega
    · rw [if_neg h]
      cases k with
      | zero => simp at h2; omega
      | succ k =>
        have e1 : 2 ^ (k + 1) = 2 * 2 ^ k := by rw [Nat.pow_succ]; ring
        have e2 : 2 ^ (k + 1 + 1) = 2 * 2 ^ (k + 1) := by rw [Nat.pow_succ]; ring
        rw [ih (n / 2) k (by omega) (by omega) (by omega)]

theorem halvingsQuick_eq (n : Nat) : halvingsQuick n = halvings n n := by
  unfold halvingsQuick
  dsimp only
  split
  · rename_i h
    exact (halvings_of_bounds n n _ (le_refl n) h.1 h.2).symm
  · rfl

theorem pow2Le_iff (k : ℤ) (a : ℚ) : pow2Le k a.num a.den = true ↔ pow2 k ≤ a := by
  have hden : (0 : ℚ) < a.den := by exact_mod_cast a.den_pos
  have ha : a = (a.num : ℚ) / (a.den : ℚ) := (Rat.num_div_den a).symm
  unfold pow2Le pow2
  by_cases hk : 0 ≤ k
  · rw [if_pos hk, if_pos hk, decide_eq_true_iff]
    conv_rhs => rw [ha]
    rw [le_div_iff₀ hden]
    norm_cast
  · rw [if_neg hk, if_neg hk, decide_eq_true_iff]
    conv_rhs => rw [ha]
    have hp : (0 : ℚ) < ((2 ^ (-k).toNat : ℕ) : ℚ) := by
      exact_mod_cast Nat.two_pow_pos _
    rw [div_le_div_iff hp hden, one_mul]
    norm_cast

theorem binaryExponentQuick_eq (a : ℚ) : binaryExponentQuick a = binaryExponent a := by
  unfold binaryExponentQuick binaryExponent
  simp only [halvingsQuick_eq]
  by_cases h : pow2 ((halvings a.num.natAbs a.num.natAbs : ℤ) - (halvings a.den a.den : ℤ)) ≤ a
  · rw [if_pos h, if_pos ((pow2Le_iff _ a).mpr h)]
  · rw [if_neg h, if_neg (fun c => h ((pow2Le_iff _ a).mp c))]

theorem roundHalfEvenQuick_eq (n : ℤ) (d : ℕ) (hd : 0 < d) :
    roundHalfEvenQuick n d = roundHalfEven ((n : ℚ) / (d : ℚ)) := by
  have hdq : (0 : ℚ) < d := by exact_mod_cast hd
  have hfl : ⌊(n : ℚ) / (d : ℚ)⌋ = n / (d : ℤ) := Rat.floor_intCast_div_natCast n d
  have hr : (n : ℚ) / (d : ℚ) - ((n / (d : ℤ) : ℤ) : ℚ) = ((n % (d : ℤ) : ℤ) : ℚ) / (d : ℚ) := by
    have h := Int.ediv_add_emod n (d : ℤ)
    have h2 : (n : ℚ) = (d : ℚ) * ((n / (d : ℤ) : ℤ) : ℚ) + ((n % (d : ℤ) : ℤ) : ℚ) := by
      exact_mod_cast h.symm
    field_simp
    linarith
  unfold roundHalfEvenQuick roundHalfEven
  dsimp only
  rw [hfl, hr]
  have c1 : ((n % (d : ℤ) : ℤ) : ℚ) / (d : ℚ) < 1 / 2 ↔ 2 * (n % (d : ℤ)) < (d : ℤ) := by
    rw [div_lt_iff₀ hdq]
    constructor
    · intro h
      have : (2 : ℚ) * ((n % (d : ℤ) : ℤ) : ℚ) < (d : ℚ) := by linarith
      exact_mod_cast this
    · intro h
      have : (2 : ℚ) * ((n % (d : ℤ) : ℤ) : ℚ) < (d : ℚ) := by exact_mod_cast h
      linarith
  have c2 : 1 / 2 < ((n % (d : ℤ) : ℤ) : ℚ) / (d : ℚ) ↔ (d : ℤ) < 2 * (n % (d : ℤ)) := by
    rw [lt_div_iff₀ hdq]
    constructor
    · intro h
      have : (d : ℚ) < (2 : ℚ) * ((n % (d : ℤ) : ℤ) : ℚ) := by linarith
      exact_mod_cast this
    · intro h
      have : (d : ℚ) < (2 : ℚ) * ((n % (d : ℤ) : ℤ) : ℚ) := by exact_mod_cast h
      linarith
  simp only [c1, c2]

theorem div_natCast_eq (x : ℚ) (p : ℕ) :
    x / (p : ℚ) = (x.num : ℚ) / ((x.den * p : ℕ) : ℚ) := by
  conv_lhs => rw [← Rat.num_div_den x]
  rw [div_div]
  push_cast
  rfl

theorem div_one_div_natCast_eq (x : ℚ) (p : ℕ) :
    x / (1 / (p : ℚ)) = ((x.num * (p : ℤ) : ℤ) : ℚ) / (x.den : ℚ) := by
  conv_lhs => rw [← Rat.num_div_den x]
  push_cast
  rw [div_div_eq_mul_div, div_one]
  ring

theorem roundDoubleQuick_eq (x : ℚ) : roundDoubleQuick x = roundDouble x := by
  unfold roundDoubleQuick roundDouble
  by_cases hx : x = 0
  · rw [if_pos hx, if_pos (Rat.num_eq_zero.mpr hx)]
  · rw [if_neg hx, if_neg (fun c => hx (Rat.num_eq_zero.mp c))]
    dsimp only
    rw [binaryExponentQuick_eq]
    generalize max (binaryExponent |x| - 52) (-1074) = s
    by_cases hs : 0 ≤ s
    · rw [if_pos hs]
      rw [roundHalfEvenQuick_eq _ _ (Nat.mul_pos x.den_pos (Nat.two_pow_pos _))]
      unfold pow2
      rw [if_pos hs, div_natCast_eq x (2 ^ s.toNat)]
      push_cast
      rfl
    · rw [if_neg hs]
      rw [roundHalfEvenQuick_eq _ _ x.den_pos]
      unfold pow2
      rw [if_neg hs, div_one_div_natCast_eq x (2 ^ (-s).toNat), Rat.mkRat_eq_div]
      push_cast
      rw [mul_one_div]

theorem Record.updateQuick_eq (g : Game) (r : Record) : r.updateQuick g = r.update g := by
  unfold Record.updateQuick Record.update faddQuick fadd
  simp only [roundDoubleQuick_eq]

theorem recordIterQuick_eq (e : Env) (i : Nat) (g : Game) :
    recordIterQuick e i g = recordIter e i g := by
  unfold recordIterQuick recordIter
  cases g.records[i]? with
  | none => rfl
  | some r =>
    dsimp only
    rw [Record.updateQuick_eq]

theorem recordLoopQuick_eq (e : Env) : ∀ (i : Nat) (g : Game),
    recordLoopQuick e i g = recordLoop e i g := by
  intro i
  induction i with
  | zero => intro g; rfl
  | succ i ih =>
    intro g
    rw [recordLoopQuick, recordLoop, recordIterQuick_eq, ih]

theorem collidePair_live (e : Env) (i j : Nat) (g : Game) (r : Record) (d : Dancer)
    (hr : g.records[i]? = some r) (hd : g.dancers[j]? = some d)
    (h : (pairMatters g r d && hitTest r d) = true) : (collidePair e i j g).2 = true := by
  rw [Bool.and_eq_true] at h
  obtain ⟨hm, hh⟩ := h
  unfold pairMatters at hm
  unfold collidePair
  rw [hr, hd]
  dsimp only
  rw [if_pos hh]
  by_cases ht : r.type = .wristband
  · rw [if_pos ht] at hm
    rw [if_pos ht, if_pos (of_decide_eq_true hm)]
  · rw [if_neg ht] at hm
    rw [if_neg ht, if_pos (of_decide_eq_true hm)]

theorem collidePair_idle (e : Env) (i j : Nat) (g : Game) (r : Record) (d : Dancer)
    (hr : g.records[i]? = some r) (hd : g.dancers[j]? = some d)
    (h : ¬ (pairMatters g r d && hitTest r d) = true) : collidePair e i j g = (g, false) := by
  unfold collidePair
  rw [hr, hd]
  dsimp only
  by_cases hh : hitTest r d = true
  · rw [if_pos hh]
    have hm : ¬ pairMatters g r d = true := fun c => h (by rw [c, hh]; rfl)
    unfold pairMatters at hm
    by_cases ht : r.type = .wristband
    · rw [if_pos ht] at hm
      rw [if_pos ht, if_neg (fun c => hm (decide_eq_true c))]
    · rw [if_neg ht] at hm
      rw [if_neg ht, if_neg (fun c => hm (decide_eq_true c))]
  · rw [if_neg hh]

theorem collidePair_none (e : Env) (i j : Nat) (g : Game) (hr : g.records[i]? = none) :
    collidePair e i j g = (g, false) := by
  unfold collidePair
  rw [hr]

theorem collideRecord_none (e : Env) (i : Nat) (g : Game) (hr : g.records[i]? = none) :
    ∀ n, collideRecord e i n g = g := by
  intro n
  induction n with
  | zero => rfl
  | succ n ih =>
    rw [collideRecord, collidePair_none e i n g hr]
    exact ih

theorem scanHit_append (g : Game) (r : Record) (d : Dancer) :
    ∀ (l : List Dancer) (j : Nat) (acc : Option Nat),
    scanHit g r (l ++ [d]) j acc
      = if (pairMatters g r d && hitTest r d) = true then some (j + l.length)
        else scanHit g r l j acc := by
  intro l
  induction l with
  | nil =>
    intro j acc
    simp only [List.nil_append, scanHit, List.length_nil, Nat.add_zero]
  | cons a l ih =>
    intro j acc
    have h := ih (j + 1) (if (pairMatters g r a && hitTest r a) = true then some j else acc)
    have e1 : j + 1 + l.length = j + (l.length + 1) := by omega
    rw [e1] at h
    exact h

theorem collideRecord_scan (e : Env) (i : Nat) (g : Game) (r : Record)
    (hr : g.records[i]? = some r) : ∀ n, n ≤ g.dancers.length →
    collideRecord e i n g
      = match scanHit g r (g.dancers.take n) 0 none with
        | none => g
        | some j => (collidePair e i j g).1 := by
  intro n
  induction n with
  | zero => intro _; rfl
  | succ n ih =>
    intro hn
    have hlt : n < g.dancers.length := by omega
    have hd : g.dancers[n]? = some g.dancers[n] := List.getElem?_eq_getElem hlt
    have htake : g.dancers.take (n + 1) = g.dancers.take n ++ [g.dancers[n]] := by
      rw [List.take_succ, hd]
      rfl
    have hlen : (g.dancers.take n).length = n := by
      rw [List.length_take]
      omega
    rw [htake, scanHit_append, hlen, Nat.zero_add, collideRecord]
    by_cases h : (pairMatters g r g.dancers[n] && hitTest r g.dancers[n]) = true
    · rw [if_pos h, if_pos (collidePair_live e i n g r _ hr hd h)]
    · rw [if_neg h, collidePair_idle e i n g r _ hr hd h]
      exact ih (by omega)

theorem collideRecordQuick_eq (e : Env) (i : Nat) (g : Game) :
    collideRecordQuick e i g = collideRecord e i g.dancers.length g := by
  unfold collideRecordQuick
  cases hr : g.records[i]? with
  | none => exact (collideRecord_none e i g hr _).symm
  | some r =>
    have h := collideRecord_scan e i g r hr g.dancers.length (le_refl _)
    rw [List.take_length] at h
    exact h.symm

theorem collisionLoopQuick_eq (e : Env) : ∀ (i : Nat) (g : Game),
    collisionLoopQuick e i g = collisionLoop e i g := by
  intro i
  induction i with
  | zero => intro g; rfl
  | succ i ih =>
    intro g
    rw [collisionLoopQuick, collisionLoop, collideRecordQuick_eq, ih]

theorem getElem?_take_map_drop {α : Type} (f : α → α) : ∀ (l : List α) (i : Nat) (a : α),
    l[i]? = some a → (l.take (i + 1) ++ (l.drop (i + 1)).map f)[i]? = some a := by
  intro l
  induction l with
  | nil => intro i a h; simp at h
  | cons b l ih =>
    intro i a h
    cases i with
    | zero =>
      rw [List.getElem?_cons_zero] at h
      simp [h]
    | succ i =>
      rw [List.getElem?_cons_succ] at h
      simpa using ih i a h

theorem set_take_map_drop {α : Type} (f : α → α) : ∀ (l : List α) (i : Nat) (a : α),
    l[i]? = some a →
    (l.take (i + 1) ++ (l.drop (i + 1)).map f).set i (f a) = l.take i ++ (l.drop i).map f := by
  intro l
  induction l with
  | nil => intro i a h; simp at h
  | cons b l ih =>
    intro i a h
    cases i with
    | zero =>
      rw [List.getElem?_cons_zero] at h
      simp [Option.some.inj h]
    | succ i =>
      rw [List.getElem?_cons_succ] at h
      simpa using ih i a h

theorem Dancer.update_plain (e : Env) (g : Game) (X : List Dancer) (d : Dancer)
    (h : Dancer.plain g d = true) :
    d.update e { g with dancers := X } = ((d.update e g).1, { g with dancers := X }) := by
  unfold Dancer.plain at h
  unfold Dancer.update
  dsimp only
  cases hp : g.isGamePausedForZoom <;> cases hd : d.isPausedForZoom <;>
    simp only [hp, hd, Bool.false_and, Bool.true_and, Bool.not_false, Bool.not_true,
      Bool.false_eq_true, if_false, if_true]
  rw [hp, hd] at h
  cases hs : d.state <;> rw [hs] at h <;> simp at h <;> dsimp only
  · split <;> rfl
  · split <;> rfl

theorem dancerIter_stays (e : Env) (g : Game)
    (hall : g.dancers.all (Dancer.stays e g) = true) (i : Nat) (d : Dancer)
    (hd : g.dancers[i]? = some d) :
    dancerIter e i { g with dancers := g.dancers.take (i + 1)
        ++ (g.dancers.drop (i + 1)).map (fun d => (d.update e g).1) }
      = { g with dancers := g.dancers.take i
        ++ (g.dancers.drop i).map (fun d => (d.update e g).1) } := by
  have hst := List.all_eq_true.mp hall d (List.getElem?_mem hd)
  unfold Dancer.stays at hst
  rw [Bool.and_eq_true] at hst
  obtain ⟨hplain, hno⟩ := hst
  unfold dancerIter
  dsimp only
  rw [getElem?_take_map_drop _ _ _ _ hd]
  dsimp only
  rw [Dancer.update_plain e g _ d hplain]
  dsimp only
  rw [if_neg, set_take_map_drop (fun d => (d.update e g).1) _ _ _ hd]
  rintro ⟨h1, h2, h3⟩
  rw [h1, h2, h3] at hno
  simp at hno

theorem dancerLoop_stays (e : Env) (g : Game)
    (hall : g.dancers.all (Dancer.stays e g) = true) : ∀ i, i ≤ g.dancers.length →
    dancerLoop e i { g with dancers := g.dancers.take i
        ++ (g.dancers.drop i).map (fun d => (d.update e g).1) }
      = { g with dancers := g.dancers.map (fun d => (d.update e g).1) } := by
  intro i
  induction i with
  | zero => intro _; simp [dancerLoop]
  | succ i ih =>
    intro hi
    obtain ⟨d, hd⟩ : ∃ d, g.dancers[i]? = some d :=
      ⟨g.dancers[i], List.getElem?_eq_getElem (by omega)⟩
    rw [dancerLoop, dancerIter_stays e g hall i d hd]
    exact ih (by omega)

theorem dancerLoopQuick_eq (e : Env) (g : Game) :
    dancerLoopQuick e g = dancerLoop e g.dancers.length g := by
  unfold dancerLoopQuick
  split
  · rename_i h
    exact (dancerLoop_paused e g h.1 h.2 _).symm
  · split
    · rename_i hall
      have h := dancerLoop_stays e g hall g.dancers.length (le_refl _)
      rw [List.take_length, List.drop_length, List.map_nil, List.append_nil] at h
      exact h.symm
    · rfl

theorem drawQuick_eq (e : Env) (g : Game) : drawQuick e g = draw e g := by
  have h1 : ∀ g, floorStepQuick e g = floorStep e g := by
    intro g
    unfold floorStepQuick floorStep collisionPass
    dsimp only
    rw [dancerLoopQuick_eq, recordLoopQuick_eq, collisionLoopQuick_eq]
  have h2 : ∀ g, floorStageQuick e g = floorStage e g := by
    intro g
    unfold floorStageQuick floorStage
    rw [h1]
  have h3 : ∀ g, drawGameplayQuick e g = drawGameplay e g := by
    intro g
    unfold drawGameplayQuick drawGameplay
    rw [h2]
  unfold drawQuick draw
  dsimp only
  rw [h3]

theorem framesQuick_eq (e : Env) : ∀ (n : Nat) (g : Game),
    framesQuick e n g = run e (frames n) g := by
  intro n
  induction n with
  | zero => intro g; rfl
  | succ n ih =>
    intro g
    rw [framesQuick, ih, drawQuick_eq]
    rfl

/-! ## A complete session, checked frame by frame -/

set_option maxRecDepth 1000000 in
theorem floorStart_eq :
    run floorEnv [.mousePressed 160 300, .startSoundEnded] Game.initial = floorStart := by
  decide!

theorem floorSession_add (m n : Nat) :
    floorSession (m + n) = run floorEnv (frames n) (floorSession m) := by
  unfold floorSession
  rw [frames_add]
  exact run_append floorEnv (.mousePressed 160 300 :: .startSoundEnded :: frames m) (frames n)
    Game.initial

theorem floorSession_zero : floorSession 0 = floorStart :=
  floorStart_eq

set_option maxRecDepth 1000000 in
theorem floorSession_50 : floorSession 50 = floorAt50 := by
  rw [show (50 : Nat) = 0 + 50 from rfl, floorSession_add, floorSession_zero, ← framesQuick_eq]
  decide!

set_option maxRecDepth 1000000 in
theorem floorSession_100 : floorSession 100 = floorAt100 := by
  rw [show (100 : Nat) = 50 + 50 from rfl, floorSession_add, floorSession_50, ← framesQuick_eq]
  decide!

set_option maxRecDepth 1000000 in
theorem floorSession_150 : floorSession 150 = floorAt150 := by
  rw [show (150 : Nat) = 100 + 50 from rfl, floorSession_add, floorSession_100, ← framesQuick_eq]
  decide!

set_option maxRecDepth 1000000 in
theorem floorSession_200 : floorSession 200 = floorAt200 := by
  rw [show (200 : Nat) = 150 + 50 from rfl, floorSession_add, floorSession_150, ← framesQuick_eq]
  decide!

set_option maxRecDepth 1000000 in
theorem floorSession_250 : floorSession 250 = floorAt250 := by
  rw [show (250 : Nat) = 200 + 50 from rfl, floorSession_add, floorSession_200, ← framesQuick_eq]
  decide!

set_option maxRecDepth 1000000 in
theorem floorSession_305 : floorSession 305 = floorAt305 := by
  rw [show (305 : Nat) = 250 + 55 from rfl, floorSession_add, floorSession_250, ← framesQuick_eq]
  decide!

set_option maxRecDepth 1000000 in
theorem floorSession_447 : floorSession 447 = floorAt447 := by
  rw [show (447 : Nat) = 305 + 142 from rfl, floorSession_add, floorSession_305, ← framesQuick_eq]
  decide!

set_option maxRecDepth 1000000 in
theorem floorSession_506 : floorSession 506 = floorAt506 := by
  rw [show (506 : Nat) = 447 + 59 from rfl, floorSession_add, floorSession_447, ← framesQuick_eq]
  decide!

set_option maxRecDepth 1000000 in
theorem floorSession_648 : floorSession 648 = floorAt648 := by
  rw [show (648 : Nat) = 506 + 142 from rfl, floorSession_add, floorSession_506, ← framesQuick_eq]
  decide!

set_option maxRecDepth 1000000 in
theorem floorSession_707 : floorSession 707 = floorAt707 := by
  rw [show (707 : Nat) = 648 + 59 from rfl, floorSession_add, floorSession_648, ← framesQuick_eq]
  decide!

set_option maxRecDepth 1000000 in
theorem floorSession_849 : floorSession 849 = floorAt849 := by
  rw [show (849 : Nat) = 707 + 142 from rfl, floorSession_add, floorSession_707, ← framesQuick_eq]
  decide!

set_option maxRecDepth 1000000 in
theorem floorSession_908 : floorSession 908 = floorAt908 := by
  rw [show (908 : Nat) = 849 + 59 from rfl, floorSession_add, floorSession_849, ← framesQuick_eq]
  decide!

set_option maxRecDepth 1000000 in
theorem floorSession_1050 : floorSession 1050 = floorAt1050 := by
  rw [show (1050 : Nat) = 908 + 142 from rfl, floorSession_add, floorSession_908, ← framesQuick_eq]
  decide!

theorem reachable_run (e : Env) : ∀ (evs : List Event) (g : Game),
    Reachable e g → Reachable e (run e evs g) := by
  intro evs
  induction evs with
  | nil => intro g h; exact h
  | cons ev evs ih => intro g h; exact ih (step e ev g) (Reachable.step ev h)

theorem floorSession_reachable (n : Nat) : Reachable floorEnv (floorSession n) :=
  reachable_run floorEnv _ _ Reachable.initial

/-! ## Reachable states -/

theorem reachable_invariants (e : Env) (g : Game) (h : Reachable e g) :
    PauseLockInv g ∧ ExemptInv g := by
  induction h with
  | initial =>
    refine ⟨⟨Nat.zero_le 1, fun _ => rfl⟩, ?_⟩
    intro d hd
    cases hd
  | step ev hg ih =>
    rename_i g0
    rcases step_safe e ev g0 with ⟨-, h2, h3⟩ | ⟨g1, h | h⟩
    · exact ⟨h2 ih.1, h3 ih.2⟩
    · rw [h]
      obtain ⟨-, -, -, a, b⟩ := actuallyStartGame_fields e g1
      exact ⟨a, b⟩
    · rw [h]
      obtain ⟨-, -, -, a, b⟩ := restartGame_fields e g1
      exact ⟨a, b⟩

/-- C4: the score never drops within a session and is reset to 0 exactly by
entering `playing`.  No drawGameplay tick lowers the score; no frame does;
every event (frame, input handler, asynchronous completion) either leaves the
score at least what it was or ends in one of the two entries to `playing`,
actuallyStartGame or restartGame; and each of those two always leaves
score = 0 in state `playing`. -/
theorem score_monotone_and_reset (e : Env) :
    (∀ g, g.score ≤ (drawGameplay e g).score) ∧
    (∀ g, g.score ≤ (draw e g).score) ∧
    (∀ ev g, g.score ≤ (step e ev g).score ∨
      ∃ g1, step e ev g = actuallyStartGame e g1 ∨ step e ev g = restartGame e g1) ∧
    (∀ g, (actuallyStartGame e g).score = 0 ∧ (actuallyStartGame e g).gameState = .playing) ∧
    (∀ g, (restartGame e g).score = 0 ∧ (restartGame e g).gameState = .playing) := by
  refine ⟨fun g => (drawGameplay_tame e g).score, fun g => (draw_tame e g).score, ?_, ?_, ?_⟩
  · intro ev g
    rcases step_safe e ev g with ⟨h, -, -⟩ | h
    · exact Or.inl h
    · exact Or.inr h
  · intro g
    obtain ⟨a, -, c, -, -⟩ := actuallyStartGame_fields e g
    exact ⟨a, c⟩
  · intro g
    obtain ⟨a, -, c, -, -⟩ := restartGame_fields e g
    exact ⟨a, c⟩

theorem run_invariants (e : Env) : ∀ (evs : List Event) (g : Game),
    (PauseLockInv g → PauseLockInv (run e evs g)) ∧ (ExemptInv g → ExemptInv (run e evs g)) := by
  intro evs
  induction evs with
  | nil => intro g; exact ⟨id, id⟩
  | cons ev evs ih =>
    intro g
    have hrun : run e (ev :: evs) g = run e evs (step e ev g) := rfl
    rw [hrun]
    obtain ⟨i1, i2⟩ := ih (step e ev g)
    rcases step_safe e ev g with ⟨-, h2, h3⟩ | ⟨g1, h | h⟩
    · exact ⟨fun hp => i1 (h2 hp), fun hx => i2 (h3 hx)⟩
    · obtain ⟨-, -, -, a, b⟩ := actuallyStartGame_fields e g1
      rw [h]
      rw [h] at i1 i2
      exact ⟨fun _ => i1 a, fun _ => i2 b⟩
    · obtain ⟨-, -, -, a, b⟩ := restartGame_fields e g1
      rw [h]
      rw [h] at i1 i2
      exact ⟨fun _ => i1 a, fun _ => i2 b⟩

/-- C6: at most one dancer holds the cutscene pause lock at any time.  From
every reachable state (and from every state in which at most one dancer is
pause-locked, and none while no leave cutscene is in flight), whatever
frames, input events, asynchronous completions and (re)starts follow, at
most one element of the dancer list has `isPausedForZoom` set. -/
theorem at_most_one_pause_lock (e : Env) (g0 : Game)
    (h0 : Reachable e g0 ∨ PauseLockInv g0) (evs : List Event) :
    pausedCount (run e evs g0).dancers ≤ 1 := by
  have h : PauseLockInv g0 := by
    rcases h0 with h | h
    · exact (reachable_invariants e g0 h).1
    · exact h
  exact ((run_invariants e evs g0).1 h).1

/-- Instance of C6: 305 frames into the session `floorSession`, a state
reached from the initial globals, the first dancer to walk out has just been
given the pause lock: exactly one dancer holds it. -/
theorem at_most_one_pause_lock_witness :
    pausedCount (floorSession 305).dancers = 1 ∧
    pausedCount (run floorEnv (.mousePressed 160 300 :: .startSoundEnded :: frames 305)
      Game.initial).dancers ≤ 1 :=
  ⟨by rw [floorSession_305]; decide,
   at_most_one_pause_lock floorEnv Game.initial (Or.inl Reachable.initial)
    (.mousePressed 160 300 :: .startSoundEnded :: frames 305)⟩

/-- C7: a dancer flagged exempt is never in the leaving pipeline.  From every
reachable state (and from every state in which no flagged dancer is
`stopping` or `leaving`), whatever frames, hits, population-maintenance
selections, sequence triggers, input events and (re)starts follow, a dancer
of the dancer list that has `isSpecialGirl` or `hasWhiteAura` set is neither
`stopping` nor `leaving`. -/
theorem exempt_dancer_never_leaves (e : Env) (g0 : Game)
    (h0 : Reachable e g0 ∨ ExemptInv g0) (evs : List Event) (d : Dancer)
    (hd : d ∈ (run e evs g0).dancers)
    (hex : d.isSpecialGirl = true ∨ d.hasWhiteAura = true) :
    d.state ≠ .stopping ∧ d.state ≠ .leaving := by
  have h : ExemptInv g0 := by
    rcases h0 with h | h
    · exact (reachable_invariants e g0 h).2
    · exact h
  apply (run_invariants e evs g0).2 h d hd
  unfold Dancer.exempt
  rcases hex with h1 | h1 <;> simp [h1]

set_option maxRecDepth 100000 in
/-- Instance of C7: the frame in which the score-12 block gives a dancing
female dancer the white aura. -/
theorem exempt_dancer_never_leaves_witness :
    ∃ d ∈ (run sampleEnv [.frame] auraGame).dancers,
      d.hasWhiteAura = true ∧ d.state ≠ .stopping ∧ d.state ≠ .leaving :=
  have hex : ∃ d ∈ (run sampleEnv [.frame] auraGame).dancers, d.hasWhiteAura = true := by
    decide!
  have h0 : ExemptInv auraGame := by
    intro d hd
    exact respects_of_not_exempt (by
      simp only [auraGame, sampleGame, List.mem_cons, List.mem_singleton, List.not_mem_nil,
        or_false] at hd
      rcases hd with h | h | h <;> rw [h] <;> rfl)
  hex.elim (fun d hd => ⟨d, hd.1, hd.2,
    exempt_dancer_never_leaves sampleEnv auraGame (Or.inr h0) [.frame] d hd.1 (Or.inr hd.2)⟩)

/-- C8 as amended: once the game is over with autopilot on and at least 3
dancers gone, it stays so on every later frame: after any number of frames
`gameState` is still `gameOver`, `autopilotMode` is still true and
`dancersLeft` has not dropped, so it is still at least 3 (it can have grown). -/
theorem game_over_persists (e : Env) (n : Nat) : ∀ (g : Game), g.gameState = .gameOver →
    g.autopilotMode = true → 3 ≤ g.dancersLeft →
    (run e (frames n) g).gameState = .gameOver ∧ (run e (frames n) g).autopilotMode = true ∧
    g.dancersLeft ≤ (run e (frames n) g).dancersLeft ∧ 3 ≤ (run e (frames n) g).dancersLeft := by
  induction n with
  | zero => intro g hs ha hl; exact ⟨hs, ha, Nat.le_refl _, hl⟩
  | succ n ih =>
    intro g hs ha hl
    have h := draw_tame e g
    obtain ⟨a, b⟩ := h.gameOver ⟨hs, ha⟩
    have hrun : run e (frames (n + 1)) g = run e (frames n) (draw e g) := rfl
    rw [hrun]
    obtain ⟨c1, c2, c3, c4⟩ := ih (draw e g) a b (Nat.le_trans hl h.dancersLeft)
    exact ⟨c1, c2, Nat.le_trans h.dancersLeft c3, c4⟩

/-- Instance of the amended C8: the 201 frames that follow the first game
over of the session `floorSession`. -/
theorem game_over_persists_witness :
    floorAt849.gameState = .gameOver ∧ floorAt849.autopilotMode = true ∧
    floorAt849.dancersLeft = 3 ∧
    (run floorEnv (frames 201) floorAt849).gameState = .gameOver ∧
    (run floorEnv (frames 201) floorAt849).autopilotMode = true ∧
    3 ≤ (run floorEnv (frames 201) floorAt849).dancersLeft :=
  have h := game_over_persists floorEnv 201 floorAt849 rfl rfl (by decide)
  ⟨rfl, rfl, rfl, h.1, h.2.1, h.2.2.2⟩

/-- C8 fails as stated.  In the session `floorSession` (a click on Start Game,
the end of the start sound, then frames only: no throw, no restart) frame 849
takes the game-over branch of updateDancerLeaveZoom: `dancersLeft` = 3,
`gameState` = `gameOver`, one `game_over` event.  The dancers that were
already walking out go on; the next one gets its cutscene, and frame 1050 of
the same session takes the branch again: `dancersLeft` = 4 and a second
`game_over` event. -/
theorem game_over_branch_taken_twice :
    (floorSession 849).gameState = .gameOver ∧
    (floorSession 849).autopilotMode = true ∧
    (floorSession 849).dancersLeft = 3 ∧
    gameOverEvents (floorSession 849).log = 1 ∧
    floorSession 1050 = run floorEnv (frames 201) (floorSession 849) ∧
    (floorSession 1050).gameState = .gameOver ∧
    (floorSession 1050).dancersLeft = 4 ∧
    gameOverEvents (floorSession 1050).log = 2 := by
  refine ⟨?_, ?_, ?_, ?_, floorSession_add 849 201, ?_, ?_, ?_⟩
  · rw [floorSession_849]; rfl
  · rw [floorSession_849]; rfl
  · rw [floorSession_849]; rfl
  · rw [floorSession_849]; decide
  · rw [floorSession_1050]; rfl
  · rw [floorSession_1050]; rfl
  · rw [floorSession_1050]; decide

/-! ## Entering `playing`: what is reset and what is not -/

theorem pushDancers_session (e : Env) : ∀ n g, (pushDancers e n g).session = g.session := by
  intro n
  induction n with
  | zero => intro g; rfl
  | succ n ih => intro g; rw [pushDancers, ih]; rfl

theorem populateDanceFloor_session (e : Env) (g : Game) :
    (populateDanceFloor e g).session = g.session := by
  unfold populateDanceFloor
  rw [pushDancers_session]
  rfl

/-- What `actuallyStartGame` leaves in the reset-on-start globals: all are
reinitialised except the global pause flag, which keeps its value. -/
theorem actuallyStartGame_session (e : Env) (g : Game) :
    (actuallyStartGame e g).session
      = (0, 0, [], [], false, false, false, false, .inactive, .inactive,
         g.isGamePausedForZoom) := by
  have h := populateDanceFloor_session e (startReset g)
  simp only [Game.session, Prod.mk.injEq] at h
  obtain ⟨h1, h2, h3, h4, h5, h6, h7, -, -, -, h11⟩ := h
  have hs : (actuallyStartGame e g).session
      = ((populateDanceFloor e (startReset g)).score,
         (populateDanceFloor e (startReset g)).dancersLeft,
         (populateDanceFloor e (startReset g)).records,
         (populateDanceFloor e (startReset g)).milestonesReached,
         (populateDanceFloor e (startReset g)).strobeEnabled,
         (populateDanceFloor e (startReset g)).smokeActive,
         (populateDanceFloor e (startReset g)).discoBallActive,
         false, .inactive, .inactive,
         (populateDanceFloor e (startReset g)).isGamePausedForZoom) := rfl
  rw [hs, h1, h2, h3, h4, h5, h6, h7, h11]
  rfl

/-- What `restartGame` leaves in the reset-on-start globals: all are
reinitialised except `milestonesReached` and the global pause flag, which
keep their values. -/
theorem restartGame_session (e : Env) (g : Game) :
    (restartGame e g).session
      = (0, 0, [], g.milestonesReached, false, false, false, false, .inactive, .inactive,
         g.isGamePausedForZoom) := by
  have h := populateDanceFloor_session e (restartReset e g)
  have hr : (restartReset e g).session
      = (0, 0, [], g.milestonesReached, false, false, false, false, .inactive,
         g.wristbandZoomPhase, g.isGamePausedForZoom) := by
    unfold restartReset
    dsimp only
    split <;> rfl
  rw [hr] at h
  simp only [Game.session, Prod.mk.injEq] at h
  obtain ⟨h1, h2, h3, h4, h5, h6, h7, h8, h9, -, h11⟩ := h
  have hs : (restartGame e g).session
      = ((populateDanceFloor e (restartReset e g)).score,
         (populateDanceFloor e (restartReset e g)).dancersLeft,
         (populateDanceFloor e (restartReset e g)).records,
         (populateDanceFloor e (restartReset e g)).milestonesReached,
         (populateDanceFloor e (restartReset e g)).strobeEnabled,
         (populateDanceFloor e (restartReset e g)).smokeActive,
         (populateDanceFloor e (restartReset e g)).discoBallActive,
         (populateDanceFloor e (restartReset e g)).zoomActive,
         (populateDanceFloor e (restartReset e g)).dancerLeavePhase,
         .inactive,
         (populateDanceFloor e (restartReset e g)).isGamePausedForZoom) := rfl
  rw [hs, h1, h2, h3, h4, h5, h6, h7, h8, h9, h11]

/-- C9 on the code: what the two entries to `playing` leave, for every prior
state.  `actuallyStartGame` leaves score = 0, dancersLeft = 0, no projectile,
an empty `milestonesReached`, strobe disabled, smoke idle, disco ball
inactive, generic zoom inactive and both cutscene phases `inactive`, but it
leaves the global pause flag `isGamePausedForZoom` as it was.  `restartGame`
leaves the same, except that it leaves `milestonesReached` as it was too. -/
theorem restart_keeps_milestones_and_pause (e : Env) (g : Game) :
    (actuallyStartGame e g).session
      = (0, 0, [], [], false, false, false, false, .inactive, .inactive,
         g.isGamePausedForZoom) ∧
    (restartGame e g).session
      = (0, 0, [], g.milestonesReached, false, false, false, false, .inactive, .inactive,
         g.isGamePausedForZoom) ∧
    (actuallyStartGame e g).gameState = .playing ∧ (restartGame e g).gameState = .playing := by
  obtain ⟨-, -, c1, -, -⟩ := actuallyStartGame_fields e g
  obtain ⟨-, -, c2, -, -⟩ := restartGame_fields e g
  exact ⟨actuallyStartGame_session e g, restartGame_session e g, c1, c2⟩

set_option maxRecDepth 100000 in
/-- A restart during a leave cutscene.  At frame 908 of `floorSession` the
game is over and the cutscene of the fourth dancer to go has just begun, so
the global pause flag is set.  A click on the Play Again button (120, 440)
calls `restartGame`, which opens a session in state `playing` with no
cutscene active and no dancer pause-locked, but with the pause flag still
set; going through the menu and `actuallyStartGame` leaves it set too. -/
theorem restart_during_cutscene :
    Reachable floorEnv (floorSession 908) ∧
    (floorSession 908).gameState = .gameOver ∧
    (floorSession 908).isGamePausedForZoom = true ∧
    step floorEnv (.mousePressed 120 440) (floorSession 908)
      = restartGame floorEnv ((floorSession 908).emit .player_engagement) ∧
    (step floorEnv (.mousePressed 120 440) (floorSession 908)).gameState = .playing ∧
    (step floorEnv (.mousePressed 120 440) (floorSession 908)).dancerLeavePhase = .inactive ∧
    pausedCount (step floorEnv (.mousePressed 120 440) (floorSession 908)).dancers = 0 ∧
    (step floorEnv (.mousePressed 120 440) (floorSession 908)).isGamePausedForZoom = true ∧
    (run floorEnv [.mousePressed 198 440, .mousePressed 160 300, .startSoundEnded]
      (floorSession 908)).gameState = .playing ∧
    (run floorEnv [.mousePressed 198 440, .mousePressed 160 300, .startSoundEnded]
      (floorSession 908)).isGamePausedForZoom = true := by
  refine ⟨floorSession_reachable 908, ?_⟩
  rw [floorSession_908]
  decide!

/-! ## Milestones that were reached before -/

theorem milestoneEvents_emit (m : Nat) (g : Game) (ev : Ev)
    (h : announcesMilestone m ev = false) :
    milestoneEvents m (g.emit ev).log = milestoneEvents m g.log := by
  unfold milestoneEvents Game.emit
  simp [List.countP_append, List.countP_cons, h]

theorem milestoneCheck_keeps (score k m : Nat) (p : List Nat × List Nat)
    (h : m ∉ p.1 ∧ m ∈ p.2) :
    m ∉ (milestoneCheck score k p).1 ∧ m ∈ (milestoneCheck score k p).2 := by
  unfold milestoneCheck
  split
  · rename_i hk
    have hne : m ≠ k := fun hmk => hk.2 (hmk ▸ h.2)
    simp [h.1, h.2, hne]
  · exact h

theorem checkMilestones_keeps (score m : Nat) (reached : List Nat) (h : m ∈ reached) :
    m ∉ (checkMilestones score reached).1 ∧ m ∈ (checkMilestones score reached).2 := by
  unfold checkMilestones
  exact milestoneCheck_keeps _ _ _ _ (milestoneCheck_keeps _ _ _ _
    (milestoneCheck_keeps _ _ _ _ (milestoneCheck_keeps _ _ _ _ ⟨List.not_mem_nil m, h⟩)))

theorem trackMilestones_muted (m : Nat) (g : Game) (h : m ∈ g.milestonesReached) :
    m ∈ (trackMilestones g).milestonesReached ∧
    milestoneEvents m (trackMilestones g).log = milestoneEvents m g.log := by
  obtain ⟨h1, h2⟩ := checkMilestones_keeps g.score m g.milestonesReached h
  unfold trackMilestones
  dsimp only
  split
  · refine ⟨h2, ?_⟩
    exact milestoneEvents_emit m _ _ (by simp [announcesMilestone, h1])
  · exact ⟨h2, rfl⟩

theorem scoringHit_muted (e : Env) (i j : Nat) (r : Record) (d : Dancer) (m : Nat) (g : Game)
    (h : m ∈ g.milestonesReached) :
    m ∈ (scoringHit e i j r d g).milestonesReached ∧
    milestoneEvents m (scoringHit e i j r d g).log = milestoneEvents m g.log := by
  unfold scoringHit
  dsimp only
  split_ifs
  all_goals
    refine ⟨(trackMilestones_muted m _ ?_).1, (trackMilestones_muted m _ ?_).2.trans ?_⟩
    · exact h
    · exact h
    · simp [milestoneEvents, Game.emit, List.countP_append, List.countP_cons,
        announcesMilestone]

theorem wristbandHit_muted (e : Env) (i j : Nat) (r : Record) (d : Dancer) (m : Nat) (g : Game)
    (h : m ∈ g.milestonesReached) :
    m ∈ (wristbandHit e i j r d g).milestonesReached ∧
    milestoneEvents m (wristbandHit e i j r d g).log = milestoneEvents m g.log := by
  unfold wristbandHit
  dsimp only
  split_ifs
  · refine ⟨h, ?_⟩
    simp [milestoneEvents, Game.emit, List.countP_append, List.countP_cons, announcesMilestone]
  · exact ⟨h, rfl⟩

theorem collidePair_muted (e : Env) (i j m : Nat) (g : Game) (h : m ∈ g.milestonesReached) :
    m ∈ (collidePair e i j g).1.milestonesReached ∧
    milestoneEvents m (collidePair e i j g).1.log = milestoneEvents m g.log := by
  unfold collidePair
  cases hr : g.records[i]? with
  | none => exact ⟨h, rfl⟩
  | some r =>
    cases hd : g.dancers[j]? with
    | none => exact ⟨h, rfl⟩
    | some d =>
      dsimp only
      split_ifs
      · exact wristbandHit_muted e i j r d m g h
      · exact ⟨h, rfl⟩
      · exact scoringHit_muted e i j r d m g h
      · exact ⟨h, rfl⟩
      · exact ⟨h, rfl⟩

theorem collideRecord_muted (e : Env) (i m : Nat) : ∀ (n : Nat) (g : Game),
    m ∈ g.milestonesReached →
    m ∈ (collideRecord e i n g).milestonesReached ∧
    milestoneEvents m (collideRecord e i n g).log = milestoneEvents m g.log := by
  intro n
  induction n with
  | zero => intro g h; exact ⟨h, rfl⟩
  | succ n ih =>
    intro g h
    rw [collideRecord]
    obtain ⟨h1, h2⟩ := collidePair_muted e i n m g h
    split_ifs
    · exact ⟨h1, h2⟩
    · obtain ⟨h3, h4⟩ := ih _ h1
      exact ⟨h3, h4.trans h2⟩

theorem collisionLoop_muted (e : Env) (m : Nat) : ∀ (n : Nat) (g : Game),
    m ∈ g.milestonesReached →
    m ∈ (collisionLoop e n g).milestonesReached ∧
    milestoneEvents m (collisionLoop e n g).log = milestoneEvents m g.log := by
  intro n
  induction n with
  | zero => intro g h; exact ⟨h, rfl⟩
  | succ n ih =>
    intro g h
    rw [collisionLoop]
    obtain ⟨h1, h2⟩ := collideRecord_muted e n m _ g h
    obtain ⟨h3, h4⟩ := ih _ h1
    exact ⟨h3, h4.trans h2⟩

/-- C10 on the code: a milestone reached in an earlier session never fires in
the session that `restartGame` opens.  If `m` is in `milestonesReached` when
`restartGame` is called, it is still there when the new session starts at
score 0 and in state `playing`; and from any globals with `m` in
`milestonesReached`, a collision pass, whatever hits it processes and
whatever the score becomes, emits no `milestones_reached` event that contains
`m` and leaves `m` in `milestonesReached`. -/
theorem milestone_not_refired_after_restart (e : Env) (g : Game) (m : Nat)
    (hm : m ∈ g.milestonesReached) :
    (restartGame e g).gameState = .playing ∧ (restartGame e g).score = 0 ∧
    m ∈ (restartGame e g).milestonesReached ∧
    ∀ g1 : Game, m ∈ g1.milestonesReached →
      m ∈ (collisionPass e g1).milestonesReached ∧
      milestoneEvents m (collisionPass e g1).log = milestoneEvents m g1.log := by
  obtain ⟨c1, -, c2, -, -⟩ := restartGame_fields e g
  have hs := restartGame_session e g
  simp only [Game.session, Prod.mk.injEq] at hs
  refine ⟨c2, c1, ?_, fun g1 h1 => collisionLoop_muted e m _ g1 h1⟩
  rw [hs.2.2.2.1]
  exact hm

set_option maxRecDepth 100000 in
/-- Instance of C10 on the code: `restartGame` at the game over of a
session that reached 10 points.  In the new session the scoring hit that
takes the score from 9 to 10 emits no `milestones_reached` event containing
10; the same hit with an empty `milestonesReached`, as `actuallyStartGame`
leaves it, emits one. -/
theorem milestone_not_refired_after_restart_witness :
    (draw sampleEnv secondLeaverGame).gameState = .gameOver ∧
    10 ∈ (draw sampleEnv secondLeaverGame).milestonesReached ∧
    10 ∈ (restartGame sampleEnv (draw sampleEnv secondLeaverGame)).milestonesReached ∧
    tenthHitGame.score = 9 ∧ 10 ∈ tenthHitGame.milestonesReached ∧
    (collisionPass sampleEnv tenthHitGame).score = 10 ∧
    milestoneEvents 10 (collisionPass sampleEnv tenthHitGame).log
      = milestoneEvents 10 tenthHitGame.log ∧
    milestoneEvents 10 (collisionPass sampleEnv tenthHitGame).log = 0 ∧
    milestoneEvents 10
      (collisionPass sampleEnv { tenthHitGame with milestonesReached := [] }).log = 1 :=
  have h := milestone_not_refired_after_restart sampleEnv (draw sampleEnv secondLeaverGame) 10
    (by decide!)
  ⟨by decide!, by decide!, h.2.2.1, by decide!, by decide!, by decide!,
   (h.2.2.2 tenthHitGame (by decide!)).2, by decide!, by decide!⟩

/-- Instance of C5: the cutscene of the third dancer to leave ends the game,
that of the first does not. -/
theorem leave_cutscene_completion_witness :
    (updateDancerLeaveZoom sampleEnv (cutsceneEndGame 2)).dancers
      = [sampleDancer 0 100 300 .dancing] ∧
    (updateDancerLeaveZoom sampleEnv (cutsceneEndGame 2)).dancersLeft = 3 ∧
    (updateDancerLeaveZoom sampleEnv (cutsceneEndGame 2)).dancerLeavePhase = .inactive ∧
    (updateDancerLeaveZoom sampleEnv (cutsceneEndGame 2)).isGamePausedForZoom = false ∧
    (updateDancerLeaveZoom sampleEnv (cutsceneEndGame 2)).gameState = .gameOver ∧
    (updateDancerLeaveZoom sampleEnv (cutsceneEndGame 2)).autopilotMode = true :=
  have h := leave_cutscene_completion sampleEnv (cutsceneEndGame 2) 1
    { sampleDancer 1 (-41) 300 .leaving with isPausedForZoom := true }
    rfl rfl (by decide!) rfl rfl
    (by
      intro k d' hk hd
      match k, hk with
      | k + 2, _ => simp [cutsceneEndGame, sampleGame] at hd)
  ⟨h.1, h.2.2.1, h.2.2.2.1, h.2.2.2.2.1, (h.2.2.2.2.2.1 (by decide)).1,
    (h.2.2.2.2.2.1 (by decide)).2⟩

/-! ## The leave cutscene, counted in calls -/

theorem removeDancer_leaveZoom (e : Env) (i : Nat) (g : Game) :
    (removeDancer e i g).leaveZoom = g.leaveZoom := by
  unfold removeDancer enterGameOver
  dsimp only
  split_ifs <;> rfl

theorem removePausedDancer_leaveZoom (e : Env) : ∀ (n : Nat) (g : Game),
    (removePausedDancer e n g).leaveZoom = g.leaveZoom := by
  intro n
  induction n with
  | zero => intro g; rfl
  | succ n ih =>
    intro g
    rw [removePausedDancer]
    split
    · split
      · exact removeDancer_leaveZoom e n g
      · exact ih g
    · exact ih g

theorem updateDancerLeaveZoom_leaveZoom (e : Env) (g : Game) :
    (updateDancerLeaveZoom e g).leaveZoom = leaveZoomNext g.leaveZoom := by
  unfold updateDancerLeaveZoom leaveZoomNext
  cases ha : g.dancerLeaveZoomActive with
  | false => simp [Game.leaveZoom, ha]
  | true =>
    cases hp : g.dancerLeavePhase with
    | inactive => simp [Game.leaveZoom, ha, hp]
    | zooming_in =>
      simp only [Game.leaveZoom, ha, hp, Bool.not_true, Bool.false_eq_true, if_false]
      split_ifs <;> simp [ha]
    | displaying_image =>
      simp only [Game.leaveZoom, ha, hp, Bool.not_true, Bool.false_eq_true, if_false]
      split_ifs <;> simp [ha]
    | zooming_out =>
      simp only [Game.leaveZoom, ha, hp, Bool.not_true, Bool.false_eq_true, if_false]
      split_ifs
      · have h := removePausedDancer_leaveZoom e g.dancers.length
          { g with dancerLeaveZoomProgress := fsub g.dancerLeaveZoomProgress dancerLeaveZoomSpeed,
                   dancerLeavePhase := .inactive, dancerLeaveZoomActive := false,
                   waitingForDancerLeaveSound := false, isGamePausedForZoom := false }
        simp only [Game.leaveZoom] at h
        exact h
      · simp [ha]

theorem leaveZoomCalls_leaveZoom (e : Env) (g : Game) : ∀ n : Nat,
    (leaveZoomCalls e n g).leaveZoom = leaveZoomSteps n g.leaveZoom := by
  intro n
  induction n with
  | zero => rfl
  | succ n ih => rw [leaveZoomCalls, updateDancerLeaveZoom_leaveZoom, ih]; rfl

theorem triggerDancerLeaveZoom_leaveZoom (e : Env) (g : Game) :
    (triggerDancerLeaveZoom e g).leaveZoom = (true, 0, .zooming_in, 0) := by
  unfold triggerDancerLeaveZoom
  dsimp only
  split_ifs <;> rfl

theorem leaveZoomSteps_add (m : Nat) : ∀ (n : Nat) (s : Bool × ℚ × LeavePhase × ℤ),
    leaveZoomSteps (m + n) s = leaveZoomSteps n (leaveZoomSteps m s) := by
  intro n
  induction n with
  | zero => intro s; rfl
  | succ n ih => intro s; rw [← Nat.add_assoc, leaveZoomSteps, ih]; rfl

theorem leaveZoomSteps_done : ∀ (n : Nat) (p : ℚ) (t : ℤ),
    leaveZoomSteps n (false, p, .inactive, t) = (false, p, .inactive, t) := by
  intro n
  induction n with
  | zero => intro p t; rfl
  | succ n ih => intro p t; rw [leaveZoomSteps, ih]; rfl

set_option maxRecDepth 1000000 in
theorem leaveZoomSteps_trace :
    (∀ n, n < 11 → (leaveZoomSteps n (true, 0, .zooming_in, 0)).2.2.1 = .zooming_in) ∧
    (∀ n, 11 ≤ n → n < 131 →
      (leaveZoomSteps n (true, 0, .zooming_in, 0)).2.2.1 = .displaying_image) ∧
    (∀ n, 131 ≤ n → n < 142 →
      (leaveZoomSteps n (true, 0, .zooming_in, 0)).2.2.1 = .zooming_out) ∧
    leaveZoomSteps 142 (true, 0, .zooming_in, 0)
      = (false, -450359962737049 / 4503599627370496, .inactive, 0) := by
  decide!

theorem updateDancerLeaveZoom_keeps (e : Env) (g : Game)
    (h : (updateDancerLeaveZoom e g).dancerLeavePhase ≠ .inactive) :
    (updateDancerLeaveZoom e g).dancers = g.dancers ∧
    (updateDancerLeaveZoom e g).dancersLeft = g.dancersLeft ∧
    (updateDancerLeaveZoom e g).isGamePausedForZoom = g.isGamePausedForZoom := by
  revert h
  unfold updateDancerLeaveZoom
  cases ha : g.dancerLeaveZoomActive with
  | false => intro _; exact ⟨rfl, rfl, rfl⟩
  | true =>
    cases hp : g.dancerLeavePhase with
    | inactive => intro _; exact ⟨rfl, rfl, rfl⟩
    | zooming_in =>
      simp only [Bool.not_true, Bool.false_eq_true, if_false]
      split_ifs <;> (intro _; exact ⟨rfl, rfl, rfl⟩)
    | displaying_image =>
      simp only [Bool.not_true, Bool.false_eq_true, if_false]
      split_ifs <;> (intro _; exact ⟨rfl, rfl, rfl⟩)
    | zooming_out =>
      simp only [Bool.not_true, Bool.false_eq_true, if_false]
      split_ifs
      · intro h
        exfalso
        apply h
        exact congrArg (fun s => s.2.2.1) (removePausedDancer_leaveZoom e g.dancers.length
          { g with dancerLeaveZoomProgress := fsub g.dancerLeaveZoomProgress dancerLeaveZoomSpeed,
                   dancerLeavePhase := .inactive, dancerLeaveZoomActive := false,
                   waitingForDancerLeaveSound := false, isGamePausedForZoom := false })
      · intro _; exact ⟨rfl, rfl, rfl⟩

theorem leaveZoomCalls_phase (e : Env) (g : Game) (n : Nat) :
    (leaveZoomCalls e n (triggerDancerLeaveZoom e g)).dancerLeavePhase
      = (leaveZoomSteps n (true, 0, .zooming_in, 0)).2.2.1 := by
  have h := leaveZoomCalls_leaveZoom e (triggerDancerLeaveZoom e g) n
  rw [triggerDancerLeaveZoom_leaveZoom] at h
  exact congrArg (fun s => s.2.2.1) h

/-- C12 as amended: the dancer-leave cutscene lasts zoom-in 11 calls + hold
120 calls + zoom-out 11 calls.  Counted in `updateDancerLeaveZoom` calls after
`triggerDancerLeaveZoom`, whatever the other globals are: the phase is
`zooming_in` after fewer than 11 calls (ten steps of the double 0.1 stop at
0.9999999999999999), `displaying_image` after 11 to 130 calls, `zooming_out`
after 131 to 141 calls and `inactive` from the 142nd call on; and as long as
fewer than 142 calls were made the dancer list, `dancersLeft` and the global
pause flag are as `triggerDancerLeaveZoom` left them. -/
theorem leave_cutscene_takes_142_calls (e : Env) (g : Game) (n : Nat) :
    (n < 11 →
      (leaveZoomCalls e n (triggerDancerLeaveZoom e g)).dancerLeavePhase = .zooming_in) ∧
    (11 ≤ n → n < 131 →
      (leaveZoomCalls e n (triggerDancerLeaveZoom e g)).dancerLeavePhase = .displaying_image) ∧
    (131 ≤ n → n < 142 →
      (leaveZoomCalls e n (triggerDancerLeaveZoom e g)).dancerLeavePhase = .zooming_out) ∧
    (142 ≤ n →
      (leaveZoomCalls e n (triggerDancerLeaveZoom e g)).dancerLeavePhase = .inactive) ∧
    (n < 142 →
      (leaveZoomCalls e n (triggerDancerLeaveZoom e g)).dancers = g.dancers ∧
      (leaveZoomCalls e n (triggerDancerLeaveZoom e g)).dancersLeft = g.dancersLeft ∧
      (leaveZoomCalls e n (triggerDancerLeaveZoom e g)).isGamePausedForZoom = true) := by
  obtain ⟨t1, t2, t3, t4⟩ := leaveZoomSteps_trace
  have hphase := leaveZoomCalls_phase e g
  refine ⟨fun h => ?_, fun h1 h2 => ?_, fun h1 h2 => ?_, fun h => ?_, ?_⟩
  · rw [hphase]; exact t1 n h
  · rw [hphase]; exact t2 n h1 h2
  · rw [hphase]; exact t3 n h1 h2
  · rw [hphase]
    obtain ⟨k, rfl⟩ := Nat.exists_eq_add_of_le h
    rw [leaveZoomSteps_add, t4, leaveZoomSteps_done]
  · induction n with
    | zero =>
      intro _
      unfold leaveZoomCalls triggerDancerLeaveZoom
      dsimp only
      split_ifs <;> exact ⟨rfl, rfl, rfl⟩
    | succ n ih =>
      intro h
      obtain ⟨i1, i2, i3⟩ := ih (Nat.lt_of_succ_lt h)
      have hne : (leaveZoomCalls e (n + 1) (triggerDancerLeaveZoom e g)).dancerLeavePhase
          ≠ .inactive := by
        rw [hphase]
        rcases Nat.lt_or_ge (n + 1) 11 with c | c
        · rw [t1 _ c]; decide
        · rcases Nat.lt_or_ge (n + 1) 131 with c2 | c2
          · rw [t2 _ c c2]; decide
          · rw [t3 _ c2 h]; decide
      obtain ⟨k1, k2, k3⟩ := updateDancerLeaveZoom_keeps e
        (leaveZoomCalls e n (triggerDancerLeaveZoom e g)) hne
      exact ⟨k1.trans i1, k2.trans i2, k3.trans i3⟩

set_option maxRecDepth 1000000 in
/-- Instance of the amended C12: the cutscene of the dancer that walked out in
`walkedOutGame`, after 10, 11, 130, 131, 141 and 142 calls. -/
theorem leave_cutscene_takes_142_calls_witness :
    (leaveZoomCalls sampleEnv 10
      (triggerDancerLeaveZoom sampleEnv walkedOutGame)).dancerLeavePhase = .zooming_in ∧
    (leaveZoomCalls sampleEnv 11
      (triggerDancerLeaveZoom sampleEnv walkedOutGame)).dancerLeavePhase = .displaying_image ∧
    (leaveZoomCalls sampleEnv 130
      (triggerDancerLeaveZoom sampleEnv walkedOutGame)).dancerLeavePhase = .displaying_image ∧
    (leaveZoomCalls sampleEnv 131
      (triggerDancerLeaveZoom sampleEnv walkedOutGame)).dancerLeavePhase = .zooming_out ∧
    (leaveZoomCalls sampleEnv 141
      (triggerDancerLeaveZoom sampleEnv walkedOutGame)).dancerLeavePhase = .zooming_out ∧
    (leaveZoomCalls sampleEnv 142
      (triggerDancerLeaveZoom sampleEnv walkedOutGame)).dancerLeavePhase = .inactive :=
  ⟨(leave_cutscene_takes_142_calls sampleEnv walkedOutGame 10).1 (by decide),
   (leave_cutscene_takes_142_calls sampleEnv walkedOutGame 11).2.1 (by decide) (by decide),
   (leave_cutscene_takes_142_calls sampleEnv walkedOutGame 130).2.1 (by decide) (by decide),
   (leave_cutscene_takes_142_calls sampleEnv walkedOutGame 131).2.2.1 (by decide) (by decide),
   (leave_cutscene_takes_142_calls sampleEnv walkedOutGame 141).2.2.1 (by decide) (by decide),
   (leave_cutscene_takes_142_calls sampleEnv walkedOutGame 142).2.2.2.1 (by decide)⟩

set_option maxRecDepth 1000000 in
/-- C12 fails as stated: in the cutscene of the dancer that walked out in
`walkedOutGame` the phase is `displaying_image` already after the 11th call
(not `zooming_in` until the 50th), `zooming_out` after the 131st, and the
142nd call ends the cutscene and removes the dancer, 78 calls before the 220
of the claim. -/
theorem leave_cutscene_is_not_50_120_50 :
    (leaveZoomCalls sampleEnv 11
      (triggerDancerLeaveZoom sampleEnv walkedOutGame)).dancerLeavePhase = .displaying_image ∧
    (leaveZoomCalls sampleEnv 49
      (triggerDancerLeaveZoom sampleEnv walkedOutGame)).dancerLeavePhase = .displaying_image ∧
    (leaveZoomCalls sampleEnv 131
      (triggerDancerLeaveZoom sampleEnv walkedOutGame)).dancerLeavePhase = .zooming_out ∧
    (leaveZoomCalls sampleEnv 141
      (triggerDancerLeaveZoom sampleEnv walkedOutGame)).dancers.length = 2 ∧
    (leaveZoomCalls sampleEnv 142
      (triggerDancerLeaveZoom sampleEnv walkedOutGame)).dancerLeavePhase = .inactive ∧
    (leaveZoomCalls sampleEnv 142
      (triggerDancerLeaveZoom sampleEnv walkedOutGame)).dancers
        = [sampleDancer 0 100 300 .dancing] ∧
    (leaveZoomCalls sampleEnv 142
      (triggerDancerLeaveZoom sampleEnv walkedOutGame)).dancersLeft = 1 := by
  decide!

/-! ## The strobe sequence, counted in calls -/

theorem updateStrobeEffect_strobe (g : Game) :
    (updateStrobeEffect g).strobe = strobeNext g.strobe := by
  unfold updateStrobeEffect strobeNext triggerStrobeEffect Game.strobe
  dsimp only
  split_ifs <;> rfl

theorem strobeCalls_strobe (g : Game) : ∀ n : Nat,
    (strobeCalls n g).strobe = strobeSteps n g.strobe := by
  intro n
  induction n with
  | zero => rfl
  | succ n ih => rw [strobeCalls, updateStrobeEffect_strobe, ih]; rfl

theorem strobeSteps_add (m : Nat) : ∀ (n : Nat) (s : Nat × Bool × Nat × Bool × Nat × Bool),
    strobeSteps (m + n) s = strobeSteps n (strobeSteps m s) := by
  intro n
  induction n with
  | zero => intro s; rfl
  | succ n ih => intro s; rw [← Nat.add_assoc, strobeSteps, ih]; rfl

theorem triggerStrobeEffect_strobe (g : Game) (he : g.strobeEnabled = true)
    (hc : g.strobeCooldown = 0) (ho : g.strobeOn = false) :
    (triggerStrobeEffect g).strobe = burstStart := by
  unfold triggerStrobeEffect Game.strobe burstStart
  dsimp only
  rw [he, hc, ho]

theorem strobeOnAfter_eq (g : Game) (n : Nat) :
    strobeOnAfter n g = (List.range n).map (fun k => (strobeSteps (k + 1) g.strobe).2.1) := by
  unfold strobeOnAfter
  apply List.map_congr_left
  intro k _
  exact congrArg (fun s => s.2.1) (strobeCalls_strobe g (k + 1))

set_option maxRecDepth 1000000 in
theorem strobe_burst_trace :
    (∀ n, n < 244 → ((strobeSteps n burstStart).2.1 = true ↔
      (7 ≤ n ∧ n < 14) ∨ (21 ≤ n ∧ n < 28) ∨ (35 ≤ n ∧ n < 42) ∨ (49 ≤ n ∧ n < 56))) ∧
    strobeSteps 62 burstStart = (62, false, 4, true, 0, true) ∧
    strobeSteps 63 burstStart = (63, false, 5, false, 180, true) ∧
    (∀ n, n < 243 → 63 ≤ n → (strobeSteps n burstStart).2.2.2.2.1 = 243 - n) ∧
    strobeSteps 243 burstStart = burstStart ∧
    flashCount false ((List.range 243).map (fun k => (strobeSteps (k + 1) burstStart).2.1))
      = 4 := by
  refine ⟨by decide!, by decide!, by decide!, by decide!, by decide!, by decide!⟩

/-- Claim C16: a strobe burst shows four flashes, not five.  From the start of
a burst (the strobe globals right after triggerStrobeEffect with the strobe
enabled), the values of strobeOn after the 243 following calls of
updateStrobeEffect contain four separate intervals of true; the 63rd call
raises strobeCount to 5 and in the same call sets strobeOn back to false and
the cooldown to 180, so the fifth flash is never on after a call; strobeOn is
false after each of the calls 63 to 242, the 243rd call starts the next burst,
and the sequence repeats with period 243. -/
theorem strobe_burst_shows_four_flashes (g : Game) (h : g.strobe = burstStart) :
    flashCount false (strobeOnAfter 243 g) = 4 ∧
    (strobeCalls 62 g).strobeCount = 4 ∧ (strobeCalls 62 g).strobeOn = false ∧
    (strobeCalls 63 g).strobeCount = 5 ∧ (strobeCalls 63 g).strobeOn = false ∧
    (strobeCalls 63 g).strobeCooldown = 180 ∧
    (∀ n, 63 ≤ n → n < 243 → (strobeCalls n g).strobeOn = false ∧
      (strobeCalls n g).strobeCooldown = 243 - n) ∧
    (strobeCalls 243 g).strobe = burstStart ∧
    (∀ k n, (strobeCalls (243 * k + n) g).strobe = (strobeCalls n g).strobe) := by
  obtain ⟨t1, t2, t3, t4, t5, t6⟩ := strobe_burst_trace
  have hs : ∀ n, (strobeCalls n g).strobe = strobeSteps n burstStart := by
    intro n; rw [strobeCalls_strobe, h]
  have hon : ∀ n, (strobeCalls n g).strobeOn = (strobeSteps n burstStart).2.1 :=
    fun n => congrArg (fun s => s.2.1) (hs n)
  have hcount : ∀ n, (strobeCalls n g).strobeCount = (strobeSteps n burstStart).2.2.1 :=
    fun n => congrArg (fun s => s.2.2.1) (hs n)
  have hcool : ∀ n, (strobeCalls n g).strobeCooldown = (strobeSteps n burstStart).2.2.2.2.1 :=
    fun n => congrArg (fun s => s.2.2.2.2.1) (hs n)
  have hper : ∀ k, strobeSteps (243 * k) burstStart = burstStart := by
    intro k
    induction k with
    | zero => rfl
    | succ k ih => rw [Nat.mul_succ, strobeSteps_add, ih, t5]
  refine ⟨?_, ?_, ?_, ?_, ?_, ?_, ?_, ?_, ?_⟩
  · rw [strobeOnAfter_eq, h]; exact t6
  · rw [hcount, t2]
  · rw [hon, t2]
  · rw [hcount, t3]
  · rw [hon, t3]
  · rw [hcool, t3]
  · intro n h1 h2
    refine ⟨?_, ?_⟩
    · rw [hon]
      have hi := t1 n (Nat.lt_succ_of_lt h2)
      cases hb : (strobeSteps n burstStart).2.1 with
      | false => rfl
      | true => have := hi.1 hb; omega
    · rw [hcool]; exact t4 n h2 h1
  · rw [hs, t5]
  · intro k n
    rw [hs, hs, strobeSteps_add, hper]

/-- The instance of the strobe count for a game in which the strobe has just
been enabled and triggered. -/
theorem strobe_burst_shows_four_flashes_witness :
    flashCount false
      (strobeOnAfter 243 (triggerStrobeEffect { Game.initial with strobeEnabled := true })) = 4 :=
  (strobe_burst_shows_four_flashes
    (triggerStrobeEffect { Game.initial with strobeEnabled := true }) (by decide)).1

/-! ## The stopping countdown -/

theorem Dancer.update_stopping (e : Env) (g : Game) (d : Dancer)
    (hg : g.isGamePausedForZoom = false) (hp : d.isPausedForZoom = false)
    (hs : d.state = .stopping) :
    (d.update e g).1 =
      if d.stateTimer - 1 ≤ 0 then
        { d with state := .leaving, stateTimer := 300 }
      else { d with stateTimer := d.stateTimer - 1 } := by
  unfold Dancer.update
  rw [hg, hp]
  simp only [Bool.false_and, Bool.false_eq_true, if_false]
  rw [hs]
  dsimp only
  split_ifs <;> rfl

theorem Dancer.updates_stopping (e : Env) (gs : Nat → Game) (d : Dancer)
    (hg : ∀ k, (gs k).isGamePausedForZoom = false) (hp : d.isPausedForZoom = false)
    (hs : d.state = .stopping) (ht : d.stateTimer = 60) :
    ∀ k : Nat, k < 60 →
      (Dancer.updates e gs k d).state = .stopping ∧
      (Dancer.updates e gs k d).stateTimer = 60 - k ∧
      (Dancer.updates e gs k d).isPausedForZoom = false := by
  intro k
  induction k with
  | zero => intro _; exact ⟨hs, by simpa using ht, hp⟩
  | succ k ih =>
    intro hk
    obtain ⟨i1, i2, i3⟩ := ih (Nat.lt_of_succ_lt hk)
    have hne : ¬ (Dancer.updates e gs k d).stateTimer - 1 ≤ 0 := by
      rw [i2]; omega
    rw [Dancer.updates, Dancer.update_stopping e (gs k) _ (hg k) i3 i1, if_neg hne]
    refine ⟨i1, ?_, i3⟩
    show (Dancer.updates e gs k d).stateTimer - 1 = 60 - ((k + 1 : Nat) : ℤ)
    rw [i2]; push_cast; ring

theorem randomIndex_lt_three (r : ℚ) (h0 : 0 ≤ r) (h1 : r < 1) : randomIndex r 3 < 3 := by
  unfold randomIndex
  have hlt : ⌊r * ((3 : Nat) : ℚ)⌋ < 3 := by
    rw [Int.floor_lt]; push_cast; linarith
  have hge : 0 ≤ ⌊r * ((3 : Nat) : ℚ)⌋ := by
    apply Int.floor_nonneg.mpr; push_cast; linarith
  omega

/-- Claim C14: the stopping countdown.  With `r` a result of random() (in
[0, 1)): startLeaving on a dancer that is not the special girl and is dancing
puts it in state stopping with stateTimer 60 and an exit direction among left,
right and back; on the special girl or on a dancer that is not dancing it
changes nothing.  After startLeaving, under unpaused Dancer.update calls (the
game is not paused for a zoom and the dancer is not pause-locked), the dancer
is still stopping with stateTimer 60 - k after k calls for every k below 60,
and after the 60th call it is leaving with stateTimer 300. -/
theorem stopping_countdown (e : Env) (r : ℚ) (d : Dancer) (h0 : 0 ≤ r) (h1 : r < 1) :
    (d.isSpecialGirl = false → d.state = .dancing →
      (d.startLeaving r).state = .stopping ∧ (d.startLeaving r).stateTimer = 60 ∧
      (∃ dir, dir ∈ directions ∧ (d.startLeaving r).exitDirection = some dir) ∧
      (d.startLeaving r).x = d.x ∧ (d.startLeaving r).y = d.y ∧
      ∀ gs : Nat → Game, (∀ k, (gs k).isGamePausedForZoom = false) →
        d.isPausedForZoom = false →
        (∀ k : Nat, k < 60 →
          (Dancer.updates e gs k (d.startLeaving r)).state = .stopping ∧
          (Dancer.updates e gs k (d.startLeaving r)).stateTimer = 60 - k) ∧
        (Dancer.updates e gs 60 (d.startLeaving r)).state = .leaving ∧
        (Dancer.updates e gs 60 (d.startLeaving r)).stateTimer = 300) ∧
    (d.isSpecialGirl = true ∨ d.state ≠ .dancing → d.startLeaving r = d) := by
  refine ⟨fun hsp hst => ?_, fun h => ?_⟩
  · have hd : d.startLeaving r =
        { d with state := .stopping, stateTimer := 60,
                 exitDirection := directions[randomIndex r 3]? } := by
      unfold Dancer.startLeaving
      rw [hsp, hst]
      simp only [Bool.false_eq_true, if_false, if_true]
    have hlt : randomIndex r 3 < directions.length := randomIndex_lt_three r h0 h1
    refine ⟨by rw [hd], by rw [hd], ?_, by rw [hd], by rw [hd], ?_⟩
    · refine ⟨directions[randomIndex r 3], List.getElem_mem _, ?_⟩
      rw [hd]
      exact List.getElem?_eq_getElem hlt
    · intro gs hg hp
      have hp1 : (d.startLeaving r).isPausedForZoom = false := by rw [hd]; exact hp
      have hs1 : (d.startLeaving r).state = .stopping := by rw [hd]
      have ht1 : (d.startLeaving r).stateTimer = 60 := by rw [hd]
      have hc := Dancer.updates_stopping e gs (d.startLeaving r) hg hp1 hs1 ht1
      refine ⟨fun k hk => ⟨(hc k hk).1, (hc k hk).2.1⟩, ?_⟩
      obtain ⟨i1, i2, i3⟩ := hc 59 (by decide)
      have hle : (Dancer.updates e gs 59 (d.startLeaving r)).stateTimer - 1 ≤ 0 := by
        rw [i2]; norm_num
      have h60 : Dancer.updates e gs 60 (d.startLeaving r) =
          { Dancer.updates e gs 59 (d.startLeaving r) with
            state := .leaving, stateTimer := 300 } := by
        rw [Dancer.updates, Dancer.update_stopping e (gs 59) _ (hg 59) i3 i1, if_pos hle]
      rw [h60]
      exact ⟨rfl, rfl⟩
  · unfold Dancer.startLeaving
    rcases h with h | h
    · rw [h]; simp only [if_true]
    · rw [if_neg h]; simp only [ite_self]

set_option maxRecDepth 1000000 in
/-- The countdown of a dancing sample dancer told to leave on the draw 1/2:
it is given the exit direction right and is leaving after 60 updates. -/
theorem stopping_countdown_witness :
    ((sampleDancer 0 100 300 .dancing).startLeaving (1 / 2)).exitDirection = some .right ∧
    (Dancer.updates sampleEnv (fun _ => sampleGame [] []) 60
      ((sampleDancer 0 100 300 .dancing).startLeaving (1 / 2))).state = .leaving :=
  ⟨by decide!,
   (((stopping_countdown sampleEnv (1 / 2) (sampleDancer 0 100 300 .dancing)
      (by norm_num) (by norm_num)).1 rfl rfl).2.2.2.2.2
      (fun _ => sampleGame [] []) (fun _ => rfl) rfl).2.1⟩

set_option maxRecDepth 1000000 in
/-- A dancing dancer with the white aura, exempt from leaving but not the
special girl, is stopped by startLeaving like any other dancer: it enters
state stopping with stateTimer 60 and an exit direction.  Only the filter at
the call site keeps startLeaving away from it. -/
theorem startLeaving_stops_white_aura :
    whiteAuraDancer.exempt = true ∧ whiteAuraDancer.hasWhiteAura = true ∧
    whiteAuraDancer.isSpecialGirl = false ∧ whiteAuraDancer.state = .dancing ∧
    mayBeAskedToLeave whiteAuraDancer = false ∧
    (whiteAuraDancer.startLeaving (1 / 2)).state = .stopping ∧
    (whiteAuraDancer.startLeaving (1 / 2)).stateTimer = 60 ∧
    (whiteAuraDancer.startLeaving (1 / 2)).exitDirection = some .right ∧
    whiteAuraDancer.startLeaving (1 / 2) ≠ whiteAuraDancer := by
  refine ⟨by decide!, by decide!, by decide!, by decide!, by decide!, by decide!, by decide!,
    by decide!, by decide!⟩

/-! ## Wristband hits -/

theorem wristbandHit_score (e : Env) (i j : Nat) (r : Record) (d : Dancer) (g : Game) :
    (wristbandHit e i j r d g).score = g.score := by
  unfold wristbandHit
  dsimp only
  split_ifs <;> rfl

theorem wristbandHit_fields (e : Env) (i j : Nat) (r : Record) (d : Dancer) (g : Game) :
    (wristbandHit e i j r d g).girlHitWithWristband = true ∧
    (wristbandHit e i j r d g).throwingWristbands = false ∧
    (wristbandHit e i j r d g).wristbandZoomPhase = .zooming_in ∧
    (wristbandHit e i j r d g).wristbandZoomProgress = 0 ∧
    (wristbandHit e i j r d g).isGamePausedForZoom = true ∧
    (wristbandHit e i j r d g).zoomedWristband = some r.uid ∧
    (wristbandHit e i j r d g).dancers = g.dancers.set j d.startGoingToDJBooth ∧
    (wristbandHit e i j r d g).records = g.records.set i { r with markedForRemoval := true } := by
  unfold wristbandHit
  dsimp only
  split_ifs <;> exact ⟨rfl, rfl, rfl, rfl, rfl, rfl, rfl, rfl⟩

/-- Claim C15: a wristband within hit distance of a dancer.  When the dancer
is targetGirlDancer and girlHitWithWristband is false, the pair is a hit that
ends the inner loop: girlHitWithWristband becomes true, throwingWristbands
false, the wristband zoom starts (phase zooming_in, progress 0, the game
paused, the wristband remembered), the dancer is sent to the DJ booth and the
wristband is marked for removal.  In every other case the pair leaves the
whole game as it was and the loop goes on, which is so for every wristband
pair of a game in which girlHitWithWristband is true.  In both cases the
score is unchanged. -/
theorem wristband_hits_target_once (e : Env) (i j : Nat) (g : Game) (r : Record) (d : Dancer)
    (hr : g.records[i]? = some r) (hd : g.dancers[j]? = some d)
    (hw : r.type = .wristband) (hh : hitTest r d = true) :
    (g.targetGirlDancer = some d.uid ∧ g.girlHitWithWristband = false →
      (collidePair e i j g).2 = true ∧
      (collidePair e i j g).1.girlHitWithWristband = true ∧
      (collidePair e i j g).1.throwingWristbands = false ∧
      (collidePair e i j g).1.wristbandZoomPhase = .zooming_in ∧
      (collidePair e i j g).1.wristbandZoomProgress = 0 ∧
      (collidePair e i j g).1.isGamePausedForZoom = true ∧
      (collidePair e i j g).1.zoomedWristband = some r.uid ∧
      (collidePair e i j g).1.dancers = g.dancers.set j d.startGoingToDJBooth ∧
      (collidePair e i j g).1.records = g.records.set i { r with markedForRemoval := true } ∧
      ∀ (k l : Nat) (r' : Record), (collidePair e i j g).1.records[k]? = some r' →
        r'.type = .wristband →
        collidePair e k l (collidePair e i j g).1 = ((collidePair e i j g).1, false)) ∧
    (¬ (g.targetGirlDancer = some d.uid ∧ g.girlHitWithWristband = false) →
      collidePair e i j g = (g, false)) ∧
    (collidePair e i j g).1.score = g.score := by
  have hpass : ∀ (g' : Game) (k l : Nat) (r' : Record), g'.girlHitWithWristband = true →
      g'.records[k]? = some r' → r'.type = .wristband →
      collidePair e k l g' = (g', false) := by
    intro g' k l r' hg hk ht
    unfold collidePair
    rw [hk]
    cases hl : g'.dancers[l]? with
    | none => rfl
    | some d' =>
      dsimp only
      rw [ht, hg]
      simp only [Bool.true_eq_false, and_false, if_false, if_true, ite_self]
  have hhit : g.targetGirlDancer = some d.uid ∧ g.girlHitWithWristband = false →
      collidePair e i j g = (wristbandHit e i j r d g, true) := by
    intro h
    unfold collidePair
    rw [hr, hd]
    dsimp only
    rw [hh, hw, if_pos h]
    simp only [if_true]
  have hmiss : ¬ (g.targetGirlDancer = some d.uid ∧ g.girlHitWithWristband = false) →
      collidePair e i j g = (g, false) := by
    intro h
    unfold collidePair
    rw [hr, hd]
    dsimp only
    rw [hh, hw, if_neg h]
    simp only [if_true]
  refine ⟨fun h => ?_, hmiss, ?_⟩
  · rw [hhit h]
    obtain ⟨f1, f2, f3, f4, f5, f6, f7, f8⟩ := wristbandHit_fields e i j r d g
    exact ⟨rfl, f1, f2, f3, f4, f5, f6, f7, f8,
      fun k l r' hk ht => hpass _ k l r' f1 hk ht⟩
  · by_cases h : g.targetGirlDancer = some d.uid ∧ g.girlHitWithWristband = false
    · rw [hhit h]; exact wristbandHit_score e i j r d g
    · rw [hmiss h]

set_option maxRecDepth 1000000 in
/-- The wristband of the sample session hits the target girl (dancer 0) and
passes through dancer 1, who stands on the same spot. -/
theorem wristband_hits_target_once_witness :
    (collidePair sampleEnv 0 0 wristbandGame).2 = true ∧
    (collidePair sampleEnv 0 0 wristbandGame).1.girlHitWithWristband = true ∧
    collidePair sampleEnv 0 1 wristbandGame = (wristbandGame, false) ∧
    (collidePair sampleEnv 0 0 wristbandGame).1.score = 13 :=
  ⟨((wristband_hits_target_once sampleEnv 0 0 wristbandGame
      (sampleRecord 7 105 300 .wristband)
      { sampleDancer 0 100 300 .dancing with hasWhiteAura := true }
      rfl rfl rfl (by decide!)).1 ⟨rfl, rfl⟩).1,
   ((wristband_hits_target_once sampleEnv 0 0 wristbandGame
      (sampleRecord 7 105 300 .wristband)
      { sampleDancer 0 100 300 .dancing with hasWhiteAura := true }
      rfl rfl rfl (by decide!)).1 ⟨rfl, rfl⟩).2.1,
   (wristband_hits_target_once sampleEnv 0 1 wristbandGame
      (sampleRecord 7 105 300 .wristband) (sampleDancer 1 100 300 .dancing)
      rfl rfl rfl (by decide!)).2.1 (by decide),
   (wristband_hits_target_once sampleEnv 0 0 wristbandGame
      (sampleRecord 7 105 300 .wristband)
      { sampleDancer 0 100 300 .dancing with hasWhiteAura := true }
      rfl rfl rfl (by decide!)).2.2⟩

/-! ## Intermittent smoke -/

/-- Claim C17: a failed smoke draw is not remembered.  At a qualifying score
(above 4, divisible by 3 or by 4, at least 2 above lastSmokeCheck) a draw of
0.7 or more leaves every global but the random cursor as it was, so
lastSmokeCheck still differs from the score and the next call of the check
draws again at the same score; when that second draw is below 0.7 the smoke
is triggered at the score for which the first draw had failed. -/
theorem smoke_draw_repeats_at_same_score (e : Env) (g : Game)
    (h4 : g.score > 4) (hdiv : g.score % 3 = 0 ∨ g.score % 4 = 0)
    (hgap : g.score - g.lastSmokeCheck ≥ 2) (hfail : ¬ e.rand g.rng < 0.7) :
    intermittentSmoke e g = g.skip 1 ∧
    (intermittentSmoke e g).smokeActive = g.smokeActive ∧
    (intermittentSmoke e g).lastSmokeCheck = g.lastSmokeCheck ∧
    (e.rand (g.rng + 1) < 0.7 →
      (intermittentSmoke e (intermittentSmoke e g)).score = g.score ∧
      (intermittentSmoke e (intermittentSmoke e g)).smokeActive = true ∧
      (intermittentSmoke e (intermittentSmoke e g)).smokeTimer = 300 ∧
      (intermittentSmoke e (intermittentSmoke e g)).lastSmokeCheck = g.score) := by
  have hne : g.lastSmokeCheck ≠ g.score := by omega
  have hq : g.score > 4 ∧ (g.score % 3 = 0 ∨ g.score % 4 = 0) ∧ g.lastSmokeCheck ≠ g.score
      ∧ g.score - g.lastSmokeCheck ≥ 2 := ⟨h4, hdiv, hne, hgap⟩
  have h1 : intermittentSmoke e g = g.skip 1 := by
    unfold intermittentSmoke
    rw [if_pos hq]
    unfold Game.draw
    rw [if_neg hfail]
  refine ⟨h1, by rw [h1]; rfl, by rw [h1]; rfl, fun hok => ?_⟩
  rw [h1]
  have hq2 : (g.skip 1).score > 4 ∧ ((g.skip 1).score % 3 = 0 ∨ (g.skip 1).score % 4 = 0)
      ∧ (g.skip 1).lastSmokeCheck ≠ (g.skip 1).score
      ∧ (g.skip 1).score - (g.skip 1).lastSmokeCheck ≥ 2 := hq
  have hok2 : (g.skip 1).draw e < 0.7 := hok
  unfold intermittentSmoke
  rw [if_pos hq2, if_pos hok2]
  unfold triggerSmokeEffect
  dsimp only
  split_ifs <;> exact ⟨rfl, rfl, rfl, rfl⟩

set_option maxRecDepth 1000000 in
/-- Two ticks at 6 points, last smoke at 4 points, with the draws 9/10 and
1/2: the first tick triggers no smoke and the second tick triggers it, the
score being 6 throughout. -/
theorem smoke_draw_repeats_at_same_score_witness :
    intermittentSmoke smokeEnv smokeGame = smokeGame.skip 1 ∧
    (drawGameplay smokeEnv smokeGame).score = 6 ∧
    (drawGameplay smokeEnv smokeGame).smokeActive = false ∧
    (drawGameplay smokeEnv smokeGame).lastSmokeCheck = 4 ∧
    (drawGameplay smokeEnv (drawGameplay smokeEnv smokeGame)).score = 6 ∧
    (drawGameplay smokeEnv (drawGameplay smokeEnv smokeGame)).smokeActive = true ∧
    (drawGameplay smokeEnv (drawGameplay smokeEnv smokeGame)).lastSmokeCheck = 6 :=
  ⟨(smoke_draw_repeats_at_same_score smokeEnv smokeGame (by decide) (by decide) (by decide)
      (by decide!)).1,
   by decide!, by decide!, by decide!, by decide!, by decide!, by decide!⟩

/-! ## Throw and hit sounds -/

theorem plays_emit (s : Sound) (g : Game) (ev : Ev) :
    plays s (g.emit ev).log = plays s g.log + if ev = .play s then 1 else 0 := by
  unfold plays Game.emit
  dsimp only
  rw [List.count_append, List.count_singleton]
  congr 1
  by_cases h : ev = .play s
  · simp [h]
  · have h2 : ¬ (Ev.play s = ev) := fun c => h c.symm
    simp [h, h2]

theorem spawnRecord_log (e : Env) (g : Game) (x y vx vy : ℚ) (t : RecordType) :
    (spawnRecord e g x y vx vy t).2.log = g.log := by
  unfold spawnRecord
  rfl

theorem spawnRecord_waiting (e : Env) (g : Game) (x y vx vy : ℚ) (t : RecordType) :
    isMilestoneSoundPlaying (spawnRecord e g x y vx vy t).2 = isMilestoneSoundPlaying g := by
  unfold spawnRecord
  rfl

theorem trackMilestones_plays (s : Sound) (g : Game) :
    plays s (trackMilestones g).log = plays s g.log := by
  unfold trackMilestones
  dsimp only
  split_ifs
  · rw [plays_emit]; simp
  · rfl

theorem createEmojiFromSwipe_plays (e : Env) (a b c d : ℚ) (g : Game) :
    plays .throwSound (createEmojiFromSwipe e a b c d g).log
      = plays .throwSound g.log + if e.loaded .throwSound then 1 else 0 := by
  unfold createEmojiFromSwipe
  dsimp only
  split_ifs
  · simp only [plays_emit]; rw [spawnRecord_log]; simp
  · simp only [plays_emit]; rw [spawnRecord_log]; simp

theorem createEmojiFromSwipe_waiting (e : Env) (a b c d : ℚ) (g : Game) :
    isMilestoneSoundPlaying (createEmojiFromSwipe e a b c d g) = isMilestoneSoundPlaying g := by
  unfold createEmojiFromSwipe
  dsimp only
  split_ifs <;> rfl

theorem clickThrow_plays (e : Env) (x y : ℚ) (g : Game) :
    plays .throwSound (clickThrow e x y g).log
      = plays .throwSound g.log
        + if (e.loaded .throwSound && !isMilestoneSoundPlaying g) = true then 1 else 0 := by
  unfold clickThrow
  dsimp only
  split_ifs with h1 h2 h2
  · simp only [plays_emit]; rw [spawnRecord_log]; simp
  · exact absurd h1 h2
  · exact absurd h2 h1
  · simp only [plays_emit]; rw [spawnRecord_log]; simp

theorem scoringHit_plays (e : Env) (i j : Nat) (r : Record) (d : Dancer) (g : Game) :
    plays .recordHitSound (scoringHit e i j r d g).log
      = plays .recordHitSound g.log
        + if (e.loaded .recordHitSound && !isMilestoneSoundPlaying g
              && !e.soundEffectsMuted) = true then 1 else 0 := by
  unfold scoringHit
  dsimp only
  show plays .recordHitSound (trackMilestones _).log = _
  rw [trackMilestones_plays]
  split_ifs with h1 h2 h2 <;> simp only [plays_emit] <;> simp

/-- Claim C18: the swipe throw plays the throw sound during a milestone
sound.  With the throw sound loaded and isMilestoneSoundPlaying() true (one of
waitingForScore5Sound, waitingForScore10Sound, waitingForScore15Video),
createEmojiFromSwipe adds one play() of throwSound to the log and leaves
isMilestoneSoundPlaying() true, whereas the click throw of handleInput adds
none and a scoring hit adds no play() of recordHitSound. -/
theorem swipe_throw_sound_unguarded (e : Env) (g : Game) (a b c d : ℚ)
    (hl : e.loaded .throwSound = true) (hm : isMilestoneSoundPlaying g = true) :
    plays .throwSound (createEmojiFromSwipe e a b c d g).log = plays .throwSound g.log + 1 ∧
    isMilestoneSoundPlaying (createEmojiFromSwipe e a b c d g) = true ∧
    plays .throwSound (clickThrow e a b g).log = plays .throwSound g.log ∧
    ∀ (i j : Nat) (r : Record) (dn : Dancer),
      plays .recordHitSound (scoringHit e i j r dn g).log = plays .recordHitSound g.log := by
  refine ⟨?_, ?_, ?_, ?_⟩
  · rw [createEmojiFromSwipe_plays, if_pos hl]
  · rw [createEmojiFromSwipe_waiting]; exact hm
  · rw [clickThrow_plays, hm]; simp
  · intro i j r dn
    rw [scoringHit_plays, hm]; simp

set_option maxRecDepth 1000000 in
/-- A swipe up from the DJ booth on a mobile device while the score-2 sound
is playing: the throw sound is played. -/
theorem swipe_throw_sound_unguarded_witness :
    isMilestoneSoundPlaying milestoneSoundGame = true ∧
    plays .throwSound (createEmojiFromSwipe mobileEnv 400 510 400 290 milestoneSoundGame).log
      = plays .throwSound milestoneSoundGame.log + 1 ∧
    (run mobileEnv [.touchStarted 400 510, .touchEnded 400 400] milestoneSoundGame).log
      = [.emoji_thrown .party, .play .throwSound] ∧
    (run mobileEnv [.mousePressed 400 400] milestoneSoundGame).log = [.emoji_thrown .party] :=
  ⟨by decide,
   (swipe_throw_sound_unguarded mobileEnv milestoneSoundGame 400 510 400 290
      (by decide) (by decide)).1,
   by decide!, by decide!⟩

/-! ## The cutscene video -/

theorem enableDiscoBallLights_postCutscene (e : Env) (g : Game)
    (h1 : g.videoPlaying = false) (h2 : g.waitingForScore15Video = false) :
    postCutscene (enableDiscoBallLights e g) :=
  ⟨h1, h2, rfl⟩

theorem restoreBackgroundMusic_video (e : Env) (g : Game) :
    (restoreBackgroundMusic e g).videoPlaying = g.videoPlaying ∧
    (restoreBackgroundMusic e g).waitingForScore15Video = g.waitingForScore15Video ∧
    (restoreBackgroundMusic e g).lightsBuilt = g.lightsBuilt ∧
    (restoreBackgroundMusic e g).rng = g.rng ∧
    (restoreBackgroundMusic e g).lightsEnabled = g.lightsEnabled := by
  unfold restoreBackgroundMusic
  split_ifs <;> exact ⟨rfl, rfl, rfl, rfl, rfl⟩

theorem videoTimeoutFired_fields (e : Env) (g : Game) :
    (videoTimeoutFired e g).videoRunning = g.videoRunning ∧
    (videoTimeoutFired e g).musicDimmed = g.musicDimmed ∧
    (videoTimeoutFired e g).lightsBuilt = g.lightsBuilt + 1 ∧
    (videoTimeoutFired e g).rng = g.rng + e.lightDraws ∧
    postCutscene (videoTimeoutFired e g) :=
  ⟨rfl, rfl, rfl, rfl, rfl, rfl, rfl⟩

theorem videoEnded_fields (e : Env) (g : Game) :
    (videoEnded e g).lightsBuilt = g.lightsBuilt + 1 ∧
    (videoEnded e g).rng = g.rng + e.lightDraws ∧
    (e.musicFrame = true → (videoEnded e g).musicDimmed = false) ∧
    postCutscene (videoEnded e g) := by
  unfold videoEnded restoreBackgroundMusic
  split_ifs with h
  · exact ⟨rfl, rfl, fun _ => rfl, rfl, rfl, rfl⟩
  · exact ⟨rfl, rfl, fun c => absurd c h, rfl, rfl, rfl⟩

/-- Claim C20: the on-finished callback is not a no-op after the fallback
timer.  When the fallback timer fires while the video's `onended` callback is
registered, the callback stays registered, and its later firing rebuilds the
two light lists once more (with fresh random draws) and restores the
background music that the timeout had left dimmed; only videoPlaying,
waitingForScore15Video and lightsEnabled are left as the timeout set them. -/
theorem video_finish_after_timeout_not_noop (e : Env) (g : Game)
    (ht : g.videoTimeoutArmed = true) (hr : g.videoRunning = true) :
    (step e .videoTimeout g).videoRunning = true ∧
    (step e .videoTimeout g).musicDimmed = g.musicDimmed ∧
    (step e .videoEnded (step e .videoTimeout g)).lightsBuilt
      = (step e .videoTimeout g).lightsBuilt + 1 ∧
    (step e .videoEnded (step e .videoTimeout g)).rng
      = (step e .videoTimeout g).rng + e.lightDraws ∧
    (e.musicFrame = true →
      (step e .videoEnded (step e .videoTimeout g)).musicDimmed = false) ∧
    step e .videoEnded (step e .videoTimeout g) ≠ step e .videoTimeout g ∧
    postCutscene (step e .videoTimeout g) ∧
    postCutscene (step e .videoEnded (step e .videoTimeout g)) := by
  have h1 : step e .videoTimeout g = videoTimeoutFired e g := by
    unfold step
    dsimp only
    rw [ht]
    rfl
  obtain ⟨f1, f2, f3, f4, f5⟩ := videoTimeoutFired_fields e g
  have hr1 : (videoTimeoutFired e g).videoRunning = true := by rw [f1, hr]
  have h2 : step e .videoEnded (videoTimeoutFired e g)
      = videoEnded e (videoTimeoutFired e g) := by
    unfold step
    dsimp only
    rw [hr1]
    rfl
  obtain ⟨k1, k2, k3, k4⟩ := videoEnded_fields e (videoTimeoutFired e g)
  rw [h1, h2]
  refine ⟨hr1, f2, k1, k2, k3, ?_, f5, k4⟩
  intro hc
  have := congrArg Game.lightsBuilt hc
  rw [k1] at this
  omega

set_option maxRecDepth 1000000 in
/-- The sample cutscene: the play promise is still pending when the fallback
timer fires; the promise then resolves and the video finishes.  The last
callback restores the music and builds the lights a second time. -/
theorem video_finish_after_timeout_not_noop_witness :
    (run sampleEnv [.videoTimeout] videoStartedGame).musicDimmed = true ∧
    (run sampleEnv [.videoTimeout] videoStartedGame).lightsBuilt = 1 ∧
    (run sampleEnv [.videoTimeout, .videoPlayResolved, .videoEnded] videoStartedGame).musicDimmed
      = false ∧
    (run sampleEnv [.videoTimeout, .videoPlayResolved, .videoEnded] videoStartedGame).lightsBuilt
      = 2 ∧
    step sampleEnv .videoEnded (step sampleEnv .videoTimeout videoStartedGame)
      ≠ step sampleEnv .videoTimeout videoStartedGame :=
  ⟨by decide!, by decide!, by decide!, by decide!,
   (video_finish_after_timeout_not_noop sampleEnv videoStartedGame
      (by decide!) (by decide!)).2.2.2.2.2.1⟩

/-! ## The ledger: score, projectiles and video flags through a tick -/

theorem triggerStrobeEffect_ledger (g : Game) : (triggerStrobeEffect g).ledger = g.ledger := rfl

theorem updateStrobeEffect_ledger (g : Game) : (updateStrobeEffect g).ledger = g.ledger := by
  unfold updateStrobeEffect triggerStrobeEffect
  dsimp only
  split_ifs <;> rfl

theorem triggerSmokeEffect_ledger (e : Env) (g : Game) :
    (triggerSmokeEffect e g).ledger = g.ledger := by
  unfold triggerSmokeEffect
  dsimp only
  split_ifs <;> rfl

theorem playScore2Sound_ledger (e : Env) (g : Game) :
    (playScore2Sound e g).ledger = g.ledger := by
  unfold playScore2Sound
  split_ifs <;> rfl

theorem playScore4Sound_ledger (e : Env) (g : Game) :
    (playScore4Sound e g).ledger = g.ledger := by
  unfold playScore4Sound
  split_ifs
  · rfl
  · exact triggerSmokeEffect_ledger e g

theorem strobeTrigger_ledger (e : Env) (g : Game) : (strobeTrigger e g).ledger = g.ledger := by
  unfold strobeTrigger
  dsimp only
  split_ifs
  · exact playScore2Sound_ledger e g
  · rfl
  · rfl

theorem smokeAtFour_ledger (e : Env) (g : Game) : (smokeAtFour e g).ledger = g.ledger := by
  unfold smokeAtFour
  dsimp only
  split_ifs
  · exact playScore4Sound_ledger e g
  · rfl

theorem intermittentSmoke_ledger (e : Env) (g : Game) :
    (intermittentSmoke e g).ledger = g.ledger := by
  unfold intermittentSmoke
  dsimp only
  split_ifs
  · exact triggerSmokeEffect_ledger e (g.skip 1)
  · rfl
  · rfl

theorem playGettingDownSound_ledger (e : Env) (g : Game) :
    (playGettingDownSound e g).ledger = g.ledger := by
  unfold playGettingDownSound
  dsimp only
  split_ifs <;> rfl

theorem selectWhiteAuraGirl_ledger (e : Env) (g : Game) :
    (selectWhiteAuraGirl e g).ledger = g.ledger := by
  unfold selectWhiteAuraGirl
  dsimp only
  split_ifs
  · split <;> rfl
  · rfl

theorem discoBallChange_ledger (e : Env) (g : Game) :
    (discoBallChange e g).ledger = g.ledger := by
  unfold discoBallChange
  split_ifs
  · rw [selectWhiteAuraGirl_ledger, playGettingDownSound_ledger]; rfl
  · rfl

theorem targetWhiteAuraGirl_ledger (g : Game) : (targetWhiteAuraGirl g).ledger = g.ledger := by
  unfold targetWhiteAuraGirl
  split <;> rfl

theorem wristbandTrigger_ledger (e : Env) (g : Game) :
    (wristbandTrigger e g).ledger = g.ledger := by
  unfold wristbandTrigger
  dsimp only
  split_ifs
  · exact targetWhiteAuraGirl_ledger g
  · exact targetWhiteAuraGirl_ledger g
  · rfl

theorem sendToBag_ledger (i : Nat) (g : Game) : (sendToBag i g).ledger = g.ledger := rfl

theorem selectBagPickupDancer_ledger (e : Env) (g : Game) :
    (selectBagPickupDancer e g).ledger = g.ledger := by
  unfold selectBagPickupDancer
  dsimp only
  split_ifs
  · split
    · rfl
    · split <;> rfl
  · rfl

theorem bagPickup_ledger (e : Env) (g : Game) : (bagPickup e g).ledger = g.ledger := by
  unfold bagPickup
  split_ifs
  · rw [selectBagPickupDancer_ledger]; rfl
  · rfl

theorem smokeTimerStep_ledger (g : Game) : (smokeTimerStep g).ledger = g.ledger := by
  unfold smokeTimerStep
  dsimp only
  split_ifs <;> rfl

theorem updateDiscoBall_ledger (g : Game) : (updateDiscoBall g).ledger = g.ledger := by
  unfold updateDiscoBall startZoomEffect
  dsimp only
  split_ifs <;> rfl

theorem discoBallStage_ledger (g : Game) : (discoBallStage g).ledger = g.ledger := by
  unfold discoBallStage
  split_ifs
  · exact updateDiscoBall_ledger g
  · rfl

theorem triggerDancerLeaveZoom_ledger (e : Env) (g : Game) :
    (triggerDancerLeaveZoom e g).ledger = g.ledger := by
  unfold triggerDancerLeaveZoom
  dsimp only
  split_ifs <;> rfl

theorem enterGameOver_ledger (e : Env) (g : Game) : (enterGameOver e g).ledger = g.ledger := by
  unfold enterGameOver
  dsimp only
  split_ifs <;> rfl

theorem removeDancer_ledger (e : Env) (i : Nat) (g : Game) :
    (removeDancer e i g).ledger = g.ledger := by
  unfold removeDancer
  dsimp only
  split_ifs
  · rw [enterGameOver_ledger]; rfl
  · rfl

theorem removePausedDancer_ledger (e : Env) : ∀ (n : Nat) (g : Game),
    (removePausedDancer e n g).ledger = g.ledger := by
  intro n
  induction n with
  | zero => intro g; rfl
  | succ n ih =>
    intro g
    unfold removePausedDancer
    split
    · split_ifs
      · exact removeDancer_ledger e n g
      · exact ih g
    · exact ih g

theorem updateDancerLeaveZoom_ledger (e : Env) (g : Game) :
    (updateDancerLeaveZoom e g).ledger = g.ledger := by
  unfold updateDancerLeaveZoom
  split_ifs
  · rfl
  · split
    · dsimp only; split_ifs <;> rfl
    · dsimp only; split_ifs <;> rfl
    · dsimp only
      split_ifs
      · rw [removePausedDancer_ledger]; rfl
      · rfl
    · rfl

theorem leaveZoomStage_ledger (e : Env) (g : Game) : (leaveZoomStage e g).ledger = g.ledger := by
  unfold leaveZoomStage
  split_ifs
  · exact updateDancerLeaveZoom_ledger e g
  · rfl

theorem Dancer.update_ledger (e : Env) (g : Game) (d : Dancer) :
    (d.update e g).2.ledger = g.ledger := by
  unfold Dancer.update Dancer.returnToDancing
  dsimp only
  repeat' split
  all_goals rfl

theorem dancerIter_ledger (e : Env) (i : Nat) (g : Game) :
    (dancerIter e i g).ledger = g.ledger := by
  unfold dancerIter
  cases hd : g.dancers[i]? with
  | none => rfl
  | some d =>
    have hu := Dancer.update_ledger e g d
    dsimp only
    split_ifs
    · exact (triggerDancerLeaveZoom_ledger e _).trans hu
    · exact hu
    · exact hu

theorem dancerLoop_ledger (e : Env) : ∀ (n : Nat) (g : Game),
    (dancerLoop e n g).ledger = g.ledger := by
  intro n
  induction n with
  | zero => intro g; rfl
  | succ n ih => intro g; rw [dancerLoop, ih, dancerIter_ledger]

theorem spawnDancer_ledger (e : Env) (g : Game) : (spawnDancer e g).2.ledger = g.ledger := rfl

theorem topUpDancers_ledger (e : Env) (g : Game) : (topUpDancers e g).ledger = g.ledger := by
  unfold topUpDancers
  split_ifs <;> rfl

theorem startLeavingAt_ledger (e : Env) (i : Nat) (g : Game) :
    (startLeavingAt e i g).ledger = g.ledger := by
  unfold startLeavingAt
  split
  · rfl
  · dsimp only; split_ifs <;> rfl

theorem randomLeave_ledger (e : Env) (g : Game) : (randomLeave e g).ledger = g.ledger := by
  unfold randomLeave
  dsimp only
  split_ifs
  · split
    · rw [startLeavingAt_ledger]; rfl
    · rfl
  · rfl
  · rfl
  · rfl

theorem maintainPopulation_ledger (e : Env) (g : Game) :
    (maintainPopulation e g).ledger = g.ledger := by
  unfold maintainPopulation
  split_ifs
  · rw [randomLeave_ledger, topUpDancers_ledger]
  · rfl

/-! ## The score within one tick -/

theorem playPartyStartedVideo_tally (e : Env) (g : Game) :
    (playPartyStartedVideo e g).score = g.score ∧
    (playPartyStartedVideo e g).records = g.records := by
  unfold playPartyStartedVideo dimBackgroundMusic enableDiscoBallLights
  dsimp only
  split_ifs <;> exact ⟨rfl, rfl⟩

theorem updateZoomEffect_tally (e : Env) (g : Game) :
    (updateZoomEffect e g).score = g.score ∧ (updateZoomEffect e g).records = g.records := by
  unfold updateZoomEffect
  dsimp only
  split_ifs
  · exact ⟨rfl, rfl⟩
  · exact playPartyStartedVideo_tally e _
  · exact ⟨rfl, rfl⟩

theorem discoBallTrigger_tally (e : Env) (g : Game) :
    (discoBallTrigger e g).score = g.score ∧ (discoBallTrigger e g).records = g.records := by
  unfold discoBallTrigger triggerDiscoBallEffect
  split_ifs <;> exact ⟨rfl, rfl⟩

theorem effectTriggers_tally (e : Env) (g : Game) :
    (effectTriggers e g).score = g.score ∧ (effectTriggers e g).records = g.records := by
  have h1 := updateStrobeEffect_ledger g
  have h2 := strobeTrigger_ledger e (updateStrobeEffect g)
  have h3 := smokeAtFour_ledger e (strobeTrigger e (updateStrobeEffect g))
  have h4 := intermittentSmoke_ledger e (smokeAtFour e (strobeTrigger e (updateStrobeEffect g)))
  obtain ⟨h5, h5'⟩ := discoBallTrigger_tally e
    (intermittentSmoke e (smokeAtFour e (strobeTrigger e (updateStrobeEffect g))))
  have h6 := discoBallChange_ledger e (discoBallTrigger e
    (intermittentSmoke e (smokeAtFour e (strobeTrigger e (updateStrobeEffect g)))))
  have h7 := wristbandTrigger_ledger e (discoBallChange e (discoBallTrigger e
    (intermittentSmoke e (smokeAtFour e (strobeTrigger e (updateStrobeEffect g))))))
  have h8 := bagPickup_ledger e (wristbandTrigger e (discoBallChange e (discoBallTrigger e
    (intermittentSmoke e (smokeAtFour e (strobeTrigger e (updateStrobeEffect g)))))))
  have hl := ((h4.trans h3).trans h2).trans h1
  have hr := (h8.trans h7).trans h6
  unfold effectTriggers
  exact ⟨((congrArg (fun p => p.1) hr).trans h5).trans (congrArg (fun p => p.1) hl),
         ((congrArg (fun p => p.2.1) hr).trans h5').trans (congrArg (fun p => p.2.1) hl)⟩

theorem triggerStage_tally (e : Env) (g : Game) :
    (triggerStage e g).score = g.score ∧ (triggerStage e g).records = g.records := by
  unfold triggerStage
  split_ifs
  · exact effectTriggers_tally e g
  · exact ⟨rfl, rfl⟩

theorem removeMarkedRecord_length : ∀ (n : Nat) (rs : List Record),
    (removeMarkedRecord n rs).length ≤ rs.length := by
  intro n
  induction n with
  | zero => intro rs; exact le_refl _
  | succ n ih =>
    intro rs
    unfold removeMarkedRecord
    split
    · split_ifs
      · rw [List.length_eraseIdx]; split_ifs <;> omega
      · exact ih rs
    · exact ih rs

theorem updateWristbandZoom_tally (g : Game) :
    (updateWristbandZoom g).score = g.score ∧
    (updateWristbandZoom g).records.length ≤ g.records.length := by
  unfold updateWristbandZoom
  split
  · exact ⟨rfl, le_refl _⟩
  · dsimp only; split_ifs <;> exact ⟨rfl, le_refl _⟩
  · dsimp only; split_ifs <;> exact ⟨rfl, le_refl _⟩
  · dsimp only
    split_ifs
    · exact ⟨rfl, removeMarkedRecord_length _ _⟩
    · exact ⟨rfl, le_refl _⟩

theorem recordIter_tally (e : Env) (i : Nat) (g : Game) :
    (recordIter e i g).score = g.score ∧
    (recordIter e i g).records.length ≤ g.records.length := by
  unfold recordIter
  split
  · exact ⟨rfl, le_refl _⟩
  · dsimp only
    split_ifs
    · refine ⟨rfl, ?_⟩
      rw [List.length_eraseIdx, List.length_set]; split_ifs <;> omega
    · refine ⟨rfl, ?_⟩; rw [List.length_set]
    · refine ⟨rfl, ?_⟩; rw [List.length_set]

theorem recordLoop_tally (e : Env) : ∀ (n : Nat) (g : Game),
    (recordLoop e n g).score = g.score ∧
    (recordLoop e n g).records.length ≤ g.records.length := by
  intro n
  induction n with
  | zero => intro g; exact ⟨rfl, le_refl _⟩
  | succ n ih =>
    intro g
    obtain ⟨a1, a2⟩ := recordIter_tally e n g
    obtain ⟨b1, b2⟩ := ih (recordIter e n g)
    rw [recordLoop]
    exact ⟨b1.trans a1, b2.trans a2⟩

theorem collidePair_potential (e : Env) (i j : Nat) (g : Game) :
    (collidePair e i j g).1.score + (collidePair e i j g).1.records.length
      = g.score + g.records.length := by
  unfold collidePair
  cases hr : g.records[i]? with
  | none => rfl
  | some r =>
    cases hd : g.dancers[j]? with
    | none => rfl
    | some d =>
      have hi : i < g.records.length := by
        rcases Nat.lt_or_ge i g.records.length with h | h
        · exact h
        · rw [List.getElem?_eq_none h] at hr; cases hr
      dsimp only
      split_ifs
      · rw [wristbandHit_score, (wristbandHit_fields e i j r d g).2.2.2.2.2.2.2,
          List.length_set]
      · rfl
      · rw [scoringHit_score, scoringHit_records, List.length_eraseIdx, if_pos hi]
        omega
      · rfl
      · rfl

theorem collideRecord_potential (e : Env) (i : Nat) : ∀ (n : Nat) (g : Game),
    (collideRecord e i n g).score + (collideRecord e i n g).records.length
      = g.score + g.records.length := by
  intro n
  induction n with
  | zero => intro g; rfl
  | succ n ih =>
    intro g
    unfold collideRecord
    dsimp only
    split_ifs
    · exact collidePair_potential e i n g
    · rw [ih, collidePair_potential]

theorem collisionLoop_potential (e : Env) : ∀ (n : Nat) (g : Game),
    (collisionLoop e n g).score + (collisionLoop e n g).records.length
      = g.score + g.records.length := by
  intro n
  induction n with
  | zero => intro g; rfl
  | succ n ih => intro g; rw [collisionLoop, ih, collideRecord_potential]

theorem floorStep_potential (e : Env) (g : Game) :
    (floorStep e g).score + (floorStep e g).records.length ≤ g.score + g.records.length := by
  unfold floorStep collisionPass
  dsimp only
  have h1 := discoBallStage_ledger g
  have h2 := dancerLoop_ledger e (discoBallStage g).dancers.length (discoBallStage g)
  have h12 := h2.trans h1
  obtain ⟨a1, a2⟩ := recordLoop_tally e
    (dancerLoop e (discoBallStage g).dancers.length (discoBallStage g)).records.length
    (dancerLoop e (discoBallStage g).dancers.length (discoBallStage g))
  have h4 := collisionLoop_potential e
    (recordLoop e
      (dancerLoop e (discoBallStage g).dancers.length (discoBallStage g)).records.length
      (dancerLoop e (discoBallStage g).dancers.length (discoBallStage g))).records.length
    (recordLoop e
      (dancerLoop e (discoBallStage g).dancers.length (discoBallStage g)).records.length
      (dancerLoop e (discoBallStage g).dancers.length (discoBallStage g)))
  have h5 := maintainPopulation_ledger e (collisionLoop e
    (recordLoop e
      (dancerLoop e (discoBallStage g).dancers.length (discoBallStage g)).records.length
      (dancerLoop e (discoBallStage g).dancers.length (discoBallStage g))).records.length
    (recordLoop e
      (dancerLoop e (discoBallStage g).dancers.length (discoBallStage g)).records.length
      (dancerLoop e (discoBallStage g).dancers.length (discoBallStage g))))
  have s5 := congrArg (fun p => p.1) h5
  have r5 := congrArg (fun p => p.2.1) h5
  have s12 := congrArg (fun p => p.1) h12
  have r12 := congrArg (fun p => p.2.1) h12
  have r5' := congrArg List.length r5
  have r12' := congrArg List.length r12
  simp only [Game.ledger] at s5 r5' s12 r12'
  omega

/-- Claim C13: the score within one tick.  One drawGameplay tick never makes
the sum of the score and the number of projectiles larger, so the score
rises by at most the number of projectiles in flight at the start of the
tick, each scoring hit consuming its projectile. -/
theorem score_rises_by_at_most_the_records (e : Env) (g : Game) :
    (drawGameplay e g).score + (drawGameplay e g).records.length
      ≤ g.score + g.records.length ∧
    (drawGameplay e g).score ≤ g.score + g.records.length := by
  have key : (drawGameplay e g).score + (drawGameplay e g).records.length
      ≤ g.score + g.records.length := by
    unfold drawGameplay
    split_ifs
    · exact le_refl _
    · obtain ⟨a1, a2⟩ := updateZoomEffect_tally e g
      have hb := leaveZoomStage_ledger e (updateZoomEffect e g)
      have b1 := congrArg (fun p => p.1) hb
      have b2 := congrArg (fun p => p.2.1) hb
      obtain ⟨c1, c2⟩ := updateWristbandZoom_tally (leaveZoomStage e (updateZoomEffect e g))
      obtain ⟨d1, d2⟩ := triggerStage_tally e
        (updateWristbandZoom (leaveZoomStage e (updateZoomEffect e g)))
      have he := smokeTimerStep_ledger
        (triggerStage e (updateWristbandZoom (leaveZoomStage e (updateZoomEffect e g))))
      have e1 := congrArg (fun p => p.1) he
      have e2 := congrArg (fun p => p.2.1) he
      have b2' := congrArg List.length b2
      have e2' := congrArg List.length e2
      have a2' := congrArg List.length a2
      have d2' := congrArg List.length d2
      simp only [Game.ledger] at b1 b2' e1 e2'
      have hf : (floorStage e (smokeTimerStep (triggerStage e (updateWristbandZoom
          (leaveZoomStage e (updateZoomEffect e g)))))).score
          + (floorStage e (smokeTimerStep (triggerStage e (updateWristbandZoom
          (leaveZoomStage e (updateZoomEffect e g)))))).records.length
          ≤ (smokeTimerStep (triggerStage e (updateWristbandZoom
          (leaveZoomStage e (updateZoomEffect e g))))).score
          + (smokeTimerStep (triggerStage e (updateWristbandZoom
          (leaveZoomStage e (updateZoomEffect e g))))).records.length := by
        unfold floorStage
        split_ifs
        · exact floorStep_potential e _
        · exact le_refl _
      omega
  exact ⟨key, le_trans (Nat.le_add_right _ _) key⟩

set_option maxRecDepth 1000000 in
/-- Two records hit two `stopping` dancers in the same tick: the score goes
from 3 to 5, and on the next tick the score-4 smoke trigger has not run
(`lastSmokeCheck` is still 0 and no score-10 sound is awaited). -/
theorem score_jumps_by_two :
    doubleHitGame.score = 3 ∧
    (drawGameplay sampleEnv doubleHitGame).score = 5 ∧
    (drawGameplay sampleEnv doubleHitGame).records = [] ∧
    (drawGameplay sampleEnv (drawGameplay sampleEnv doubleHitGame)).score = 5 ∧
    (drawGameplay sampleEnv (drawGameplay sampleEnv doubleHitGame)).lastSmokeCheck = 0 ∧
    (drawGameplay sampleEnv (drawGameplay sampleEnv doubleHitGame)).waitingForScore10Sound
      = false ∧
    (drawGameplay sampleEnv (drawGameplay sampleEnv doubleHitGame)).smokeActive = false := by
  refine ⟨by decide, by decide!, by decide!, by decide!, by decide!, by decide!, by decide!⟩

/-! ## Positions under the cutscene pause -/

theorem SamePlaces.same (ds : List Dancer) : SamePlaces ds ds :=
  fun _ d h => ⟨d, h, rfl, rfl⟩

theorem SamePlaces.chain {a b c : List Dancer} (h1 : SamePlaces a b) (h2 : SamePlaces b c) :
    SamePlaces a c := by
  intro k d hd
  obtain ⟨d1, e1, x1, y1⟩ := h1 k d hd
  obtain ⟨d2, e2, x2, y2⟩ := h2 k d1 e1
  exact ⟨d2, e2, x2.trans x1, y2.trans y1⟩

theorem SamePlaces.grown (ds : List Dancer) (d : Dancer) : SamePlaces ds (ds ++ [d]) := by
  intro k d0 hd
  have hk : k < ds.length := by
    rcases Nat.lt_or_ge k ds.length with h | h
    · exact h
    · rw [List.getElem?_eq_none h] at hd; cases hd
  exact ⟨d0, by rw [List.getElem?_append_left hk]; exact hd, rfl, rfl⟩

theorem SamePlaces.moved (ds : List Dancer) (i : Nat) (a b : Dancer) (ha : ds[i]? = some a)
    (hx : b.x = a.x) (hy : b.y = a.y) : SamePlaces ds (ds.set i b) := by
  intro k d hd
  by_cases hik : i = k
  · subst hik
    rw [ha] at hd
    cases hd
    have hi : i < ds.length := by
      rcases Nat.lt_or_ge i ds.length with h | h
      · exact h
      · rw [List.getElem?_eq_none h] at ha; cases ha
    exact ⟨b, by rw [List.getElem?_set_self hi], hx, hy⟩
  · exact ⟨d, by rw [List.getElem?_set_ne hik]; exact hd, rfl, rfl⟩

theorem playPartyStartedVideo_freeze (e : Env) (g : Game) :
    (playPartyStartedVideo e g).freeze = g.freeze := by
  unfold playPartyStartedVideo dimBackgroundMusic enableDiscoBallLights
  dsimp only
  split_ifs <;> rfl

theorem updateZoomEffect_freeze (e : Env) (g : Game) :
    (updateZoomEffect e g).freeze = g.freeze := by
  unfold updateZoomEffect
  dsimp only
  split_ifs
  · rfl
  · exact playPartyStartedVideo_freeze e _
  · rfl

theorem updateStrobeEffect_freeze (g : Game) : (updateStrobeEffect g).freeze = g.freeze := by
  unfold updateStrobeEffect triggerStrobeEffect
  dsimp only
  split_ifs <;> rfl

theorem triggerSmokeEffect_freeze (e : Env) (g : Game) :
    (triggerSmokeEffect e g).freeze = g.freeze := by
  unfold triggerSmokeEffect
  dsimp only
  split_ifs <;> rfl

theorem strobeTrigger_freeze (e : Env) (g : Game) : (strobeTrigger e g).freeze = g.freeze := by
  unfold strobeTrigger playScore2Sound triggerStrobeEffect
  dsimp only
  split_ifs <;> rfl

theorem smokeAtFour_freeze (e : Env) (g : Game) : (smokeAtFour e g).freeze = g.freeze := by
  unfold smokeAtFour playScore4Sound
  dsimp only
  split_ifs
  · rfl
  · exact triggerSmokeEffect_freeze e g
  · rfl

theorem intermittentSmoke_freeze (e : Env) (g : Game) :
    (intermittentSmoke e g).freeze = g.freeze := by
  unfold intermittentSmoke
  dsimp only
  split_ifs
  · exact triggerSmokeEffect_freeze e (g.skip 1)
  · rfl
  · rfl

theorem discoBallTrigger_freeze (e : Env) (g : Game) :
    (discoBallTrigger e g).freeze = g.freeze := by
  unfold discoBallTrigger triggerDiscoBallEffect
  split_ifs <;> rfl

theorem smokeTimerStep_freeze (g : Game) : (smokeTimerStep g).freeze = g.freeze := by
  unfold smokeTimerStep
  dsimp only
  split_ifs <;> rfl

theorem discoBallStage_freeze (g : Game) : (discoBallStage g).freeze = g.freeze := by
  unfold discoBallStage updateDiscoBall startZoomEffect
  dsimp only
  split_ifs <;> rfl

theorem effectTriggers_freeze (e : Env) (g : Game) (hs : g.score < 12) :
    (effectTriggers e g).freeze = g.freeze := by
  have h1 := updateStrobeEffect_freeze g
  have h2 := strobeTrigger_freeze e (updateStrobeEffect g)
  have h3 := smokeAtFour_freeze e (strobeTrigger e (updateStrobeEffect g))
  have h4 := intermittentSmoke_freeze e (smokeAtFour e (strobeTrigger e (updateStrobeEffect g)))
  have h5 := discoBallTrigger_freeze e
    (intermittentSmoke e (smokeAtFour e (strobeTrigger e (updateStrobeEffect g))))
  have hl := (((h5.trans h4).trans h3).trans h2).trans h1
  have hsc : (discoBallTrigger e
      (intermittentSmoke e (smokeAtFour e (strobeTrigger e (updateStrobeEffect g))))).score
      = g.score := congrArg (fun p => p.2.1) hl
  have h6 : discoBallChange e (discoBallTrigger e
      (intermittentSmoke e (smokeAtFour e (strobeTrigger e (updateStrobeEffect g)))))
      = discoBallTrigger e
      (intermittentSmoke e (smokeAtFour e (strobeTrigger e (updateStrobeEffect g)))) := by
    unfold discoBallChange
    rw [if_neg]
    rw [hsc]
    intro c
    omega
  have h7 : ∀ g' : Game, g'.score = g.score → wristbandTrigger e g' = g' := by
    intro g' hg
    unfold wristbandTrigger
    rw [if_neg]
    rw [hg]
    intro c
    omega
  have h8 : ∀ g' : Game, g'.score = g.score → bagPickup e g' = g' := by
    intro g' hg
    unfold bagPickup
    rw [if_neg]
    rw [hg]
    intro c
    omega
  unfold effectTriggers
  rw [h6, h7 _ hsc, h8 _ hsc]
  exact hl

theorem Dancer.startLeaving_place (r : ℚ) (d : Dancer) :
    (d.startLeaving r).x = d.x ∧ (d.startLeaving r).y = d.y := by
  unfold Dancer.startLeaving
  split_ifs <;> exact ⟨rfl, rfl⟩

theorem startLeavingAt_places (e : Env) (i : Nat) (g : Game) :
    SamePlaces g.dancers (startLeavingAt e i g).dancers := by
  unfold startLeavingAt
  cases hd : g.dancers[i]? with
  | none => exact SamePlaces.same _
  | some d =>
    dsimp only
    split_ifs
    · exact SamePlaces.same _
    · exact SamePlaces.moved g.dancers i d _ hd (Dancer.startLeaving_place _ d).1
        (Dancer.startLeaving_place _ d).2
    · exact SamePlaces.same _

theorem randomLeave_places (e : Env) (g : Game) :
    SamePlaces g.dancers (randomLeave e g).dancers := by
  unfold randomLeave
  dsimp only
  split_ifs
  · split
    · exact startLeavingAt_places e _ ((g.skip 1).skip 1)
    · exact SamePlaces.same _
  · exact SamePlaces.same _
  · exact SamePlaces.same _
  · exact SamePlaces.same _

theorem topUpDancers_places (e : Env) (g : Game) :
    SamePlaces g.dancers (topUpDancers e g).dancers := by
  unfold topUpDancers
  split_ifs
  · exact SamePlaces.grown _ _
  · exact SamePlaces.same _

theorem maintainPopulation_places (e : Env) (g : Game) :
    SamePlaces g.dancers (maintainPopulation e g).dancers := by
  unfold maintainPopulation
  split_ifs
  · exact SamePlaces.chain (topUpDancers_places e g) (randomLeave_places e _)
  · exact SamePlaces.same _

theorem dancerIter_places (e : Env) (i : Nat) (g : Game) (hp : g.isGamePausedForZoom = true) :
    SamePlaces g.dancers (dancerIter e i g).dancers ∧
    (dancerIter e i g).isGamePausedForZoom = true := by
  unfold dancerIter
  cases hd : g.dancers[i]? with
  | none => exact ⟨SamePlaces.same _, hp⟩
  | some d =>
    dsimp only
    rw [Dancer.update_paused e g d hp]
    dsimp only
    rw [set_getElem?_same g.dancers i d hd]
    split_ifs
    · refine ⟨?_, ?_⟩
      · have ht : (triggerDancerLeaveZoom e g).dancers = g.dancers := by
          unfold triggerDancerLeaveZoom
          dsimp only
          split_ifs <;> rfl
        show SamePlaces g.dancers ((triggerDancerLeaveZoom e g).dancers.set i _)
        rw [ht]
        exact SamePlaces.moved g.dancers i d _ hd rfl rfl
      · unfold triggerDancerLeaveZoom
        dsimp only
        split_ifs <;> rfl
    · exact ⟨SamePlaces.same _, hp⟩
    · exact ⟨SamePlaces.same _, hp⟩

theorem dancerLoop_places (e : Env) : ∀ (n : Nat) (g : Game), g.isGamePausedForZoom = true →
    SamePlaces g.dancers (dancerLoop e n g).dancers ∧
    (dancerLoop e n g).isGamePausedForZoom = true := by
  intro n
  induction n with
  | zero => intro g hp; exact ⟨SamePlaces.same _, hp⟩
  | succ n ih =>
    intro g hp
    obtain ⟨a1, a2⟩ := dancerIter_places e n g hp
    obtain ⟨b1, b2⟩ := ih (dancerIter e n g) a2
    rw [dancerLoop]
    exact ⟨SamePlaces.chain a1 b1, b2⟩

theorem freeze_fields {g g' : Game} (h : g'.freeze = g.freeze) :
    g'.dancers = g.dancers ∧ g'.score = g.score ∧ g'.records = g.records ∧
    g'.isGamePausedForZoom = g.isGamePausedForZoom ∧
    g'.dancerLeaveZoomActive = g.dancerLeaveZoomActive ∧
    g'.dancerLeavePhase = g.dancerLeavePhase ∧
    g'.dancerLeaveZoomProgress = g.dancerLeaveZoomProgress ∧
    g'.wristbandZoomPhase = g.wristbandZoomPhase := by
  simp only [Game.freeze, Prod.mk.injEq] at h
  exact h

theorem updateDancerLeaveZoom_hold (e : Env) (g : Game)
    (ha : g.dancerLeaveZoomActive = true)
    (hph : g.dancerLeavePhase = .zooming_in ∨ g.dancerLeavePhase = .displaying_image ∨
      (g.dancerLeavePhase = .zooming_out ∧
        0 < fsub g.dancerLeaveZoomProgress dancerLeaveZoomSpeed)) :
    (updateDancerLeaveZoom e g).dancers = g.dancers ∧
    (updateDancerLeaveZoom e g).score = g.score ∧
    (updateDancerLeaveZoom e g).records = g.records ∧
    (updateDancerLeaveZoom e g).isGamePausedForZoom = g.isGamePausedForZoom ∧
    (updateDancerLeaveZoom e g).wristbandZoomPhase = g.wristbandZoomPhase ∧
    (updateDancerLeaveZoom e g).dancerLeavePhase ≠ .inactive := by
  unfold updateDancerLeaveZoom
  rw [ha]
  simp only [Bool.not_true, Bool.false_eq_true, if_false]
  rcases hph with h | h | ⟨h, hpos⟩
  · rw [h]
    dsimp only
    split_ifs <;> exact ⟨rfl, rfl, rfl, rfl, rfl, fun c => LeavePhase.noConfusion c⟩
  · rw [h]
    dsimp only
    split_ifs <;> exact ⟨rfl, rfl, rfl, rfl, rfl, fun c => LeavePhase.noConfusion c⟩
  · rw [h]
    dsimp only
    rw [if_neg (not_le.mpr hpos)]
    exact ⟨rfl, rfl, rfl, rfl, rfl, fun c => LeavePhase.noConfusion c⟩

/-- Claim C11: positions under the cutscene pause.  While isGamePausedForZoom
is true, Dancer.update changes no dancer and the dancer loop leaves every
dancer at its index and position.  A whole drawGameplay tick does so as well
when the leave cutscene is in flight and does not complete in this tick
(phase zooming_in or displaying_image, or zooming_out with the progress still
above the step), no wristband zoom is running, the score is below 12 and no
projectile is in flight. -/
theorem paused_tick_keeps_positions (e : Env) (g : Game)
    (hp : g.isGamePausedForZoom = true) :
    (∀ d : Dancer, d.update e g = (d, g)) ∧
    (∀ n : Nat, SamePlaces g.dancers (dancerLoop e n g).dancers) ∧
    (g.dancerLeaveZoomActive = true →
      (g.dancerLeavePhase = .zooming_in ∨ g.dancerLeavePhase = .displaying_image ∨
        (g.dancerLeavePhase = .zooming_out ∧
          0 < fsub g.dancerLeaveZoomProgress dancerLeaveZoomSpeed)) →
      g.wristbandZoomPhase = .inactive → g.score < 12 → g.records = [] →
      SamePlaces g.dancers (drawGameplay e g).dancers) := by
  refine ⟨fun d => Dancer.update_paused e g d hp, fun n => (dancerLoop_places e n g hp).1, ?_⟩
  intro ha hph hw hs hr
  unfold drawGameplay
  split_ifs
  · exact SamePlaces.same _
  · obtain ⟨a1, a2, a3, a4, a5, a6, a7, a8⟩ := freeze_fields (updateZoomEffect_freeze e g)
    have hph1 : (updateZoomEffect e g).dancerLeavePhase = .zooming_in ∨
        (updateZoomEffect e g).dancerLeavePhase = .displaying_image ∨
        ((updateZoomEffect e g).dancerLeavePhase = .zooming_out ∧
          0 < fsub (updateZoomEffect e g).dancerLeaveZoomProgress dancerLeaveZoomSpeed) := by
      rw [a6, a7]; exact hph
    have hst : leaveZoomStage e (updateZoomEffect e g)
        = updateDancerLeaveZoom e (updateZoomEffect e g) := by
      unfold leaveZoomStage
      rw [a5, ha]
      rfl
    obtain ⟨b1, b2, b3, b4, b5, b6⟩ :=
      updateDancerLeaveZoom_hold e (updateZoomEffect e g) (a5.trans ha) hph1
    rw [← hst] at b1 b2 b3 b4 b5 b6
    have hwz : updateWristbandZoom (leaveZoomStage e (updateZoomEffect e g))
        = leaveZoomStage e (updateZoomEffect e g) := by
      unfold updateWristbandZoom
      rw [b5, a8, hw]
    rw [hwz]
    have hsc2 : (leaveZoomStage e (updateZoomEffect e g)).score < 12 := by
      rw [b2, a2]; exact hs
    have hts : (triggerStage e (leaveZoomStage e (updateZoomEffect e g))).freeze
        = (leaveZoomStage e (updateZoomEffect e g)).freeze := by
      unfold triggerStage
      split_ifs
      · exact effectTriggers_freeze e _ hsc2
      · rfl
    obtain ⟨c1, c2, c3, c4, c5, c6, c7, c8⟩ := freeze_fields
      ((smokeTimerStep_freeze _).trans hts)
    unfold floorStage
    split_ifs
    · unfold floorStep collisionPass
      dsimp only
      obtain ⟨d1, d2, d3, d4, d5, d6, d7, d8⟩ := freeze_fields (discoBallStage_freeze
        (smokeTimerStep (triggerStage e (leaveZoomStage e (updateZoomEffect e g)))))
      have hpause : (discoBallStage (smokeTimerStep (triggerStage e
          (leaveZoomStage e (updateZoomEffect e g))))).isGamePausedForZoom = true := by
        rw [d4, c4, b4, a4]; exact hp
      have hphase : (discoBallStage (smokeTimerStep (triggerStage e
          (leaveZoomStage e (updateZoomEffect e g))))).dancerLeavePhase ≠ .inactive := by
        rw [d6, c6]; exact b6
      rw [dancerLoop_paused e _ hpause hphase]
      have hrec : (discoBallStage (smokeTimerStep (triggerStage e
          (leaveZoomStage e (updateZoomEffect e g))))).records = [] := by
        rw [d3, c3, b3, a3]; exact hr
      rw [hrec]
      simp only [List.length_nil, recordLoop]
      rw [hrec]
      simp only [List.length_nil, collisionLoop]
      have hds : (discoBallStage (smokeTimerStep (triggerStage e
          (leaveZoomStage e (updateZoomEffect e g))))).dancers = g.dancers := by
        rw [d1, c1, b1, a1]
      have := maintainPopulation_places e (discoBallStage (smokeTimerStep (triggerStage e
        (leaveZoomStage e (updateZoomEffect e g)))))
      rw [hds] at this
      exact this
    · rw [c1, b1, a1]
      exact SamePlaces.same _

set_option maxRecDepth 1000000 in
/-- A tick in the middle of a leave cutscene with no record in flight: dancer
0 stays at (100, 300). -/
theorem paused_tick_keeps_positions_witness :
    SamePlaces pausedGame.dancers (drawGameplay sampleEnv pausedGame).dancers :=
  (paused_tick_keeps_positions sampleEnv pausedGame rfl).2.2 rfl (Or.inr (Or.inl rfl)) rfl
    (by decide) rfl

set_option maxRecDepth 1000000 in
/-- Two ticks that start under the pause lock and move a dancer other than
the locked one.  In the last tick of the cutscene the pause is released
before the dancer loop runs, and dancer 0 dances on from x = 100 to x = 120.
In the middle of the cutscene a record saves dancer 0, whose y goes from 300
to 300.5, while the game stays paused. -/
theorem paused_dancers_can_move :
    (cutsceneEndGame 0).isGamePausedForZoom = true ∧
    pausedCount (cutsceneEndGame 0).dancers = 1 ∧
    ((cutsceneEndGame 0).dancers[0]?).map (fun d => (d.uid, d.x, d.y, d.isPausedForZoom))
      = some (0, 100, 300, false) ∧
    ((drawGameplay sampleEnv (cutsceneEndGame 0)).dancers[0]?).map
      (fun d => (d.uid, d.x, d.y)) = some (0, 120, 300) ∧
    pausedHitGame.isGamePausedForZoom = true ∧
    pausedCount pausedHitGame.dancers = 1 ∧
    (pausedHitGame.dancers[0]?).map (fun d => (d.uid, d.x, d.y, d.isPausedForZoom))
      = some (0, 100, 300, false) ∧
    ((drawGameplay sineEnv pausedHitGame).dancers[0]?).map
      (fun d => (d.uid, d.x, d.y)) = some (0, 100, 601 / 2) ∧
    (drawGameplay sineEnv pausedHitGame).isGamePausedForZoom = true ∧
    (drawGameplay sineEnv pausedHitGame).dancerLeavePhase = .displaying_image := by
  refine ⟨by decide, by decide, by decide!, by decide!, by decide, by decide, by decide!,
    by decide!, by decide!, by decide!⟩

/-! ## No video without a video object -/

theorem VideoOff.of_ledger {g g' : Game} (h : g'.ledger = g.ledger) (hg : VideoOff g) :
    VideoOff g' := by
  simp only [Game.ledger, Prod.mk.injEq] at h
  exact ⟨h.2.2.1.trans hg.1, h.2.2.2.trans hg.2⟩

theorem playPartyStartedVideo_videoOff (e : Env) (g : Game) (hv : e.videoAvailable = false)
    (hg : VideoOff g) : VideoOff (playPartyStartedVideo e g) := by
  unfold playPartyStartedVideo
  rw [hv]
  exact hg

theorem updateZoomEffect_videoOff (e : Env) (g : Game) (hv : e.videoAvailable = false)
    (hg : VideoOff g) : VideoOff (updateZoomEffect e g) := by
  unfold updateZoomEffect
  dsimp only
  split_ifs
  · exact hg
  · exact playPartyStartedVideo_videoOff e _ hv hg
  · exact hg

theorem updateWristbandZoom_videoOff (g : Game) (hg : VideoOff g) :
    VideoOff (updateWristbandZoom g) := by
  unfold updateWristbandZoom
  split
  · exact hg
  · dsimp only; split_ifs <;> exact hg
  · dsimp only; split_ifs <;> exact hg
  · dsimp only; split_ifs <;> exact hg

theorem discoBallTrigger_videoOff (e : Env) (g : Game) (hg : VideoOff g) :
    VideoOff (discoBallTrigger e g) := by
  unfold discoBallTrigger triggerDiscoBallEffect
  split_ifs
  · exact ⟨rfl, hg.2⟩
  · exact hg

theorem effectTriggers_videoOff (e : Env) (g : Game) (hg : VideoOff g) :
    VideoOff (effectTriggers e g) := by
  unfold effectTriggers
  exact VideoOff.of_ledger (bagPickup_ledger e _)
    (VideoOff.of_ledger (wristbandTrigger_ledger e _)
    (VideoOff.of_ledger (discoBallChange_ledger e _)
    (discoBallTrigger_videoOff e _
    (VideoOff.of_ledger (intermittentSmoke_ledger e _)
    (VideoOff.of_ledger (smokeAtFour_ledger e _)
    (VideoOff.of_ledger (strobeTrigger_ledger e _)
    (VideoOff.of_ledger (updateStrobeEffect_ledger g) hg)))))))

theorem triggerStage_videoOff (e : Env) (g : Game) (hg : VideoOff g) :
    VideoOff (triggerStage e g) := by
  unfold triggerStage
  split_ifs
  · exact effectTriggers_videoOff e g hg
  · exact hg

theorem recordIter_videoOff (e : Env) (i : Nat) (g : Game) (hg : VideoOff g) :
    VideoOff (recordIter e i g) := by
  unfold recordIter
  split
  · exact hg
  · dsimp only; split_ifs <;> exact hg

theorem recordLoop_videoOff (e : Env) : ∀ (n : Nat) (g : Game), VideoOff g →
    VideoOff (recordLoop e n g) := by
  intro n
  induction n with
  | zero => intro g hg; exact hg
  | succ n ih => intro g hg; rw [recordLoop]; exact ih _ (recordIter_videoOff e n g hg)

theorem trackMilestones_videoOff (g : Game) (hg : VideoOff g) : VideoOff (trackMilestones g) := by
  unfold trackMilestones
  dsimp only
  split_ifs <;> exact hg

theorem scoringHit_videoOff (e : Env) (i j : Nat) (r : Record) (d : Dancer) (g : Game)
    (hg : VideoOff g) : VideoOff (scoringHit e i j r d g) := by
  unfold scoringHit
  dsimp only
  have ht := fun g' (h : VideoOff g') => trackMilestones_videoOff g' h
  split_ifs
  · exact ht _ hg
  · exact ht _ hg
  · exact ht _ hg
  · exact ht _ hg

theorem wristbandHit_videoOff (e : Env) (i j : Nat) (r : Record) (d : Dancer) (g : Game)
    (hg : VideoOff g) : VideoOff (wristbandHit e i j r d g) := by
  unfold wristbandHit
  dsimp only
  split_ifs <;> exact hg

theorem collidePair_videoOff (e : Env) (i j : Nat) (g : Game) (hg : VideoOff g) :
    VideoOff (collidePair e i j g).1 := by
  unfold collidePair
  split
  · split_ifs
    · exact wristbandHit_videoOff e i j _ _ g hg
    · exact hg
    · exact scoringHit_videoOff e i j _ _ g hg
    · exact hg
    · exact hg
  · exact hg

theorem collideRecord_videoOff (e : Env) (i : Nat) : ∀ (n : Nat) (g : Game), VideoOff g →
    VideoOff (collideRecord e i n g) := by
  intro n
  induction n with
  | zero => intro g hg; exact hg
  | succ n ih =>
    intro g hg
    unfold collideRecord
    dsimp only
    split_ifs
    · exact collidePair_videoOff e i n g hg
    · exact ih _ (collidePair_videoOff e i n g hg)

theorem collisionLoop_videoOff (e : Env) : ∀ (n : Nat) (g : Game), VideoOff g →
    VideoOff (collisionLoop e n g) := by
  intro n
  induction n with
  | zero => intro g hg; exact hg
  | succ n ih => intro g hg; rw [collisionLoop]; exact ih _ (collideRecord_videoOff e n _ g hg)

theorem floorStep_videoOff (e : Env) (g : Game) (hg : VideoOff g) : VideoOff (floorStep e g) := by
  unfold floorStep collisionPass
  dsimp only
  exact VideoOff.of_ledger (maintainPopulation_ledger e _)
    (collisionLoop_videoOff e _ _
    (recordLoop_videoOff e _ _
    (VideoOff.of_ledger (dancerLoop_ledger e _ _)
    (VideoOff.of_ledger (discoBallStage_ledger g) hg))))

theorem drawGameplay_videoOff (e : Env) (g : Game) (hv : e.videoAvailable = false)
    (hg : VideoOff g) : VideoOff (drawGameplay e g) := by
  unfold drawGameplay
  split_ifs
  · exact hg
  · have h5 : VideoOff (smokeTimerStep (triggerStage e (updateWristbandZoom
        (leaveZoomStage e (updateZoomEffect e g))))) :=
      VideoOff.of_ledger (smokeTimerStep_ledger _)
        (triggerStage_videoOff e _
        (updateWristbandZoom_videoOff _
        (VideoOff.of_ledger (leaveZoomStage_ledger e _)
        (updateZoomEffect_videoOff e g hv hg))))
    unfold floorStage
    split_ifs
    · exact floorStep_videoOff e _ h5
    · exact h5

theorem menuDancerIter_videoOff (e : Env) (g : Game) (i : Nat) (hg : VideoOff g) :
    VideoOff (menuDancerIter e g i) := by
  unfold menuDancerIter
  split
  · exact hg
  · exact VideoOff.of_ledger (Dancer.update_ledger e g _) hg

theorem foldl_videoOff (e : Env) : ∀ (l : List Nat) (g : Game), VideoOff g →
    VideoOff (l.foldl (menuDancerIter e) g) := by
  intro l
  induction l with
  | nil => intro g hg; exact hg
  | cons a l ih => intro g hg; exact ih _ (menuDancerIter_videoOff e g a hg)

theorem drawMainMenu_videoOff (e : Env) (g : Game) (hg : VideoOff g) :
    VideoOff (drawMainMenu e g) := by
  unfold drawMainMenu
  exact foldl_videoOff e _ g hg

theorem draw_videoOff (e : Env) (g : Game) (hv : e.videoAvailable = false)
    (hg : VideoOff g) : VideoOff (draw e g) := by
  unfold draw
  dsimp only
  split_ifs
  · exact drawMainMenu_videoOff e _ hg
  · exact drawGameplay_videoOff e _ hv hg

theorem pushDancers_videoOff (e : Env) : ∀ (n : Nat) (g : Game), VideoOff g →
    VideoOff (pushDancers e n g) := by
  intro n
  induction n with
  | zero => intro g hg; exact hg
  | succ n ih => intro g hg; rw [pushDancers]; exact ih _ hg

theorem actuallyStartGame_videoOff (e : Env) (g : Game) : VideoOff (actuallyStartGame e g) := by
  unfold actuallyStartGame startResetTail populateDanceFloor
  exact pushDancers_videoOff e _ _ ⟨rfl, rfl⟩

theorem restartGame_videoOff (e : Env) (g : Game) : VideoOff (restartGame e g) := by
  unfold restartGame restartResetTail populateDanceFloor
  refine pushDancers_videoOff e _ _ ?_
  unfold restartReset
  dsimp only
  split_ifs <;> exact ⟨rfl, rfl⟩

theorem startGame_videoOff (e : Env) (g : Game) (hg : VideoOff g) :
    VideoOff (startGame e g) := by
  unfold startGame
  split_ifs
  · exact hg
  · exact actuallyStartGame_videoOff e g
  · exact actuallyStartGame_videoOff e g

theorem clickThrow_videoOff (e : Env) (x y : ℚ) (g : Game) (hg : VideoOff g) :
    VideoOff (clickThrow e x y g) := by
  unfold clickThrow
  dsimp only
  split_ifs <;> exact hg

theorem createEmojiFromSwipe_videoOff (e : Env) (a b c d : ℚ) (g : Game) (hg : VideoOff g) :
    VideoOff (createEmojiFromSwipe e a b c d g) := by
  unfold createEmojiFromSwipe
  dsimp only
  split_ifs <;> exact hg

theorem gameOverClick_videoOff (e : Env) (x y : ℚ) (g : Game) (hg : VideoOff g) :
    VideoOff (gameOverClick e x y g) := by
  unfold gameOverClick
  dsimp only
  split_ifs
  · exact restartGame_videoOff e _
  · exact hg
  · unfold goToMainMenu
    dsimp only
    split_ifs <;> exact hg
  · exact hg

theorem handleInput_videoOff (e : Env) (x y : ℚ) (g : Game) (hg : VideoOff g) :
    VideoOff (handleInput e x y g) := by
  unfold handleInput
  split_ifs
  · exact hg
  · exact startGame_videoOff e _ hg
  · exact hg
  · exact clickThrow_videoOff e x y g hg
  · exact gameOverClick_videoOff e x y g hg
  · exact hg

theorem touchStarted_videoOff (e : Env) (x y : ℚ) (g : Game) (hg : VideoOff g) :
    VideoOff (touchStarted e x y g) := by
  unfold touchStarted
  split_ifs
  · exact hg
  · exact handleInput_videoOff e x y g hg
  · exact handleInput_videoOff e x y g hg
  · exact hg

theorem touchEnded_videoOff (e : Env) (x y : ℚ) (g : Game) (hg : VideoOff g) :
    VideoOff (touchEnded e x y g) := by
  unfold touchEnded
  dsimp only
  split_ifs
  · exact createEmojiFromSwipe_videoOff e _ _ _ _ g hg
  · exact hg
  · exact hg

theorem step_videoOff (e : Env) (ev : Event) (g : Game) (hv : e.videoAvailable = false)
    (hg : VideoOff g) : VideoOff (step e ev g) := by
  cases ev with
  | frame => exact draw_videoOff e g hv hg
  | mousePressed x y => exact handleInput_videoOff e x y g hg
  | touchStarted x y => exact touchStarted_videoOff e x y g hg
  | touchEnded x y => exact touchEnded_videoOff e x y g hg
  | startSoundEnded =>
    unfold step
    dsimp only
    split_ifs
    · exact actuallyStartGame_videoOff e _
    · exact hg
  | score5SoundEnded =>
    unfold step score5Ended triggerStrobeEffect
    dsimp only
    split_ifs <;> exact hg
  | score10SoundEnded =>
    unfold step score10Ended
    dsimp only
    split_ifs
    · exact VideoOff.of_ledger (triggerSmokeEffect_ledger e _) hg
    · exact hg
  | videoTimeout =>
    unfold step videoTimeoutFired enableDiscoBallLights
    dsimp only
    split_ifs
    · exact ⟨rfl, rfl⟩
    · exact hg
  | videoPlayResolved =>
    unfold step videoPlayResolved
    dsimp only
    split_ifs <;> exact hg
  | videoPlayRejected =>
    unfold step videoPlayRejected enableDiscoBallLights
    dsimp only
    split_ifs
    · exact ⟨rfl, rfl⟩
    · exact hg
  | videoEnded =>
    unfold step videoEnded enableDiscoBallLights restoreBackgroundMusic
    dsimp only
    split_ifs
    · exact ⟨rfl, rfl⟩
    · exact ⟨rfl, rfl⟩
    · exact hg

theorem reachable_videoOff (e : Env) (hv : e.videoAvailable = false) (g : Game)
    (h : Reachable e g) : VideoOff g := by
  induction h with
  | initial => exact ⟨rfl, rfl⟩
  | step ev _ ih => exact step_videoOff e ev _ hv ih

/-- Claim C19: every ending of the cutscene video leaves the post-cutscene
steady state (videoPlaying false, waitingForScore15Video false, lightsEnabled
true).  That holds after playPartyStartedVideo when the video object is
missing or in error (called with the video flags of any reachable state, as
updateZoomEffect does) and when play() throws, after the rejection of the
play promise, after the 5000 ms fallback timer, and after the video has
finished. -/
theorem video_endings_reach_steady_state (e : Env) (g : Game) :
    (e.videoAvailable = false → ∀ g0 : Game, Reachable e g0 →
      g.videoPlaying = g0.videoPlaying →
      g.waitingForScore15Video = g0.waitingForScore15Video →
      postCutscene (playPartyStartedVideo e g)) ∧
    (e.videoAvailable = true → e.videoPlayThrows = true →
      postCutscene (playPartyStartedVideo e g)) ∧
    (g.videoPlayPending = true → postCutscene (step e .videoPlayRejected g)) ∧
    (g.videoTimeoutArmed = true → postCutscene (step e .videoTimeout g)) ∧
    (g.videoRunning = true → postCutscene (step e .videoEnded g)) := by
  refine ⟨fun h g0 hr h1 h2 => ?_, fun h1 h2 => ?_, fun h => ?_, fun h => ?_, fun h => ?_⟩
  · obtain ⟨v1, v2⟩ := reachable_videoOff e h g0 hr
    unfold playPartyStartedVideo
    rw [h]
    exact enableDiscoBallLights_postCutscene e g (h1.trans v1) (h2.trans v2)
  · unfold playPartyStartedVideo
    rw [h1, h2]
    exact ⟨rfl, rfl, rfl⟩
  · unfold step
    dsimp only
    rw [h]
    exact ⟨rfl, rfl, rfl⟩
  · unfold step
    dsimp only
    rw [h]
    exact (videoTimeoutFired_fields e g).2.2.2.2
  · unfold step
    dsimp only
    rw [h]
    exact (videoEnded_fields e g).2.2.2

set_option maxRecDepth 1000000 in
/-- The five endings on sample states: no video object, a throwing play(),
and the three callbacks of a started video. -/
theorem video_endings_reach_steady_state_witness :
    postCutscene (playPartyStartedVideo noVideoEnv (sampleGame [] [])) ∧
    postCutscene (playPartyStartedVideo brokenVideoEnv (sampleGame [] [])) ∧
    postCutscene (step sampleEnv .videoPlayRejected videoStartedGame) ∧
    postCutscene (step sampleEnv .videoTimeout videoStartedGame) ∧
    postCutscene (step sampleEnv .videoEnded videoStartedGame) :=
  ⟨(video_endings_reach_steady_state noVideoEnv (sampleGame [] [])).1 rfl Game.initial
      Reachable.initial rfl rfl,
   (video_endings_reach_steady_state brokenVideoEnv (sampleGame [] [])).2.1 rfl rfl,
   (video_endings_reach_steady_state sampleEnv videoStartedGame).2.2.1 (by decide!),
   (video_endings_reach_steady_state sampleEnv videoStartedGame).2.2.2.1 (by decide!),
   (video_endings_reach_steady_state sampleEnv videoStartedGame).2.2.2.2 (by decide!)⟩

/-! ## The local leaderboard -/

theorem orderedInsert_before (c a : ScoreEntry) (B : List ScoreEntry) (h : byScore c a) :
    ∀ A : List ScoreEntry,
      List.orderedInsert byScore c (A ++ a :: B) = List.orderedInsert byScore c A ++ a :: B := by
  intro A
  induction A with
  | nil => simp [List.orderedInsert, h]
  | cons x A ih =>
    by_cases hx : byScore c x
    · simp [List.orderedInsert, hx]
    · simp [List.orderedInsert, hx, ih]

theorem orderedInsert_after (c a : ScoreEntry) (B : List ScoreEntry) (h : ¬ byScore c a) :
    ∀ A : List ScoreEntry, (∀ x ∈ A, a.score ≤ x.score) →
      List.orderedInsert byScore c (A ++ a :: B) = A ++ a :: List.orderedInsert byScore c B := by
  intro A
  induction A with
  | nil => intro _; simp [List.orderedInsert, h]
  | cons x A ih =>
    intro hA
    have hx : ¬ byScore c x := by
      intro hc
      apply h
      exact Nat.le_trans (hA x (List.mem_cons_self _ _)) hc
    have := ih (fun y hy => hA y (List.mem_cons_of_mem _ hy))
    simp [List.orderedInsert, hx, this]

theorem mem_orderedInsert_score (c a : ScoreEntry) (h : byScore c a) :
    ∀ A : List ScoreEntry, (∀ x ∈ A, a.score ≤ x.score) →
      ∀ x ∈ List.orderedInsert byScore c A, a.score ≤ x.score := by
  intro A hA x hx
  rw [List.mem_orderedInsert] at hx
  rcases hx with rfl | hx
  · exact h
  · exact hA x hx

/-- Where the stable sort puts an entry appended last: behind the entries
with at least its score, before the others. -/
theorem sortByScore_append (a : ScoreEntry) : ∀ l : List ScoreEntry,
    ∃ A B : List ScoreEntry, sortByScore (l ++ [a]) = A ++ a :: B ∧
      (∀ x ∈ A, a.score ≤ x.score) ∧
      A.length = l.countP (fun x => decide (a.score ≤ x.score)) := by
  intro l
  induction l with
  | nil => exact ⟨[], [], rfl, fun _ h => absurd h (List.not_mem_nil _), rfl⟩
  | cons c l ih =>
    obtain ⟨A, B, hs, hA, hlen⟩ := ih
    have hstep : sortByScore (c :: l ++ [a])
        = List.orderedInsert byScore c (sortByScore (l ++ [a])) := rfl
    by_cases hc : byScore c a
    · refine ⟨List.orderedInsert byScore c A, B, ?_, mem_orderedInsert_score c a hc A hA, ?_⟩
      · rw [hstep, hs, orderedInsert_before c a B hc]
      · have hd : decide (a.score ≤ c.score) = true := decide_eq_true hc
        rw [List.orderedInsert_length, List.countP_cons, hlen, hd]
        rfl
    · refine ⟨A, List.orderedInsert byScore c B, ?_, hA, ?_⟩
      · rw [hstep, hs, orderedInsert_after c a B hc A hA]
      · have hd : decide (a.score ≤ c.score) = false := decide_eq_false hc
        rw [List.countP_cons, hlen, hd]
        rfl

theorem sortByScore_sorted (l : List ScoreEntry) : (sortByScore l).Sorted byScore :=
  List.sorted_insertionSort byScore l

theorem mem_take_of_split (a : ScoreEntry) (A B : List ScoreEntry) (h : A.length < 10) :
    a ∈ (A ++ a :: B).take 10 := by
  rw [List.take_append_eq_append_take]
  apply List.mem_append_right
  obtain ⟨k, hk⟩ : ∃ k, 10 - A.length = k + 1 := ⟨10 - A.length - 1, by omega⟩
  rw [hk, List.take_succ_cons]
  exact List.mem_cons_self _ _

/-- Claim C21: the local leaderboard round trip.  For every stored list and
every submitted entry, with a working localStorage: after storeScoreLocally
the stored list is the one loadLocalScores reloads into leaderboardData, it is
sorted in descending order of score and has at most 10 entries, and it
contains the submitted entry whenever fewer than 10 of the previously stored
entries have a score greater than or equal to the submitted score (the sort
is stable and the new entry is appended last, so it goes behind its ties). -/
theorem local_scores_round_trip (n : Net) (score : Nat) (b : Board)
    (hs : n.storageThrows = false) :
    (storeScoreLocally n score b).stored
      = some (loadLocalScores n (storeScoreLocally n score b)).1.leaderboardData ∧
    (loadLocalScores n (storeScoreLocally n score b)).2 = true ∧
    (loadLocalScores n (storeScoreLocally n score b)).1.leaderboardData.Sorted byScore ∧
    (loadLocalScores n (storeScoreLocally n score b)).1.leaderboardData.length ≤ 10 ∧
    ((b.stored.getD []).countP (fun x => decide (score ≤ x.score)) < 10 →
      newScore n score b ∈
        (loadLocalScores n (storeScoreLocally n score b)).1.leaderboardData) := by
  have hst : storeScoreLocally n score b =
      { b with stored := some ((sortByScore (b.stored.getD [] ++ [newScore n score b])).take 10),
               leaderboardData := (sortByScore (b.stored.getD [] ++ [newScore n score b])).take 10,
               formShown := false } := by
    unfold storeScoreLocally
    rw [hs]
    rfl
  obtain ⟨A, B, hsp, hA, hlen⟩ := sortByScore_append (newScore n score b) (b.stored.getD [])
  have hne : ((sortByScore (b.stored.getD [] ++ [newScore n score b])).take 10).length > 0 := by
    rw [hsp, List.length_take, List.length_append, List.length_cons]
    omega
  have hld : loadLocalScores n (storeScoreLocally n score b) =
      (storeScoreLocally n score b, true) := by
    rw [hst]
    unfold loadLocalScores
    rw [hs]
    simp only [Bool.false_eq_true, if_false]
    exact if_pos hne
  rw [hld]
  dsimp only
  rw [hst]
  dsimp only
  refine ⟨rfl, rfl, ?_, ?_, ?_⟩
  · exact (sortByScore_sorted _).sublist (List.take_sublist _ _)
  · rw [List.length_take]; exact Nat.min_le_left _ _
  · intro hc
    rw [hsp]
    apply mem_take_of_split
    rw [hlen]
    exact hc

/-- The round trip of a first score into an empty store. -/
theorem local_scores_round_trip_witness :
    (loadLocalScores offlineNet (storeScoreLocally offlineNet 7 sampleBoard)).1.leaderboardData
      = [newScore offlineNet 7 sampleBoard] ∧
    newScore offlineNet 7 sampleBoard ∈
      (loadLocalScores offlineNet (storeScoreLocally offlineNet 7 sampleBoard)).1.leaderboardData :=
  ⟨by decide,
   (local_scores_round_trip offlineNet 7 sampleBoard rfl).2.2.2.2 (by decide)⟩

/-- A submitted entry that ties with ten stored entries is dropped: none of
the ten stored entries has a score strictly greater than the submitted 5
points, yet the stored list is the old one and does not contain the new
entry. -/
theorem tied_entry_is_dropped :
    (tenFives.countP (fun x => decide (5 < x.score))) = 0 ∧
    (storeScoreLocally offlineNet 5 fullBoard).stored = some tenFives ∧
    (loadLocalScores offlineNet (storeScoreLocally offlineNet 5 fullBoard)).1.leaderboardData
      = tenFives ∧
    newScore offlineNet 5 fullBoard ∉ tenFives := by
  refine ⟨by decide, by decide, by decide, by decide⟩

/-! ## Score submission -/

/-- Claim C22: submitScore rejects invalid form input with no mutation.  When
the name is empty or made of whitespace only, or the email address has no
'@', submitScore shows one alert and changes nothing else: the local store,
leaderboardData, the form and the list of leaderboard requests are as
before.  Otherwise it goes on to the saving part (saveScore). -/
theorem submit_rejects_invalid_input (n : Net) (score : Nat) (b : Board) :
    (nameMissing b.playerName = true → submitScore n score b = b.notify .enterName) ∧
    (nameMissing b.playerName = false → emailInvalid b.playerEmail = true →
      submitScore n score b = b.notify .enterEmail) ∧
    (nameMissing b.playerName = true ∨ emailInvalid b.playerEmail = true →
      (submitScore n score b).stored = b.stored ∧
      (submitScore n score b).leaderboardData = b.leaderboardData ∧
      (submitScore n score b).formShown = b.formShown ∧
      (submitScore n score b).requests = b.requests ∧
      (submitScore n score b).playerName = b.playerName ∧
      (submitScore n score b).playerEmail = b.playerEmail ∧
      (submitScore n score b).retryButtons = b.retryButtons ∧
      ∃ a, (submitScore n score b).notices = b.notices ++ [a] ∧
        (a = .enterName ∨ a = .enterEmail)) ∧
    (nameMissing b.playerName = false → emailInvalid b.playerEmail = false →
      submitScore n score b = saveScore n score b) := by
  have h1 : nameMissing b.playerName = true → submitScore n score b = b.notify .enterName := by
    intro h
    unfold submitScore
    rw [if_pos h]
  have h2 : nameMissing b.playerName = false → emailInvalid b.playerEmail = true →
      submitScore n score b = b.notify .enterEmail := by
    intro h h'
    unfold submitScore
    rw [h, h']
    rfl
  refine ⟨h1, h2, ?_, ?_⟩
  · intro h
    cases hn : nameMissing b.playerName with
    | true =>
      rw [h1 hn]
      exact ⟨rfl, rfl, rfl, rfl, rfl, rfl, rfl, .enterName, rfl, Or.inl rfl⟩
    | false =>
      have he : emailInvalid b.playerEmail = true := by
        rcases h with h | h
        · rw [hn] at h; cases h
        · exact h
      rw [h2 hn he]
      exact ⟨rfl, rfl, rfl, rfl, rfl, rfl, rfl, .enterEmail, rfl, Or.inr rfl⟩
  · intro h h'
    unfold submitScore
    rw [h, h']
    rfl

/-- A name of two blanks and an email address without '@' are rejected; the
filled-in sample form is saved. -/
theorem submit_rejects_invalid_input_witness :
    submitScore offlineNet 7 blankNameBoard = blankNameBoard.notify .enterName ∧
    submitScore offlineNet 7 badEmailBoard = badEmailBoard.notify .enterEmail ∧
    submitScore offlineNet 7 sampleBoard = saveScore offlineNet 7 sampleBoard :=
  ⟨(submit_rejects_invalid_input offlineNet 7 blankNameBoard).1 (by decide),
   (submit_rejects_invalid_input offlineNet 7 badEmailBoard).2.1 (by decide) (by decide),
   (submit_rejects_invalid_input offlineNet 7 sampleBoard).2.2.2 (by decide) (by decide)⟩

/-- Claim C23: the fallback to local storage has a gap.  For valid input,
submitScore calls storeScoreLocally and shows the success message when there
is no leaderboard client, when the insert results in an error and when it
throws.  With a client object that has no `from` it shows the alert "Error:
Database connection issue" instead and stores nothing: the local store and
leaderboardData are unchanged and the only notice is an error. -/
theorem no_fallback_without_from (n : Net) (score : Nat) (b : Board)
    (hn : nameMissing b.playerName = false) (he : emailInvalid b.playerEmail = false) :
    (n.supabaseClient = .absent →
      submitScore n score b = (storeScoreLocally n score b).notify .savedLocally) ∧
    (n.supabaseClient = .usable → n.insert = .error →
      (submitScore n score b).stored
        = (storeScoreLocally n score b).stored ∧
      (submitScore n score b).leaderboardData
        = (storeScoreLocally n score b).leaderboardData ∧
      (submitScore n score b).notices = b.notices ++ [.savedLocally]) ∧
    (n.supabaseClient = .usable → n.insert = .throws →
      (submitScore n score b).stored
        = (storeScoreLocally n score b).stored ∧
      (submitScore n score b).leaderboardData
        = (storeScoreLocally n score b).leaderboardData ∧
      (submitScore n score b).notices = b.notices ++ [.savedLocally]) ∧
    (n.supabaseClient = .withoutFrom →
      submitScore n score b = b.notify (.databaseIssue score) ∧
      (submitScore n score b).stored = b.stored ∧
      (submitScore n score b).leaderboardData = b.leaderboardData ∧
      (submitScore n score b).notices = b.notices ++ [.databaseIssue score] ∧
      (Notice.databaseIssue score).isError = true) := by
  have hsub : submitScore n score b = saveScore n score b := by
    unfold submitScore
    rw [hn, he]
    rfl
  rw [hsub]
  refine ⟨fun hc => ?_, fun hc hi => ?_, fun hc hi => ?_, fun hc => ?_⟩
  · unfold saveScore
    rw [hc]
  · unfold saveScore
    rw [hc, hi]
    unfold storeScoreLocally Board.notify
    dsimp only
    split_ifs <;> exact ⟨rfl, rfl, rfl⟩
  · unfold saveScore
    rw [hc, hi]
    unfold storeScoreLocally Board.notify
    dsimp only
    split_ifs <;> exact ⟨rfl, rfl, rfl⟩
  · unfold saveScore
    rw [hc]
    exact ⟨rfl, rfl, rfl, rfl, rfl⟩

/-- The sample form submitted with a client that lacks `from`: an error
alert and no local entry; with no client at all the score is stored. -/
theorem no_fallback_without_from_witness :
    (submitScore brokenClientNet 7 sampleBoard).stored = none ∧
    (submitScore brokenClientNet 7 sampleBoard).notices = [.databaseIssue 7] ∧
    (submitScore offlineNet 7 sampleBoard).stored = some [newScore offlineNet 7 sampleBoard] ∧
    (submitScore offlineNet 7 sampleBoard).notices = [.savedLocally] ∧
    (submitScore failingInsertNet 7 sampleBoard).notices = [.savedLocally] ∧
    (submitScore throwingInsertNet 7 sampleBoard).notices = [.savedLocally] :=
  ⟨((no_fallback_without_from brokenClientNet 7 sampleBoard (by decide) (by decide)).2.2.2
      rfl).2.1,
   ((no_fallback_without_from brokenClientNet 7 sampleBoard (by decide) (by decide)).2.2.2
      rfl).2.2.2.1,
   by decide, by decide, by decide, by decide⟩

/-! ## Population maintenance -/

theorem startLeavingAt_length (e : Env) (i : Nat) (g : Game) :
    (startLeavingAt e i g).dancers.length = g.dancers.length := by
  unfold startLeavingAt
  split
  · rfl
  · dsimp only
    split_ifs
    · rfl
    · exact List.length_set _ _ _
    · rfl

theorem randomLeave_length (e : Env) (g : Game) :
    (randomLeave e g).dancers.length = g.dancers.length := by
  unfold randomLeave
  dsimp only
  split_ifs
  · split
    · exact startLeavingAt_length e _ ((g.skip 1).skip 1)
    · rfl
  · rfl
  · rfl
  · rfl

theorem topUpDancers_length (e : Env) (g : Game) :
    (topUpDancers e g).dancers.length
      = if g.dancers.length < 15 then g.dancers.length + 1 else g.dancers.length := by
  unfold topUpDancers
  split_ifs
  · exact List.length_append _ _
  · rfl

/-- Claim C24: a maintenance step adds at most one dancer.  On a tick whose
frame count is a multiple of 60 the maintenance adds one new dancer when the
floor holds fewer than 15 and none otherwise, and the leave selection removes
nobody; so the floor holds at least 15 dancers after the step exactly when it
held at least 14 before. -/
theorem maintenance_adds_one_dancer (e : Env) (g : Game) (h : g.frameCount % 60 = 0) :
    (maintainPopulation e g).dancers.length
      = (if g.dancers.length < 15 then g.dancers.length + 1 else g.dancers.length) ∧
    (15 ≤ (maintainPopulation e g).dancers.length ↔ 14 ≤ g.dancers.length) := by
  have hl : (maintainPopulation e g).dancers.length
      = (if g.dancers.length < 15 then g.dancers.length + 1 else g.dancers.length) := by
    unfold maintainPopulation
    rw [if_pos h, randomLeave_length, topUpDancers_length]
  refine ⟨hl, ?_⟩
  rw [hl]
  split_ifs <;> omega

set_option maxRecDepth 1000000 in
/-- Five dancers on the floor at frame 60: six after the maintenance step. -/
theorem maintenance_adds_one_dancer_witness :
    (maintainPopulation sampleEnv fiveDancersGame).dancers.length = 6 :=
  (maintenance_adds_one_dancer sampleEnv fiveDancersGame (by decide)).1

set_option maxRecDepth 1000000 in
/-- A tick of frame 60 with five dancers on the floor ends with six dancers,
not fifteen. -/
theorem floor_not_topped_up :
    fiveDancersGame.frameCount % 60 = 0 ∧ fiveDancersGame.gameState = .playing ∧
    fiveDancersGame.dancers.length = 5 ∧
    (maintainPopulation sampleEnv fiveDancersGame).dancers.length = 6 ∧
    (drawGameplay sampleEnv fiveDancersGame).dancers.length = 6 := by
  refine ⟨by decide, by decide, by decide, by decide!, by decide!⟩

/-! ## Projectiles in flight -/

theorem Record.update_free (g : Game) (r : Record)
    (h : ¬ (g.zoomedWristband = some r.uid ∧ g.wristbandZoomPhase ≠ .inactive)) :
    r.update g = { r with vy := fadd r.vy r.gravity, x := fadd r.x r.vx,
                          y := fadd r.y (fadd r.vy r.gravity),
                          rotation := fadd r.rotation r.rotationSpeed } := by
  unfold Record.update
  rw [if_neg h]

theorem Record.updates_free (gs : Nat → Game) (r : Record) : ∀ n : Nat,
    (∀ k, k < n →
      ¬ ((gs k).zoomedWristband = some r.uid ∧ (gs k).wristbandZoomPhase ≠ .inactive)) →
    (Record.updates gs n r).uid = r.uid ∧ (Record.updates gs n r).type = r.type ∧
    (Record.updates gs n r).size = r.size ∧ (Record.updates gs n r).vx = r.vx ∧
    (Record.updates gs n r).gravity = r.gravity ∧
    (Record.updates gs n r).rotationSpeed = r.rotationSpeed ∧
    (Record.updates gs n r).markedForRemoval = r.markedForRemoval := by
  intro n
  induction n with
  | zero => intro _; exact ⟨rfl, rfl, rfl, rfl, rfl, rfl, rfl⟩
  | succ n ih =>
    intro h
    obtain ⟨i1, i2, i3, i4, i5, i6, i7⟩ := ih (fun k hk => h k (Nat.lt_succ_of_lt hk))
    have hfree : ¬ ((gs n).zoomedWristband = some (Record.updates gs n r).uid ∧
        (gs n).wristbandZoomPhase ≠ .inactive) := by
      rw [i1]; exact h n (Nat.lt_succ_self n)
    have hstep : Record.updates gs (n + 1) r = (Record.updates gs n r).update (gs n) := rfl
    rw [hstep, Record.update_free _ _ hfree]
    exact ⟨i1, i2, i3, i4, i5, i6, i7⟩

/-- Claim C25: Record.update is a semi-implicit Euler step in double
arithmetic.  A projectile that is not the zoomed wristband of an active
wristband zoom keeps its identity, type, size, vx, gravity, rotation speed
and removal mark, and one update replaces vy by the double sum vy + gravity,
x by the double sum x + vx, y by the double sum of y and the new vy, and
rotation by the double sum rotation + rotationSpeed.  After n updates vy, x,
y and rotation are vy0 + n g, x0 + n vx, y0 + n vy0 + g n (n + 1) / 2 and
rotation0 + n rotationSpeed provided each of these closed forms is a double
at every step k from 1 to n, so that no addition rounds (for y this needs
the closed form of vy as well).  For the zoomed wristband of an active
wristband zoom the update changes nothing. -/
theorem record_update_closed_form (gs : Nat → Game) (r : Record) (n : Nat)
    (h : ∀ k, k < n →
      ¬ ((gs k).zoomedWristband = some r.uid ∧ (gs k).wristbandZoomPhase ≠ .inactive)) :
    (Record.updates gs n r).uid = r.uid ∧ (Record.updates gs n r).type = r.type ∧
    (Record.updates gs n r).size = r.size ∧ (Record.updates gs n r).vx = r.vx ∧
    (Record.updates gs n r).gravity = r.gravity ∧
    (Record.updates gs n r).rotationSpeed = r.rotationSpeed ∧
    (Record.updates gs n r).markedForRemoval = r.markedForRemoval ∧
    (∀ g : Game, ¬ (g.zoomedWristband = some r.uid ∧ g.wristbandZoomPhase ≠ .inactive) →
      r.update g = { r with vy := fadd r.vy r.gravity, x := fadd r.x r.vx,
                            y := fadd r.y (fadd r.vy r.gravity),
                            rotation := fadd r.rotation r.rotationSpeed }) ∧
    ((∀ k : Nat, k ≤ n → 1 ≤ k →
        roundDouble (r.vy + k * r.gravity) = r.vy + k * r.gravity) →
      (Record.updates gs n r).vy = r.vy + n * r.gravity) ∧
    ((∀ k : Nat, k ≤ n → 1 ≤ k → roundDouble (r.x + k * r.vx) = r.x + k * r.vx) →
      (Record.updates gs n r).x = r.x + n * r.vx) ∧
    ((∀ k : Nat, k ≤ n → 1 ≤ k →
        roundDouble (r.vy + k * r.gravity) = r.vy + k * r.gravity) →
      (∀ k : Nat, k ≤ n → 1 ≤ k →
        roundDouble (r.y + k * r.vy + r.gravity * k * (k + 1) / 2)
          = r.y + k * r.vy + r.gravity * k * (k + 1) / 2) →
      (Record.updates gs n r).y = r.y + n * r.vy + r.gravity * n * (n + 1) / 2) ∧
    ((∀ k : Nat, k ≤ n → 1 ≤ k →
        roundDouble (r.rotation + k * r.rotationSpeed) = r.rotation + k * r.rotationSpeed) →
      (Record.updates gs n r).rotation = r.rotation + n * r.rotationSpeed) ∧
    (∀ (g : Game) (w : Record), g.zoomedWristband = some w.uid →
      g.wristbandZoomPhase ≠ .inactive → w.update g = w) := by
  have step : ∀ m, m < n → Record.updates gs (m + 1) r =
      { Record.updates gs m r with
        vy := fadd (Record.updates gs m r).vy r.gravity,
        x := fadd (Record.updates gs m r).x r.vx,
        y := fadd (Record.updates gs m r).y (fadd (Record.updates gs m r).vy r.gravity),
        rotation := fadd (Record.updates gs m r).rotation r.rotationSpeed } := by
    intro m hm
    obtain ⟨i1, -, -, i4, i5, i6, -⟩ :=
      Record.updates_free gs r m (fun k hk => h k (lt_trans hk hm))
    have hfree : ¬ ((gs m).zoomedWristband = some (Record.updates gs m r).uid ∧
        (gs m).wristbandZoomPhase ≠ .inactive) := by
      rw [i1]; exact h m hm
    have hstep : Record.updates gs (m + 1) r = (Record.updates gs m r).update (gs m) := rfl
    rw [hstep, Record.update_free _ _ hfree]
    dsimp only
    rw [i5, i4, i6]
  have hvy : (∀ k : Nat, k ≤ n → 1 ≤ k →
        roundDouble (r.vy + k * r.gravity) = r.vy + k * r.gravity) →
      ∀ m, m ≤ n → (Record.updates gs m r).vy = r.vy + m * r.gravity := by
    intro hex m
    induction m with
    | zero => intro _; simp [Record.updates]
    | succ m ih =>
      intro hm
      rw [step m hm]
      dsimp only
      rw [ih (Nat.le_of_succ_le hm), fadd]
      have := hex (m + 1) hm (Nat.succ_le_succ (Nat.zero_le m))
      push_cast at this
      rw [show r.vy + (m : ℚ) * r.gravity + r.gravity = r.vy + ((m : ℚ) + 1) * r.gravity by ring,
        this]
      push_cast
      ring
  obtain ⟨i1, i2, i3, i4, i5, i6, i7⟩ := Record.updates_free gs r n h
  refine ⟨i1, i2, i3, i4, i5, i6, i7, fun g hg => Record.update_free g r hg,
    fun hex => hvy hex n (le_refl n), ?_, ?_, ?_, ?_⟩
  · intro hex
    have : ∀ m, m ≤ n → (Record.updates gs m r).x = r.x + m * r.vx := by
      intro m
      induction m with
      | zero => intro _; simp [Record.updates]
      | succ m ih =>
        intro hm
        rw [step m hm]
        dsimp only
        rw [ih (Nat.le_of_succ_le hm), fadd]
        have := hex (m + 1) hm (Nat.succ_le_succ (Nat.zero_le m))
        push_cast at this
        rw [show r.x + (m : ℚ) * r.vx + r.vx = r.x + ((m : ℚ) + 1) * r.vx by ring, this]
        push_cast
        ring
    exact this n (le_refl n)
  · intro hexv hex
    have : ∀ m, m ≤ n →
        (Record.updates gs m r).y = r.y + m * r.vy + r.gravity * m * (m + 1) / 2 := by
      intro m
      induction m with
      | zero => intro _; simp [Record.updates]
      | succ m ih =>
        intro hm
        have hv : fadd (Record.updates gs m r).vy r.gravity = r.vy + ((m : ℚ) + 1) * r.gravity := by
          have h1 := hvy hexv (m + 1) hm
          rw [step m hm] at h1
          dsimp only at h1
          rw [h1]
          push_cast
          ring
        rw [step m hm]
        dsimp only
        rw [hv, ih (Nat.le_of_succ_le hm), fadd]
        have := hex (m + 1) hm (Nat.succ_le_succ (Nat.zero_le m))
        push_cast at this
        rw [show r.y + (m : ℚ) * r.vy + r.gravity * m * ((m : ℚ) + 1) / 2
            + (r.vy + ((m : ℚ) + 1) * r.gravity)
          = r.y + ((m : ℚ) + 1) * r.vy + r.gravity * ((m : ℚ) + 1) * ((m : ℚ) + 1 + 1) / 2 by ring,
          this]
        push_cast
        ring
    exact this n (le_refl n)
  · intro hex
    have : ∀ m, m ≤ n →
        (Record.updates gs m r).rotation = r.rotation + m * r.rotationSpeed := by
      intro m
      induction m with
      | zero => intro _; simp [Record.updates]
      | succ m ih =>
        intro hm
        rw [step m hm]
        dsimp only
        rw [ih (Nat.le_of_succ_le hm), fadd]
        have := hex (m + 1) hm (Nat.succ_le_succ (Nat.zero_le m))
        push_cast at this
        rw [show r.rotation + (m : ℚ) * r.rotationSpeed + r.rotationSpeed
          = r.rotation + ((m : ℚ) + 1) * r.rotationSpeed by ring, this]
        push_cast
        ring
    exact this n (le_refl n)
  · intro g w hz hp
    unfold Record.update
    rw [if_pos ⟨hz, hp⟩]

set_option maxRecDepth 1000000 in
/-- Ten updates of a record whose speeds and gravity are multiples of 1/16:
no addition rounds, and the closed forms give vy = -13.75 and y = 336.875. -/
theorem record_update_closed_form_witness :
    (Record.updates (fun _ => sampleGame [] []) 10 dyadicRecord).vy = -55 / 4 ∧
    (Record.updates (fun _ => sampleGame [] []) 10 dyadicRecord).y = 2695 / 8 :=
  ⟨((record_update_closed_form (fun _ => sampleGame [] []) dyadicRecord 10
      (fun _ _ hc => by
        have h1 : (none : Option Nat) = some 0 := hc.1
        cases h1)).2.2.2.2.2.2.2.2.1 (by decide!)).trans (by decide!),
   ((record_update_closed_form (fun _ => sampleGame [] []) dyadicRecord 10
      (fun _ _ hc => by
        have h1 : (none : Option Nat) = some 0 := hc.1
        cases h1)).2.2.2.2.2.2.2.2.2.2.1 (by decide!) (by decide!)).trans (by decide!)⟩

set_option maxRecDepth 1000000 in
/-- The closed forms fail for a party emoji as the constructor makes it,
thrown straight up from (400, 510) at 15 units per tick: with gravity the
double 0.08 and rotationSpeed the double 0.05, ten updates give
rotation = 0.49999999999999994, which is neither ten times rotationSpeed nor
the double 0.5, and y = 364.40000000000003, which is not
y0 + 10 vy0 + 55 gravity. -/
theorem thrown_record_drifts :
    thrownRecord.rotation = 0 ∧ thrownRecord.rotationSpeed = roundDouble 0.05 ∧
    thrownRecord.gravity = roundDouble 0.08 ∧
    (Record.updates (fun _ => sampleGame [] []) 10 thrownRecord).rotation
      = 9007199254740991 / 18014398509481984 ∧
    (Record.updates (fun _ => sampleGame [] []) 10 thrownRecord).rotation
      ≠ 10 * thrownRecord.rotationSpeed ∧
    (Record.updates (fun _ => sampleGame [] []) 10 thrownRecord).rotation
      ≠ roundDouble (10 * thrownRecord.rotationSpeed) ∧
    (Record.updates (fun _ => sampleGame [] []) 10 thrownRecord).y
      = 6410592594585191 / 17592186044416 ∧
    (Record.updates (fun _ => sampleGame [] []) 10 thrownRecord).y
      ≠ thrownRecord.y + 10 * thrownRecord.vy + thrownRecord.gravity * 10 * (10 + 1) / 2 := by
  refine ⟨by decide!, by decide!, by decide!, by decide!, by decide!, by decide!, by decide!,
    by decide!⟩

/-! ## The buttons of the game-over overlay -/

theorem gameOverClick_below (e : Env) (x y : ℚ) (g : Game)
    (hy : (e.height - e.height * 0.7) / 2 + e.height * 0.7 * 0.85 + e.height * 0.7 * 0.08 ≤ y) :
    gameOverClick e x y g = g := by
  unfold gameOverClick
  dsimp only
  have hn : ¬ y < (e.height - e.height * 0.7) / 2 + e.height * 0.7 * 0.85
      + e.height * 0.7 * 0.08 := not_lt.mpr hy
  rw [if_neg (fun c => hn c.2.2.2), if_neg (fun c => hn c.2.2.2), if_neg (fun c => hn c.2.2.2)]

theorem playAgainRect_centre (e : Env) (f : Nat) :
    (playAgainRect e f).centre
      = ((e.width - overlayBoxWidth e) / 2 + overlayBoxWidth e * 0.3,
         buttonsY e + baseBtnHeight e / 2) := by
  unfold playAgainRect Rect.centre
  dsimp only
  refine Prod.ext ?_ ?_ <;> dsimp only <;> ring

theorem mainMenuRect_centre (e : Env) :
    (mainMenuRect e).centre
      = ((e.width - overlayBoxWidth e) / 2 + overlayBoxWidth e * 0.7,
         buttonsY e + baseBtnHeight e / 2) := by
  unfold mainMenuRect Rect.centre
  dsimp only
  refine Prod.ext ?_ ?_ <;> dsimp only <;> ring

/-- Claim C26: the game-over buttons are drawn below their hit regions.  On
the desktop layout drawGameOverOverlay draws Play Again and Main Menu from
y = 0.8 height down to 0.856 height, while handleInput tests the band from
0.745 height to 0.801 height.  For every canvas of positive height and every
frame, a click at the centre of either drawn rectangle (y = 0.828 height) is
in no hit region: handleInput leaves the game as it is, and neither
restartGame nor goToMainMenu runs. -/
theorem game_over_buttons_miss_their_centres (e : Env) (g : Game) (f : Nat)
    (hm : e.isMobile = false) (hh : 0 < e.height)
    (hs : g.gameState = .gameOver) (hv : g.videoPlaying = false) :
    ((playAgainRect e f).centre.2 = e.height * 0.828 ∧
      (mainMenuRect e).centre.2 = e.height * 0.828) ∧
    ((mainMenuRect e).y = e.height * 0.8 ∧
      (mainMenuRect e).y + (mainMenuRect e).h = e.height * 0.856) ∧
    handleInput e (playAgainRect e f).centre.1 (playAgainRect e f).centre.2 g = g ∧
    handleInput e (mainMenuRect e).centre.1 (mainMenuRect e).centre.2 g = g ∧
    (∀ x y : ℚ, e.height * 0.801 ≤ y → handleInput e x y g = g) := by
  have hb : buttonsY e = e.height * 0.8 := by
    unfold buttonsY
    rw [hm]
    rfl
  have hbh : baseBtnHeight e = e.height * 0.7 * 0.08 := by
    unfold baseBtnHeight overlayBoxHeight
    rw [hm]
    rfl
  have hc1 : (playAgainRect e f).centre.2 = e.height * 0.828 := by
    rw [playAgainRect_centre]
    dsimp only
    rw [hb, hbh]
    ring
  have hc2 : (mainMenuRect e).centre.2 = e.height * 0.828 := by
    rw [mainMenuRect_centre]
    dsimp only
    rw [hb, hbh]
    ring
  have hin : ∀ x y : ℚ, e.height * 0.801 ≤ y → handleInput e x y g = g := by
    intro x y hy
    unfold handleInput
    rw [hv, hs]
    simp only [Bool.false_eq_true, if_false, if_true]
    rw [if_neg (fun c => GameState.noConfusion c.1), if_neg (fun c => GameState.noConfusion c)]
    apply gameOverClick_below
    have : (e.height - e.height * 0.7) / 2 + e.height * 0.7 * 0.85 + e.height * 0.7 * 0.08
        = e.height * 0.801 := by ring
    rw [this]
    exact hy
  have hle : e.height * 0.801 ≤ e.height * 0.828 := by
    apply mul_le_mul_of_nonneg_left _ (le_of_lt hh)
    norm_num
  refine ⟨⟨hc1, hc2⟩, ⟨?_, ?_⟩, ?_, ?_, hin⟩
  · unfold mainMenuRect
    dsimp only
    exact hb
  · unfold mainMenuRect
    dsimp only
    rw [hb, hbh]
    ring
  · apply hin
    rw [hc1]
    exact hle
  · apply hin
    rw [hc2]
    exact hle

set_option maxRecDepth 1000000 in
/-- On the 800 x 600 canvas the centre of the drawn Main Menu button is
(496, 496.8) and the centre of Play Again is (304, 496.8): a click on either
does nothing, while a click 40 units higher restarts the game or goes to the
menu. -/
theorem game_over_buttons_miss_their_centres_witness :
    (mainMenuRect sampleEnv).centre = (496, 2484 / 5) ∧
    (playAgainRect sampleEnv 1000).centre = (304, 2484 / 5) ∧
    handleInput sampleEnv 496 (2484 / 5) gameOverGame = gameOverGame ∧
    handleInput sampleEnv 304 (2484 / 5) gameOverGame = gameOverGame ∧
    (handleInput sampleEnv 496 460 gameOverGame).gameState = .menu ∧
    (handleInput sampleEnv 304 460 gameOverGame).gameState = .playing :=
  ⟨by decide!, by decide!,
   (game_over_buttons_miss_their_centres sampleEnv gameOverGame 1000 rfl (by decide!) rfl
      rfl).2.2.2.2 496 (2484 / 5) (by decide!),
   (game_over_buttons_miss_their_centres sampleEnv gameOverGame 1000 rfl (by decide!) rfl
      rfl).2.2.2.2 304 (2484 / 5) (by decide!),
   by decide!, by decide!⟩

/-! ## The strobe, call by call -/

set_option maxRecDepth 1000000 in
theorem strobe_on_calls :
    ((List.range 243).map (fun k => (strobeSteps (k + 1) burstStart).2.1)).count true = 28 := by
  decide!

/-- Claim C27: the fifth flash of a strobe burst is switched off in the
update that switches it on.  Counting updateStrobeEffect calls from the start
of a burst (the strobe globals right after triggerStrobeEffect with the
strobe enabled, no cooldown and strobeOn false), strobeOn is true after call
n of the first 243 exactly for n in 7-13, 21-27, 35-41 and 49-55, which are
28 calls; after call 62 strobeCount is 4, and call 63 raises it to 5 and sets
the cooldown to 180 with strobeOn false; the cooldown is 243 - n after call
n from 63 to 242, call 243 starts the next burst, and the globals repeat with
period 243. -/
theorem strobe_cycle_is_243_calls (g : Game) (h : g.strobe = burstStart) :
    (∀ n, n ≤ 243 → ((strobeCalls n g).strobeOn = true ↔
      (7 ≤ n ∧ n ≤ 13) ∨ (21 ≤ n ∧ n ≤ 27) ∨ (35 ≤ n ∧ n ≤ 41) ∨ (49 ≤ n ∧ n ≤ 55))) ∧
    (strobeOnAfter 243 g).count true = 28 ∧
    (strobeCalls 62 g).strobeCount = 4 ∧
    (strobeCalls 63 g).strobeCount = 5 ∧ (strobeCalls 63 g).strobeCooldown = 180 ∧
    (strobeCalls 63 g).strobeOn = false ∧ (strobeCalls 63 g).strobeBurstActive = false ∧
    (∀ n, 63 ≤ n → n < 243 → (strobeCalls n g).strobeCooldown = 243 - n) ∧
    (strobeCalls 243 g).strobe = burstStart ∧
    (∀ k n, (strobeCalls (243 * k + n) g).strobe = (strobeCalls n g).strobe) := by
  obtain ⟨t1, t2, t3, t4, t5, -⟩ := strobe_burst_trace
  have hs : ∀ n, (strobeCalls n g).strobe = strobeSteps n burstStart := by
    intro n; rw [strobeCalls_strobe, h]
  have hper : ∀ k, strobeSteps (243 * k) burstStart = burstStart := by
    intro k
    induction k with
    | zero => rfl
    | succ k ih => rw [Nat.mul_succ, strobeSteps_add, ih, t5]
  have hon : ∀ n, (strobeCalls n g).strobeOn = (strobeSteps n burstStart).2.1 :=
    fun n => congrArg (fun s => s.2.1) (hs n)
  have hcount : ∀ n, (strobeCalls n g).strobeCount = (strobeSteps n burstStart).2.2.1 :=
    fun n => congrArg (fun s => s.2.2.1) (hs n)
  have hburst : ∀ n, (strobeCalls n g).strobeBurstActive = (strobeSteps n burstStart).2.2.2.1 :=
    fun n => congrArg (fun s => s.2.2.2.1) (hs n)
  have hcool : ∀ n, (strobeCalls n g).strobeCooldown = (strobeSteps n burstStart).2.2.2.2.1 :=
    fun n => congrArg (fun s => s.2.2.2.2.1) (hs n)
  refine ⟨?_, ?_, ?_, ?_, ?_, ?_, ?_, ?_, ?_, ?_⟩
  · intro n hn
    rw [hon, t1 n (Nat.lt_succ_of_le hn)]
    constructor <;> intro hc <;> omega
  · rw [strobeOnAfter_eq, h]; exact strobe_on_calls
  · rw [hcount, t2]
  · rw [hcount, t3]
  · rw [hcool, t3]
  · rw [hon, t3]
  · rw [hburst, t3]
  · intro n h1 h2
    rw [hcool]; exact t4 n h2 h1
  · rw [hs, t5]
  · intro k n
    rw [hs, hs, strobeSteps_add, hper]

/-- The strobe of a game in which it has just been enabled and triggered is
on after 28 of the next 243 calls. -/
theorem strobe_cycle_is_243_calls_witness :
    (strobeOnAfter 243 (triggerStrobeEffect { Game.initial with strobeEnabled := true })).count
      true = 28 :=
  (strobe_cycle_is_243_calls
    (triggerStrobeEffect { Game.initial with strobeEnabled := true }) (by decide)).2.1

/-! ## Swipe throws -/

theorem constrain_le (n low high : ℚ) (h : low ≤ high) : constrain n low high ≤ high := by
  unfold constrain
  exact max_le (min_le_right _ _) h

theorem scaled_speed (a b s : ℚ) (hs : s ≠ 0) :
    (a / s * 15 * (a / s * 15) + b / s * 15 * (b / s * 15)) * (s * s)
      = 225 * (a * a + b * b) := by
  field_simp
  ring

theorem sqrtIter_pos : ∀ (fuel n x : Nat), 0 < n → 0 < x → 0 < sqrtIter fuel n x := by
  intro fuel
  induction fuel with
  | zero => intro n x _ hx; exact hx
  | succ fuel ih =>
    intro n x hn hx
    rw [sqrtIter]
    split
    · apply ih n _ hn
      apply Nat.div_pos _ (by norm_num)
      rcases Nat.lt_or_ge x 2 with h | h
      · have hx1 : x = 1 := by omega
        rw [hx1, Nat.div_one]
        omega
      · exact Nat.le_trans h (Nat.le_add_right _ _)
    · exact hx

theorem ratSqrt_pos (q : ℚ) (hq : 0 < q) : 0 < ratSqrt q := by
  unfold ratSqrt natSqrt
  have hnum : 0 < q.num := Rat.num_pos.mpr hq
  have hn : 0 < q.num.toNat * q.den * 1000000000000 := by
    have h1 : 0 < q.num.toNat := by omega
    have h2 : 0 < q.den := q.den_pos
    positivity
  rw [if_neg (Nat.pos_iff_ne_zero.mp hn)]
  have hs := sqrtIter_pos (halvings (q.num.toNat * q.den * 1000000000000)
    (q.num.toNat * q.den * 1000000000000) + 8) _ _ hn hn
  have hd : (0 : ℚ) < q.den * 1000000 := by
    have h2 : (0 : ℚ) < q.den := by exact_mod_cast q.den_pos
    positivity
  apply div_pos _ hd
  exact_mod_cast hs

theorem no_rational_root_of_two (q : ℚ) : q * q ≠ 2 := by
  intro h
  apply irrational_sqrt_two
  refine ⟨|q|, ?_⟩
  have h2 : ((|q| : ℚ) : ℝ) ^ 2 = 2 := by
    rw [Rat.cast_abs, sq_abs, sq]
    exact_mod_cast h
  rw [← h2, Real.sqrt_sq]
  rw [Rat.cast_abs]
  exact abs_nonneg _

/-- Claim C28: the direction normalisation in createEmojiFromSwipe never
divides by zero.  For every touch that ends a swipe on a canvas of positive
height, with a square root that is positive on positive numbers: the clamped
target has targetY at most 0.7 height, below the 0.85 height of the throw
origin, so d = dx * dx + dy * dy is positive, the distance sqrt(d) is
positive, and the velocity (vx, vy) has vy below 0 and
(vx * vx + vy * vy) * distance * distance = 225 d; its magnitude is exactly
15 if and only if the square root is exact at d.  An accepted swipe on a
mobile device in state playing makes touchEnded call createEmojiFromSwipe
from that origin to that target. -/
theorem swipe_velocity_is_defined (e : Env) (g : Game) (x y : ℚ) (hh : 0 < e.height)
    (hq : ∀ q : ℚ, 0 < q → 0 < e.sqrt q) :
    (swipeTarget e g x y).2 ≤ e.height * 0.7 ∧
    (swipeTarget e g x y).2 - e.height * 0.85 < 0 ∧
    0 < ((swipeTarget e g x y).1 - e.width / 2) * ((swipeTarget e g x y).1 - e.width / 2)
        + ((swipeTarget e g x y).2 - e.height * 0.85)
          * ((swipeTarget e g x y).2 - e.height * 0.85) ∧
    0 < e.sqrt (((swipeTarget e g x y).1 - e.width / 2) * ((swipeTarget e g x y).1 - e.width / 2)
        + ((swipeTarget e g x y).2 - e.height * 0.85)
          * ((swipeTarget e g x y).2 - e.height * 0.85)) ∧
    (swipeVelocity e (e.width / 2) (e.height * 0.85) (swipeTarget e g x y).1
        (swipeTarget e g x y).2).2 < 0 ∧
    ((swipeVelocity e (e.width / 2) (e.height * 0.85) (swipeTarget e g x y).1
          (swipeTarget e g x y).2).1
        * (swipeVelocity e (e.width / 2) (e.height * 0.85) (swipeTarget e g x y).1
          (swipeTarget e g x y).2).1
        + (swipeVelocity e (e.width / 2) (e.height * 0.85) (swipeTarget e g x y).1
          (swipeTarget e g x y).2).2
        * (swipeVelocity e (e.width / 2) (e.height * 0.85) (swipeTarget e g x y).1
          (swipeTarget e g x y).2).2 = 225 ↔
      e.sqrt (((swipeTarget e g x y).1 - e.width / 2) * ((swipeTarget e g x y).1 - e.width / 2)
          + ((swipeTarget e g x y).2 - e.height * 0.85)
            * ((swipeTarget e g x y).2 - e.height * 0.85))
        * e.sqrt (((swipeTarget e g x y).1 - e.width / 2)
            * ((swipeTarget e g x y).1 - e.width / 2)
          + ((swipeTarget e g x y).2 - e.height * 0.85)
            * ((swipeTarget e g x y).2 - e.height * 0.85))
        = ((swipeTarget e g x y).1 - e.width / 2) * ((swipeTarget e g x y).1 - e.width / 2)
          + ((swipeTarget e g x y).2 - e.height * 0.85)
            * ((swipeTarget e g x y).2 - e.height * 0.85)) ∧
    (e.isMobile = true → g.gameState = .playing → g.isSwipeActive = true →
      swipeAccepted e g x y →
      touchEnded e x y g =
        { createEmojiFromSwipe e (e.width / 2) (e.height * 0.85) (swipeTarget e g x y).1
            (swipeTarget e g x y).2 g with isSwipeActive := false }) := by
  have hty : (swipeTarget e g x y).2 ≤ e.height * 0.7 := by
    unfold swipeTarget
    dsimp only
    apply constrain_le
    positivity
  have hdy : (swipeTarget e g x y).2 - e.height * 0.85 < 0 := by
    have : e.height * 0.7 < e.height * 0.85 := by
      apply mul_lt_mul_of_pos_left _ hh
      norm_num
    linarith
  have hd : 0 < ((swipeTarget e g x y).1 - e.width / 2) * ((swipeTarget e g x y).1 - e.width / 2)
        + ((swipeTarget e g x y).2 - e.height * 0.85)
          * ((swipeTarget e g x y).2 - e.height * 0.85) := by
    have h1 := mul_self_nonneg ((swipeTarget e g x y).1 - e.width / 2)
    have h2 := mul_pos_of_neg_of_neg hdy hdy
    linarith
  have hs := hq _ hd
  have hne := ne_of_gt hs
  refine ⟨hty, hdy, hd, hs, ?_, ?_, ?_⟩
  · unfold swipeVelocity
    dsimp only
    have := div_neg_of_neg_of_pos hdy hs
    linarith
  · have hsc := scaled_speed ((swipeTarget e g x y).1 - e.width / 2)
      ((swipeTarget e g x y).2 - e.height * 0.85) _ hne
    unfold swipeVelocity
    dsimp only
    constructor
    · intro h225
      rw [h225] at hsc
      have hpos : (0 : ℚ) < 225 := by norm_num
      exact mul_left_cancel₀ (ne_of_gt hpos) hsc
    · intro hex
      rw [hex] at hsc
      exact mul_right_cancel₀ (ne_of_gt hd) hsc
  · intro hm hp ha hacc
    unfold touchEnded
    rw [if_pos ⟨hm, hp, ha⟩]
    dsimp only
    unfold swipeAccepted at hacc
    rw [if_pos hacc]
    rfl

set_option maxRecDepth 1000000 in
/-- A swipe straight up from the DJ booth of the 800 x 600 canvas: the target
is (400, 290), the distance 220, the velocity (0, -15). -/
theorem swipe_velocity_is_defined_witness :
    swipeTarget swipeEnv swipeGame 400 400 = (400, 290) ∧
    swipeEnv.sqrt 48400 = 220 ∧
    swipeVelocity swipeEnv 400 510 400 290 = (0, -15) ∧
    (swipeVelocity swipeEnv 400 510 400 290).2 < 0 ∧
    ((touchEnded swipeEnv 400 400 swipeGame).records.map (fun r => (r.x, r.y, r.vx, r.vy)))
      = [(400, 510, 0, -15)] :=
  ⟨by decide!, by decide!, by decide!,
   by
    have h := (swipe_velocity_is_defined swipeEnv swipeGame 400 400 (by decide!)
      (fun q hq => ratSqrt_pos q hq)).2.2.2.2.1
    have ht : swipeTarget swipeEnv swipeGame 400 400 = (400, 290) := by decide!
    rw [ht] at h
    have hw : swipeEnv.width / 2 = 400 := by decide!
    have hh : swipeEnv.height * 0.85 = 510 := by decide!
    rw [hw, hh] at h
    exact h,
   by decide!⟩

set_option maxRecDepth 1000000 in
/-- A diagonal swipe from the DJ booth of the 800 x 600 canvas to (460, 450)
is accepted and aims at (520, 390), so dx = 120, dy = -120 and
dx * dx + dy * dy = 28800, which has no rational square root: whatever the
square root function returns, the velocity does not have magnitude 15 (with
`ratSqrt` its square is above 225 by less than a hundred-thousandth). -/
theorem diagonal_swipe_speed_is_not_15 :
    swipeAccepted swipeEnv swipeGame 460 450 ∧
    swipeTarget swipeEnv swipeGame 460 450 = (520, 390) ∧
    swipeEnv.width / 2 = 400 ∧ swipeEnv.height * 0.85 = 510 ∧
    (520 - 400 : ℚ) * (520 - 400) + (390 - 510) * (390 - 510) = 28800 ∧
    (∀ e : Env,
      (swipeVelocity e 400 510 520 390).1 * (swipeVelocity e 400 510 520 390).1
        + (swipeVelocity e 400 510 520 390).2 * (swipeVelocity e 400 510 520 390).2 ≠ 225) ∧
    225 < (swipeVelocity swipeEnv 400 510 520 390).1
          * (swipeVelocity swipeEnv 400 510 520 390).1
        + (swipeVelocity swipeEnv 400 510 520 390).2
          * (swipeVelocity swipeEnv 400 510 520 390).2 ∧
    (swipeVelocity swipeEnv 400 510 520 390).1 * (swipeVelocity swipeEnv 400 510 520 390).1
        + (swipeVelocity swipeEnv 400 510 520 390).2
          * (swipeVelocity swipeEnv 400 510 520 390).2 < 225 + 1 / 100000 := by
  refine ⟨by unfold swipeAccepted; decide!, by decide!, by decide!, by decide!, by norm_num,
    ?_, by decide!, by decide!⟩
  intro e h
  unfold swipeVelocity at h
  dsimp only at h
  by_cases hs : e.sqrt ((520 - 400) * (520 - 400) + (390 - 510) * (390 - 510)) = 0
  · rw [hs] at h
    norm_num at h
  · have hsc := scaled_speed (520 - 400) (390 - 510) _ hs
    rw [h] at hsc
    apply no_rational_root_of_two
      (e.sqrt ((520 - 400) * (520 - 400) + (390 - 510) * (390 - 510)) / 120)
    have h3 : e.sqrt ((520 - 400) * (520 - 400) + (390 - 510) * (390 - 510))
        * e.sqrt ((520 - 400) * (520 - 400) + (390 - 510) * (390 - 510)) = 28800 := by
      have hpos : (0 : ℚ) < 225 := by norm_num
      have := mul_left_cancel₀ (ne_of_gt hpos) hsc
      rw [this]
      norm_num
    field_simp
    linarith

/-! ## The session with throws, checked piece by piece -/

end Vibecheck
